import Mathlib

/-!
Surface/texture cache (`video_core/texture_cache/texture_cache.h`)

A shallow embedding of the generic texture cache `VideoCommon::TextureCache`.

* Surfaces are heap objects with identity (`std::shared_ptr` in the source); the
  embedding keeps them in a heap `surfaces : Nat → Surface` addressed by an
  object identifier, `num_surfaces` being the number of objects created so far.
* `std::unordered_map` members are total functions with a default value
  (`registry[page]` default-constructs an empty bucket on access, so a missing
  bucket and an empty bucket are the same thing).
* `u64` arithmetic is arithmetic on `Nat` reduced modulo `2 ^ 64`.
* Calls that leave the cache (rasterizer page counting, guest-memory loads and
  flushes, backend copies) are recorded, in order, in the `events` trace.
* What the cache consumes from files that are not part of this development
  (guest memory manager, settings, `SurfaceParams` helpers, the surface
  comparison routines) is the `Backend` record.
-/

namespace VideoCommon

/-! ## Data model -/

/-- Surface target shapes (`VideoCore::Surface::SurfaceTarget`). -/
inductive SurfaceTarget
  | Texture1D
  | Texture2D
  | Texture3D
  | Texture1DArray
  | Texture2DArray
  | TextureCubemap
  | TextureCubeArray
  | TextureBuffer
  deriving DecidableEq, Repr

/-- Pixel formats (`VideoCore::Surface::PixelFormat`): the formats the cache names
explicitly, every other valid format as `Other n`, and the `Invalid` marker. -/
inductive PixelFormat
  | Z16
  | R16U
  | Z32F
  | R32F
  | Z32FS8
  | RG32F
  | Other (n : Nat)
  | Invalid
  deriving DecidableEq, Repr

/-- Result of `SurfaceBaseImpl::MatchesTopology`. -/
inductive MatchTopologyResult
  | FullMatch
  | CompressUnmatch
  | None
  deriving DecidableEq, Repr

/-- Result of `SurfaceBaseImpl::MatchesStructure`. -/
inductive MatchStructureResult
  | FullMatch
  | SemiMatch
  | None
  deriving DecidableEq, Repr

/-- The private enumeration `TextureCache::RecycleStrategy`. -/
inductive RecycleStrategy
  | Ignore
  | Flush
  | BufferCopy
  deriving DecidableEq, Repr

/-- The private enumeration `TextureCache::DeductionType`. -/
inductive DeductionType
  | DeductionComplete
  | DeductionIncomplete
  | DeductionFailed
  deriving DecidableEq, Repr

/-- Shape descriptor of a surface: the fields of `SurfaceParams` that the cache reads
or writes. -/
structure SurfaceParams where
  is_tiled : Bool
  is_layered : Bool
  block_width : Nat
  block_height : Nat
  block_depth : Nat
  width : Nat
  height : Nat
  depth : Nat
  num_levels : Nat
  pixel_format : PixelFormat
  component_type : Nat
  type : Nat
  target : SurfaceTarget
  deriving DecidableEq, Repr

/-- Modelled from the spec: the view handle `TView` (declared in `surface_view.h`, which is
not part of this development). A view is a window into exactly one surface, its
`owner`; `main` is the surface's main view, `overview` the view created by
`EmplaceOverview` and `carved` a layer/mip view created by `EmplaceView`. A `TView`
that may be null is an `Option View`. -/
inductive View
  | main (owner : Nat)
  | overview (owner : Nat) (params : SurfaceParams)
  | carved (owner : Nat) (key : Nat)
  deriving DecidableEq, Repr

/-- Modelled from the spec: the attributes of a surface object (`SurfaceBase`, declared in
`surface_base.h`, which is not part of this development): shape, guest GPU
address, cache range, guest CPU address, byte size, modification state,
registered flag, transient picked mark, render-target mark and slot index. -/
structure Surface where
  params : SurfaceParams
  gpu_addr : Nat
  cache_addr : Nat
  cache_addr_end : Nat
  cpu_addr : Nat
  guest_memory_size : Nat
  is_continuous : Bool
  is_modified : Bool
  modification_tick : Nat
  is_registered : Bool
  is_picked : Bool
  is_target : Bool
  index : Nat
  deriving DecidableEq, Repr

/-- Arguments of one `CopyParams(...)` construction, in constructor order. -/
abbrev CopyParams := List Nat

/-- Calls that leave the cache, in the order they are made. -/
inductive Event
  | UpdatePagesCachedCount (cpu_addr : Nat) (size : Nat) (delta : Int)
  | LoadSurface (surface : Nat)
  | FlushSurface (surface : Nat)
  | ImageCopy (src : Nat) (dst : Nat) (copy : CopyParams)
  | BufferCopy (src : Nat) (dst : Nat)
  | ImageBlit (src : Option View) (dst : Option View)
  deriving DecidableEq, Repr

/-- What the cache consumes from its collaborators: settings, the guest memory manager,
`SurfaceParams` helpers and the comparison routines of `SurfaceBaseImpl`. -/
structure Backend where
  /-- `Settings::values.use_accurate_gpu_emulation`. -/
  use_accurate_gpu_emulation : Bool
  /-- `ToCacheAddr(MemoryManager().GetPointer(gpu_addr))`; `0` is the null pointer. -/
  GetPointer : Nat → Nat
  /-- `MemoryManager().GpuToCpuAddress(gpu_addr)`. -/
  GpuToCpuAddress : Nat → Option Nat
  /-- `MemoryManager().IsBlockContinuous(gpu_addr, size)`. -/
  IsBlockContinuous : Nat → Nat → Bool
  /-- `SurfaceParams::GetGuestSizeInBytes`. -/
  GetGuestSizeInBytes : SurfaceParams → Nat
  /-- `SurfaceParams::ConvertWidth`. -/
  ConvertWidth : Nat → PixelFormat → PixelFormat → Nat
  /-- `SurfaceParams::ConvertHeight`. -/
  ConvertHeight : Nat → PixelFormat → PixelFormat → Nat
  /-- `SurfaceParams::IntersectWidth`. -/
  IntersectWidth : SurfaceParams → SurfaceParams → Nat → Nat → Nat
  /-- `SurfaceParams::IntersectHeight`. -/
  IntersectHeight : SurfaceParams → SurfaceParams → Nat → Nat → Nat
  /-- `SurfaceParams::IsPixelFormatZeta`. -/
  IsPixelFormatZeta : SurfaceParams → Bool
  /-- `surface->MatchesTopology(rhs)`, from the surface's params and `rhs`. -/
  MatchesTopology : SurfaceParams → SurfaceParams → MatchTopologyResult
  /-- `surface->MatchesStructure(rhs)`, from the surface's params and `rhs`. -/
  MatchesStructure : SurfaceParams → SurfaceParams → MatchStructureResult
  /-- `surface->EmplaceView(view_params, view_addr, candidate_size)`: the key of the carved
  view, when the surface can carve one. -/
  EmplaceView : Surface → SurfaceParams → Nat → Nat → Option Nat
  /-- `surface->GetLayerMipmap(candidate_gpu_addr)`. -/
  GetLayerMipmap : Surface → Nat → Option (Nat × Nat)
  /-- `surface->GetMipmapSize(level)`. -/
  GetMipmapSize : Surface → Nat → Nat
  /-- `surface->BreakDown(in_params)`. -/
  BreakDown : Surface → SurfaceParams → List CopyParams

/-- A render-target slot (`FramebufferTargetInfo`). -/
structure FramebufferTargetInfo where
  target : Option Nat
  view : Option View
  deriving DecidableEq, Repr

/-- One colour render-target register block, as the cache reads it: `Address()`, whether
its format is `RenderTargetFormat::NONE`, and the params that
`SurfaceParams::CreateForFramebuffer` derives from it. -/
structure RenderTargetConfig where
  address : Nat
  format_none : Bool
  params : SurfaceParams
  deriving DecidableEq, Repr

/-- The part of `Maxwell3D` the cache touches: the externally owned dirty flags and the
render-target registers. -/
structure Maxwell3D where
  dirty_depth_buffer : Bool
  dirty_render_target : Nat → Bool
  dirty_render_settings : Bool
  rt_control_count : Nat
  rt : Nat → RenderTargetConfig
  zeta_address : Nat
  zeta_enable : Bool
  zeta_params : SurfaceParams

/-- The state of a `TextureCache` object together with the surface objects it refers to,
the `Maxwell3D` state it shares and the trace of outgoing calls. Two fields record
history rather than data of the object: `erased_end` is set once
`UnregisterInnerCache` has called `reg.erase(reg.end())`, which the language leaves
undefined, so that from then on the other fields say nothing about the program;
`ticks_drawn` counts the calls of `Tick()` made so far and is read by no function. -/
structure TextureCache where
  surfaces : Nat → Surface
  num_surfaces : Nat
  ticks : Nat
  guard_render_targets : Bool
  guard_samplers : Bool
  siblings_table : PixelFormat → PixelFormat
  registry : Nat → List Nat
  l1_cache : Nat → Option Nat
  surface_reserve : SurfaceParams → List Nat
  render_targets : Nat → FramebufferTargetInfo
  depth_buffer : FramebufferTargetInfo
  sampled_textures : List Nat
  maxwell3d : Maxwell3D
  events : List Event
  erased_end : Bool
  ticks_drawn : Nat

/-- The private structure `TextureCache::Deduction`. -/
structure Deduction where
  type : DeductionType
  surface : Option Nat
  deriving DecidableEq, Repr

/-! ## Constants and machine arithmetic -/

/-- The constant `registry_page_bits`. -/
def registry_page_bits : Nat := 20

/-- The constant `DEPTH_RT`. -/
def DEPTH_RT : Nat := 8

/-- The constant `NO_RT`. -/
def NO_RT : Nat := 0xFFFFFFFF

/-- The constant `Maxwell3D::Regs::NumRenderTargets`. -/
def NumRenderTargets : Nat := 8

/-- Addition of two `u64` values. -/
def add64 (a b : Nat) : Nat := (a + b) % 2 ^ 64

/-- Subtraction of two `u64` values. -/
def sub64 (a b : Nat) : Nat := (a + 2 ^ 64 - b % 2 ^ 64) % 2 ^ 64

/-- The registry page of a cache address: `addr >> registry_page_bits`. -/
def page (addr : Nat) : Nat := addr >>> registry_page_bits

/-- The pages visited by `while (start <= end) { ...; start++; }`. -/
def pageRange (start page_end : Nat) : List Nat := List.range' start (page_end + 1 - start)

/-! ## Surface methods -/

namespace Surface

/-- Modelled from the spec: `SurfaceBaseImpl::Overlaps` (`surface_base.h` is not part of
this development): the surface's range `[cache_addr, cache_addr_end)` intersects
`[start, end)`. -/
def Overlaps (s : Surface) (start page_end : Nat) : Bool :=
  decide (s.cache_addr < page_end) && decide (start < s.cache_addr_end)

/-- Modelled from the spec: `SurfaceBaseImpl::IsInside` (the spec's `Contains`): the guest
range `[other_start, other_end)` lies within the surface's guest range. -/
def IsInside (s : Surface) (other_start other_end : Nat) : Bool :=
  decide (s.gpu_addr ≤ other_start) && decide (other_end ≤ add64 s.gpu_addr s.guest_memory_size)

/-- Modelled from the spec: `SurfaceBaseImpl::SetCacheAddr`: the cache range starts at the
new address and spans the surface's byte size. -/
def SetCacheAddr (s : Surface) (new_addr : Nat) : Surface :=
  { s with cache_addr := new_addr, cache_addr_end := add64 new_addr s.guest_memory_size }

/-- Modelled from the spec: `SurfaceBase::MarkAsModified`: stamps the modified flag and the
modification tick. -/
def MarkAsModified (s : Surface) (is_modified : Bool) (tick : Nat) : Surface :=
  { s with is_modified := is_modified, modification_tick := tick }

/-- Modelled from the spec: `SurfaceBase::MarkAsRenderTarget`: sets the render-target mark
and the slot index. -/
def MarkAsRenderTarget (s : Surface) (is_target : Bool) (index : Nat) : Surface :=
  { s with is_target := is_target, index := index }

/-- Modelled from the spec: `SurfaceBase::IsProtected`; following the comment on
`GuardRenderTargets`, protection is only done on 3D slices of render targets. -/
def IsProtected (s : Surface) : Bool :=
  s.is_target && decide (0 < s.params.block_depth)

/-- Modelled from the spec: `SurfaceBaseImpl::MatchFormat`. -/
def MatchFormat (s : Surface) (pixel_format : PixelFormat) : Bool :=
  decide (s.params.pixel_format = pixel_format)

/-- Modelled from the spec: `SurfaceBaseImpl::MatchTarget`. -/
def MatchTarget (s : Surface) (target : SurfaceTarget) : Bool :=
  decide (s.params.target = target)

end Surface

/-- Modelled from the spec: the surface object a backend `CreateSurface(gpu_addr, params)`
returns (`SurfaceBaseImpl` constructor): created unregistered, unmodified, not
picked, not a render target, sized by its params. -/
def newSurface (B : Backend) (gpu_addr : Nat) (params : SurfaceParams) : Surface :=
  { params := params
    gpu_addr := gpu_addr
    cache_addr := 0
    cache_addr_end := 0
    cpu_addr := 0
    guest_memory_size := B.GetGuestSizeInBytes params
    is_continuous := false
    is_modified := false
    modification_tick := 0
    is_registered := false
    is_picked := false
    is_target := false
    index := NO_RT }

namespace TextureCache

/-- Replace the object `id` of the heap by `f` applied to it (a method call that mutates
the surface behind a `TSurface`). -/
def modify (c : TextureCache) (id : Nat) (f : Surface → Surface) : TextureCache :=
  { c with surfaces := Function.update c.surfaces id (f (c.surfaces id)) }

/-- `Tick()`: `return ++ticks;` on a `u64`; the call is counted in `ticks_drawn`. -/
def Tick (c : TextureCache) : TextureCache × Nat :=
  ({ c with ticks := add64 c.ticks 1, ticks_drawn := c.ticks_drawn + 1 }, add64 c.ticks 1)

/-- `GetSiblingFormat(format)`. -/
def GetSiblingFormat (c : TextureCache) (format : PixelFormat) : PixelFormat :=
  c.siblings_table format

/-- `RegisterInnerCache(surface)`. -/
def RegisterInnerCache (c : TextureCache) (surface : Nat) : TextureCache :=
  let cache_addr := (c.surfaces surface).cache_addr
  let start := page cache_addr
  let page_end := page (sub64 (c.surfaces surface).cache_addr_end 1)
  let c1 := { c with l1_cache := Function.update c.l1_cache cache_addr (some surface) }
  (pageRange start page_end).foldl
    (fun acc p => { acc with registry := Function.update acc.registry p (acc.registry p ++ [surface]) })
    c1

/-- `UnregisterInnerCache(surface)`. `reg.erase(std::find(...))` removes the first
occurrence of the surface in the bucket. When the bucket does not hold the surface,
`std::find` returns `reg.end()` and `reg.erase(reg.end())` is undefined behaviour:
the embedding records it in `erased_end` and leaves the bucket alone, a placeholder
that stands for no behaviour of the program. -/
def UnregisterInnerCache (c : TextureCache) (surface : Nat) : TextureCache :=
  let cache_addr := (c.surfaces surface).cache_addr
  let start := page cache_addr
  let page_end := page (sub64 (c.surfaces surface).cache_addr_end 1)
  let c1 := { c with l1_cache := Function.update c.l1_cache cache_addr none }
  (pageRange start page_end).foldl
    (fun acc p =>
      { acc with
          registry := Function.update acc.registry p ((acc.registry p).erase surface)
          erased_end := acc.erased_end || !decide (surface ∈ acc.registry p) })
    c1

/-- One iteration of the inner loop of `GetSurfacesInRegion`, on the heap and the result
vector. -/
def pickSurface (cache_addr cache_addr_end : Nat) (acc : (Nat → Surface) × List Nat)
    (surface : Nat) : (Nat → Surface) × List Nat :=
  if !(acc.1 surface).is_picked && (acc.1 surface).Overlaps cache_addr cache_addr_end then
    (Function.update acc.1 surface { acc.1 surface with is_picked := true }, acc.2 ++ [surface])
  else acc

/-- `GetSurfacesInRegion(cache_addr, size)`. The picked marks it sets and clears live in
the surfaces, so the heap is threaded through. -/
def GetSurfacesInRegion (c : TextureCache) (cache_addr size : Nat) : TextureCache × List Nat :=
  if size = 0 then (c, [])
  else
    let cache_addr_end := add64 cache_addr size
    let start := page cache_addr
    let page_end := page (sub64 cache_addr_end 1)
    let walked := (pageRange start page_end).foldl
      (fun acc p => (c.registry p).foldl (pickSurface cache_addr cache_addr_end) acc)
      (c.surfaces, [])
    let heap := walked.2.foldl
      (fun h surface => Function.update h surface { h surface with is_picked := false })
      walked.1
    ({ c with surfaces := heap }, walked.2)

/-- `ReserveSurface(params, surface)`. -/
def ReserveSurface (c : TextureCache) (params : SurfaceParams) (surface : Nat) : TextureCache :=
  { c with surface_reserve :=
      Function.update c.surface_reserve params (c.surface_reserve params ++ [surface]) }

/-- `TryGetReservedSurface(params)`: the first entry of the list for `params` that is not
registered. -/
def TryGetReservedSurface (c : TextureCache) (params : SurfaceParams) : Option Nat :=
  (c.surface_reserve params).find? (fun surface => !(c.surfaces surface).is_registered)

/-- The pure virtual `CreateSurface(gpu_addr, params)`: a new surface object. -/
def CreateSurface (B : Backend) (c : TextureCache) (gpu_addr : Nat) (params : SurfaceParams) :
    TextureCache × Nat :=
  ({ c with
      surfaces := Function.update c.surfaces c.num_surfaces (newSurface B gpu_addr params)
      num_surfaces := c.num_surfaces + 1 },
   c.num_surfaces)

/-- `GetUncachedSurface(gpu_addr, params)`. -/
def GetUncachedSurface (B : Backend) (c : TextureCache) (gpu_addr : Nat) (params : SurfaceParams) :
    TextureCache × Nat :=
  match c.TryGetReservedSurface params with
  | some surface => (c.modify surface (fun s => { s with gpu_addr := gpu_addr }), surface)
  | none => CreateSurface B c gpu_addr params

/-- `ManageRenderTargetUnregister(surface)`. -/
def ManageRenderTargetUnregister (c : TextureCache) (surface : Nat) : TextureCache :=
  let index := (c.surfaces surface).index
  let m := c.maxwell3d
  let m1 : Maxwell3D :=
    if index = DEPTH_RT then { m with dirty_depth_buffer := true }
    else { m with dirty_render_target := Function.update m.dirty_render_target index true }
  { c with maxwell3d := { m1 with dirty_render_settings := true } }

/-- `Register(surface)`. -/
def Register (B : Backend) (c : TextureCache) (surface : Nat) : TextureCache :=
  let gpu_addr := (c.surfaces surface).gpu_addr
  let cache_ptr := B.GetPointer gpu_addr
  let size := (c.surfaces surface).guest_memory_size
  if cache_ptr = 0 then c
  else
    match B.GpuToCpuAddress gpu_addr with
    | none => c
    | some cpu_addr =>
      let continuous := B.IsBlockContinuous gpu_addr size
      let c1 := c.modify surface (fun s => { s with is_continuous := continuous })
      let c2 := c1.modify surface (fun s => s.SetCacheAddr cache_ptr)
      let c3 := c2.modify surface (fun s => { s with cpu_addr := cpu_addr })
      let c4 := c3.RegisterInnerCache surface
      let c5 := c4.modify surface (fun s => { s with is_registered := true })
      { c5 with events := c5.events ++ [Event.UpdatePagesCachedCount cpu_addr size 1] }

/-- `Unregister(surface)`. -/
def Unregister (c : TextureCache) (surface : Nat) : TextureCache :=
  if c.guard_render_targets && (c.surfaces surface).IsProtected then c
  else
    let c1 :=
      if !c.guard_render_targets && (c.surfaces surface).is_target then
        c.ManageRenderTargetUnregister surface
      else c
    let size := (c1.surfaces surface).guest_memory_size
    let cpu_addr := (c1.surfaces surface).cpu_addr
    let c2 := { c1 with events := c1.events ++ [Event.UpdatePagesCachedCount cpu_addr size (-1)] }
    let c3 := c2.UnregisterInnerCache surface
    let c4 := c3.modify surface (fun s => { s with is_registered := false })
    c4.ReserveSurface (c4.surfaces surface).params surface

/-- `LoadSurface(surface)`: the guest memory is read into the staging buffer and uploaded,
then the surface is stamped unmodified with a fresh tick. -/
def LoadSurface (c : TextureCache) (surface : Nat) : TextureCache :=
  let c1 := { c with events := c.events ++ [Event.LoadSurface surface] }
  let (c2, tick) := c1.Tick
  c2.modify surface (fun s => s.MarkAsModified false tick)

/-- `FlushSurface(surface)`: a modified surface is downloaded and written back to guest
memory, then stamped unmodified with a fresh tick. -/
def FlushSurface (c : TextureCache) (surface : Nat) : TextureCache :=
  if !(c.surfaces surface).is_modified then c
  else
    let c1 := { c with events := c.events ++ [Event.FlushSurface surface] }
    let (c2, tick) := c1.Tick
    c2.modify surface (fun s => s.MarkAsModified false tick)

/-- `InitializeSurface(gpu_addr, params, preserve_contents)`. -/
def InitializeSurface (B : Backend) (c : TextureCache) (gpu_addr : Nat) (params : SurfaceParams)
    (preserve_contents : Bool) : TextureCache × (Nat × Option View) :=
  let (c1, new_surface) := GetUncachedSurface B c gpu_addr params
  let c2 := Register B c1 new_surface
  let c3 := if preserve_contents then c2.LoadSurface new_surface else c2
  (c3, (new_surface, some (View.main new_surface)))

/-- `PickStrategy(overlaps, params, gpu_addr, untopological)`. -/
def PickStrategy (B : Backend) (c : TextureCache) (overlaps : List Nat) (params : SurfaceParams)
    (untopological : MatchTopologyResult) : RecycleStrategy :=
  if B.use_accurate_gpu_emulation then RecycleStrategy.Flush
  else if decide (1 < params.block_depth) || decide (params.target = SurfaceTarget.Texture3D) then
    RecycleStrategy.Flush
  else if overlaps.any (fun s =>
      decide (1 < (c.surfaces s).params.block_depth) ||
        decide ((c.surfaces s).params.target = SurfaceTarget.Texture3D)) then
    RecycleStrategy.Flush
  else if untopological = MatchTopologyResult.CompressUnmatch then RecycleStrategy.Flush
  else if decide (untopological = MatchTopologyResult.FullMatch) && !params.is_tiled then
    RecycleStrategy.Flush
  else RecycleStrategy.Ignore

/-- Surface `a` may stand before surface `b` after `std::sort` with the comparator
`a->GetModificationTick() < b->GetModificationTick()`. -/
def tickLE (c : TextureCache) (a b : Nat) : Prop :=
  (c.surfaces a).modification_tick ≤ (c.surfaces b).modification_tick

instance tickLE.decidable (c : TextureCache) : DecidableRel (tickLE c) := by
  intro a b; unfold tickLE; infer_instance

/-- The order `std::sort` puts the overlaps in: ascending modification tick (`std::sort`
leaves the order of equal ticks unspecified; here they keep their relative order). -/
def sortByTick (c : TextureCache) (overlaps : List Nat) : List Nat :=
  overlaps.insertionSort (tickLE c)

/-- `RecycleSurface(overlaps, params, gpu_addr, preserve_contents, untopological)`. -/
def RecycleSurface (B : Backend) (c : TextureCache) (overlaps : List Nat) (params : SurfaceParams)
    (gpu_addr : Nat) (preserve_contents : Bool) (untopological : MatchTopologyResult) :
    TextureCache × (Nat × Option View) :=
  let do_load := preserve_contents && B.use_accurate_gpu_emulation
  let c1 := overlaps.foldl Unregister c
  match PickStrategy B c1 overlaps params untopological with
  | RecycleStrategy.Ignore => InitializeSurface B c1 gpu_addr params do_load
  | RecycleStrategy.Flush =>
    let c2 := (sortByTick c1 overlaps).foldl FlushSurface c1
    InitializeSurface B c2 gpu_addr params preserve_contents
  | RecycleStrategy.BufferCopy =>
    let (c2, new_surface) := GetUncachedSurface B c1 gpu_addr params
    let c3 :=
      match overlaps.head? with
      | some first => { c2 with events := c2.events ++ [Event.BufferCopy first new_surface] }
      | none => c2
    (c3, (new_surface, some (View.main new_surface)))

/-- `RebuildSurface(current_surface, params, is_render)`. -/
def RebuildSurface (B : Backend) (c : TextureCache) (current_surface : Nat) (params : SurfaceParams)
    (is_render : Bool) : TextureCache × (Nat × Option View) :=
  let gpu_addr := (c.surfaces current_surface).gpu_addr
  let cr_params := (c.surfaces current_surface).params
  let (c1, new_surface) :=
    if decide (cr_params.pixel_format ≠ params.pixel_format) && !is_render &&
        decide (c.GetSiblingFormat cr_params.pixel_format = params.pixel_format) then
      GetUncachedSurface B c gpu_addr
        { params with
            pixel_format := cr_params.pixel_format
            component_type := cr_params.component_type
            type := cr_params.type }
    else GetUncachedSurface B c gpu_addr params
  let final_params := (c1.surfaces new_surface).params
  let c2 :=
    if decide (cr_params.type ≠ final_params.type) ||
        decide (cr_params.component_type ≠ final_params.component_type) then
      { c1 with events := c1.events ++ [Event.BufferCopy current_surface new_surface] }
    else
      let bricks := B.BreakDown (c1.surfaces current_surface) final_params
      let copies := bricks.map (fun brick => Event.ImageCopy current_surface new_surface brick)
      { c1 with events := c1.events ++ copies }
  let c3 := c2.Unregister current_surface
  let c4 := Register B c3 new_surface
  let (c5, tick) := c4.Tick
  let c6 := c5.modify new_surface
    (fun s => s.MarkAsModified (c5.surfaces current_surface).is_modified tick)
  (c6, (new_surface, some (View.main new_surface)))

/-- `ManageStructuralMatch(current_surface, params, is_render)`. -/
def ManageStructuralMatch (B : Backend) (c : TextureCache) (current_surface : Nat)
    (params : SurfaceParams) (is_render : Bool) : TextureCache × (Nat × Option View) :=
  let is_mirage := !(c.surfaces current_surface).MatchFormat params.pixel_format
  let matches_target := (c.surfaces current_surface).MatchTarget params.target
  let match_check : TextureCache × (Nat × Option View) :=
    if matches_target then (c, (current_surface, some (View.main current_surface)))
    else (c, (current_surface, some (View.overview current_surface params)))
  if !is_mirage then match_check
  else if !is_render &&
      decide (c.GetSiblingFormat (c.surfaces current_surface).params.pixel_format =
        params.pixel_format) then
    match_check
  else RebuildSurface B c current_surface params is_render

/-- The loop of `TryReconstructSurface` over the overlaps: `none` when an overlap is layered
or has several mip levels (the early `return {}`), otherwise the accumulated
`modified` flag and `passed_tests` counter (a `u32`). Image copies made before the
loop ends stay in the trace. -/
def reconstructLoop (B : Backend) (params : SurfaceParams) (new_surface : Nat) :
    List Nat → TextureCache → Bool → Nat → TextureCache × Option (Bool × Nat)
  | [], c, modified, passed_tests => (c, some (modified, passed_tests))
  | surface :: rest, c, modified, passed_tests =>
    let src_params := (c.surfaces surface).params
    if src_params.is_layered || decide (1 < src_params.num_levels) then (c, none)
    else
      let candidate_size := (c.surfaces surface).guest_memory_size
      match B.GetLayerMipmap (c.surfaces new_surface) (c.surfaces surface).gpu_addr with
      | none => reconstructLoop B params new_surface rest c modified passed_tests
      | some (layer, mipmap) =>
        if B.GetMipmapSize (c.surfaces new_surface) mipmap ≠ candidate_size then
          reconstructLoop B params new_surface rest c modified passed_tests
        else
          let width := B.IntersectWidth src_params params 0 mipmap
          let height := B.IntersectHeight src_params params 0 mipmap
          let copy_params : CopyParams := [0, 0, 0, 0, 0, layer, 0, mipmap, width, height, 1]
          reconstructLoop B params new_surface rest
            { c with events := c.events ++ [Event.ImageCopy surface new_surface copy_params] }
            (modified || (c.surfaces surface).is_modified) ((passed_tests + 1) % 2 ^ 32)

/-- `TryReconstructSurface(overlaps, params, gpu_addr)`. -/
def TryReconstructSurface (B : Backend) (c : TextureCache) (overlaps : List Nat)
    (params : SurfaceParams) (gpu_addr : Nat) : TextureCache × Option (Nat × Option View) :=
  if params.target = SurfaceTarget.Texture3D then (c, none)
  else
    let (c1, new_surface) := GetUncachedSurface B c gpu_addr params
    match reconstructLoop B params new_surface overlaps c1 false 0 with
    | (c2, none) => (c2, none)
    | (c2, some (modified, passed_tests)) =>
      if passed_tests = 0 then (c2, none)
      else if B.use_accurate_gpu_emulation && decide (passed_tests ≠ overlaps.length) then
        (c2, none)
      else
        let c3 := overlaps.foldl Unregister c2
        let (c4, tick) := c3.Tick
        let c5 := c4.modify new_surface (fun s => s.MarkAsModified modified tick)
        let c6 := Register B c5 new_surface
        (c6, some (new_surface, some (View.main new_surface)))

/-- Steps 2 and 3 of `GetSurface`: the overlap scan and what follows it. -/
def GetSurfaceFromOverlaps (B : Backend) (c : TextureCache) (gpu_addr : Nat) (params : SurfaceParams)
    (preserve_contents is_render : Bool) (cache_addr : Nat) : TextureCache × (Nat × Option View) :=
  let candidate_size := B.GetGuestSizeInBytes params
  let (c1, overlaps) := c.GetSurfacesInRegion cache_addr candidate_size
  if overlaps.isEmpty then InitializeSurface B c1 gpu_addr params preserve_contents
  else
    match (overlaps.map (fun s => B.MatchesTopology (c1.surfaces s).params params)).find?
        (fun r => decide (r ≠ MatchTopologyResult.FullMatch)) with
    | some topological_result =>
      RecycleSurface B c1 overlaps params gpu_addr preserve_contents topological_result
    | none =>
      match overlaps with
      | [current_surface] =>
        if !(c1.surfaces current_surface).IsInside gpu_addr (add64 gpu_addr candidate_size) then
          if (c1.surfaces current_surface).gpu_addr = gpu_addr then
            match TryReconstructSurface B c1 overlaps params gpu_addr with
            | (c2, some view) => (c2, view)
            | (c2, none) =>
              RecycleSurface B c2 overlaps params gpu_addr preserve_contents
                MatchTopologyResult.FullMatch
          else
            RecycleSurface B c1 overlaps params gpu_addr preserve_contents
              MatchTopologyResult.FullMatch
        else
          match B.EmplaceView (c1.surfaces current_surface) params gpu_addr candidate_size with
          | some view =>
            let is_mirage := !(c1.surfaces current_surface).MatchFormat params.pixel_format
            if is_mirage then
              let cur_params := (c1.surfaces current_surface).params
              let wh := B.ConvertWidth cur_params.width cur_params.pixel_format params.pixel_format
              let hh := B.ConvertHeight cur_params.height cur_params.pixel_format params.pixel_format
              let new_params : SurfaceParams :=
                { cur_params with width := wh, height := hh, pixel_format := params.pixel_format }
              let (c2, pair) := RebuildSurface B c1 current_surface new_params is_render
              match B.EmplaceView (c2.surfaces pair.1) params gpu_addr candidate_size with
              | some mirage_view => (c2, (pair.1, some (View.carved pair.1 mirage_view)))
              | none =>
                RecycleSurface B c2 overlaps params gpu_addr preserve_contents
                  MatchTopologyResult.FullMatch
            else (c1, (current_surface, some (View.carved current_surface view)))
          | none =>
            RecycleSurface B c1 overlaps params gpu_addr preserve_contents
              MatchTopologyResult.FullMatch
      | _ =>
        match TryReconstructSurface B c1 overlaps params gpu_addr with
        | (c2, some view) => (c2, view)
        | (c2, none) =>
          RecycleSurface B c2 overlaps params gpu_addr preserve_contents
            MatchTopologyResult.FullMatch

/-- `GetSurface(gpu_addr, params, preserve_contents, is_render)`. -/
def GetSurface (B : Backend) (c : TextureCache) (gpu_addr : Nat) (params : SurfaceParams)
    (preserve_contents is_render : Bool) : TextureCache × (Nat × Option View) :=
  let cache_addr := B.GetPointer gpu_addr
  if cache_addr = 0 then
    InitializeSurface B c gpu_addr
      { params with width := 1, height := 1, depth := 1, block_height := 0, block_depth := 0 }
      false
  else
    match c.l1_cache cache_addr with
    | some current_surface =>
      let topological_result := B.MatchesTopology (c.surfaces current_surface).params params
      if topological_result ≠ MatchTopologyResult.FullMatch then
        RecycleSurface B c [current_surface] params gpu_addr preserve_contents topological_result
      else
        let struct_result := B.MatchesStructure (c.surfaces current_surface).params params
        if decide (struct_result ≠ MatchStructureResult.None) &&
            (decide (params.target ≠ SurfaceTarget.Texture3D) ||
              (c.surfaces current_surface).MatchTarget params.target) then
          if struct_result = MatchStructureResult.FullMatch then
            ManageStructuralMatch B c current_surface params is_render
          else RebuildSurface B c current_surface params is_render
        else GetSurfaceFromOverlaps B c gpu_addr params preserve_contents is_render cache_addr
    | none => GetSurfaceFromOverlaps B c gpu_addr params preserve_contents is_render cache_addr

/-! ## Format deduction -/

/-- `Deduction::Failed()`. -/
def Deduction.Failed (d : Deduction) : Bool :=
  decide (d.type = DeductionType.DeductionFailed)

/-- `Deduction::Incomplete()`. -/
def Deduction.Incomplete (d : Deduction) : Bool :=
  decide (d.type = DeductionType.DeductionIncomplete)

/-- `Deduction::IsDepth()`: `surface->GetSurfaceParams().IsPixelFormatZeta()`; `none` when
the deduction carries no surface, where the source dereferences a null pointer. -/
def Deduction.IsDepth (B : Backend) (c : TextureCache) (d : Deduction) : Option Bool :=
  d.surface.map (fun s => B.IsPixelFormatZeta (c.surfaces s).params)

/-- The overlap part of `DeduceSurface`: no overlap is incomplete, one overlap is complete,
several fail. -/
def DeduceFromOverlaps (B : Backend) (c : TextureCache) (params : SurfaceParams)
    (cache_addr : Nat) : TextureCache × Deduction :=
  let candidate_size := B.GetGuestSizeInBytes params
  let (c1, overlaps) := c.GetSurfacesInRegion cache_addr candidate_size
  match overlaps with
  | [] => (c1, { type := DeductionType.DeductionIncomplete, surface := none })
  | [surface] => (c1, { type := DeductionType.DeductionComplete, surface := some surface })
  | _ => (c1, { type := DeductionType.DeductionFailed, surface := none })

/-- `DeduceSurface(gpu_addr, params)`. -/
def DeduceSurface (B : Backend) (c : TextureCache) (gpu_addr : Nat) (params : SurfaceParams) :
    TextureCache × Deduction :=
  let cache_addr := B.GetPointer gpu_addr
  if cache_addr = 0 then (c, { type := DeductionType.DeductionFailed, surface := none })
  else
    match c.l1_cache cache_addr with
    | some current_surface =>
      let topological_result := B.MatchesTopology (c.surfaces current_surface).params params
      if topological_result ≠ MatchTopologyResult.FullMatch then
        (c, { type := DeductionType.DeductionFailed, surface := none })
      else
        let struct_result := B.MatchesStructure (c.surfaces current_surface).params params
        if decide (struct_result ≠ MatchStructureResult.None) &&
            (c.surfaces current_surface).MatchTarget params.target then
          (c, { type := DeductionType.DeductionComplete, surface := some current_surface })
        else DeduceFromOverlaps B c params cache_addr
    | none => DeduceFromOverlaps B c params cache_addr

/-- The `inherit_format` lambda of `DeduceBestBlit`; `none` when the source surface is
null. -/
def inherit_format (c : TextureCache) (dest : SurfaceParams) (source : Option Nat) :
    Option SurfaceParams :=
  source.map (fun s =>
    { dest with
        pixel_format := (c.surfaces s).params.pixel_format
        component_type := (c.surfaces s).params.component_type
        type := (c.surfaces s).params.type })

/-- The body of `DeduceBestBlit` after the two probes: the new `(src_params, dst_params)`,
or `none` when a null surface is dereferenced. `&&` and `if` evaluate `IsDepth()`
only where the source does. -/
def DeduceBestBlitFrom (B : Backend) (c : TextureCache) (src_params dst_params : SurfaceParams)
    (deduced_src deduced_dst : Deduction) : Option (SurfaceParams × SurfaceParams) :=
  if Deduction.Failed deduced_src || Deduction.Failed deduced_dst then
    some (src_params, dst_params)
  else
    let incomplete_src := Deduction.Incomplete deduced_src
    let incomplete_dst := Deduction.Incomplete deduced_dst
    if incomplete_src && incomplete_dst then some (src_params, dst_params)
    else
      let inherit : Option (SurfaceParams × SurfaceParams) :=
        (inherit_format c src_params
            (if !incomplete_src then deduced_src.surface else deduced_dst.surface)).bind
          (fun new_src =>
            (inherit_format c dst_params
                (if !incomplete_dst then deduced_dst.surface else deduced_src.surface)).map
              (fun new_dst => (new_src, new_dst)))
      if !(incomplete_src || incomplete_dst) then
        match Deduction.IsDepth B c deduced_src with
        | none => none
        | some false => some (src_params, dst_params)
        | some true =>
          match Deduction.IsDepth B c deduced_dst with
          | none => none
          | some false => some (src_params, dst_params)
          | some true => inherit
      else
        let first : Option Bool :=
          if incomplete_src then (Deduction.IsDepth B c deduced_dst).map (fun d => !d)
          else some false
        match first with
        | none => none
        | some true => some (src_params, dst_params)
        | some false =>
          let second : Option Bool :=
            if incomplete_dst then (Deduction.IsDepth B c deduced_src).map (fun d => !d)
            else some false
          match second with
          | none => none
          | some true => some (src_params, dst_params)
          | some false => inherit

/-- `DeduceBestBlit(src_params, dst_params, src_gpu_addr, dst_gpu_addr)`: both probes are
made with the source address and the source params, as in the source. -/
def DeduceBestBlit (B : Backend) (c : TextureCache) (src_params dst_params : SurfaceParams)
    (src_gpu_addr : Nat) (_dst_gpu_addr : Nat) :
    TextureCache × Option (SurfaceParams × SurfaceParams) :=
  let (c1, deduced_src) := DeduceSurface B c src_gpu_addr src_params
  let (c2, deduced_dst) := DeduceSurface B c1 src_gpu_addr src_params
  (c2, DeduceBestBlitFrom B c2 src_params dst_params deduced_src deduced_dst)

/-! ## Public operations -/

/-- `InvalidateRegion(addr, size)`. -/
def InvalidateRegion (c : TextureCache) (addr size : Nat) : TextureCache :=
  let (c1, surfaces) := c.GetSurfacesInRegion addr size
  surfaces.foldl Unregister c1

/-- `GuardRenderTargets(new_guard)`. -/
def GuardRenderTargets (c : TextureCache) (new_guard : Bool) : TextureCache :=
  { c with guard_render_targets := new_guard }

/-- `GuardSamplers(new_guard)`. -/
def GuardSamplers (c : TextureCache) (new_guard : Bool) : TextureCache :=
  { c with guard_samplers := new_guard }

/-- `FlushRegion(addr, size)`. -/
def FlushRegion (c : TextureCache) (addr size : Nat) : TextureCache :=
  let (c1, surfaces) := c.GetSurfacesInRegion addr size
  if surfaces.isEmpty then c1
  else (sortByTick c1 surfaces).foldl FlushSurface c1

/-- `GetTextureSurface(tic, entry)`, from the address `tic.Address()` and the params
`SurfaceParams::CreateForTexture(tic, entry)`. -/
def GetTextureSurface (B : Backend) (c : TextureCache) (gpu_addr : Nat) (params : SurfaceParams) :
    TextureCache × Option View :=
  if gpu_addr = 0 then (c, none)
  else
    let (c1, (surface, view)) := GetSurface B c gpu_addr params true false
    let c2 :=
      if c1.guard_samplers then { c1 with sampled_textures := c1.sampled_textures ++ [surface] }
      else c1
    (c2, view)

/-- `GetImageSurface(tic, entry)`, from the address `tic.Address()` and the params
`SurfaceParams::CreateForImage(tic, entry)`. -/
def GetImageSurface (B : Backend) (c : TextureCache) (gpu_addr : Nat) (params : SurfaceParams) :
    TextureCache × Option View :=
  if gpu_addr = 0 then (c, none)
  else
    let (c1, (surface, view)) := GetSurface B c gpu_addr params true false
    let c2 :=
      if c1.guard_samplers then { c1 with sampled_textures := c1.sampled_textures ++ [surface] }
      else c1
    (c2, view)

/-- `TextureBarrier()`. -/
def TextureBarrier (c : TextureCache) : TextureCache × Bool :=
  ({ c with sampled_textures := [] },
   c.sampled_textures.any (fun surface => (c.surfaces surface).is_target))

/-- `SetEmptyDepthBuffer()`. -/
def SetEmptyDepthBuffer (c : TextureCache) : TextureCache :=
  match c.depth_buffer.target with
  | none => c
  | some target =>
    let c1 := c.modify target (fun s => s.MarkAsRenderTarget false NO_RT)
    { c1 with depth_buffer := { target := none, view := none } }

/-- `SetEmptyColorBuffer(index)`. -/
def SetEmptyColorBuffer (c : TextureCache) (index : Nat) : TextureCache :=
  match (c.render_targets index).target with
  | none => c
  | some target =>
    let c1 := c.modify target (fun s => s.MarkAsRenderTarget false NO_RT)
    let slot : FramebufferTargetInfo := { target := none, view := none }
    { c1 with render_targets := Function.update c1.render_targets index slot }

/-- `GetDepthBufferSurface(preserve_contents)`. -/
def GetDepthBufferSurface (B : Backend) (c : TextureCache) (preserve_contents : Bool) :
    TextureCache × Option View :=
  if !c.maxwell3d.dirty_depth_buffer then (c, c.depth_buffer.view)
  else
    let c0 := { c with maxwell3d := { c.maxwell3d with dirty_depth_buffer := false } }
    let gpu_addr := c0.maxwell3d.zeta_address
    if decide (gpu_addr = 0) || !c0.maxwell3d.zeta_enable then (c0.SetEmptyDepthBuffer, none)
    else
      let (c1, surface_view) := GetSurface B c0 gpu_addr c0.maxwell3d.zeta_params preserve_contents true
      let c2 :=
        match c1.depth_buffer.target with
        | some old => c1.modify old (fun s => s.MarkAsRenderTarget false NO_RT)
        | none => c1
      let c3 := { c2 with depth_buffer := { target := some surface_view.1, view := surface_view.2 } }
      let c4 := c3.modify surface_view.1 (fun s => s.MarkAsRenderTarget true DEPTH_RT)
      (c4, surface_view.2)

/-- `GetColorBufferSurface(index, preserve_contents)`. -/
def GetColorBufferSurface (B : Backend) (c : TextureCache) (index : Nat) (preserve_contents : Bool) :
    TextureCache × Option View :=
  if !c.maxwell3d.dirty_render_target index then (c, (c.render_targets index).view)
  else
    let dirty := Function.update c.maxwell3d.dirty_render_target index false
    let c0 := { c with maxwell3d := { c.maxwell3d with dirty_render_target := dirty } }
    let config := c0.maxwell3d.rt index
    if decide (c0.maxwell3d.rt_control_count ≤ index) || decide (config.address = 0) ||
        config.format_none then
      (c0.SetEmptyColorBuffer index, none)
    else
      let gpu_addr := config.address
      let (c1, surface_view) := GetSurface B c0 gpu_addr config.params preserve_contents true
      let c2 :=
        match (c1.render_targets index).target with
        | some old => c1.modify old (fun s => s.MarkAsRenderTarget false NO_RT)
        | none => c1
      let slot : FramebufferTargetInfo := { target := some surface_view.1, view := surface_view.2 }
      let c3 := { c2 with render_targets := Function.update c2.render_targets index slot }
      let c4 := c3.modify surface_view.1 (fun s => s.MarkAsRenderTarget true index)
      (c4, surface_view.2)

/-- `DoFermiCopy(src_config, dst_config, copy_config)`, from the addresses and the params
`SurfaceParams::CreateForFermiCopySurface` derives from the two configurations;
`none` when `DeduceBestBlit` dereferences a null surface. -/
def DoFermiCopy (B : Backend) (c : TextureCache) (src_gpu_addr : Nat) (src_params : SurfaceParams)
    (dst_gpu_addr : Nat) (dst_params : SurfaceParams) : Option TextureCache :=
  let (c1, deduced) := DeduceBestBlit B c src_params dst_params src_gpu_addr dst_gpu_addr
  deduced.map (fun blit_params =>
    let (c2, dst_surface) := GetSurface B c1 dst_gpu_addr blit_params.2 true false
    let (c3, src_surface) := GetSurface B c2 src_gpu_addr blit_params.1 true false
    let c4 := { c3 with events := c3.events ++ [Event.ImageBlit src_surface.2 dst_surface.2] }
    let (c5, tick) := c4.Tick
    c5.modify dst_surface.1 (fun s => s.MarkAsModified true tick))

/-- `TryFindFramebufferSurface(host_ptr)`, from the cache address of the host pointer. -/
def TryFindFramebufferSurface (c : TextureCache) (cache_addr : Nat) : Option Nat :=
  if cache_addr = 0 then none
  else
    (c.registry (page cache_addr)).find?
      (fun surface => (c.surfaces surface).cache_addr == cache_addr)

/-- `MarkColorBufferInUse(index)`. -/
def MarkColorBufferInUse (c : TextureCache) (index : Nat) : TextureCache :=
  match (c.render_targets index).target with
  | some render_target =>
    let (c1, tick) := c.Tick
    c1.modify render_target (fun s => s.MarkAsModified true tick)
  | none => c

/-- `MarkDepthBufferInUse()`. -/
def MarkDepthBufferInUse (c : TextureCache) : TextureCache :=
  match c.depth_buffer.target with
  | some target =>
    let (c1, tick) := c.Tick
    c1.modify target (fun s => s.MarkAsModified true tick)
  | none => c

/-- The `make_siblings` lambda of the constructor. -/
def make_siblings (table : PixelFormat → PixelFormat) (a b : PixelFormat) :
    PixelFormat → PixelFormat :=
  Function.update (Function.update table a b) b a

/-- The heap cell of an object that has not been created. -/
def unallocated : Surface :=
  { params :=
      { is_tiled := false, is_layered := false, block_width := 0, block_height := 0,
        block_depth := 0, width := 0, height := 0, depth := 0, num_levels := 0,
        pixel_format := PixelFormat.Invalid, component_type := 0, type := 0,
        target := SurfaceTarget.Texture1D }
    gpu_addr := 0
    cache_addr := 0
    cache_addr_end := 0
    cpu_addr := 0
    guest_memory_size := 0
    is_continuous := false
    is_modified := false
    modification_tick := 0
    is_registered := false
    is_picked := false
    is_target := false
    index := NO_RT }

/-- The constructor `TextureCache(system, rasterizer)`: empty slots, empty registry, index
and reserve, the sibling table filled, no surface object yet. -/
def init (maxwell3d : Maxwell3D) : TextureCache :=
  { surfaces := fun _ => unallocated
    num_surfaces := 0
    ticks := 0
    guard_render_targets := false
    guard_samplers := false
    siblings_table :=
      make_siblings
        (make_siblings
          (make_siblings (fun _ => PixelFormat.Invalid) PixelFormat.Z16 PixelFormat.R16U)
          PixelFormat.Z32F PixelFormat.R32F)
        PixelFormat.Z32FS8 PixelFormat.RG32F
    registry := fun _ => []
    l1_cache := fun _ => none
    surface_reserve := fun _ => []
    render_targets := fun _ => { target := none, view := none }
    depth_buffer := { target := none, view := none }
    sampled_textures := []
    maxwell3d := maxwell3d
    events := []
    erased_end := false
    ticks_drawn := 0 }

end TextureCache

end VideoCommon

namespace VideoCommon

/-! ## Auxiliary definitions for the statements -/

/-- The byte ranges `[a1, e1)` and `[a2, e2)` have a byte in common. -/
def RangesIntersect (a1 e1 a2 e2 : Nat) : Prop := max a1 a2 < min e1 e2

instance RangesIntersect.decidable (a1 e1 a2 e2 : Nat) :
    Decidable (RangesIntersect a1 e1 a2 e2) := by
  unfold RangesIntersect; infer_instance

namespace TextureCache

/-- The heap `h` with the picked mark set on the members of `acc`. -/
def markPicked (h : Nat → Surface) (acc : List Nat) : Nat → Surface :=
  fun s => if s ∈ acc then { h s with is_picked := true } else h s

/-- The result vector of the walk of `GetSurfacesInRegion`, without the marks. -/
def pickList (h : Nat → Surface) (a e : Nat) (acc : List Nat) (s : Nat) : List Nat :=
  if s ∉ acc ∧ (h s).Overlaps a e = true then acc ++ [s] else acc

/-- The result vector of the whole walk over the pages `ps`. -/
def walkList (c : TextureCache) (a e : Nat) (ps : List Nat) (acc : List Nat) : List Nat :=
  ps.foldl (fun acc p => (c.registry p).foldl (pickList c.surfaces a e) acc) acc

/-- Every registered surface sits in exactly the buckets of the pages its byte range
touches; registered ranges are non-empty ranges of host memory, and no picked mark
is left set between two overlap queries. -/
structure BucketsExact (c : TextureCache) : Prop where
  buckets : ∀ s p, s ∈ c.registry p ↔
    ((c.surfaces s).is_registered = true ∧ page (c.surfaces s).cache_addr ≤ p ∧
      p ≤ page ((c.surfaces s).cache_addr_end - 1))
  ranges : ∀ s, (c.surfaces s).is_registered = true →
    (c.surfaces s).cache_addr < (c.surfaces s).cache_addr_end ∧
      (c.surfaces s).cache_addr_end < 2 ^ 64
  picked : ∀ s, (c.surfaces s).is_picked = false

/-- Apply `g` to the bucket of every page in `ps`. -/
def mapBuckets (g : List Nat → List Nat) (ps : List Nat) (r : Nat → List Nat) : Nat → List Nat :=
  ps.foldl (fun r p => Function.update r p (g (r p))) r

/-- The test that decides whether `UnregisterInnerCache(surface)` calls
`reg.erase(reg.end())`: the surface is missing from a bucket the loop walks. -/
def erasesEnd (c : TextureCache) (s : Nat) : Bool :=
  (pageRange (page (c.surfaces s).cache_addr) (page (sub64 (c.surfaces s).cache_addr_end 1))).any
    (fun p => !decide (s ∈ c.registry p))

/-- The surface object `Register` leaves behind when both translations succeed. -/
def registeredSurface (B : Backend) (x : Surface) (cache_ptr cpu_addr : Nat) : Surface :=
  { x with
      is_continuous := B.IsBlockContinuous x.gpu_addr x.guest_memory_size
      cache_addr := cache_ptr
      cache_addr_end := add64 cache_ptr x.guest_memory_size
      cpu_addr := cpu_addr
      is_registered := true }

/-- The `Maxwell3D` state after the render-target bookkeeping of `Unregister`. -/
def unregisterDirty (c : TextureCache) (s : Nat) : Maxwell3D :=
  if !c.guard_render_targets && (c.surfaces s).is_target then
    (c.ManageRenderTargetUnregister s).maxwell3d
  else c.maxwell3d

/-- The surface is shielded from `Unregister` by the render-target guard. -/
def Shielded (c : TextureCache) (s : Nat) : Bool :=
  c.guard_render_targets && (c.surfaces s).IsProtected

/-- The registry invariant: a surface is registered exactly when it is the exact-address
index entry at its cache address and sits, once, in each bucket of the pages its
range touches (and in no other bucket); objects that have not been created yet are
not registered. -/
structure RegistryInv (c : TextureCache) extends BucketsExact c : Prop where
  buckets_nodup : ∀ p, (c.registry p).Nodup
  index : ∀ s a, c.l1_cache a = some s ↔
    ((c.surfaces s).is_registered = true ∧ (c.surfaces s).cache_addr = a)
  fresh : ∀ s, c.num_surfaces ≤ s → (c.surfaces s).is_registered = false

/-- The surface is a 3D texture or has a multi-slice block depth: the test of the
"3D Textures decision" of `PickStrategy`. -/
def isVolumetric (p : SurfaceParams) : Prop :=
  1 < p.block_depth ∨ p.target = SurfaceTarget.Texture3D

instance isVolumetric.decidable (p : SurfaceParams) : Decidable (isVolumetric p) := by
  unfold isVolumetric; infer_instance

/-- The forced-Flush condition of the recycle strategy table in the words of the
specification: accurate emulation, a requested or overlapping surface that is a 3D
target with multi-slice block depth, an incompatible compression scheme, or a full
topology match for an untiled request. -/
def specFlushCondition (B : Backend) (c : TextureCache) (overlaps : List Nat)
    (params : SurfaceParams) (untopological : MatchTopologyResult) : Prop :=
  B.use_accurate_gpu_emulation = true ∨
    (params.target = SurfaceTarget.Texture3D ∧ 1 < params.block_depth) ∨
    (∃ s ∈ overlaps, (c.surfaces s).params.target = SurfaceTarget.Texture3D ∧
      1 < (c.surfaces s).params.block_depth) ∨
    untopological = MatchTopologyResult.CompressUnmatch ∨
    (untopological = MatchTopologyResult.FullMatch ∧ params.is_tiled = false)

instance specFlushCondition.decidable (B : Backend) (c : TextureCache) (overlaps : List Nat)
    (params : SurfaceParams) (untopological : MatchTopologyResult) :
    Decidable (specFlushCondition B c overlaps params untopological) := by
  unfold specFlushCondition; infer_instance

instance tickLE.isTotal (c : TextureCache) : IsTotal Nat (tickLE c) :=
  ⟨fun _ _ => Nat.le_total _ _⟩

instance tickLE.isTrans (c : TextureCache) : IsTrans Nat (tickLE c) :=
  ⟨fun _ _ _ h1 h2 => Nat.le_trans h1 h2⟩

/-- Every entry of the reserve pool is a created surface object whose params are the
key of its list (entries are only added by `ReserveSurface(surface->GetSurfaceParams(),
surface)`). -/
def ReserveKeyed (c : TextureCache) : Prop :=
  ∀ p s, s ∈ c.surface_reserve p → s < c.num_surfaces ∧ (c.surfaces s).params = p

/-- The shape `GetSurface` synthesises for an address that fails translation: the request
with a 1×1×1 extent and no block layout. -/
def dummyParams (params : SurfaceParams) : SurfaceParams :=
  { params with width := 1, height := 1, depth := 1, block_height := 0, block_depth := 0 }

/-- The part of `RecycleSurface` that follows the unregistration loop: the strategy is
picked and carried out on the state `c1` the loop leaves. -/
def recycleAfterUnregister (B : Backend) (c1 : TextureCache) (overlaps : List Nat)
    (params : SurfaceParams) (gpu_addr : Nat) (preserve_contents : Bool)
    (untopological : MatchTopologyResult) : TextureCache × (Nat × Option View) :=
  match PickStrategy B c1 overlaps params untopological with
  | RecycleStrategy.Ignore =>
    InitializeSurface B c1 gpu_addr params (preserve_contents && B.use_accurate_gpu_emulation)
  | RecycleStrategy.Flush =>
    InitializeSurface B ((sortByTick c1 overlaps).foldl FlushSurface c1) gpu_addr params
      preserve_contents
  | RecycleStrategy.BufferCopy =>
    let (c2, new_surface) := GetUncachedSurface B c1 gpu_addr params
    let c3 :=
      match overlaps.head? with
      | some first => { c2 with events := c2.events ++ [Event.BufferCopy first new_surface] }
      | none => c2
    (c3, (new_surface, some (View.main new_surface)))

/-- The state `d` differs from `c` at most in the modification flags and ticks of the
surfaces, the tick counter and the trace of outgoing calls. -/
structure ModificationOnly (c d : TextureCache) : Prop where
  num : d.num_surfaces = c.num_surfaces
  registry : d.registry = c.registry
  l1_cache : d.l1_cache = c.l1_cache
  reserve : d.surface_reserve = c.surface_reserve
  guard : d.guard_render_targets = c.guard_render_targets
  samplers : d.guard_samplers = c.guard_samplers
  maxwell : d.maxwell3d = c.maxwell3d
  slots : d.render_targets = c.render_targets
  depth : d.depth_buffer = c.depth_buffer
  surface : ∀ s, { d.surfaces s with is_modified := false, modification_tick := 0 } =
    { c.surfaces s with is_modified := false, modification_tick := 0 }

/-- The part of `GetSurface` that follows the overlap query (the end of step 2 and step 3),
applied to the state `c1` and the overlaps the query returned. -/
def resolveOverlaps (B : Backend) (c1 : TextureCache) (overlaps : List Nat) (gpu_addr : Nat)
    (params : SurfaceParams) (preserve_contents is_render : Bool) :
    TextureCache × (Nat × Option View) :=
  let candidate_size := B.GetGuestSizeInBytes params
  if overlaps.isEmpty then InitializeSurface B c1 gpu_addr params preserve_contents
  else
    match (overlaps.map (fun s => B.MatchesTopology (c1.surfaces s).params params)).find?
        (fun r => decide (r ≠ MatchTopologyResult.FullMatch)) with
    | some topological_result =>
      RecycleSurface B c1 overlaps params gpu_addr preserve_contents topological_result
    | none =>
      match overlaps with
      | [current_surface] =>
        if !(c1.surfaces current_surface).IsInside gpu_addr (add64 gpu_addr candidate_size) then
          if (c1.surfaces current_surface).gpu_addr = gpu_addr then
            match TryReconstructSurface B c1 overlaps params gpu_addr with
            | (c2, some view) => (c2, view)
            | (c2, none) =>
              RecycleSurface B c2 overlaps params gpu_addr preserve_contents
                MatchTopologyResult.FullMatch
          else
            RecycleSurface B c1 overlaps params gpu_addr preserve_contents
              MatchTopologyResult.FullMatch
        else
          match B.EmplaceView (c1.surfaces current_surface) params gpu_addr candidate_size with
          | some view =>
            let is_mirage := !(c1.surfaces current_surface).MatchFormat params.pixel_format
            if is_mirage then
              let cur_params := (c1.surfaces current_surface).params
              let wh := B.ConvertWidth cur_params.width cur_params.pixel_format params.pixel_format
              let hh := B.ConvertHeight cur_params.height cur_params.pixel_format params.pixel_format
              let new_params : SurfaceParams :=
                { cur_params with width := wh, height := hh, pixel_format := params.pixel_format }
              let (c2, pair) := RebuildSurface B c1 current_surface new_params is_render
              match B.EmplaceView (c2.surfaces pair.1) params gpu_addr candidate_size with
              | some mirage_view => (c2, (pair.1, some (View.carved pair.1 mirage_view)))
              | none =>
                RecycleSurface B c2 overlaps params gpu_addr preserve_contents
                  MatchTopologyResult.FullMatch
            else (c1, (current_surface, some (View.carved current_surface view)))
          | none =>
            RecycleSurface B c1 overlaps params gpu_addr preserve_contents
              MatchTopologyResult.FullMatch
      | _ =>
        match TryReconstructSurface B c1 overlaps params gpu_addr with
        | (c2, some view) => (c2, view)
        | (c2, none) =>
          RecycleSurface B c2 overlaps params gpu_addr preserve_contents
            MatchTopologyResult.FullMatch

/-- The state `d` has the render-target slots and the depth slot of `c`. -/
structure SlotsKept (c d : TextureCache) : Prop where
  slots : d.render_targets = c.render_targets
  depth : d.depth_buffer = c.depth_buffer

/-- The state in which `GetColorBufferSurface(index, ...)` resolves a dirty slot: the
slot's dirty flag has been cleared (`maxwell3d.dirty.render_target[index] = false`). -/
def clearColorDirty (c : TextureCache) (index : Nat) : TextureCache :=
  { c with maxwell3d :=
      { c.maxwell3d with
          dirty_render_target := Function.update c.maxwell3d.dirty_render_target index false } }

/-- The state in which `GetDepthBufferSurface` resolves a dirty depth slot: the depth dirty
flag has been cleared (`maxwell3d.dirty.depth_buffer = false`). -/
def clearDepthDirty (c : TextureCache) : TextureCache :=
  { c with maxwell3d := { c.maxwell3d with dirty_depth_buffer := false } }

/-- The end of `GetColorBufferSurface`: the previous occupant of the slot loses its
render-target mark, the slot takes the pair `GetSurface` returned, and the new
occupant is marked for the slot. -/
def bindColorSlot (c1 : TextureCache) (index : Nat) (surface_view : Nat × Option View) :
    TextureCache :=
  let c2 :=
    match (c1.render_targets index).target with
    | some old => c1.modify old (fun s => s.MarkAsRenderTarget false NO_RT)
    | none => c1
  let slot : FramebufferTargetInfo := { target := some surface_view.1, view := surface_view.2 }
  let c3 := { c2 with render_targets := Function.update c2.render_targets index slot }
  c3.modify surface_view.1 (fun s => s.MarkAsRenderTarget true index)

/-- The end of `GetDepthBufferSurface`: the same steps on the depth slot, with the mark
`DEPTH_RT`. -/
def bindDepthSlot (c1 : TextureCache) (surface_view : Nat × Option View) : TextureCache :=
  let c2 :=
    match c1.depth_buffer.target with
    | some old => c1.modify old (fun s => s.MarkAsRenderTarget false NO_RT)
    | none => c1
  let c3 := { c2 with depth_buffer := { target := some surface_view.1, view := surface_view.2 } }
  c3.modify surface_view.1 (fun s => s.MarkAsRenderTarget true DEPTH_RT)

/-- A relation between a state and a later state that every elementary step of the cache
respects: the relation is reflexive and transitive and holds across `Unregister`,
`Register`, `GetUncachedSurface`, a write to the trace of outgoing calls, a
modification stamp with a freshly drawn tick, and the overlap query. -/
structure FrameRel (B : Backend) (R : TextureCache → TextureCache → Prop) : Prop where
  same : ∀ c, R c c
  andThen : ∀ c d e, R c d → R d e → R c e
  unregister : ∀ c s, R c (c.Unregister s)
  register : ∀ c n, R c (Register B c n)
  uncached : ∀ c gpu_addr params, R c (GetUncachedSurface B c gpu_addr params).1
  trace : ∀ (c : TextureCache) (ev : List Event), R c { c with events := ev }
  stamp : ∀ (c : TextureCache) (n : Nat) (m : Bool),
    R c (c.Tick.1.modify n (fun s => s.MarkAsModified m c.Tick.2))
  region : ∀ (c : TextureCache) (addr size : Nat), R c (c.GetSurfacesInRegion addr size).1

/-- The heap `h2` differs from the heap `h1` at most in the picked marks. -/
def PickOnly (h1 h2 : Nat → Surface) : Prop :=
  ∀ s, { h2 s with is_picked := false } = { h1 s with is_picked := false }

/-- The state `d` has the sampled set and the sampler guard of `c`. -/
def SamplingKept (c d : TextureCache) : Prop :=
  d.sampled_textures = c.sampled_textures ∧ d.guard_samplers = c.guard_samplers

/-- No surface carries a tick above the counter, and two different surfaces carry the same
tick only if it is `0`, the tick of a surface the cache has never stamped. -/
def TicksInv (c : TextureCache) : Prop :=
  (∀ s, (c.surfaces s).modification_tick ≤ c.ticks) ∧
  (∀ s t, s ≠ t → (c.surfaces s).modification_tick = (c.surfaces t).modification_tick →
    (c.surfaces s).modification_tick = 0)

/-- Every tick found in `d` is the tick the surface had in `c`, or `0` (a new object), or
a tick drawn between `c` and `d`. -/
def Fresh (c d : TextureCache) : Prop :=
  ∀ s, (d.surfaces s).modification_tick = (c.surfaces s).modification_tick ∨
    (d.surfaces s).modification_tick = 0 ∨
    (c.ticks < (d.surfaces s).modification_tick ∧ (d.surfaces s).modification_tick ≤ d.ticks)

/-- Between `c` and `d` the counter has been incremented once for each of the
`d.ticks_drawn - c.ticks_drawn` calls of `Tick()` made in between (modulo `2 ^ 64`), and
when these increments did not wrap the counter around, every stamp written in between
used one of the ticks drawn in between and `TicksInv` is carried over. -/
def Advances (c d : TextureCache) : Prop :=
  c.ticks_drawn ≤ d.ticks_drawn ∧
  d.ticks % 2 ^ 64 = (c.ticks + (d.ticks_drawn - c.ticks_drawn)) % 2 ^ 64 ∧
  (c.ticks + (d.ticks_drawn - c.ticks_drawn) < 2 ^ 64 →
    d.ticks = c.ticks + (d.ticks_drawn - c.ticks_drawn) ∧ Fresh c d ∧
      (TicksInv c → TicksInv d))

/-- An `erase(end())` recorded in `c` is still recorded in `d`; and a created surface `s` that
is registered and shielded by the render-target guard in `c` is still created,
registered and shielded in `d`, and, when no `erase(end())` has been executed up to
`d`, sits in every page bucket it sat in. -/
def ShieldKept (s : Nat) (c d : TextureCache) : Prop :=
  (c.erased_end = true → d.erased_end = true) ∧
  ((s < c.num_surfaces ∧ c.Shielded s = true ∧ (c.surfaces s).is_registered = true) →
    (s < d.num_surfaces ∧ d.Shielded s = true ∧ (d.surfaces s).is_registered = true ∧
      (d.erased_end = false → ∀ p, s ∈ c.registry p → s ∈ d.registry p)))

/-- A call of the public interface of the cache, with the values the call reads from its
arguments; `WriteRegisters` is the command processor rewriting the `Maxwell3D` state
(registers and dirty flags) from outside. -/
inductive Op
  | InvalidateRegion (addr size : Nat)
  | FlushRegion (addr size : Nat)
  | GuardRenderTargets (new_guard : Bool)
  | GuardSamplers (new_guard : Bool)
  | GetTextureSurface (gpu_addr : Nat) (params : SurfaceParams)
  | GetImageSurface (gpu_addr : Nat) (params : SurfaceParams)
  | TextureBarrier
  | GetDepthBufferSurface (preserve_contents : Bool)
  | GetColorBufferSurface (index : Nat) (preserve_contents : Bool)
  | MarkColorBufferInUse (index : Nat)
  | MarkDepthBufferInUse
  | SetEmptyDepthBuffer
  | SetEmptyColorBuffer (index : Nat)
  | DoFermiCopy (src_gpu_addr : Nat) (src_params : SurfaceParams) (dst_gpu_addr : Nat)
      (dst_params : SurfaceParams)
  | WriteRegisters (maxwell3d : Maxwell3D)

/-- The state after one call of the public interface (a `DoFermiCopy` that dereferences a
null surface leaves no state behind; the state before the call is kept). -/
def applyOp (B : Backend) (c : TextureCache) : Op → TextureCache
  | Op.InvalidateRegion addr size => c.InvalidateRegion addr size
  | Op.FlushRegion addr size => c.FlushRegion addr size
  | Op.GuardRenderTargets new_guard => c.GuardRenderTargets new_guard
  | Op.GuardSamplers new_guard => c.GuardSamplers new_guard
  | Op.GetTextureSurface gpu_addr params => (GetTextureSurface B c gpu_addr params).1
  | Op.GetImageSurface gpu_addr params => (GetImageSurface B c gpu_addr params).1
  | Op.TextureBarrier => c.TextureBarrier.1
  | Op.GetDepthBufferSurface preserve_contents => (GetDepthBufferSurface B c preserve_contents).1
  | Op.GetColorBufferSurface index preserve_contents =>
    (GetColorBufferSurface B c index preserve_contents).1
  | Op.MarkColorBufferInUse index => c.MarkColorBufferInUse index
  | Op.MarkDepthBufferInUse => c.MarkDepthBufferInUse
  | Op.SetEmptyDepthBuffer => c.SetEmptyDepthBuffer
  | Op.SetEmptyColorBuffer index => c.SetEmptyColorBuffer index
  | Op.DoFermiCopy src_gpu_addr src_params dst_gpu_addr dst_params =>
    (DoFermiCopy B c src_gpu_addr src_params dst_gpu_addr dst_params).getD c
  | Op.WriteRegisters maxwell3d => { c with maxwell3d := maxwell3d }

/-- The state after a sequence of calls of the public interface. -/
def run (B : Backend) (c : TextureCache) (ops : List Op) : TextureCache :=
  ops.foldl (applyOp B) c

/-- The sum of the deltas of the page-count notifications in `events` that were sent for the
range `(cpu_addr, size)`. -/
def netPages (events : List Event) (cpu_addr size : Nat) : Int :=
  (events.map (fun e =>
    match e with
    | Event.UpdatePagesCachedCount a n delta => if a = cpu_addr ∧ n = size then delta else 0
    | _ => 0)).sum

end TextureCache

end VideoCommon

namespace VideoCommon
namespace Example

/-- Bytes per block of a format in the example backend: 2, 4 and 8 for the depth/colour
sibling pairs, 16 for every other (block-compressed) format. -/
def bytesPerBlock : PixelFormat → Nat
  | PixelFormat.Z16 => 2
  | PixelFormat.R16U => 2
  | PixelFormat.Z32F => 4
  | PixelFormat.R32F => 4
  | PixelFormat.Z32FS8 => 8
  | PixelFormat.RG32F => 8
  | PixelFormat.Other _ => 16
  | PixelFormat.Invalid => 0

/-- Block edge, in texels, of a format in the example backend: `Other n` is a compressed
format with `n × n` blocks, every named format has one texel per block. -/
def blockEdge : PixelFormat → Nat
  | PixelFormat.Other n => max n 1
  | _ => 1

/-- Byte size of mip level `level` in the example backend (linear layout, one layer). -/
def mipSize (p : SurfaceParams) (level : Nat) : Nat :=
  let w := max 1 (p.width >>> level)
  let h := max 1 (p.height >>> level)
  ((w + blockEdge p.pixel_format - 1) / blockEdge p.pixel_format) *
    ((h + blockEdge p.pixel_format - 1) / blockEdge p.pixel_format) * bytesPerBlock p.pixel_format

/-- Byte offset of mip level `level` in the example backend. -/
def mipOffset (p : SurfaceParams) (level : Nat) : Nat :=
  ((List.range level).map (mipSize p)).sum

/-- The mip level of `s` that starts at guest address `addr`, in the example backend. -/
def locateMip (s : Surface) (addr : Nat) : Option (Nat × Nat) :=
  ((List.range s.params.num_levels).find? (fun l => s.gpu_addr + mipOffset s.params l == addr)).map
    (fun l => (0, l))

/-- An example backend: the first `2 ^ 40` bytes of the GPU address space are mapped, by
the identity, and nothing else is; linear mip chains; topology decided by bytes per
block, tiling and compression; views carved at whole mip levels. -/
def backend : Backend :=
  { use_accurate_gpu_emulation := false
    GetPointer := fun a => if a < 2 ^ 40 then a else 0
    GpuToCpuAddress := fun a => if a < 2 ^ 40 then some a else none
    IsBlockContinuous := fun _ _ => true
    GetGuestSizeInBytes := fun p => mipOffset p p.num_levels
    ConvertWidth := fun w src dst => (w * blockEdge dst + blockEdge src - 1) / blockEdge src
    ConvertHeight := fun h src dst => (h * blockEdge dst + blockEdge src - 1) / blockEdge src
    IntersectWidth := fun a b _ _ => min a.width b.width
    IntersectHeight := fun a b _ _ => min a.height b.height
    IsPixelFormatZeta := fun p =>
      decide (p.pixel_format = PixelFormat.Z16) || decide (p.pixel_format = PixelFormat.Z32F) ||
        decide (p.pixel_format = PixelFormat.Z32FS8)
    MatchesTopology := fun p q =>
      if bytesPerBlock p.pixel_format = bytesPerBlock q.pixel_format ∧ p.is_tiled = q.is_tiled then
        if decide (1 < blockEdge p.pixel_format) = decide (1 < blockEdge q.pixel_format) then
          MatchTopologyResult.FullMatch
        else MatchTopologyResult.CompressUnmatch
      else MatchTopologyResult.None
    MatchesStructure := fun p q =>
      if p.width = q.width ∧ p.height = q.height ∧ p.depth = q.depth ∧
          p.num_levels = q.num_levels then
        MatchStructureResult.FullMatch
      else MatchStructureResult.None
    EmplaceView := fun s view_params view_addr candidate_size =>
      if s.params.target = SurfaceTarget.Texture3D ∨
          (s.params.num_levels = 1 ∧ s.params.is_layered = false) ∨
          view_params.target = SurfaceTarget.Texture3D then none
      else
        match locateMip s view_addr with
        | some (_, mipmap) => if mipSize s.params mipmap = candidate_size then some mipmap else none
        | none => none
    GetLayerMipmap := locateMip
    GetMipmapSize := fun s level => mipSize s.params level
    BreakDown := fun _ _ => [] }

/-- A 2D texture shape of the example scenarios. -/
def texture (width height num_levels : Nat) (pixel_format : PixelFormat) : SurfaceParams :=
  { is_tiled := true, is_layered := false, block_width := 0, block_height := 0, block_depth := 0,
    width := width, height := height, depth := 1, num_levels := num_levels,
    pixel_format := pixel_format, component_type := 0, type := 0,
    target := SurfaceTarget.Texture2D }

/-- The `Maxwell3D` state of the example scenarios: nothing dirty, no render target set. -/
def maxwell3d : Maxwell3D :=
  { dirty_depth_buffer := false
    dirty_render_target := fun _ => false
    dirty_render_settings := false
    rt_control_count := 0
    rt := fun _ => { address := 0, format_none := true, params := texture 0 0 0 PixelFormat.Invalid }
    zeta_address := 0
    zeta_enable := false
    zeta_params := texture 0 0 0 PixelFormat.Invalid }

/-- A `Maxwell3D` state whose colour slot 0 is dirty and configured as a one-slice render
target at `0x100000`. -/
def renderSetup : Maxwell3D :=
  { maxwell3d with
      dirty_render_target := fun i => decide (i = 0)
      rt_control_count := 1
      rt := fun _ =>
        { address := 0x100000, format_none := false,
          params := { texture 4 4 1 PixelFormat.R16U with block_depth := 1 } } }

/-- The cache after one fresh surface (a 4×4 `Z16` texture with two mip levels) has been
initialised at `0x100000`. -/
def oneSurface : TextureCache :=
  (TextureCache.InitializeSurface backend (TextureCache.init maxwell3d) 0x100000
    (texture 4 4 2 PixelFormat.Z16) false).1

/-- The cache after a texture with two mip levels of a compressed format with 4×4 blocks
has been sampled at `0x100000`. -/
def compressedSampled : TextureCache :=
  (TextureCache.GetTextureSurface backend (TextureCache.init maxwell3d) 0x100000
    (texture 9 9 2 (PixelFormat.Other 4))).1

/-- The cache after, in addition, mip level 1 of that texture (at `0x100090`) has been
sampled under a compressed format with 8×8 blocks. -/
def mirageRecycled : TextureCache :=
  (TextureCache.GetTextureSurface backend compressedSampled 0x100090
    (texture 4 4 1 (PixelFormat.Other 8))).1

/-- The cache after a `Z16` texture with two mip levels has been resolved at `0x100000`. -/
def depthResolved : TextureCache :=
  (TextureCache.GetSurface backend (TextureCache.init maxwell3d) 0x100000
    (texture 4 4 2 PixelFormat.Z16) true false).1

/-- The cache after that texture has been invalidated. -/
def depthInvalidated : TextureCache :=
  depthResolved.InvalidateRegion 0x100000 0x1000

/-- The cache after, following the invalidation, an `R32F` texture has been resolved at
the same address. -/
def colourOverParked : TextureCache :=
  (TextureCache.GetSurface backend depthInvalidated 0x100000
    (texture 4 4 1 PixelFormat.R32F) true false).1

/-- The cache after colour slot 0 has been resolved as a render target. -/
def targetBound : TextureCache :=
  (TextureCache.GetColorBufferSurface backend (TextureCache.init renderSetup) 0 true).1

/-- The cache after the render target has been bound and the render-target guard enabled. -/
def targetGuarded : TextureCache :=
  targetBound.GuardRenderTargets true

/-- The cache after the render target has been bound, invalidated (guard off) and the guard
enabled afterwards. -/
def targetParked : TextureCache :=
  (targetBound.InvalidateRegion 0x100000 0x1000).GuardRenderTargets true

/-- The cache `oneSurface` after its surface has been stamped as modified with a fresh
tick (what `MarkAsModified(true, Tick())` does to a surface that was drawn to). -/
def oneModified : TextureCache :=
  (oneSurface.Tick.1).modify 0 (fun s => s.MarkAsModified true oneSurface.Tick.2)

/-- The cache after one surface object has been created and not yet registered. -/
def oneCreated : TextureCache :=
  (TextureCache.CreateSurface backend (TextureCache.init maxwell3d) 0x100000
    (texture 4 4 2 PixelFormat.Z16)).1

/-- The example backend with accurate GPU emulation enabled. -/
def accurateBackend : Backend :=
  { backend with use_accurate_gpu_emulation := true }

/-- The cache after a one-layer array texture (4×4 `R16U`, one mip level, layered) has been
initialised at `0x100000`. -/
def layeredSurface : TextureCache :=
  (TextureCache.InitializeSurface backend (TextureCache.init maxwell3d) 0x100000
    { texture 4 4 1 PixelFormat.R16U with is_layered := true } false).1

/-- The cache after a 4×4 `R16U` texture with four mip levels has been initialised at
`0x100000` (mip level 1 starts at `0x100020`). -/
def mipChain : TextureCache :=
  (TextureCache.InitializeSurface backend (TextureCache.init maxwell3d) 0x100000
    (texture 4 4 4 PixelFormat.R16U) false).1

/-- A `Maxwell3D` state whose depth slot is dirty and configured as a 4×4 `Z16` buffer at
`0x200000`. -/
def depthSetup : Maxwell3D :=
  { maxwell3d with
      dirty_depth_buffer := true
      zeta_address := 0x200000
      zeta_enable := true
      zeta_params := texture 4 4 1 PixelFormat.Z16 }

/-- The cache after colour slot 0 has been resolved and the registers of the slot have then
been rewritten from outside: same address, an `R32F` shape, dirty flag set. -/
def targetRetargeted : TextureCache :=
  { targetBound with
      maxwell3d :=
        { targetBound.maxwell3d with
            dirty_render_target := fun i => decide (i = 0)
            rt := fun _ =>
              { address := 0x100000, format_none := false,
                params := texture 4 4 1 PixelFormat.R32F } } }

end Example
end VideoCommon

namespace VideoCommon
namespace TextureCache

/-- The test of `TryReconstructSurface` that sends the request to recycle: the overlap is
layered or has more than one mip level. -/
def overlapUnfit (c : TextureCache) (surface : Nat) : Bool :=
  (c.surfaces surface).params.is_layered || decide (1 < (c.surfaces surface).params.num_levels)

/-- The match test of `TryReconstructSurface`: the GPU address of the overlap locates a layer
and mip level of the candidate `new_surface`, and the byte size of the overlap is the
candidate's byte size of that mip level. -/
def overlapMatches (B : Backend) (c : TextureCache) (new_surface surface : Nat) : Bool :=
  match B.GetLayerMipmap (c.surfaces new_surface) (c.surfaces surface).gpu_addr with
  | none => false
  | some (_, mipmap) =>
    decide (B.GetMipmapSize (c.surfaces new_surface) mipmap =
      (c.surfaces surface).guest_memory_size)

/-- The state `d` has the sibling table of `c`. -/
def TableKept (c d : TextureCache) : Prop := d.siblings_table = c.siblings_table

/-- The part of the registry invariant that every call of the public interface preserves:
each surface sits exactly once in each page bucket its registration walked and in no
other bucket when it is registered, and in no bucket when it is not; no picked mark is
left set; objects that have not been created are not registered; an exact-address
index entry names a registered surface at that cache address; the reserve pool holds
created objects, each under the params it has; the GPU address of a registered surface
translates; and the cache address of a registered surface is the pointer of its GPU
address. -/
structure CacheInv (B : Backend) (c : TextureCache) : Prop where
  count : ∀ s p, (c.registry p).count s =
    if (c.surfaces s).is_registered = true ∧
        p ∈ pageRange (page (c.surfaces s).cache_addr)
          (page (sub64 (c.surfaces s).cache_addr_end 1)) then 1
    else 0
  picked : ∀ s, (c.surfaces s).is_picked = false
  fresh : ∀ s, c.num_surfaces ≤ s → (c.surfaces s).is_registered = false
  index : ∀ a s, c.l1_cache a = some s →
    (c.surfaces s).is_registered = true ∧ (c.surfaces s).cache_addr = a
  reserve : ∀ p s, s ∈ c.surface_reserve p → s < c.num_surfaces
  mapped : ∀ s, (c.surfaces s).is_registered = true →
    B.GetPointer (c.surfaces s).gpu_addr ≠ 0 ∧ B.GpuToCpuAddress (c.surfaces s).gpu_addr ≠ none
  keyed : ∀ p s, s ∈ c.surface_reserve p → (c.surfaces s).params = p
  pointed : ∀ s, (c.surfaces s).is_registered = true →
    (c.surfaces s).cache_addr = B.GetPointer (c.surfaces s).gpu_addr

/-- The outcome `x` of a resolution for `gpu_addr` started in `c`: the invariant holds in the
state reached, no surface object was lost, the surface returned is a created object,
and when `gpu_addr` translates it is registered. -/
def Settled (B : Backend) (gpu_addr : Nat) (c : TextureCache)
    (x : TextureCache × (Nat × Option View)) : Prop :=
  CacheInv B x.1 ∧ c.num_surfaces ≤ x.1.num_surfaces ∧ x.2.1 < x.1.num_surfaces ∧
  (B.GetPointer gpu_addr ≠ 0 → B.GpuToCpuAddress gpu_addr ≠ none →
    (x.1.surfaces x.2.1).is_registered = true)

/-- The params of the surface the mirage path of `GetSurface` rebuilds the overlap into: the
params of the overlap with the requested pixel format and the width and height
converted to it. -/
def mirageParams (B : Backend) (cur_params params : SurfaceParams) : SurfaceParams :=
  { cur_params with
      width := B.ConvertWidth cur_params.width cur_params.pixel_format params.pixel_format
      height := B.ConvertHeight cur_params.height cur_params.pixel_format params.pixel_format
      pixel_format := params.pixel_format }

/-- Slot/mark consistency: an occupied colour slot `i` (below `NumRenderTargets`) holds a
surface marked as render target with index `i`, the occupied depth slot holds a surface
marked with index `DEPTH_RT`, every surface marked as render target is the occupant of
the slot its index names, and only created objects are marked. -/
structure SlotsMarked (c : TextureCache) : Prop where
  colour : ∀ i S, (c.render_targets i).target = some S →
    i < NumRenderTargets ∧ (c.surfaces S).is_target = true ∧ (c.surfaces S).index = i
  depth : ∀ S, c.depth_buffer.target = some S →
    (c.surfaces S).is_target = true ∧ (c.surfaces S).index = DEPTH_RT
  marked : ∀ S, (c.surfaces S).is_target = true →
    ((c.surfaces S).index = DEPTH_RT ∧ c.depth_buffer.target = some S) ∨
    ((c.surfaces S).index < NumRenderTargets ∧
      (c.render_targets (c.surfaces S).index).target = some S)
  created : ∀ S, (c.surfaces S).is_target = true → S < c.num_surfaces

/-- Some surface occupies two slots at once: two colour slots, or a colour slot and the depth
slot. -/
def SlotAliased (c : TextureCache) : Prop :=
  (∃ i, i < NumRenderTargets ∧ ∃ j, j < NumRenderTargets ∧ i ≠ j ∧
    (c.render_targets i).target ≠ none ∧
    (c.render_targets i).target = (c.render_targets j).target) ∨
  (∃ i, i < NumRenderTargets ∧ (c.render_targets i).target ≠ none ∧
    (c.render_targets i).target = c.depth_buffer.target)

instance SlotAliased.decidable (c : TextureCache) : Decidable (SlotAliased c) := by
  unfold SlotAliased; infer_instance

/-- The colour slot index of the call is below `NumRenderTargets` (the `ASSERT` of
`GetColorBufferSurface`). -/
def Op.inRange : Op → Bool
  | Op.GetColorBufferSurface index _ => decide (index < NumRenderTargets)
  | _ => true

/-- The state `d` has the slots of `c`, no surface object was lost, and every surface carries
the render-target mark and index it carried in `c`, or is an object created since, which
is not marked. -/
def MarksKept (c d : TextureCache) : Prop :=
  d.render_targets = c.render_targets ∧ d.depth_buffer = c.depth_buffer ∧
  c.num_surfaces ≤ d.num_surfaces ∧
  ∀ s, ((d.surfaces s).is_target = (c.surfaces s).is_target ∧
      (d.surfaces s).index = (c.surfaces s).index) ∨
    (c.num_surfaces ≤ s ∧ s < d.num_surfaces ∧ (d.surfaces s).is_target = false)

end TextureCache
end VideoCommon

namespace VideoCommon
namespace Example

/-- A `Maxwell3D` state whose colour slot 0 is dirty and configured as a 4×4 `R16U` render
target at `0x100020`. -/
def fragmentSetup : Maxwell3D :=
  { maxwell3d with
      dirty_render_target := fun i => decide (i = 0)
      rt_control_count := 1
      rt := fun _ =>
        { address := 0x100020, format_none := false, params := texture 4 4 1 PixelFormat.R16U } }

/-- The cache after the render target at `0x100020` has been resolved (surface 0) and drawn to,
and a 4×4 `R16U` texture has been sampled at `0x100000` (surface 1): two registered
one-level surfaces of 32 bytes each, the first one modified. -/
def fragments : TextureCache :=
  TextureCache.run backend (TextureCache.init fragmentSetup)
    [TextureCache.Op.GetColorBufferSurface 0 true, TextureCache.Op.MarkColorBufferInUse 0,
      TextureCache.Op.GetTextureSurface 0x100000 (texture 4 4 1 PixelFormat.R16U)]

/-- A `Maxwell3D` state whose colour slots 0 and 1 are dirty and configured with the same
4×4 `R16U` render target at `0x100000`. -/
def aliasSetup : Maxwell3D :=
  { maxwell3d with
      dirty_render_target := fun i => decide (i < 2)
      rt_control_count := 2
      rt := fun _ =>
        { address := 0x100000, format_none := false, params := texture 4 4 1 PixelFormat.R16U } }

/-- The cache after colour slot 0 and then colour slot 1 have been resolved with those
registers. -/
def aliasedSlots : TextureCache :=
  TextureCache.run backend (TextureCache.init aliasSetup)
    [TextureCache.Op.GetColorBufferSurface 0 true, TextureCache.Op.GetColorBufferSurface 1 true]

/-- The example backend with a hole: the GPU address `0x100000` has no host pointer. -/
def holedBackend : Backend :=
  { backend with GetPointer := fun a => if a = 0x100000 then 0 else backend.GetPointer a }

/-- The cache of the holed backend after a 2×2 `R16U` texture (8 bytes) has been initialised
at `0x100020`. -/
def tailFragment : TextureCache :=
  (TextureCache.InitializeSurface holedBackend (TextureCache.init maxwell3d) 0x100020
    (texture 2 2 1 PixelFormat.R16U) false).1

end Example
end VideoCommon

namespace VideoCommon
namespace TextureCache

/-- The registry invariant without its flag-to-index direction: every registered surface
sits, once, in exactly the buckets of the pages its range touches; an exact-address
index entry names a registered surface at that cache address (a registered surface
need not be the entry at its address: a surface registered later at the same address
replaces it); objects that have not been created yet are not registered. -/
structure RegistryCore (c : TextureCache) extends BucketsExact c : Prop where
  buckets_nodup : ∀ p, (c.registry p).Nodup
  index : ∀ s a, c.l1_cache a = some s →
    ((c.surfaces s).is_registered = true ∧ (c.surfaces s).cache_addr = a)
  fresh : ∀ s, c.num_surfaces ≤ s → (c.surfaces s).is_registered = false

/-- Where the surface `n` that a resolution returns comes from, relative to the state `c` the
resolution started in and the overlaps `L` it found: `n` is one of the overlaps, or an
object created during the resolution, or a surface that was unregistered in `c`. -/
def Origin (c : TextureCache) (L : List Nat) (n : Nat) : Prop :=
  n ∈ L ∨ c.num_surfaces ≤ n ∨ (c.surfaces n).is_registered = false

end TextureCache
end VideoCommon

namespace VideoCommon
namespace Example

/-- The cache after colour slot 0 has been bound, the render-target guard enabled and a 4×4
`R32F` texture sampled at the address of the bound render target: the protected
surface 0 is still registered and surface 1 is registered at the same address and
has replaced it in the exact-address index. -/
def guardCollided : TextureCache :=
  TextureCache.run backend (TextureCache.init renderSetup)
    [TextureCache.Op.GetColorBufferSurface 0 true, TextureCache.Op.GuardRenderTargets true,
      TextureCache.Op.GetTextureSurface 0x100000 (texture 4 4 1 PixelFormat.R32F)]

/-- The cache `guardCollided` after the render-target guard has been switched off again: the
render target (surface 0) and the texture (surface 1) are registered at the same
address, neither is shielded, and the exact-address entry names surface 1. -/
def guardReleased : TextureCache :=
  TextureCache.run backend (TextureCache.init renderSetup)
    [TextureCache.Op.GetColorBufferSurface 0 true, TextureCache.Op.GuardRenderTargets true,
      TextureCache.Op.GetTextureSurface 0x100000 (texture 4 4 1 PixelFormat.R32F),
      TextureCache.Op.GuardRenderTargets false]

/-- The cache after colour slot 0 has been bound, the guard enabled, a `Texture3D` request made
at the address of the bound render target, the render target drawn to, and the guard
switched off again: the 2D render target (surface 0) is registered at that address,
modified and not shielded, and the exact-address entry names the 3D surface 1. -/
def volumeOverTarget : TextureCache :=
  TextureCache.run backend (TextureCache.init renderSetup)
    [TextureCache.Op.GetColorBufferSurface 0 true, TextureCache.Op.GuardRenderTargets true,
      TextureCache.Op.GetTextureSurface 0x100000
        { texture 4 4 1 PixelFormat.R16U with target := SurfaceTarget.Texture3D },
      TextureCache.Op.MarkColorBufferInUse 0, TextureCache.Op.GuardRenderTargets false]

/-- The cache after a two-level compressed texture (8×8 blocks, 208 bytes) whose bytes
straddle the boundary of pages 1 and 2 has been sampled at `0x1FFF60`. -/
def straddlingAlone : TextureCache :=
  TextureCache.run backend (TextureCache.init maxwell3d)
    [TextureCache.Op.GetTextureSurface 0x1FFF60 (texture 18 18 2 (PixelFormat.Other 8))]

/-- The state in which, on the request for mip level 1 of that texture under a format with
2×2 blocks, `RebuildSurface` hands over to line 719: surface 0 has been unregistered, and
the rebuilt surface (5×5, two levels, 160 bytes) is registered on page 1 only. -/
def straddlingAloneRebuilt : TextureCache :=
  (TextureCache.RebuildSurface backend straddlingAlone 0
    (TextureCache.mirageParams backend (straddlingAlone.surfaces 0).params
      (texture 4 4 1 (PixelFormat.Other 2))) false).1

/-- The cache after the straddling texture has been sampled at `0x1FFF60` and a small texture
on page 2 at `0x200100`. -/
def straddling : TextureCache :=
  TextureCache.run backend (TextureCache.init maxwell3d)
    [TextureCache.Op.GetTextureSurface 0x1FFF60 (texture 18 18 2 (PixelFormat.Other 8)),
      TextureCache.Op.GetTextureSurface 0x200100 (texture 4 4 1 PixelFormat.R16U)]

/-- The state in which, on the request for mip level 1 of the straddling texture under a
format with 2×2 blocks, `RebuildSurface` hands over to line 719. -/
def straddlingRebuilt : TextureCache :=
  (TextureCache.RebuildSurface backend straddling 0
    (TextureCache.mirageParams backend (straddling.surfaces 0).params
      (texture 4 4 1 (PixelFormat.Other 2))) false).1

/-- The cache after that request has returned. -/
def straddlingRecycled : TextureCache :=
  TextureCache.run backend (TextureCache.init maxwell3d)
    [TextureCache.Op.GetTextureSurface 0x1FFF60 (texture 18 18 2 (PixelFormat.Other 8)),
      TextureCache.Op.GetTextureSurface 0x200100 (texture 4 4 1 PixelFormat.R16U),
      TextureCache.Op.GetTextureSurface 0x1FFFF0 (texture 4 4 1 (PixelFormat.Other 2))]

/-- The cache after a two-level `Z16` texture (40 bytes) has been sampled at `0x100000` and a
one-level `R16U` texture (32 bytes) at `0x100040`. -/
def twoTextures : TextureCache :=
  TextureCache.run backend (TextureCache.init maxwell3d)
    [TextureCache.Op.GetTextureSurface 0x100000 (texture 4 4 2 PixelFormat.Z16),
      TextureCache.Op.GetTextureSurface 0x100040 (texture 4 4 1 PixelFormat.R16U)]

/-- The cache after a two-level `Z16` texture (40 bytes) has been sampled at `0x100010`. -/
def shiftedTexture : TextureCache :=
  TextureCache.run backend (TextureCache.init maxwell3d)
    [TextureCache.Op.GetTextureSurface 0x100010 (texture 4 4 2 PixelFormat.Z16)]

end Example
end VideoCommon

namespace VideoCommon
namespace TextureCache

/-- The params `RebuildSurface(current_surface, params, is_render)` hands to
`GetUncachedSurface` (lines 483-491): the requested params, but with the pixel format,
component type and type of the current surface when the formats differ, the request is
not for a render target and the requested format is the sibling of the current one. -/
def rebuildParams (c : TextureCache) (current_surface : Nat) (params : SurfaceParams)
    (is_render : Bool) : SurfaceParams :=
  if decide ((c.surfaces current_surface).params.pixel_format ≠ params.pixel_format) &&
      !is_render &&
      decide (c.GetSiblingFormat (c.surfaces current_surface).params.pixel_format =
        params.pixel_format) then
    { params with
        pixel_format := (c.surfaces current_surface).params.pixel_format
        component_type := (c.surfaces current_surface).params.component_type
        type := (c.surfaces current_surface).params.type }
  else params

/-- The outcome `x` of a resolution for `gpu_addr` and `params` is the main view of a surface
that has the requested params and is the exact-address entry at the request's cache
address. -/
def Resolved (B : Backend) (gpu_addr : Nat) (params : SurfaceParams)
    (x : TextureCache × (Nat × Option View)) : Prop :=
  x.2.2 = some (View.main x.2.1) ∧ x.1.l1_cache (B.GetPointer gpu_addr) = some x.2.1 ∧
    (x.1.surfaces x.2.1).params = params

/-- What a resolution started in `c` can come to: it leaves the state as it was; or it returns
the main view of a surface that is the exact-address entry at the request's cache
address and has the requested params or, after a rebuild of the exact-address entry `S`
of `c`, the params `rebuildParams c S params is_render`; or it returns a view carved out
of the surface returned, the one `EmplaceView` gives for the request on that surface. -/
def Outcome (B : Backend) (gpu_addr : Nat) (params : SurfaceParams) (is_render : Bool)
    (c : TextureCache) (x : TextureCache × (Nat × Option View)) : Prop :=
  x.1 = c ∨
  (x.2.2 = some (View.main x.2.1) ∧ x.1.l1_cache (B.GetPointer gpu_addr) = some x.2.1 ∧
    ((x.1.surfaces x.2.1).params = params ∨
      ∃ S, c.l1_cache (B.GetPointer gpu_addr) = some S ∧
        (x.1.surfaces x.2.1).params = rebuildParams c S params is_render)) ∨
  (∃ view, x.2.2 = some (View.carved x.2.1 view) ∧
    B.EmplaceView (x.1.surfaces x.2.1) params gpu_addr (B.GetGuestSizeInBytes params) =
      some view)

end TextureCache
end VideoCommon

namespace VideoCommon

namespace TextureCache

/-! ## The overlap walk and the registry -/

theorem Surface_set_picked_false (x : Surface) (h : x.is_picked = false) :
    { x with is_picked := false } = x := by
  cases x; simp_all

theorem Surface_set_picked_twice (x : Surface) (h : x.is_picked = false) :
    { ({ x with is_picked := true } : Surface) with is_picked := false } = x := by
  cases x; simp_all

theorem pickSurface_mark (h : Nat → Surface) (hp : ∀ s, (h s).is_picked = false) (a e : Nat)
    (acc : List Nat) (s : Nat) :
    pickSurface a e (markPicked h acc, acc) s
      = (markPicked h (pickList h a e acc s), pickList h a e acc s) := by
  unfold pickSurface pickList markPicked
  by_cases hs : s ∈ acc
  · simp [hs]
  · simp only [hs, if_false, not_false_eq_true, true_and]
    by_cases ho : (h s).Overlaps a e = true
    · have ho2 : Surface.Overlaps (h s) a e = true := ho
      simp only [hp s, Surface.Overlaps] at ho2 ⊢
      simp only [Surface.Overlaps] at ho
      simp [ho, hp s]
      funext t
      by_cases hts : t = s
      · subst hts; simp [hs]
      · simp [Function.update_noteq hts, hts]
    · simp only [Surface.Overlaps] at ho
      simp [Surface.Overlaps, ho, hp s]

theorem foldl_pickSurface_mark (h : Nat → Surface) (hp : ∀ s, (h s).is_picked = false) (a e : Nat)
    (l : List Nat) (acc : List Nat) :
    l.foldl (pickSurface a e) (markPicked h acc, acc)
      = (markPicked h (l.foldl (pickList h a e) acc), l.foldl (pickList h a e) acc) := by
  induction l generalizing acc with
  | nil => rfl
  | cons s rest ih => simp only [List.foldl_cons, pickSurface_mark h hp, ih]

theorem foldl_pickList_nodup (h : Nat → Surface) (a e : Nat) (l : List Nat) (acc : List Nat)
    (hacc : acc.Nodup) : (l.foldl (pickList h a e) acc).Nodup := by
  induction l generalizing acc with
  | nil => exact hacc
  | cons s rest ih =>
    simp only [List.foldl_cons]
    apply ih
    unfold pickList
    split
    · rename_i hc
      exact List.Nodup.append hacc (List.nodup_singleton s) (by simpa using hc.1)
    · exact hacc

theorem mem_foldl_pickList (h : Nat → Surface) (a e : Nat) (l : List Nat) (acc : List Nat) (t : Nat) :
    t ∈ l.foldl (pickList h a e) acc ↔ t ∈ acc ∨ (t ∈ l ∧ (h t).Overlaps a e = true) := by
  induction l generalizing acc with
  | nil => simp
  | cons s rest ih =>
    simp only [List.foldl_cons, ih, List.mem_cons]
    unfold pickList
    split
    · rename_i hc
      simp only [List.mem_append, List.mem_singleton]
      constructor
      · rintro ((h1 | h1) | h1)
        · exact Or.inl h1
        · exact Or.inr ⟨Or.inl h1, h1 ▸ hc.2⟩
        · exact Or.inr ⟨Or.inr h1.1, h1.2⟩
      · rintro (h1 | ⟨h1 | h1, h2⟩)
        · exact Or.inl (Or.inl h1)
        · exact Or.inl (Or.inr h1)
        · exact Or.inr ⟨h1, h2⟩
    · rename_i hc
      constructor
      · rintro (h1 | h1)
        · exact Or.inl h1
        · exact Or.inr ⟨Or.inr h1.1, h1.2⟩
      · rintro (h1 | ⟨h1 | h1, h2⟩)
        · exact Or.inl h1
        · subst h1
          by_cases hm : t ∈ acc
          · exact Or.inl hm
          · exact absurd ⟨hm, h2⟩ hc
        · exact Or.inr ⟨h1, h2⟩

theorem walk_mark (c : TextureCache) (hp : ∀ s, (c.surfaces s).is_picked = false) (a e : Nat)
    (ps : List Nat) (acc : List Nat) :
    ps.foldl (fun acc p => (c.registry p).foldl (pickSurface a e) acc)
        (markPicked c.surfaces acc, acc)
      = (markPicked c.surfaces (walkList c a e ps acc), walkList c a e ps acc) := by
  induction ps generalizing acc with
  | nil => rfl
  | cons p rest ih =>
    simp only [List.foldl_cons, walkList, foldl_pickSurface_mark c.surfaces hp]
    exact ih _

theorem walkList_nodup (c : TextureCache) (a e : Nat) (ps : List Nat) (acc : List Nat)
    (hacc : acc.Nodup) : (walkList c a e ps acc).Nodup := by
  induction ps generalizing acc with
  | nil => exact hacc
  | cons p rest ih =>
    simp only [walkList, List.foldl_cons]
    exact ih _ (foldl_pickList_nodup _ _ _ _ _ hacc)

theorem mem_walkList (c : TextureCache) (a e : Nat) (ps : List Nat) (acc : List Nat) (t : Nat) :
    t ∈ walkList c a e ps acc ↔
      t ∈ acc ∨ ((∃ p ∈ ps, t ∈ c.registry p) ∧ (c.surfaces t).Overlaps a e = true) := by
  induction ps generalizing acc with
  | nil => simp [walkList]
  | cons p rest ih =>
    have ih2 := ih ((c.registry p).foldl (pickList c.surfaces a e) acc)
    simp only [walkList, List.foldl_cons] at ih2 ⊢
    rw [ih2, mem_foldl_pickList]
    simp only [List.mem_cons, exists_eq_or_imp]
    tauto

theorem foldl_unmark (l : List Nat) (h : Nat → Surface) (t : Nat) :
    (l.foldl (fun h surface => Function.update h surface { h surface with is_picked := false }) h) t
      = if t ∈ l then { h t with is_picked := false } else h t := by
  induction l generalizing h with
  | nil => simp
  | cons s rest ih =>
    simp only [List.foldl_cons, ih, List.mem_cons]
    by_cases hts : t = s
    · subst hts; simp
    · simp [hts, Function.update_noteq hts]

theorem unmark_markPicked (h : Nat → Surface) (hp : ∀ s, (h s).is_picked = false) (l : List Nat) :
    l.foldl (fun h surface => Function.update h surface { h surface with is_picked := false })
      (markPicked h l) = h := by
  funext t
  rw [foldl_unmark]
  unfold markPicked
  split
  · exact Surface_set_picked_twice _ (hp t)
  · rfl

theorem page_mono {a b : Nat} (h : a ≤ b) : page a ≤ page b := by
  unfold page
  rw [Nat.shiftRight_eq_div_pow, Nat.shiftRight_eq_div_pow]
  exact Nat.div_le_div_right h

theorem mem_pageRange (s e p : Nat) : p ∈ pageRange s e ↔ s ≤ p ∧ p ≤ e := by
  unfold pageRange
  rw [List.mem_range'_1]
  omega

theorem sub64_one {x : Nat} (h0 : 0 < x) (h : x < 2 ^ 64) : sub64 x 1 = x - 1 := by
  unfold sub64
  have : x + 2 ^ 64 - 1 % 2 ^ 64 = (x - 1) + 2 ^ 64 := by
    have : (1 : Nat) % 2 ^ 64 = 1 := by norm_num
    rw [this]; omega
  rw [this, Nat.add_mod_right, Nat.mod_eq_of_lt (by omega)]

theorem add64_of_lt {a b : Nat} (h : a + b < 2 ^ 64) : add64 a b = a + b := by
  unfold add64; exact Nat.mod_eq_of_lt h

theorem GetSurfacesInRegion_eq (c : TextureCache) (hp : ∀ s, (c.surfaces s).is_picked = false)
    (addr size : Nat) (hsize : size ≠ 0) :
    c.GetSurfacesInRegion addr size =
      (c, walkList c addr (add64 addr size)
        (pageRange (page addr) (page (sub64 (add64 addr size) 1))) []) := by
  unfold GetSurfacesInRegion
  simp only [hsize, if_false]
  have hm : (c.surfaces, ([] : List Nat)) = (markPicked c.surfaces [], []) := by
    congr 1
  rw [hm, walk_mark c hp]
  simp only [unmark_markPicked c.surfaces hp]

theorem overlaps_iff (x : Surface) (a e : Nat) :
    x.Overlaps a e = true ↔ (x.cache_addr < e ∧ a < x.cache_addr_end) := by
  simp [Surface.Overlaps]

theorem mem_GetSurfacesInRegion (c : TextureCache) (hinv : c.BucketsExact) (addr size : Nat)
    (hsize : 0 < size) (hwrap : addr + size < 2 ^ 64) (s : Nat) :
    s ∈ (c.GetSurfacesInRegion addr size).2 ↔
      ((c.surfaces s).is_registered = true ∧
        (c.surfaces s).cache_addr < addr + size ∧ addr < (c.surfaces s).cache_addr_end) := by
  rw [GetSurfacesInRegion_eq c hinv.picked addr size (by omega)]
  simp only [mem_walkList, List.not_mem_nil, false_or, overlaps_iff, add64_of_lt hwrap,
    sub64_one (by omega : 0 < addr + size) hwrap, mem_pageRange, hinv.buckets]
  constructor
  · rintro ⟨⟨p, _, hreg, _, _⟩, h1, h2⟩
    exact ⟨hreg, h1, h2⟩
  · rintro ⟨hreg, h1, h2⟩
    have hr := hinv.ranges s hreg
    refine ⟨⟨page (max addr (c.surfaces s).cache_addr), ⟨page_mono (le_max_left _ _),
      page_mono ?_⟩, hreg, page_mono (le_max_right _ _), page_mono ?_⟩, h1, h2⟩
    · rcases le_total addr (c.surfaces s).cache_addr with h | h
      · rw [max_eq_right h]; omega
      · rw [max_eq_left h]; omega
    · rcases le_total addr (c.surfaces s).cache_addr with h | h
      · rw [max_eq_right h]; omega
      · rw [max_eq_left h]; omega

theorem foldl_registry (g : List Nat → List Nat) (ps : List Nat) (c : TextureCache) :
    ps.foldl (fun acc p => { acc with registry := Function.update acc.registry p (g (acc.registry p)) }) c
      = { c with registry := mapBuckets g ps c.registry } := by
  induction ps generalizing c with
  | nil => rfl
  | cons p rest ih => simp only [List.foldl_cons, ih, mapBuckets]

theorem mapBuckets_apply (g : List Nat → List Nat) (ps : List Nat) (hn : ps.Nodup)
    (r : Nat → List Nat) (q : Nat) :
    mapBuckets g ps r q = if q ∈ ps then g (r q) else r q := by
  induction ps generalizing r with
  | nil => simp [mapBuckets]
  | cons p rest ih =>
    have hp : p ∉ rest := (List.nodup_cons.mp hn).1
    have hrest : rest.Nodup := (List.nodup_cons.mp hn).2
    have := ih hrest (Function.update r p (g (r p)))
    simp only [mapBuckets, List.foldl_cons] at this ⊢
    rw [this]
    by_cases hq : q = p
    · subst hq; simp [hp]
    · simp [hq, Function.update_noteq hq]

theorem pageRange_nodup (s e : Nat) : (pageRange s e).Nodup := by
  unfold pageRange; exact List.nodup_range' _ _

theorem RegisterInnerCache_eq (c : TextureCache) (s : Nat) :
    c.RegisterInnerCache s =
      { c with
          l1_cache := Function.update c.l1_cache (c.surfaces s).cache_addr (some s)
          registry := mapBuckets (fun l => l ++ [s])
            (pageRange (page (c.surfaces s).cache_addr) (page (sub64 (c.surfaces s).cache_addr_end 1)))
            c.registry } := by
  exact foldl_registry (fun l => l ++ [s]) _ _

theorem any_congr_mem {L : List Nat} {f g : Nat → Bool} (h : ∀ s ∈ L, f s = g s) :
    L.any f = L.any g := by
  induction L with
  | nil => rfl
  | cons a rest ih =>
    rw [List.any_cons, List.any_cons, h a (List.mem_cons_self _ _),
      ih (fun s hs => h s (List.mem_cons_of_mem _ hs))]

theorem foldl_erase (s : Nat) (ps : List Nat) (hn : ps.Nodup) (c : TextureCache) :
    ps.foldl
        (fun acc p =>
          { acc with
              registry := Function.update acc.registry p ((acc.registry p).erase s)
              erased_end := acc.erased_end || !decide (s ∈ acc.registry p) })
        c =
      { c with
          registry := mapBuckets (fun l => l.erase s) ps c.registry
          erased_end := c.erased_end || ps.any (fun p => !decide (s ∈ c.registry p)) } := by
  induction ps generalizing c with
  | nil => simp [mapBuckets]
  | cons p rest ih =>
    have hp : p ∉ rest := (List.nodup_cons.mp hn).1
    have hrest : rest.Nodup := (List.nodup_cons.mp hn).2
    have hany : rest.any (fun q => !decide (s ∈ Function.update c.registry p ((c.registry p).erase s) q)) =
        rest.any (fun q => !decide (s ∈ c.registry q)) := by
      apply any_congr_mem
      intro q hq
      have hqp : q ≠ p := fun h => hp (h ▸ hq)
      simp only [Function.update_noteq hqp]
    simp only [List.foldl_cons, ih hrest, mapBuckets, List.any_cons, hany, Bool.or_assoc]

theorem UnregisterInnerCache_eq (c : TextureCache) (s : Nat) :
    c.UnregisterInnerCache s =
      { c with
          l1_cache := Function.update c.l1_cache (c.surfaces s).cache_addr none
          registry := mapBuckets (fun l => l.erase s)
            (pageRange (page (c.surfaces s).cache_addr) (page (sub64 (c.surfaces s).cache_addr_end 1)))
            c.registry
          erased_end := c.erased_end || c.erasesEnd s } := by
  exact foldl_erase s _ (pageRange_nodup _ _) _

theorem Register_eq (B : Backend) (c : TextureCache) (s : Nat) (cpu_addr : Nat)
    (hptr : B.GetPointer (c.surfaces s).gpu_addr ≠ 0)
    (hcpu : B.GpuToCpuAddress (c.surfaces s).gpu_addr = some cpu_addr) :
    Register B c s =
      { c with
          surfaces := Function.update c.surfaces s
            (registeredSurface B (c.surfaces s) (B.GetPointer (c.surfaces s).gpu_addr) cpu_addr)
          l1_cache := Function.update c.l1_cache (B.GetPointer (c.surfaces s).gpu_addr) (some s)
          registry := mapBuckets (fun l => l ++ [s])
            (pageRange (page (B.GetPointer (c.surfaces s).gpu_addr))
              (page (sub64 (add64 (B.GetPointer (c.surfaces s).gpu_addr)
                (c.surfaces s).guest_memory_size) 1)))
            c.registry
          events := c.events ++
            [Event.UpdatePagesCachedCount cpu_addr (c.surfaces s).guest_memory_size 1] } := by
  unfold Register
  simp only [hptr, if_false, hcpu, RegisterInnerCache_eq, modify, Function.update_same,
    Function.update_idem, Surface.SetCacheAddr, registeredSurface]

theorem Register_of_null (B : Backend) (c : TextureCache) (s : Nat)
    (hptr : B.GetPointer (c.surfaces s).gpu_addr = 0) : Register B c s = c := by
  unfold Register; simp [hptr]

theorem Register_of_unmapped (B : Backend) (c : TextureCache) (s : Nat)
    (hcpu : B.GpuToCpuAddress (c.surfaces s).gpu_addr = none) : Register B c s = c := by
  unfold Register; simp [hcpu]

theorem Unregister_of_shielded (c : TextureCache) (s : Nat) (h : c.Shielded s = true) :
    c.Unregister s = c := by
  unfold Shielded at h
  unfold Unregister; simp [h]

theorem Unregister_eq (c : TextureCache) (s : Nat) (h : c.Shielded s = false) :
    c.Unregister s =
      { c with
          surfaces := Function.update c.surfaces s { c.surfaces s with is_registered := false }
          l1_cache := Function.update c.l1_cache (c.surfaces s).cache_addr none
          registry := mapBuckets (fun l => l.erase s)
            (pageRange (page (c.surfaces s).cache_addr)
              (page (sub64 (c.surfaces s).cache_addr_end 1)))
            c.registry
          surface_reserve := Function.update c.surface_reserve (c.surfaces s).params
            (c.surface_reserve (c.surfaces s).params ++ [s])
          maxwell3d := c.unregisterDirty s
          events := c.events ++
            [Event.UpdatePagesCachedCount (c.surfaces s).cpu_addr (c.surfaces s).guest_memory_size (-1)]
          erased_end := c.erased_end || c.erasesEnd s } := by
  unfold Shielded at h
  unfold Unregister unregisterDirty
  simp only [h, Bool.false_eq_true, if_false]
  by_cases ht : (!c.guard_render_targets && (c.surfaces s).is_target) = true
  · simp only [ht, if_true, UnregisterInnerCache_eq, modify, ReserveSurface,
      ManageRenderTargetUnregister, Function.update_same, erasesEnd]
  · simp only [ht, if_false, UnregisterInnerCache_eq, modify, ReserveSurface,
      Function.update_same, Bool.false_eq_true, erasesEnd]

theorem Unregister_inv (c : TextureCache) (hinv : c.RegistryInv) (s : Nat)
    (hreg : (c.surfaces s).is_registered = true) (hs : c.Shielded s = false) :
    (c.Unregister s).RegistryInv := by
  have hr := hinv.ranges s hreg
  have hsub : sub64 (c.surfaces s).cache_addr_end 1 = (c.surfaces s).cache_addr_end - 1 :=
    sub64_one (by omega) hr.2
  rw [Unregister_eq c s hs, hsub]
  refine { buckets := ?_, ranges := ?_, picked := ?_, buckets_nodup := ?_, index := ?_,
           fresh := ?_ }
  · intro t p
    simp only [mapBuckets_apply _ _ (pageRange_nodup _ _), mem_pageRange]
    by_cases hts : t = s
    · subst hts
      simp only [Function.update_same, Bool.false_eq_true, false_and, iff_false]
      split
      · intro hm
        exact absurd hm (List.Nodup.not_mem_erase (hinv.buckets_nodup p))
      · rename_i hnp
        intro hm
        exact hnp ((hinv.buckets t p).mp hm).2
    · simp only [Function.update_noteq hts]
      split
      · rw [List.mem_erase_of_ne hts]; exact hinv.buckets t p
      · exact hinv.buckets t p
  · intro t
    by_cases hts : t = s
    · subst hts; simp
    · simp only [Function.update_noteq hts]; exact hinv.ranges t
  · intro t
    by_cases hts : t = s
    · subst hts; simp only [Function.update_same]; exact hinv.picked t
    · simp only [Function.update_noteq hts]; exact hinv.picked t
  · intro p
    simp only [mapBuckets_apply _ _ (pageRange_nodup _ _)]
    split
    · exact List.Nodup.erase _ (hinv.buckets_nodup p)
    · exact hinv.buckets_nodup p
  · intro t a
    by_cases hts : t = s
    · subst hts
      simp only [Function.update_same, Bool.false_eq_true, false_and, iff_false]
      by_cases ha : a = (c.surfaces t).cache_addr
      · subst ha; simp
      · simp only [Function.update_noteq ha]
        intro hl
        exact ha ((hinv.index t a).mp hl).2.symm
    · simp only [Function.update_noteq hts]
      by_cases ha : a = (c.surfaces s).cache_addr
      · subst ha
        simp only [Function.update_same]
        constructor
        · intro h; cases h
        · intro h
          have h1 := (hinv.index t _).mpr h
          have h2 := (hinv.index s _).mpr ⟨hreg, rfl⟩
          rw [h1] at h2
          exact absurd (Option.some.inj h2) hts
      · simp only [Function.update_noteq ha]; exact hinv.index t a
  · intro t ht
    by_cases hts : t = s
    · subst hts; simp
    · simp only [Function.update_noteq hts]; exact hinv.fresh t ht

theorem Unregister_surfaces (c : TextureCache) (s t : Nat) :
    (c.Unregister s).surfaces t =
      if t = s ∧ c.Shielded s = false then { c.surfaces t with is_registered := false }
      else c.surfaces t := by
  cases hs : c.Shielded s
  · rw [Unregister_eq c s hs]
    by_cases hts : t = s
    · subst hts; simp
    · simp [hts, Function.update_noteq hts]
  · rw [Unregister_of_shielded c s hs]; simp

theorem Unregister_guard (c : TextureCache) (s : Nat) :
    (c.Unregister s).guard_render_targets = c.guard_render_targets := by
  cases hs : c.Shielded s
  · rw [Unregister_eq c s hs]
  · rw [Unregister_of_shielded c s hs]

theorem Unregister_events (c : TextureCache) (s : Nat) :
    (c.Unregister s).events = c.events ∨
      (c.Unregister s).events = c.events ++
        [Event.UpdatePagesCachedCount (c.surfaces s).cpu_addr (c.surfaces s).guest_memory_size (-1)] := by
  cases hs : c.Shielded s
  · rw [Unregister_eq c s hs]; exact Or.inr rfl
  · rw [Unregister_of_shielded c s hs]; exact Or.inl rfl

theorem Unregister_shielded_other (c : TextureCache) (s t : Nat) :
    (c.Unregister s).Shielded t = c.Shielded t := by
  unfold Shielded
  rw [Unregister_guard, Unregister_surfaces]
  split <;> rfl

theorem foldl_Unregister (L : List Nat) (c : TextureCache) (hinv : c.RegistryInv) (hn : L.Nodup)
    (hreg : ∀ s ∈ L, (c.surfaces s).is_registered = true) :
    (L.foldl Unregister c).RegistryInv ∧
    (L.foldl Unregister c).guard_render_targets = c.guard_render_targets ∧
    (∀ t, (L.foldl Unregister c).surfaces t =
      if t ∈ L ∧ c.Shielded t = false then { c.surfaces t with is_registered := false }
      else c.surfaces t) ∧
    (∀ e, e ∈ (L.foldl Unregister c).events →
      e ∈ c.events ∨ ∃ a b, e = Event.UpdatePagesCachedCount a b (-1)) := by
  induction L generalizing c with
  | nil => exact ⟨hinv, rfl, fun t => by simp, fun e he => Or.inl he⟩
  | cons s rest ih =>
    have hsn : s ∉ rest := (List.nodup_cons.mp hn).1
    have hrn : rest.Nodup := (List.nodup_cons.mp hn).2
    have hsreg := hreg s (List.mem_cons_self _ _)
    have hinv1 : (c.Unregister s).RegistryInv := by
      cases hs : c.Shielded s
      · exact Unregister_inv c hinv s hsreg hs
      · rw [Unregister_of_shielded c s hs]; exact hinv
    have hreg1 : ∀ t ∈ rest, ((c.Unregister s).surfaces t).is_registered = true := by
      intro t ht
      have hts : t ≠ s := fun h => hsn (h ▸ ht)
      rw [Unregister_surfaces]
      simp only [hts, false_and, if_false]
      exact hreg t (List.mem_cons_of_mem _ ht)
    obtain ⟨h1, h2, h3, h4⟩ := ih (c.Unregister s) hinv1 hrn hreg1
    simp only [List.foldl_cons]
    refine ⟨h1, h2.trans (Unregister_guard c s), ?_, ?_⟩
    · intro t
      rw [h3 t, Unregister_shielded_other, Unregister_surfaces]
      by_cases hts : t = s
      · subst hts
        simp only [hsn, false_and, if_false, true_and, List.mem_cons, true_or]
      · simp only [hts, false_and, if_false, List.mem_cons, false_or]
    · intro e he
      rcases h4 e he with h | h
      · rcases Unregister_events c s with h5 | h5
        · rw [h5] at h; exact Or.inl h
        · rw [h5, List.mem_append, List.mem_singleton] at h
          rcases h with h | h
          · exact Or.inl h
          · exact Or.inr ⟨_, _, h⟩
      · exact Or.inr h

end TextureCache

end VideoCommon

namespace VideoCommon

namespace TextureCache

/-! ## Preservation of the registry invariant -/

theorem RegistryInv_of_same (c d : TextureCache) (hinv : c.RegistryInv)
    (hnum : d.num_surfaces = c.num_surfaces)
    (hreg : d.registry = c.registry) (hl1 : d.l1_cache = c.l1_cache)
    (h1 : ∀ s, (d.surfaces s).is_registered = (c.surfaces s).is_registered)
    (h2 : ∀ s, (d.surfaces s).cache_addr = (c.surfaces s).cache_addr)
    (h3 : ∀ s, (d.surfaces s).cache_addr_end = (c.surfaces s).cache_addr_end)
    (h4 : ∀ s, (d.surfaces s).is_picked = (c.surfaces s).is_picked) : d.RegistryInv := by
  refine { buckets := ?_, ranges := ?_, picked := ?_, buckets_nodup := ?_, index := ?_,
           fresh := ?_ }
  · intro s p; rw [hreg, h1, h2, h3]; exact hinv.buckets s p
  · intro s; rw [h1, h2, h3]; exact hinv.ranges s
  · intro s; rw [h4]; exact hinv.picked s
  · intro p; rw [hreg]; exact hinv.buckets_nodup p
  · intro s a; rw [hl1, h1, h2]; exact hinv.index s a
  · intro s hs; rw [h1]; exact hinv.fresh s (hnum ▸ hs)

theorem init_inv (m : Maxwell3D) : (init m).RegistryInv := by
  refine { buckets := ?_, ranges := ?_, picked := ?_, buckets_nodup := ?_, index := ?_,
           fresh := ?_ } <;>
    simp [init, unallocated]

theorem not_mem_bucket_of_unregistered (c : TextureCache) (hinv : c.BucketsExact) (s p : Nat)
    (h : (c.surfaces s).is_registered = false) : s ∉ c.registry p := by
  intro hm
  have := ((hinv.buckets s p).mp hm).1
  rw [h] at this; cases this

theorem Register_inv (B : Backend) (c : TextureCache) (hinv : c.RegistryInv) (s cpu_addr : Nat)
    (hlt : s < c.num_surfaces)
    (hun : (c.surfaces s).is_registered = false)
    (hptr : B.GetPointer (c.surfaces s).gpu_addr ≠ 0)
    (hcpu : B.GpuToCpuAddress (c.surfaces s).gpu_addr = some cpu_addr)
    (hfree : c.l1_cache (B.GetPointer (c.surfaces s).gpu_addr) = none)
    (hsize : 0 < (c.surfaces s).guest_memory_size)
    (hwrap : B.GetPointer (c.surfaces s).gpu_addr + (c.surfaces s).guest_memory_size < 2 ^ 64) :
    (Register B c s).RegistryInv := by
  have hend : add64 (B.GetPointer (c.surfaces s).gpu_addr) (c.surfaces s).guest_memory_size
      = B.GetPointer (c.surfaces s).gpu_addr + (c.surfaces s).guest_memory_size :=
    add64_of_lt hwrap
  have hsub : sub64 (B.GetPointer (c.surfaces s).gpu_addr + (c.surfaces s).guest_memory_size) 1
      = B.GetPointer (c.surfaces s).gpu_addr + (c.surfaces s).guest_memory_size - 1 :=
    sub64_one (by omega) hwrap
  rw [Register_eq B c s cpu_addr hptr hcpu, hend, hsub]
  refine { buckets := ?_, ranges := ?_, picked := ?_, buckets_nodup := ?_, index := ?_,
           fresh := ?_ }
  · intro t p
    simp only [mapBuckets_apply _ _ (pageRange_nodup _ _), mem_pageRange]
    by_cases hts : t = s
    · subst hts
      simp only [Function.update_same, registeredSurface, true_and, hend]
      split
      · rename_i hp; simp [hp]
      · rename_i hp
        constructor
        · intro hm
          exact absurd hm (not_mem_bucket_of_unregistered c hinv.toBucketsExact t p hun)
        · intro h; exact absurd h hp
    · simp only [Function.update_noteq hts]
      split
      · rw [List.mem_append, List.mem_singleton]
        simp only [hts, or_false]; exact hinv.buckets t p
      · exact hinv.buckets t p
  · intro t
    by_cases hts : t = s
    · subst hts
      simp only [Function.update_same, registeredSurface, hend]
      intro _; omega
    · simp only [Function.update_noteq hts]; exact hinv.ranges t
  · intro t
    by_cases hts : t = s
    · subst hts; simp only [Function.update_same, registeredSurface]; exact hinv.picked t
    · simp only [Function.update_noteq hts]; exact hinv.picked t
  · intro p
    simp only [mapBuckets_apply _ _ (pageRange_nodup _ _)]
    split
    · exact List.Nodup.append (hinv.buckets_nodup p) (List.nodup_singleton s)
        (by simpa using not_mem_bucket_of_unregistered c hinv.toBucketsExact s p hun)
    · exact hinv.buckets_nodup p
  · intro t a
    by_cases hts : t = s
    · subst hts
      simp only [Function.update_same, registeredSurface, true_and]
      by_cases ha : a = B.GetPointer (c.surfaces t).gpu_addr
      · subst ha; simp
      · simp only [Function.update_noteq ha]
        constructor
        · intro hl
          have := ((hinv.index t a).mp hl).1
          rw [hun] at this; cases this
        · intro h; exact absurd h.symm ha
    · simp only [Function.update_noteq hts]
      by_cases ha : a = B.GetPointer (c.surfaces s).gpu_addr
      · subst ha
        simp only [Function.update_same]
        constructor
        · intro h; exact absurd (Option.some.inj h).symm hts
        · intro h
          have h1 := (hinv.index t _).mpr h
          rw [hfree] at h1; cases h1
      · simp only [Function.update_noteq ha]; exact hinv.index t a
  · intro t ht
    have hts : t ≠ s := by intro h; subst h; exact absurd hlt (Nat.not_lt.mpr ht)
    simp only [Function.update_noteq hts]; exact hinv.fresh t ht

theorem find_reserved_unregistered (c : TextureCache) (params : SurfaceParams) (s : Nat)
    (h : c.TryGetReservedSurface params = some s) :
    (c.surfaces s).is_registered = false ∧ s ∈ c.surface_reserve params := by
  unfold TryGetReservedSurface at h
  have h1 := List.find?_some h
  have h2 := List.mem_of_find?_eq_some h
  simp only [Bool.not_eq_eq_eq_not, Bool.not_true] at h1
  exact ⟨h1, h2⟩

theorem GetUncachedSurface_reserved (B : Backend) (c : TextureCache) (gpu_addr : Nat)
    (params : SurfaceParams) (s : Nat) (h : c.TryGetReservedSurface params = some s) :
    GetUncachedSurface B c gpu_addr params =
      (c.modify s (fun x => { x with gpu_addr := gpu_addr }), s) := by
  unfold GetUncachedSurface; rw [h]

theorem GetUncachedSurface_created (B : Backend) (c : TextureCache) (gpu_addr : Nat)
    (params : SurfaceParams) (h : c.TryGetReservedSurface params = none) :
    GetUncachedSurface B c gpu_addr params = CreateSurface B c gpu_addr params := by
  unfold GetUncachedSurface; rw [h]

theorem GetUncachedSurface_inv (B : Backend) (c : TextureCache) (hinv : c.RegistryInv)
    (hres : ∀ p, ∀ s ∈ c.surface_reserve p, s < c.num_surfaces)
    (gpu_addr : Nat) (params : SurfaceParams) :
    (GetUncachedSurface B c gpu_addr params).1.RegistryInv ∧
      (GetUncachedSurface B c gpu_addr params).2 <
        (GetUncachedSurface B c gpu_addr params).1.num_surfaces ∧
      (((GetUncachedSurface B c gpu_addr params).1.surfaces
        (GetUncachedSurface B c gpu_addr params).2).is_registered = false) ∧
      (((GetUncachedSurface B c gpu_addr params).1.surfaces
        (GetUncachedSurface B c gpu_addr params).2).gpu_addr = gpu_addr) ∧
      (GetUncachedSurface B c gpu_addr params).1.l1_cache = c.l1_cache ∧
      (GetUncachedSurface B c gpu_addr params).1.registry = c.registry := by
  cases hr : c.TryGetReservedSurface params with
  | some s =>
    obtain ⟨hun, hmem⟩ := find_reserved_unregistered c params s hr
    rw [GetUncachedSurface_reserved B c gpu_addr params s hr]
    refine ⟨?_, hres params s hmem, ?_, ?_, rfl, rfl⟩
    · refine RegistryInv_of_same c _ hinv ?_ ?_ ?_ ?_ ?_ ?_ ?_
      · rfl
      · rfl
      · rfl
      all_goals
        intro t
        by_cases hts : t = s <;> simp [modify, hts, Function.update_noteq]
    · simp [modify, hun]
    · simp [modify]
  | none =>
    have hfresh := hinv.fresh c.num_surfaces (Nat.le_refl _)
    rw [GetUncachedSurface_created B c gpu_addr params hr]
    refine ⟨?_, Nat.lt_succ_self _, ?_, ?_, rfl, rfl⟩
    · refine { buckets := ?_, ranges := ?_, picked := ?_, buckets_nodup := ?_, index := ?_,
               fresh := ?_ }
      · intro t p
        by_cases hts : t = c.num_surfaces
        · subst hts
          simp only [CreateSurface, newSurface, Function.update_same, Bool.false_eq_true,
            false_and, iff_false]
          exact not_mem_bucket_of_unregistered c hinv.toBucketsExact _ p hfresh
        · simp only [CreateSurface, Function.update_noteq hts]; exact hinv.buckets t p
      · intro t
        by_cases hts : t = c.num_surfaces
        · subst hts; simp [CreateSurface, newSurface]
        · simp only [CreateSurface, Function.update_noteq hts]; exact hinv.ranges t
      · intro t
        by_cases hts : t = c.num_surfaces
        · subst hts; simp [CreateSurface, newSurface]
        · simp only [CreateSurface, Function.update_noteq hts]; exact hinv.picked t
      · exact hinv.buckets_nodup
      · intro t a
        by_cases hts : t = c.num_surfaces
        · subst hts
          simp only [CreateSurface, newSurface, Function.update_same, Bool.false_eq_true,
            false_and, iff_false]
          intro hl
          have := ((hinv.index _ a).mp hl).1
          rw [hfresh] at this; cases this
        · simp only [CreateSurface, Function.update_noteq hts]; exact hinv.index t a
      · intro t ht
        have ht2 : c.num_surfaces + 1 ≤ t := ht
        have hts : t ≠ c.num_surfaces := by omega
        simp only [CreateSurface, Function.update_noteq hts]
        exact hinv.fresh t (by omega)
    · simp [CreateSurface, newSurface]
    · simp [CreateSurface, newSurface]

end TextureCache

end VideoCommon

namespace VideoCommon

namespace TextureCache

/-! ## Overlap queries -/

theorem GetSurfacesInRegion_state (c : TextureCache) (hp : ∀ s, (c.surfaces s).is_picked = false)
    (addr size : Nat) : (c.GetSurfacesInRegion addr size).1 = c := by
  by_cases hsize : size = 0
  · simp [GetSurfacesInRegion, hsize]
  · rw [GetSurfacesInRegion_eq c hp addr size hsize]

theorem GetSurfacesInRegion_nodup (c : TextureCache) (hp : ∀ s, (c.surfaces s).is_picked = false)
    (addr size : Nat) : (c.GetSurfacesInRegion addr size).2.Nodup := by
  by_cases hsize : size = 0
  · simp [GetSurfacesInRegion, hsize]
  · rw [GetSurfacesInRegion_eq c hp addr size hsize]
    exact walkList_nodup c _ _ _ [] List.nodup_nil

theorem rangesIntersect_iff {a1 e1 a2 e2 : Nat} (h1 : a1 < e1) (h2 : a2 < e2) :
    RangesIntersect a1 e1 a2 e2 ↔ (a1 < e2 ∧ a2 < e1) := by
  unfold RangesIntersect
  rw [max_lt_iff, lt_min_iff, lt_min_iff]
  constructor
  · rintro ⟨⟨_, h⟩, ⟨h', _⟩⟩; exact ⟨h, h'⟩
  · rintro ⟨h, h'⟩; exact ⟨⟨h1, h⟩, ⟨h', h2⟩⟩

theorem mem_GetSurfacesInRegion_iff (c : TextureCache) (hinv : c.BucketsExact) (addr size : Nat)
    (hwrap : addr + size < 2 ^ 64) (s : Nat) :
    s ∈ (c.GetSurfacesInRegion addr size).2 ↔
      ((c.surfaces s).is_registered = true ∧
        RangesIntersect (c.surfaces s).cache_addr (c.surfaces s).cache_addr_end addr (addr + size)) := by
  by_cases hsize : size = 0
  · subst hsize
    simp only [GetSurfacesInRegion, if_true, List.not_mem_nil, false_iff, not_and]
    intro _ h
    unfold RangesIntersect at h
    rw [max_lt_iff, lt_min_iff, lt_min_iff] at h
    omega
  · rw [mem_GetSurfacesInRegion c hinv addr size (by omega) hwrap]
    constructor
    · rintro ⟨hreg, h1, h2⟩
      exact ⟨hreg, (rangesIntersect_iff (hinv.ranges s hreg).1 (by omega)).mpr ⟨h1, h2⟩⟩
    · rintro ⟨hreg, h⟩
      have := (rangesIntersect_iff (hinv.ranges s hreg).1 (by omega)).mp h
      exact ⟨hreg, this.1, this.2⟩

/-- C2: overlap-query completeness. In a state where every registered surface sits in exactly
the buckets of the pages its (non-empty) range touches and no picked mark is left
set, a query `(addr, size)` with `size > 0` that does not wrap the address space
returns each registered surface whose range intersects `[addr, addr + size)`
exactly once and nothing else, and leaves the state (picked marks included) as it
was; when exactly two registered surfaces `A` and `B` intersect the query, the
result is `{A, B}`, each once. -/
theorem GetSurfacesInRegion_complete (c : TextureCache) (hinv : c.BucketsExact) (addr size : Nat)
    (hsize : 0 < size) (hwrap : addr + size < 2 ^ 64) :
    (c.GetSurfacesInRegion addr size).1 = c ∧
    (c.GetSurfacesInRegion addr size).2.Nodup ∧
    (∀ s, s ∈ (c.GetSurfacesInRegion addr size).2 ↔
      ((c.surfaces s).is_registered = true ∧
        RangesIntersect (c.surfaces s).cache_addr (c.surfaces s).cache_addr_end
          addr (addr + size))) ∧
    (∀ A B, A ≠ B →
      (∀ s, ((c.surfaces s).is_registered = true ∧
          RangesIntersect (c.surfaces s).cache_addr (c.surfaces s).cache_addr_end
            addr (addr + size)) ↔ (s = A ∨ s = B)) →
      (c.GetSurfacesInRegion addr size).2.Perm [A, B]) := by
  have hsz : 0 < size := hsize
  refine ⟨GetSurfacesInRegion_state c hinv.picked addr size,
    GetSurfacesInRegion_nodup c hinv.picked addr size,
    mem_GetSurfacesInRegion_iff c hinv addr size hwrap, ?_⟩
  intro A B hAB hex
  rw [List.perm_ext_iff_of_nodup (GetSurfacesInRegion_nodup c hinv.picked addr size)
    (by simp [hAB])]
  intro s
  rw [mem_GetSurfacesInRegion_iff c hinv addr size hwrap, hex s]
  simp

end TextureCache

end VideoCommon

namespace VideoCommon

namespace TextureCache

/-! ## Register followed by Unregister -/

theorem Register_shielded (B : Backend) (c : TextureCache) (s t : Nat) :
    (Register B c s).Shielded t = c.Shielded t := by
  by_cases hptr : B.GetPointer (c.surfaces s).gpu_addr = 0
  · rw [Register_of_null B c s hptr]
  · cases hcpu : B.GpuToCpuAddress (c.surfaces s).gpu_addr with
    | none => rw [Register_of_unmapped B c s hcpu]
    | some cpu =>
      rw [Register_eq B c s cpu hptr hcpu]
      by_cases hts : t = s
      · subst hts
        simp [Shielded, registeredSurface, Surface.IsProtected]
      · simp [Shielded, Function.update_noteq hts]

/-- C3 (amended): Register/Unregister round trip. For a state with exact buckets and an
unregistered surface `S` whose GPU address translates (host pointer and CPU
address), when the exact-address index has no entry at `S`'s cache address and
`S` is not shielded by the render-target guard, `Register(S)` followed by
`Unregister(S)` leaves the page buckets and the exact-address index as they were,
leaves `S` unregistered and appends `S` to the reserve list keyed by its params
(the other reserve lists are untouched). -/
theorem Register_Unregister_roundtrip (B : Backend) (c : TextureCache) (s cpu_addr : Nat)
    (hinv : c.BucketsExact)
    (hun : (c.surfaces s).is_registered = false)
    (hptr : B.GetPointer (c.surfaces s).gpu_addr ≠ 0)
    (hcpu : B.GpuToCpuAddress (c.surfaces s).gpu_addr = some cpu_addr)
    (hfree : c.l1_cache (B.GetPointer (c.surfaces s).gpu_addr) = none)
    (hshield : c.Shielded s = false) :
    ((Register B c s).Unregister s).registry = c.registry ∧
    ((Register B c s).Unregister s).l1_cache = c.l1_cache ∧
    (((Register B c s).Unregister s).surfaces s).is_registered = false ∧
    ((Register B c s).Unregister s).surface_reserve (c.surfaces s).params =
      c.surface_reserve (c.surfaces s).params ++ [s] ∧
    (∀ p, p ≠ (c.surfaces s).params →
      ((Register B c s).Unregister s).surface_reserve p = c.surface_reserve p) := by
  have hsh : (Register B c s).Shielded s = false := by rw [Register_shielded]; exact hshield
  rw [Unregister_eq _ s hsh, Register_eq B c s cpu_addr hptr hcpu]
  simp only [Function.update_same, registeredSurface]
  refine ⟨?_, ?_, ?_, ?_, ?_⟩
  · funext q
    simp only [mapBuckets_apply _ _ (pageRange_nodup _ _)]
    split
    · rw [List.erase_append_right _ (not_mem_bucket_of_unregistered c hinv s q hun)]
      simp
    · rfl
  · funext a
    by_cases ha : a = B.GetPointer (c.surfaces s).gpu_addr
    · subst ha; simp [hfree]
    · simp [Function.update_noteq ha]
  · trivial
  · rw [Function.update_same]
    exact Function.update_same _ _ _
  · intro p hp
    rw [Function.update_same]
    exact Function.update_noteq hp _ _

end TextureCache

end VideoCommon

namespace VideoCommon

namespace TextureCache

/-! ## Addresses that fail translation -/

theorem GetUncachedSurface_frame (B : Backend) (c : TextureCache) (gpu_addr : Nat)
    (params : SurfaceParams) :
    (GetUncachedSurface B c gpu_addr params).1.registry = c.registry ∧
    (GetUncachedSurface B c gpu_addr params).1.l1_cache = c.l1_cache ∧
    (GetUncachedSurface B c gpu_addr params).1.events = c.events ∧
    (GetUncachedSurface B c gpu_addr params).1.surface_reserve = c.surface_reserve ∧
    (GetUncachedSurface B c gpu_addr params).1.guard_render_targets = c.guard_render_targets ∧
    (∀ s, s < c.num_surfaces →
      ((GetUncachedSurface B c gpu_addr params).1.surfaces s).is_registered =
        (c.surfaces s).is_registered) := by
  cases hr : c.TryGetReservedSurface params with
  | some n =>
    rw [GetUncachedSurface_reserved B c gpu_addr params n hr]
    refine ⟨rfl, rfl, rfl, rfl, rfl, ?_⟩
    intro s _
    by_cases hs : s = n
    · subst hs; simp [modify]
    · simp [modify, Function.update_noteq hs]
  | none =>
    rw [GetUncachedSurface_created B c gpu_addr params hr]
    refine ⟨rfl, rfl, rfl, rfl, rfl, ?_⟩
    intro s hs
    have hne : s ≠ c.num_surfaces := by omega
    simp [CreateSurface, Function.update_noteq hne]

theorem GetUncachedSurface_result (B : Backend) (c : TextureCache) (gpu_addr : Nat)
    (params : SurfaceParams) :
    ((GetUncachedSurface B c gpu_addr params).1.surfaces
        (GetUncachedSurface B c gpu_addr params).2).gpu_addr = gpu_addr ∧
    ((GetUncachedSurface B c gpu_addr params).1.surfaces
        (GetUncachedSurface B c gpu_addr params).2).is_registered = false ∧
    ((c.surfaces (GetUncachedSurface B c gpu_addr params).2).is_registered = false ∨
      (GetUncachedSurface B c gpu_addr params).2 = c.num_surfaces) := by
  cases hr : c.TryGetReservedSurface params with
  | some n =>
    obtain ⟨hun, _⟩ := find_reserved_unregistered c params n hr
    rw [GetUncachedSurface_reserved B c gpu_addr params n hr]
    simp [modify, hun]
  | none =>
    rw [GetUncachedSurface_created B c gpu_addr params hr]
    simp [CreateSurface, newSurface]

theorem GetUncachedSurface_params (B : Backend) (c : TextureCache) (hres : c.ReserveKeyed)
    (gpu_addr : Nat) (params : SurfaceParams) :
    ((GetUncachedSurface B c gpu_addr params).1.surfaces
        (GetUncachedSurface B c gpu_addr params).2).params = params := by
  cases hr : c.TryGetReservedSurface params with
  | some n =>
    obtain ⟨_, hmem⟩ := find_reserved_unregistered c params n hr
    rw [GetUncachedSurface_reserved B c gpu_addr params n hr]
    simp [modify, (hres params n hmem).2]
  | none =>
    rw [GetUncachedSurface_created B c gpu_addr params hr]
    simp [CreateSurface, newSurface]

theorem GetSurface_of_null (B : Backend) (c : TextureCache) (gpu_addr : Nat)
    (params : SurfaceParams) (preserve_contents is_render : Bool)
    (hnull : B.GetPointer gpu_addr = 0) :
    GetSurface B c gpu_addr params preserve_contents is_render =
      ((GetUncachedSurface B c gpu_addr (dummyParams params)).1,
        ((GetUncachedSurface B c gpu_addr (dummyParams params)).2,
          some (View.main (GetUncachedSurface B c gpu_addr (dummyParams params)).2))) := by
  have hg := (GetUncachedSurface_result B c gpu_addr (dummyParams params)).1
  have hreg := Register_of_null B (GetUncachedSurface B c gpu_addr (dummyParams params)).1
    (GetUncachedSurface B c gpu_addr (dummyParams params)).2 (by rw [hg]; exact hnull)
  unfold GetSurface InitializeSurface
  simp only [hnull, if_true]
  show (if false = true then _ else _, _) = _
  simp only [Bool.false_eq_true, if_false]
  exact Prod.ext hreg rfl

/-- C4: an untranslatable address registers nothing. When the translation of `gpu_addr`
yields the null host pointer, `GetSurface` returns a surface whose params are the
request with `width = height = depth = 1` and `block_height = block_depth = 0`
(reserve lists being keyed by the params of their entries), the page buckets, the
exact-address index and the registered flag of every existing surface are
unchanged, the returned surface is not registered, and the trace of outgoing
calls is unchanged: no page-count notification and no load from guest memory. -/
theorem GetSurface_untranslatable (B : Backend) (c : TextureCache) (gpu_addr : Nat)
    (params : SurfaceParams) (preserve_contents is_render : Bool)
    (hres : c.ReserveKeyed) (hnull : B.GetPointer gpu_addr = 0) :
    ((GetSurface B c gpu_addr params preserve_contents is_render).1.surfaces
      (GetSurface B c gpu_addr params preserve_contents is_render).2.1).params =
        { params with width := 1, height := 1, depth := 1, block_height := 0, block_depth := 0 } ∧
    (GetSurface B c gpu_addr params preserve_contents is_render).1.registry = c.registry ∧
    (GetSurface B c gpu_addr params preserve_contents is_render).1.l1_cache = c.l1_cache ∧
    (∀ s, s < c.num_surfaces →
      ((GetSurface B c gpu_addr params preserve_contents is_render).1.surfaces s).is_registered =
        (c.surfaces s).is_registered) ∧
    ((GetSurface B c gpu_addr params preserve_contents is_render).1.surfaces
      (GetSurface B c gpu_addr params preserve_contents is_render).2.1).is_registered = false ∧
    (GetSurface B c gpu_addr params preserve_contents is_render).1.events = c.events := by
  rw [GetSurface_of_null B c gpu_addr params preserve_contents is_render hnull]
  obtain ⟨h1, h2, h3, _, _, h6⟩ := GetUncachedSurface_frame B c gpu_addr (dummyParams params)
  exact ⟨GetUncachedSurface_params B c hres gpu_addr (dummyParams params), h1, h2, h6,
    (GetUncachedSurface_result B c gpu_addr (dummyParams params)).2.1, h3⟩

/-- C5 (amended): for an address that fails translation, the view component of the pair
returned by `GetSurface` is the main view of the dummy surface it returns (not the
null view). -/
theorem GetSurface_untranslatable_view (B : Backend) (c : TextureCache) (gpu_addr : Nat)
    (params : SurfaceParams) (preserve_contents is_render : Bool)
    (hnull : B.GetPointer gpu_addr = 0) :
    (GetSurface B c gpu_addr params preserve_contents is_render).2.2 =
      some (View.main (GetSurface B c gpu_addr params preserve_contents is_render).2.1) := by
  rw [GetSurface_of_null B c gpu_addr params preserve_contents is_render hnull]

end TextureCache

end VideoCommon

namespace VideoCommon

namespace TextureCache

/-! ## Invalidating a region -/

theorem InvalidateRegion_eq (c : TextureCache) (hp : ∀ s, (c.surfaces s).is_picked = false)
    (addr size : Nat) :
    c.InvalidateRegion addr size = (c.GetSurfacesInRegion addr size).2.foldl Unregister c := by
  have h := GetSurfacesInRegion_state c hp addr size
  unfold InvalidateRegion
  conv_lhs => rw [show c.GetSurfacesInRegion addr size =
    ((c.GetSurfacesInRegion addr size).1, (c.GetSurfacesInRegion addr size).2) from rfl]
  simp only [h]

theorem InvalidateRegion_spec (c : TextureCache) (hinv : c.RegistryInv) (addr size : Nat)
    (hwrap : addr + size < 2 ^ 64) :
    (c.InvalidateRegion addr size).RegistryInv ∧
    (c.InvalidateRegion addr size).guard_render_targets = c.guard_render_targets ∧
    (∀ t, ((c.InvalidateRegion addr size).surfaces t) =
      if ((c.surfaces t).is_registered = true ∧
          RangesIntersect (c.surfaces t).cache_addr (c.surfaces t).cache_addr_end
            addr (addr + size)) ∧ c.Shielded t = false
      then { c.surfaces t with is_registered := false } else c.surfaces t) ∧
    (∀ e, e ∈ (c.InvalidateRegion addr size).events →
      e ∈ c.events ∨ ∃ a b, e = Event.UpdatePagesCachedCount a b (-1)) := by
  rw [InvalidateRegion_eq c hinv.picked]
  have hmem := mem_GetSurfacesInRegion_iff c hinv.toBucketsExact addr size hwrap
  obtain ⟨h1, h2, h3, h4⟩ := foldl_Unregister (c.GetSurfacesInRegion addr size).2 c hinv
    (GetSurfacesInRegion_nodup c hinv.picked addr size) (fun s hs => ((hmem s).mp hs).1)
  refine ⟨h1, h2, ?_, h4⟩
  intro t
  rw [h3 t]
  by_cases hm : t ∈ (c.GetSurfacesInRegion addr size).2
  · have := (hmem t).mp hm
    simp only [hm, this, true_and, and_self]
  · have : ¬ ((c.surfaces t).is_registered = true ∧
        RangesIntersect (c.surfaces t).cache_addr (c.surfaces t).cache_addr_end
          addr (addr + size)) := fun h => hm ((hmem t).mpr h)
    simp only [hm, this, false_and, if_false]

end TextureCache

end VideoCommon

namespace VideoCommon

namespace TextureCache

/-! ## Flushing a region -/

theorem FlushSurface_surfaces_other (c : TextureCache) (s t : Nat) (h : t ≠ s) :
    (c.FlushSurface s).surfaces t = c.surfaces t := by
  unfold FlushSurface
  split
  · rfl
  · simp [Tick, modify, Function.update_noteq h]

theorem FlushSurface_events (c : TextureCache) (s : Nat) :
    (c.FlushSurface s).events =
      c.events ++ (if (c.surfaces s).is_modified then [Event.FlushSurface s] else []) := by
  unfold FlushSurface
  cases h : (c.surfaces s).is_modified <;> simp [Tick, modify]

theorem foldl_FlushSurface (L : List Nat) (hn : L.Nodup) (c : TextureCache) :
    (L.foldl FlushSurface c).events =
        c.events ++ (L.filter (fun s => (c.surfaces s).is_modified)).map Event.FlushSurface ∧
      ∀ t, t ∉ L → (L.foldl FlushSurface c).surfaces t = c.surfaces t := by
  induction L generalizing c with
  | nil => simp
  | cons s rest ih =>
    have hsn : s ∉ rest := (List.nodup_cons.mp hn).1
    obtain ⟨h1, h2⟩ := ih (List.nodup_cons.mp hn).2 (c.FlushSurface s)
    have hfilter : rest.filter (fun t => ((c.FlushSurface s).surfaces t).is_modified)
        = rest.filter (fun t => (c.surfaces t).is_modified) := by
      apply List.filter_congr
      intro t ht
      have hts : t ≠ s := fun h => hsn (h ▸ ht)
      rw [FlushSurface_surfaces_other c s t hts]
    simp only [List.foldl_cons]
    constructor
    · rw [h1, hfilter, FlushSurface_events, List.filter_cons]
      cases (c.surfaces s).is_modified <;> simp
    · intro t ht
      rw [List.mem_cons, not_or] at ht
      rw [h2 t ht.2, FlushSurface_surfaces_other c s t ht.1]

/-- C9: flush order and selection. In a state where every registered surface sits in exactly
the buckets of its pages and distinct modified registered surfaces carry distinct
modification ticks, the calls that `FlushRegion(addr, size)` adds to the trace are
exactly the write-backs of the registered surfaces that intersect the region and
are modified, each once, in strictly ascending order of the ticks they had on
entry; surfaces that are not modified are not written back. -/
theorem FlushRegion_order (c : TextureCache) (hinv : c.BucketsExact) (addr size : Nat)
    (hwrap : addr + size < 2 ^ 64)
    (hticks : ∀ a b, a ≠ b →
      (c.surfaces a).is_registered = true → (c.surfaces a).is_modified = true →
      (c.surfaces b).is_registered = true → (c.surfaces b).is_modified = true →
      (c.surfaces a).modification_tick ≠ (c.surfaces b).modification_tick) :
    ∃ L : List Nat,
      (c.FlushRegion addr size).events = c.events ++ L.map Event.FlushSurface ∧
      L.Nodup ∧
      (∀ s, s ∈ L ↔
        ((c.surfaces s).is_registered = true ∧
          RangesIntersect (c.surfaces s).cache_addr (c.surfaces s).cache_addr_end
            addr (addr + size) ∧
          (c.surfaces s).is_modified = true)) ∧
      L.Pairwise (fun a b =>
        (c.surfaces a).modification_tick < (c.surfaces b).modification_tick) := by
  have hst := GetSurfacesInRegion_state c hinv.picked addr size
  have hnd := GetSurfacesInRegion_nodup c hinv.picked addr size
  have hmem := mem_GetSurfacesInRegion_iff c hinv addr size hwrap
  have hsnd : (sortByTick c (c.GetSurfacesInRegion addr size).2).Nodup :=
    (List.perm_insertionSort (tickLE c) _).nodup_iff.mpr hnd
  have hsorted : (sortByTick c (c.GetSurfacesInRegion addr size).2).Sorted (tickLE c) :=
    List.sorted_insertionSort (tickLE c) _
  have hevents : (c.FlushRegion addr size).events = c.events ++
      ((sortByTick c (c.GetSurfacesInRegion addr size).2).filter
        (fun s => (c.surfaces s).is_modified)).map Event.FlushSurface := by
    unfold FlushRegion
    simp only [hst]
    split
    · rename_i hempty
      rw [List.isEmpty_iff] at hempty
      simp [hempty, sortByTick]
    · exact (foldl_FlushSurface _ hsnd c).1
  have hmemL : ∀ s, s ∈ (sortByTick c (c.GetSurfacesInRegion addr size).2).filter
      (fun s => (c.surfaces s).is_modified) ↔
      ((c.surfaces s).is_registered = true ∧
        RangesIntersect (c.surfaces s).cache_addr (c.surfaces s).cache_addr_end
          addr (addr + size) ∧ (c.surfaces s).is_modified = true) := by
    intro s
    rw [List.mem_filter, sortByTick, List.mem_insertionSort, hmem s, and_assoc]
  refine ⟨_, hevents, hsnd.filter _, hmemL, ?_⟩
  have hpair : ((sortByTick c (c.GetSurfacesInRegion addr size).2).filter
      (fun s => (c.surfaces s).is_modified)).Pairwise
      (fun a b => tickLE c a b ∧ a ≠ b) :=
    (List.Pairwise.and hsorted hsnd).filter _
  have hall := List.Pairwise.and_mem.mp hpair
  refine hall.imp ?_
  rintro a b ⟨ha, hb, hle, hne⟩
  have ha' := (hmemL a).mp ha
  have hb' := (hmemL b).mp hb
  have := hticks a b hne ha'.1 ha'.2.2 hb'.1 hb'.2.2
  unfold tickLE at hle
  omega

end TextureCache

end VideoCommon

namespace VideoCommon

namespace TextureCache

/-! ## Resolution when nothing registered overlaps the candidate -/

theorem GetSurfacesInRegion_of_none (c : TextureCache) (hinv : c.BucketsExact) (addr size : Nat)
    (hwrap : addr + size < 2 ^ 64)
    (hnone : ∀ s, (c.surfaces s).is_registered = true →
      ¬ RangesIntersect (c.surfaces s).cache_addr (c.surfaces s).cache_addr_end addr (addr + size)) :
    c.GetSurfacesInRegion addr size = (c, []) := by
  apply Prod.ext
  · exact GetSurfacesInRegion_state c hinv.picked addr size
  · apply List.eq_nil_iff_forall_not_mem.mpr
    intro s hs
    have := (mem_GetSurfacesInRegion_iff c hinv addr size hwrap s).mp hs
    exact hnone s this.1 this.2

theorem l1_cache_of_none (c : TextureCache) (hinv : c.RegistryInv) (addr size : Nat)
    (hsize : 0 < size)
    (hnone : ∀ s, (c.surfaces s).is_registered = true →
      ¬ RangesIntersect (c.surfaces s).cache_addr (c.surfaces s).cache_addr_end addr (addr + size)) :
    c.l1_cache addr = none := by
  cases h : c.l1_cache addr with
  | none => rfl
  | some s =>
    obtain ⟨hreg, hca⟩ := (hinv.index s addr).mp h
    have hr := hinv.ranges s hreg
    exfalso
    apply hnone s hreg
    rw [rangesIntersect_iff hr.1 (by omega)]
    omega

theorem GetSurface_of_no_overlap (B : Backend) (c : TextureCache) (gpu_addr : Nat)
    (params : SurfaceParams) (preserve_contents is_render : Bool) (hinv : c.RegistryInv)
    (hptr : B.GetPointer gpu_addr ≠ 0) (hsize : 0 < B.GetGuestSizeInBytes params)
    (hwrap : B.GetPointer gpu_addr + B.GetGuestSizeInBytes params < 2 ^ 64)
    (hnone : ∀ s, (c.surfaces s).is_registered = true →
      ¬ RangesIntersect (c.surfaces s).cache_addr (c.surfaces s).cache_addr_end
        (B.GetPointer gpu_addr) (B.GetPointer gpu_addr + B.GetGuestSizeInBytes params)) :
    GetSurface B c gpu_addr params preserve_contents is_render =
      InitializeSurface B c gpu_addr params preserve_contents := by
  have hl1 := l1_cache_of_none c hinv _ _ hsize hnone
  have hq := GetSurfacesInRegion_of_none c hinv.toBucketsExact _ _ hwrap hnone
  unfold GetSurface
  simp only [hptr, if_false, hl1]
  unfold GetSurfaceFromOverlaps
  simp only [hq, List.isEmpty_nil, if_true]

theorem LoadSurface_frame (c : TextureCache) (n : Nat) :
    (c.LoadSurface n).l1_cache = c.l1_cache ∧ (c.LoadSurface n).registry = c.registry ∧
      (∀ s, ((c.LoadSurface n).surfaces s).params = (c.surfaces s).params) := by
  refine ⟨rfl, rfl, ?_⟩
  intro s
  by_cases hs : s = n
  · subst hs; simp [LoadSurface, Tick, modify, Surface.MarkAsModified]
  · simp [LoadSurface, Tick, modify, Function.update_noteq hs]

theorem InitializeSurface_result (B : Backend) (c : TextureCache) (gpu_addr : Nat)
    (params : SurfaceParams) (preserve_contents : Bool) :
    (InitializeSurface B c gpu_addr params preserve_contents).2 =
      ((GetUncachedSurface B c gpu_addr params).2,
        some (View.main (GetUncachedSurface B c gpu_addr params).2)) := by
  unfold InitializeSurface
  rfl

theorem InitializeSurface_post (B : Backend) (c : TextureCache) (hres : c.ReserveKeyed)
    (gpu_addr cpu_addr : Nat) (params : SurfaceParams) (preserve_contents : Bool)
    (hptr : B.GetPointer gpu_addr ≠ 0) (hcpu : B.GpuToCpuAddress gpu_addr = some cpu_addr) :
    (InitializeSurface B c gpu_addr params preserve_contents).1.l1_cache (B.GetPointer gpu_addr) =
      some (InitializeSurface B c gpu_addr params preserve_contents).2.1 ∧
    ((InitializeSurface B c gpu_addr params preserve_contents).1.surfaces
      (InitializeSurface B c gpu_addr params preserve_contents).2.1).params = params := by
  have hg := (GetUncachedSurface_result B c gpu_addr params).1
  have hp := GetUncachedSurface_params B c hres gpu_addr params
  have hreg := Register_eq B (GetUncachedSurface B c gpu_addr params).1
    (GetUncachedSurface B c gpu_addr params).2 cpu_addr (by rw [hg]; exact hptr)
    (by rw [hg]; exact hcpu)
  rw [hg] at hreg
  have h1 : (Register B (GetUncachedSurface B c gpu_addr params).1
      (GetUncachedSurface B c gpu_addr params).2).l1_cache (B.GetPointer gpu_addr) =
      some (GetUncachedSurface B c gpu_addr params).2 := by
    rw [hreg]; simp
  have h2 : ((Register B (GetUncachedSurface B c gpu_addr params).1
      (GetUncachedSurface B c gpu_addr params).2).surfaces
      (GetUncachedSurface B c gpu_addr params).2).params = params := by
    rw [hreg]; simp [registeredSurface, hp]
  rw [InitializeSurface_result]
  unfold InitializeSurface
  cases preserve_contents
  · exact ⟨h1, h2⟩
  · refine ⟨?_, ?_⟩
    · show (LoadSurface _ _).l1_cache _ = _
      rw [(LoadSurface_frame _ _).1]; exact h1
    · show ((LoadSurface _ _).surfaces _).params = _
      rw [(LoadSurface_frame _ _).2.2]; exact h2

theorem GetSurface_exact_hit (B : Backend) (c : TextureCache) (gpu_addr : Nat)
    (params : SurfaceParams) (preserve_contents is_render : Bool) (s : Nat)
    (hptr : B.GetPointer gpu_addr ≠ 0)
    (hl1 : c.l1_cache (B.GetPointer gpu_addr) = some s)
    (hparams : (c.surfaces s).params = params)
    (htop : B.MatchesTopology params params = MatchTopologyResult.FullMatch)
    (hstr : B.MatchesStructure params params = MatchStructureResult.FullMatch) :
    GetSurface B c gpu_addr params preserve_contents is_render =
      (c, (s, some (View.main s))) := by
  unfold GetSurface
  simp only [hptr, if_false, hl1, hparams, htop, hstr]
  simp [ManageStructuralMatch, Surface.MatchFormat, Surface.MatchTarget, hparams]

end TextureCache

end VideoCommon

namespace VideoCommon

namespace TextureCache

/-! ## Invariants of the example states -/

theorem init_reserveKeyed (m : Maxwell3D) : (init m).ReserveKeyed := by
  intro p s hs
  simp [init] at hs

theorem LoadSurface_inv (c : TextureCache) (hinv : c.RegistryInv) (n : Nat) :
    (c.LoadSurface n).RegistryInv := by
  refine RegistryInv_of_same c _ hinv rfl rfl rfl ?_ ?_ ?_ ?_
  all_goals
    intro s
    by_cases hs : s = n
    · subst hs; simp [LoadSurface, Tick, modify, Surface.MarkAsModified]
    · simp [LoadSurface, Tick, modify, Function.update_noteq hs]

theorem InitializeSurface_inv (B : Backend) (c : TextureCache) (hinv : c.RegistryInv)
    (hres : ∀ p, ∀ s ∈ c.surface_reserve p, s < c.num_surfaces)
    (gpu_addr cpu_addr : Nat) (params : SurfaceParams) (preserve_contents : Bool)
    (hptr : B.GetPointer gpu_addr ≠ 0) (hcpu : B.GpuToCpuAddress gpu_addr = some cpu_addr)
    (hfree : c.l1_cache (B.GetPointer gpu_addr) = none)
    (hsize : 0 < ((GetUncachedSurface B c gpu_addr params).1.surfaces
      (GetUncachedSurface B c gpu_addr params).2).guest_memory_size)
    (hwrap : B.GetPointer gpu_addr + ((GetUncachedSurface B c gpu_addr params).1.surfaces
      (GetUncachedSurface B c gpu_addr params).2).guest_memory_size < 2 ^ 64) :
    (InitializeSurface B c gpu_addr params preserve_contents).1.RegistryInv := by
  obtain ⟨h1, h2, h3, h4, h5, _⟩ := GetUncachedSurface_inv B c hinv hres gpu_addr params
  have hreg := Register_inv B (GetUncachedSurface B c gpu_addr params).1 h1
    (GetUncachedSurface B c gpu_addr params).2 cpu_addr h2 h3 (by rw [h4]; exact hptr)
    (by rw [h4]; exact hcpu) (by rw [h4, h5]; exact hfree) hsize (by rw [h4]; exact hwrap)
  unfold InitializeSurface
  cases preserve_contents
  · exact hreg
  · exact LoadSurface_inv _ hreg _

theorem oneSurface_inv : Example.oneSurface.RegistryInv := by
  unfold Example.oneSurface
  exact InitializeSurface_inv Example.backend (init Example.maxwell3d) (init_inv _)
    (fun p s hs => by simp [init] at hs) 0x100000 0x100000 _ false (by decide!) (by decide!)
    rfl (by decide!) (by decide!)

theorem oneModified_inv : Example.oneModified.RegistryInv := by
  refine RegistryInv_of_same Example.oneSurface _ oneSurface_inv rfl rfl rfl ?_ ?_ ?_ ?_
  all_goals
    intro s
    by_cases hs : s = 0
    · subst hs; simp [Example.oneModified, Tick, modify, Surface.MarkAsModified]
    · simp [Example.oneModified, Tick, modify, Function.update_noteq hs]

theorem oneCreated_inv : Example.oneCreated.RegistryInv := by
  have h := GetUncachedSurface_inv Example.backend (init Example.maxwell3d) (init_inv _)
    (fun p s hs => by simp [init] at hs) 0x100000 (Example.texture 4 4 2 PixelFormat.Z16)
  rw [GetUncachedSurface_created _ _ _ _ (by decide!)] at h
  exact h.1

theorem oneModified_registered (s : Nat)
    (h : (Example.oneModified.surfaces s).is_registered = true) : s = 0 := by
  by_contra hs
  have h1 : 1 ≤ s := by omega
  have h2 := oneModified_inv.fresh s (by
    have : Example.oneModified.num_surfaces = 1 := by decide!
    omega)
  rw [h] at h2; cases h2

end TextureCache

end VideoCommon

namespace VideoCommon

namespace TextureCache

/-! ## The recycle strategy table -/

/-- C10 (counterexample): a request for a `Texture3D` target whose block depth is 1, with no
overlap, no accurate emulation and a `None` topology result, is recycled with
`Flush`, although none of the conditions of the table as the specification words it holds
(the surface is 3D but has no multi-slice block depth). -/
theorem PickStrategy_flushes_flat_3d :
    PickStrategy Example.backend (init Example.maxwell3d) []
        { Example.texture 4 4 1 PixelFormat.R16U with
            target := SurfaceTarget.Texture3D, block_depth := 1 }
        MatchTopologyResult.None = RecycleStrategy.Flush ∧
      ¬ specFlushCondition Example.backend (init Example.maxwell3d) []
        { Example.texture 4 4 1 PixelFormat.R16U with
            target := SurfaceTarget.Texture3D, block_depth := 1 }
        MatchTopologyResult.None := by
  decide

/-- C10 (amended): `PickStrategy` returns `Flush` exactly when accurate emulation is enabled,
or the requested surface or some overlap has a block depth above 1 or is a
`Texture3D` target (either of the two suffices), or the topology result is
`CompressUnmatch`, or it is `FullMatch` for an untiled request; in every other case
it returns `Ignore`. -/
theorem PickStrategy_table (B : Backend) (c : TextureCache) (overlaps : List Nat)
    (params : SurfaceParams) (untopological : MatchTopologyResult) :
    (PickStrategy B c overlaps params untopological = RecycleStrategy.Flush ↔
      (B.use_accurate_gpu_emulation = true ∨ isVolumetric params ∨
        (∃ s ∈ overlaps, isVolumetric (c.surfaces s).params) ∨
        untopological = MatchTopologyResult.CompressUnmatch ∨
        (untopological = MatchTopologyResult.FullMatch ∧ params.is_tiled = false))) ∧
    (PickStrategy B c overlaps params untopological = RecycleStrategy.Flush ∨
      PickStrategy B c overlaps params untopological = RecycleStrategy.Ignore) := by
  unfold PickStrategy isVolumetric
  by_cases h1 : B.use_accurate_gpu_emulation = true
  · simp [h1]
  · by_cases h2 : (decide (1 < params.block_depth) ||
        decide (params.target = SurfaceTarget.Texture3D)) = true
    · have h2' : 1 < params.block_depth ∨ params.target = SurfaceTarget.Texture3D := by
        simpa using h2
      simp [h1, h2, h2']
    · have h2' : ¬ (1 < params.block_depth ∨ params.target = SurfaceTarget.Texture3D) := by
        simpa using h2
      by_cases h3 : (overlaps.any (fun s =>
          decide (1 < (c.surfaces s).params.block_depth) ||
            decide ((c.surfaces s).params.target = SurfaceTarget.Texture3D))) = true
      · have h3' : ∃ s ∈ overlaps, 1 < (c.surfaces s).params.block_depth ∨
            (c.surfaces s).params.target = SurfaceTarget.Texture3D := by
          simpa using h3
        simp only [h1, h2, h3, if_true, if_false, Bool.false_eq_true, true_iff, true_or,
          and_true]
        exact Or.inr (Or.inr (Or.inl h3'))
      · have h3' : ¬ ∃ s ∈ overlaps, 1 < (c.surfaces s).params.block_depth ∨
            (c.surfaces s).params.target = SurfaceTarget.Texture3D := by
          simpa using h3
        simp only [h1, h2, h3, if_false, Bool.false_eq_true, h2', h3', false_or]
        by_cases h4 : untopological = MatchTopologyResult.CompressUnmatch
        · simp [h4]
        · by_cases h5 : (decide (untopological = MatchTopologyResult.FullMatch) &&
              !params.is_tiled) = true
          · have h5' : untopological = MatchTopologyResult.FullMatch ∧ params.is_tiled = false := by
              simpa using h5
            simp [h4, h5, h5']
          · have h5' : ¬ (untopological = MatchTopologyResult.FullMatch ∧
                params.is_tiled = false) := by
              simpa using h5
            simp [h4, h5, h5']

end TextureCache

end VideoCommon

namespace VideoCommon

namespace TextureCache

/-! ## Concrete runs -/

/-- C1: the registry invariant does not hold in every reachable state. Two texture
resolutions from the empty cache (a two-level texture, then its mip level 1 under
another format of the same block size) take the mirage path: `RebuildSurface`
unregisters the overlap and registers surface 1, the second `EmplaceView` fails, and
`RecycleSurface` unregisters the same overlap again, erasing the exact-address entry
of surface 1. In the state reached, surface 1 has its registered flag set and sits
in its page bucket, but is not the exact-address index entry at its cache address;
the invariant did hold before the second resolution. -/
theorem registry_invariant_broken_by_mirage_recycle :
    (Example.compressedSampled.surfaces 0).is_registered = true ∧
    Example.compressedSampled.l1_cache (Example.compressedSampled.surfaces 0).cache_addr = some 0 ∧
    (Example.mirageRecycled.surfaces 1).is_registered = true ∧
    1 ∈ Example.mirageRecycled.registry (page (Example.mirageRecycled.surfaces 1).cache_addr) ∧
    Example.mirageRecycled.l1_cache (Example.mirageRecycled.surfaces 1).cache_addr = none ∧
    Example.mirageRecycled.events.count (Event.UpdatePagesCachedCount 0x100000 160 (-1)) = 2 := by
  decide!

/-- C5 (counterexample): for the unmapped address `2 ^ 40`, `GetSurface` on the empty cache
returns the main view of the dummy surface, not the null view. -/
theorem GetSurface_untranslatable_view_not_null :
    Example.backend.GetPointer (2 ^ 40) = 0 ∧
    (GetSurface Example.backend (init Example.maxwell3d) (2 ^ 40)
      (Example.texture 4 4 1 PixelFormat.R16U) true false).2.2 = some (View.main 0) ∧
    (GetSurface Example.backend (init Example.maxwell3d) (2 ^ 40)
      (Example.texture 4 4 1 PixelFormat.R16U) true false).2.2 ≠ none := by
  decide!

/-- C8 (counterexample): with the render-target guard enabled, the protected render target
registered at `0x100000` is still registered, and is still returned by the overlap
query, after `InvalidateRegion(0x100000, 0x1000)`. -/
theorem InvalidateRegion_keeps_guarded_target :
    Example.targetGuarded.guard_render_targets = true ∧
    (Example.targetGuarded.surfaces 0).is_registered = true ∧
    RangesIntersect (Example.targetGuarded.surfaces 0).cache_addr
      (Example.targetGuarded.surfaces 0).cache_addr_end 0x100000 (0x100000 + 0x1000) ∧
    ((Example.targetGuarded.InvalidateRegion 0x100000 0x1000).surfaces 0).is_registered = true ∧
    ((Example.targetGuarded.InvalidateRegion 0x100000 0x1000).GetSurfacesInRegion
      0x100000 0x1000).2 = [0] := by
  decide!

/-- C3 (counterexample): the round trip fails in two situations. With the render-target guard
enabled and an unregistered surface that is still marked as a protected render
target, `Unregister` is skipped and the surface stays registered. With the guard
off and another surface registered at the cache address of the unregistered
surface, the round trip erases that surface's exact-address entry. -/
theorem Register_Unregister_roundtrip_fails :
    ((Example.targetParked.surfaces 0).is_registered = false ∧
      Example.backend.GetPointer (Example.targetParked.surfaces 0).gpu_addr ≠ 0 ∧
      (((Register Example.backend Example.targetParked 0).Unregister 0).surfaces 0).is_registered
        = true ∧
      ((Register Example.backend Example.targetParked 0).Unregister 0).registry 1 ≠
        Example.targetParked.registry 1) ∧
    ((Example.colourOverParked.surfaces 0).is_registered = false ∧
      Example.colourOverParked.guard_render_targets = false ∧
      Example.backend.GetPointer (Example.colourOverParked.surfaces 0).gpu_addr = 0x100000 ∧
      Example.colourOverParked.l1_cache 0x100000 = some 1 ∧
      ((Register Example.backend Example.colourOverParked 0).Unregister 0).l1_cache 0x100000
        = none) := by
  decide!

end TextureCache

end VideoCommon

namespace VideoCommon

namespace TextureCache

/-! ## The theorems at concrete inputs -/

/-- C2 at the cache holding one registered surface, for the query `(0x100000, 64)`. -/
theorem GetSurfacesInRegion_complete_witness :
    Example.oneSurface.BucketsExact ∧ 0 < 64 ∧ 0x100000 + 64 < 2 ^ 64 ∧
    ((Example.oneSurface.GetSurfacesInRegion 0x100000 64).1 = Example.oneSurface ∧
      (Example.oneSurface.GetSurfacesInRegion 0x100000 64).2.Nodup ∧
      (∀ s, s ∈ (Example.oneSurface.GetSurfacesInRegion 0x100000 64).2 ↔
        ((Example.oneSurface.surfaces s).is_registered = true ∧
          RangesIntersect (Example.oneSurface.surfaces s).cache_addr
            (Example.oneSurface.surfaces s).cache_addr_end 0x100000 (0x100000 + 64))) ∧
      (∀ A B, A ≠ B →
        (∀ s, ((Example.oneSurface.surfaces s).is_registered = true ∧
            RangesIntersect (Example.oneSurface.surfaces s).cache_addr
              (Example.oneSurface.surfaces s).cache_addr_end 0x100000 (0x100000 + 64)) ↔
          (s = A ∨ s = B)) →
        (Example.oneSurface.GetSurfacesInRegion 0x100000 64).2.Perm [A, B])) :=
  ⟨oneSurface_inv.toBucketsExact, by decide, by decide,
    GetSurfacesInRegion_complete Example.oneSurface oneSurface_inv.toBucketsExact 0x100000 64
      (by decide) (by decide)⟩

/-- C3 (amended) at the cache holding one created, unregistered surface. -/
theorem Register_Unregister_roundtrip_witness :
    Example.oneCreated.BucketsExact ∧
    (Example.oneCreated.surfaces 0).is_registered = false ∧
    Example.backend.GetPointer (Example.oneCreated.surfaces 0).gpu_addr ≠ 0 ∧
    Example.backend.GpuToCpuAddress (Example.oneCreated.surfaces 0).gpu_addr = some 0x100000 ∧
    Example.oneCreated.l1_cache
      (Example.backend.GetPointer (Example.oneCreated.surfaces 0).gpu_addr) = none ∧
    Example.oneCreated.Shielded 0 = false ∧
    (((Register Example.backend Example.oneCreated 0).Unregister 0).registry =
        Example.oneCreated.registry ∧
      ((Register Example.backend Example.oneCreated 0).Unregister 0).l1_cache =
        Example.oneCreated.l1_cache ∧
      (((Register Example.backend Example.oneCreated 0).Unregister 0).surfaces 0).is_registered
        = false ∧
      ((Register Example.backend Example.oneCreated 0).Unregister 0).surface_reserve
          (Example.oneCreated.surfaces 0).params =
        Example.oneCreated.surface_reserve (Example.oneCreated.surfaces 0).params ++ [0] ∧
      (∀ p, p ≠ (Example.oneCreated.surfaces 0).params →
        ((Register Example.backend Example.oneCreated 0).Unregister 0).surface_reserve p =
          Example.oneCreated.surface_reserve p)) :=
  ⟨oneCreated_inv.toBucketsExact, by decide!, by decide!, by decide!, by decide!, by decide!,
    Register_Unregister_roundtrip Example.backend Example.oneCreated 0 0x100000
      oneCreated_inv.toBucketsExact (by decide!) (by decide!) (by decide!) (by decide!)
      (by decide!)⟩

/-- C4 at the empty cache, for the unmapped address `2 ^ 40`. -/
theorem GetSurface_untranslatable_witness :
    (init Example.maxwell3d).ReserveKeyed ∧ Example.backend.GetPointer (2 ^ 40) = 0 ∧
    (((GetSurface Example.backend (init Example.maxwell3d) (2 ^ 40)
        (Example.texture 4 4 2 PixelFormat.Z16) true false).1.surfaces
      (GetSurface Example.backend (init Example.maxwell3d) (2 ^ 40)
        (Example.texture 4 4 2 PixelFormat.Z16) true false).2.1).params =
        { Example.texture 4 4 2 PixelFormat.Z16 with
            width := 1, height := 1, depth := 1, block_height := 0, block_depth := 0 } ∧
      (GetSurface Example.backend (init Example.maxwell3d) (2 ^ 40)
        (Example.texture 4 4 2 PixelFormat.Z16) true false).1.registry =
          (init Example.maxwell3d).registry ∧
      (GetSurface Example.backend (init Example.maxwell3d) (2 ^ 40)
        (Example.texture 4 4 2 PixelFormat.Z16) true false).1.l1_cache =
          (init Example.maxwell3d).l1_cache ∧
      (∀ s, s < (init Example.maxwell3d).num_surfaces →
        ((GetSurface Example.backend (init Example.maxwell3d) (2 ^ 40)
          (Example.texture 4 4 2 PixelFormat.Z16) true false).1.surfaces s).is_registered =
          ((init Example.maxwell3d).surfaces s).is_registered) ∧
      ((GetSurface Example.backend (init Example.maxwell3d) (2 ^ 40)
        (Example.texture 4 4 2 PixelFormat.Z16) true false).1.surfaces
      (GetSurface Example.backend (init Example.maxwell3d) (2 ^ 40)
        (Example.texture 4 4 2 PixelFormat.Z16) true false).2.1).is_registered = false ∧
      (GetSurface Example.backend (init Example.maxwell3d) (2 ^ 40)
        (Example.texture 4 4 2 PixelFormat.Z16) true false).1.events =
          (init Example.maxwell3d).events) :=
  ⟨init_reserveKeyed _, by decide!,
    GetSurface_untranslatable Example.backend (init Example.maxwell3d) (2 ^ 40)
      (Example.texture 4 4 2 PixelFormat.Z16) true false (init_reserveKeyed _) (by decide!)⟩

/-- C5 (amended) at the empty cache, for the unmapped address `2 ^ 40`. -/
theorem GetSurface_untranslatable_view_witness :
    Example.backend.GetPointer (2 ^ 40) = 0 ∧
    (GetSurface Example.backend (init Example.maxwell3d) (2 ^ 40)
      (Example.texture 4 4 2 PixelFormat.Z16) true false).2.2 =
      some (View.main (GetSurface Example.backend (init Example.maxwell3d) (2 ^ 40)
        (Example.texture 4 4 2 PixelFormat.Z16) true false).2.1) :=
  ⟨by decide!,
    GetSurface_untranslatable_view Example.backend (init Example.maxwell3d) (2 ^ 40)
      (Example.texture 4 4 2 PixelFormat.Z16) true false (by decide!)⟩

/-- C9 at the cache holding one registered, modified surface, for the region
`(0x100000, 0x1000)`. -/
theorem FlushRegion_order_witness :
    Example.oneModified.BucketsExact ∧ 0x100000 + 0x1000 < 2 ^ 64 ∧
    (Example.oneModified.surfaces 0).is_registered = true ∧
    (Example.oneModified.surfaces 0).is_modified = true ∧
    ∃ L : List Nat,
      (Example.oneModified.FlushRegion 0x100000 0x1000).events =
        Example.oneModified.events ++ L.map Event.FlushSurface ∧
      L.Nodup ∧
      (∀ s, s ∈ L ↔
        ((Example.oneModified.surfaces s).is_registered = true ∧
          RangesIntersect (Example.oneModified.surfaces s).cache_addr
            (Example.oneModified.surfaces s).cache_addr_end 0x100000 (0x100000 + 0x1000) ∧
          (Example.oneModified.surfaces s).is_modified = true)) ∧
      L.Pairwise (fun a b =>
        (Example.oneModified.surfaces a).modification_tick <
          (Example.oneModified.surfaces b).modification_tick) :=
  ⟨oneModified_inv.toBucketsExact, by decide, by decide!, by decide!,
    FlushRegion_order Example.oneModified oneModified_inv.toBucketsExact 0x100000 0x1000
      (by decide)
      (fun a b hab ha _ hb _ =>
        absurd ((oneModified_registered a ha).trans (oneModified_registered b hb).symm) hab)⟩

end TextureCache

end VideoCommon

namespace VideoCommon

namespace TextureCache

/-! ## Operations that only touch the modification state -/

theorem ModificationOnly.refl (c : TextureCache) : ModificationOnly c c :=
  ⟨rfl, rfl, rfl, rfl, rfl, rfl, rfl, rfl, rfl, fun _ => rfl⟩

theorem ModificationOnly.trans {c d e : TextureCache} (h1 : ModificationOnly c d)
    (h2 : ModificationOnly d e) : ModificationOnly c e :=
  ⟨h2.num.trans h1.num, h2.registry.trans h1.registry, h2.l1_cache.trans h1.l1_cache,
    h2.reserve.trans h1.reserve, h2.guard.trans h1.guard, h2.samplers.trans h1.samplers,
    h2.maxwell.trans h1.maxwell, h2.slots.trans h1.slots, h2.depth.trans h1.depth,
    fun s => (h2.surface s).trans (h1.surface s)⟩

theorem ModificationOnly.fields {c d : TextureCache} (h : ModificationOnly c d) (s : Nat) :
    (d.surfaces s).params = (c.surfaces s).params ∧
    (d.surfaces s).gpu_addr = (c.surfaces s).gpu_addr ∧
    (d.surfaces s).cache_addr = (c.surfaces s).cache_addr ∧
    (d.surfaces s).cache_addr_end = (c.surfaces s).cache_addr_end ∧
    (d.surfaces s).cpu_addr = (c.surfaces s).cpu_addr ∧
    (d.surfaces s).guest_memory_size = (c.surfaces s).guest_memory_size ∧
    (d.surfaces s).is_registered = (c.surfaces s).is_registered ∧
    (d.surfaces s).is_picked = (c.surfaces s).is_picked ∧
    (d.surfaces s).is_target = (c.surfaces s).is_target ∧
    (d.surfaces s).index = (c.surfaces s).index := by
  have := h.surface s
  simp only [Surface.mk.injEq] at this
  obtain ⟨h1, h2, h3, h4, h5, h6, _, _, _, h10, h11, h12, h13⟩ := this
  exact ⟨h1, h2, h3, h4, h5, h6, h10, h11, h12, h13⟩

theorem ModificationOnly.of_stamp (c : TextureCache) (n : Nat) (m : Bool) (t k : Nat)
    (ev : List Event) (g : Nat) :
    ModificationOnly c
      { c with
          surfaces := Function.update c.surfaces n ((c.surfaces n).MarkAsModified m t)
          ticks := k
          events := ev
          ticks_drawn := g } := by
  refine ⟨rfl, rfl, rfl, rfl, rfl, rfl, rfl, rfl, rfl, ?_⟩
  intro s
  by_cases hs : s = n
  · subst hs; simp [Surface.MarkAsModified]
  · simp [Function.update_noteq hs]

theorem FlushSurface_modificationOnly (c : TextureCache) (s : Nat) :
    ModificationOnly c (c.FlushSurface s) := by
  unfold FlushSurface
  split
  · exact ModificationOnly.refl c
  · exact ModificationOnly.of_stamp c s false _ _ _ _

theorem LoadSurface_modificationOnly (c : TextureCache) (s : Nat) :
    ModificationOnly c (c.LoadSurface s) :=
  ModificationOnly.of_stamp c s false _ _ _ _

theorem foldl_FlushSurface_modificationOnly (L : List Nat) (c : TextureCache) :
    ModificationOnly c (L.foldl FlushSurface c) := by
  induction L generalizing c with
  | nil => exact ModificationOnly.refl c
  | cons s rest ih =>
    exact (FlushSurface_modificationOnly c s).trans (ih (c.FlushSurface s))

theorem ModificationOnly.inv {c d : TextureCache} (h : ModificationOnly c d)
    (hinv : c.RegistryInv) : d.RegistryInv :=
  RegistryInv_of_same c d hinv h.num h.registry h.l1_cache
    (fun s => (h.fields s).2.2.2.2.2.2.1) (fun s => (h.fields s).2.2.1)
    (fun s => (h.fields s).2.2.2.1) (fun s => (h.fields s).2.2.2.2.2.2.2.1)

theorem ModificationOnly.reserveKeyed {c d : TextureCache} (h : ModificationOnly c d)
    (hres : c.ReserveKeyed) : d.ReserveKeyed := by
  intro p s hs
  rw [h.reserve] at hs
  rw [h.num, (h.fields s).1]
  exact hres p s hs

theorem PickStrategy_cases (B : Backend) (c : TextureCache) (overlaps : List Nat)
    (params : SurfaceParams) (untopological : MatchTopologyResult) :
    PickStrategy B c overlaps params untopological = RecycleStrategy.Ignore ∨
      PickStrategy B c overlaps params untopological = RecycleStrategy.Flush := by
  unfold PickStrategy
  split_ifs <;> simp

theorem RecycleSurface_eq (B : Backend) (c : TextureCache) (overlaps : List Nat)
    (params : SurfaceParams) (gpu_addr : Nat) (preserve_contents : Bool)
    (untopological : MatchTopologyResult) :
    RecycleSurface B c overlaps params gpu_addr preserve_contents untopological =
      recycleAfterUnregister B (overlaps.foldl Unregister c) overlaps params gpu_addr
        preserve_contents untopological := by
  unfold RecycleSurface recycleAfterUnregister
  rfl

theorem recycleAfterUnregister_of_flush (B : Backend) (c1 : TextureCache) (overlaps : List Nat)
    (params : SurfaceParams) (gpu_addr : Nat) (preserve_contents : Bool)
    (untopological : MatchTopologyResult)
    (h : PickStrategy B c1 overlaps params untopological = RecycleStrategy.Flush) :
    recycleAfterUnregister B c1 overlaps params gpu_addr preserve_contents untopological =
      InitializeSurface B ((sortByTick c1 overlaps).foldl FlushSurface c1) gpu_addr params
        preserve_contents := by
  unfold recycleAfterUnregister
  rw [h]

theorem recycleAfterUnregister_of_ignore (B : Backend) (c1 : TextureCache) (overlaps : List Nat)
    (params : SurfaceParams) (gpu_addr : Nat) (preserve_contents : Bool)
    (untopological : MatchTopologyResult)
    (h : PickStrategy B c1 overlaps params untopological = RecycleStrategy.Ignore) :
    recycleAfterUnregister B c1 overlaps params gpu_addr preserve_contents untopological =
      InitializeSurface B c1 gpu_addr params
        (preserve_contents && B.use_accurate_gpu_emulation) := by
  unfold recycleAfterUnregister
  rw [h]

end TextureCache

end VideoCommon

namespace VideoCommon

namespace TextureCache

/-! ## The recycle procedure -/

theorem Unregister_num (c : TextureCache) (s : Nat) :
    (c.Unregister s).num_surfaces = c.num_surfaces := by
  cases hs : c.Shielded s
  · rw [Unregister_eq c s hs]
  · rw [Unregister_of_shielded c s hs]

theorem Unregister_reserve_mono (c : TextureCache) (s : Nat) (p : SurfaceParams) (x : Nat)
    (h : x ∈ c.surface_reserve p) : x ∈ (c.Unregister s).surface_reserve p := by
  cases hs : c.Shielded s
  · rw [Unregister_eq c s hs]
    by_cases hp : p = (c.surfaces s).params
    · subst hp
      show x ∈ Function.update c.surface_reserve _ _ _
      rw [Function.update_same]
      exact List.mem_append_left _ h
    · show x ∈ Function.update c.surface_reserve _ _ _
      rw [Function.update_noteq hp]
      exact h
  · rw [Unregister_of_shielded c s hs]; exact h

theorem Unregister_reserve_self (c : TextureCache) (s : Nat) (hs : c.Shielded s = false) :
    s ∈ (c.Unregister s).surface_reserve (c.surfaces s).params := by
  rw [Unregister_eq c s hs]
  show s ∈ Function.update c.surface_reserve _ _ _
  rw [Function.update_same]
  exact List.mem_append_right _ (List.mem_singleton_self s)

theorem Unregister_reserve_mem (c : TextureCache) (s : Nat) (p : SurfaceParams) (x : Nat)
    (h : x ∈ (c.Unregister s).surface_reserve p) :
    x ∈ c.surface_reserve p ∨ (x = s ∧ p = (c.surfaces s).params) := by
  cases hs : c.Shielded s
  · rw [Unregister_eq c s hs] at h
    by_cases hp : p = (c.surfaces s).params
    · subst hp
      have h' : x ∈ Function.update c.surface_reserve (c.surfaces s).params
          (c.surface_reserve (c.surfaces s).params ++ [s]) (c.surfaces s).params := h
      rw [Function.update_same, List.mem_append, List.mem_singleton] at h'
      rcases h' with h' | h'
      · exact Or.inl h'
      · exact Or.inr ⟨h', rfl⟩
    · have h' : x ∈ Function.update c.surface_reserve (c.surfaces s).params
          (c.surface_reserve (c.surfaces s).params ++ [s]) p := h
      rw [Function.update_noteq hp] at h'
      exact Or.inl h'
  · rw [Unregister_of_shielded c s hs] at h; exact Or.inl h

theorem Unregister_params (c : TextureCache) (s t : Nat) :
    ((c.Unregister s).surfaces t).params = (c.surfaces t).params ∧
    ((c.Unregister s).surfaces t).is_modified = (c.surfaces t).is_modified ∧
    ((c.Unregister s).surfaces t).modification_tick = (c.surfaces t).modification_tick ∧
    ((c.Unregister s).surfaces t).is_target = (c.surfaces t).is_target ∧
    ((c.Unregister s).surfaces t).index = (c.surfaces t).index := by
  rw [Unregister_surfaces]
  split <;> simp

theorem foldl_Unregister_frame (L : List Nat) (c : TextureCache) :
    (L.foldl Unregister c).num_surfaces = c.num_surfaces ∧
    (∀ t, ((L.foldl Unregister c).surfaces t).params = (c.surfaces t).params ∧
      ((L.foldl Unregister c).surfaces t).is_modified = (c.surfaces t).is_modified ∧
      ((L.foldl Unregister c).surfaces t).modification_tick = (c.surfaces t).modification_tick ∧
      ((L.foldl Unregister c).surfaces t).is_target = (c.surfaces t).is_target ∧
      ((L.foldl Unregister c).surfaces t).index = (c.surfaces t).index) ∧
    (∀ p x, x ∈ c.surface_reserve p → x ∈ (L.foldl Unregister c).surface_reserve p) ∧
    (∀ e, e ∈ (L.foldl Unregister c).events →
      e ∈ c.events ∨ ∃ a b, e = Event.UpdatePagesCachedCount a b (-1)) := by
  induction L generalizing c with
  | nil => exact ⟨rfl, fun _ => ⟨rfl, rfl, rfl, rfl, rfl⟩, fun _ _ h => h, fun _ h => Or.inl h⟩
  | cons s rest ih =>
    obtain ⟨h1, h2, h3, h4⟩ := ih (c.Unregister s)
    simp only [List.foldl_cons]
    refine ⟨h1.trans (Unregister_num c s), ?_, ?_, ?_⟩
    · intro t
      obtain ⟨a1, a2, a3, a4, a5⟩ := h2 t
      obtain ⟨b1, b2, b3, b4, b5⟩ := Unregister_params c s t
      exact ⟨a1.trans b1, a2.trans b2, a3.trans b3, a4.trans b4, a5.trans b5⟩
    · intro p x hx
      exact h3 p x (Unregister_reserve_mono c s p x hx)
    · intro e he
      rcases h4 e he with h | h
      · rcases Unregister_events c s with h5 | h5
        · rw [h5] at h; exact Or.inl h
        · rw [h5, List.mem_append, List.mem_singleton] at h
          rcases h with h | h
          · exact Or.inl h
          · exact Or.inr ⟨_, _, h⟩
      · exact Or.inr h

theorem foldl_Unregister_reserve_self (L : List Nat) (c : TextureCache) (s : Nat)
    (hs : s ∈ L) (hsh : c.Shielded s = false) :
    s ∈ (L.foldl Unregister c).surface_reserve (c.surfaces s).params := by
  induction L generalizing c with
  | nil => cases hs
  | cons t rest ih =>
    simp only [List.foldl_cons]
    by_cases hst : s = t
    · subst hst
      exact (foldl_Unregister_frame rest (c.Unregister s)).2.2.1 _ _
        (Unregister_reserve_self c s hsh)
    · have hmem : s ∈ rest := by
        rcases List.mem_cons.mp hs with h | h
        · exact absurd h hst
        · exact h
      have := ih (c.Unregister t) hmem (by rw [Unregister_shielded_other]; exact hsh)
      rw [(Unregister_params c t s).1] at this
      exact this

theorem foldl_Unregister_reserveKeyed (L : List Nat) (c : TextureCache) (hres : c.ReserveKeyed)
    (hlt : ∀ s ∈ L, s < c.num_surfaces) : (L.foldl Unregister c).ReserveKeyed := by
  induction L generalizing c with
  | nil => exact hres
  | cons t rest ih =>
    simp only [List.foldl_cons]
    apply ih
    · intro p x hx
      rw [Unregister_num, (Unregister_params c t x).1]
      rcases Unregister_reserve_mem c t p x hx with h | ⟨h1, h2⟩
      · exact hres p x h
      · subst h1; exact ⟨hlt x (List.mem_cons_self _ _), h2.symm⟩
    · intro s hs
      rw [Unregister_num]
      exact hlt s (List.mem_cons_of_mem _ hs)

theorem Register_events (B : Backend) (c : TextureCache) (s : Nat) :
    (Register B c s).events = c.events ∨
      ∃ a b, (Register B c s).events = c.events ++ [Event.UpdatePagesCachedCount a b 1] := by
  by_cases hptr : B.GetPointer (c.surfaces s).gpu_addr = 0
  · rw [Register_of_null B c s hptr]; exact Or.inl rfl
  · cases hcpu : B.GpuToCpuAddress (c.surfaces s).gpu_addr with
    | none => rw [Register_of_unmapped B c s hcpu]; exact Or.inl rfl
    | some cpu =>
      rw [Register_eq B c s cpu hptr hcpu]
      exact Or.inr ⟨_, _, rfl⟩

theorem InitializeSurface_events (B : Backend) (c : TextureCache) (gpu_addr : Nat)
    (params : SurfaceParams) (preserve_contents : Bool) :
    ∃ R : List Event,
      (InitializeSurface B c gpu_addr params preserve_contents).1.events =
        c.events ++ R ++
          (if preserve_contents then
            [Event.LoadSurface (InitializeSurface B c gpu_addr params preserve_contents).2.1]
          else []) ∧
      (∀ e ∈ R, ∃ a b, e = Event.UpdatePagesCachedCount a b 1) := by
  have hu := (GetUncachedSurface_frame B c gpu_addr params).2.2.1
  rw [InitializeSurface_result]
  unfold InitializeSurface
  rcases Register_events B (GetUncachedSurface B c gpu_addr params).1
    (GetUncachedSurface B c gpu_addr params).2 with h | ⟨a, b, h⟩
  · refine ⟨[], ?_, by simp⟩
    cases preserve_contents
    · show (Register _ _ _).events = _
      rw [h, hu]; simp
    · show (LoadSurface (Register _ _ _) _).events = _
      simp only [LoadSurface, Tick, modify]
      rw [h, hu]; simp
  · refine ⟨[Event.UpdatePagesCachedCount a b 1], ?_, by simp⟩
    cases preserve_contents
    · show (Register _ _ _).events = _
      rw [h, hu]; simp
    · show (LoadSurface (Register _ _ _) _).events = _
      simp only [LoadSurface, Tick, modify]
      rw [h, hu]; simp

/-- C11: `BufferCopy` is never selected. `PickStrategy` returns `Ignore` or `Flush` for every
input, so `RecycleSurface` always takes one of these two branches: after the
unregistration loop it either flushes the overlaps in tick order and initialises
the new surface, or initialises it directly; the `BufferCopy` branch is never
entered. -/
theorem PickStrategy_never_BufferCopy (B : Backend) (c : TextureCache) (overlaps : List Nat)
    (params : SurfaceParams) (gpu_addr : Nat) (preserve_contents : Bool)
    (untopological : MatchTopologyResult) :
    PickStrategy B c overlaps params untopological ≠ RecycleStrategy.BufferCopy ∧
    (PickStrategy B c overlaps params untopological = RecycleStrategy.Ignore ∨
      PickStrategy B c overlaps params untopological = RecycleStrategy.Flush) ∧
    RecycleSurface B c overlaps params gpu_addr preserve_contents untopological =
      (if PickStrategy B (overlaps.foldl Unregister c) overlaps params untopological =
          RecycleStrategy.Flush then
        InitializeSurface B
          ((sortByTick (overlaps.foldl Unregister c) overlaps).foldl FlushSurface
            (overlaps.foldl Unregister c))
          gpu_addr params preserve_contents
      else
        InitializeSurface B (overlaps.foldl Unregister c) gpu_addr params
          (preserve_contents && B.use_accurate_gpu_emulation)) := by
  refine ⟨?_, PickStrategy_cases B c overlaps params untopological, ?_⟩
  · rcases PickStrategy_cases B c overlaps params untopological with h | h <;> rw [h] <;> simp
  · rw [RecycleSurface_eq]
    rcases PickStrategy_cases B (overlaps.foldl Unregister c) overlaps params untopological
      with h | h
    · rw [recycleAfterUnregister_of_ignore _ _ _ _ _ _ _ h, h]; simp
    · rw [recycleAfterUnregister_of_flush _ _ _ _ _ _ _ h, h]; simp

end TextureCache

end VideoCommon

namespace VideoCommon

namespace TextureCache

theorem PickStrategy_of_accurate (B : Backend) (c : TextureCache) (overlaps : List Nat)
    (params : SurfaceParams) (untopological : MatchTopologyResult)
    (h : B.use_accurate_gpu_emulation = true) :
    PickStrategy B c overlaps params untopological = RecycleStrategy.Flush := by
  unfold PickStrategy
  rw [if_pos h]

theorem RecycleSurface_ignore_eq (B : Backend) (c : TextureCache) (overlaps : List Nat)
    (params : SurfaceParams) (gpu_addr : Nat) (preserve_contents : Bool)
    (untopological : MatchTopologyResult) :
    RecycleSurface B c overlaps params gpu_addr preserve_contents untopological =
      (if PickStrategy B (overlaps.foldl Unregister c) overlaps params untopological =
          RecycleStrategy.Flush then
        InitializeSurface B
          ((sortByTick (overlaps.foldl Unregister c) overlaps).foldl FlushSurface
            (overlaps.foldl Unregister c))
          gpu_addr params preserve_contents
      else InitializeSurface B (overlaps.foldl Unregister c) gpu_addr params false) := by
  rw [RecycleSurface_eq]
  rcases PickStrategy_cases B (overlaps.foldl Unregister c) overlaps params untopological
    with h | h
  · rw [recycleAfterUnregister_of_ignore _ _ _ _ _ _ _ h, h]
    cases hacc : B.use_accurate_gpu_emulation
    · simp
    · rw [PickStrategy_of_accurate B _ overlaps params untopological hacc] at h
      cases h
  · rw [recycleAfterUnregister_of_flush _ _ _ _ _ _ _ h, h]; simp

theorem recycle_flush_trace (B : Backend) (c : TextureCache) (overlaps : List Nat)
    (params : SurfaceParams) (gpu_addr : Nat) (preserve_contents : Bool)
    (untopological : MatchTopologyResult) (hn : overlaps.Nodup)
    (hflush : PickStrategy B (overlaps.foldl Unregister c) overlaps params untopological =
      RecycleStrategy.Flush) :
    ∃ F : List Nat, ∃ R : List Event,
      (RecycleSurface B c overlaps params gpu_addr preserve_contents untopological).1.events =
        (overlaps.foldl Unregister c).events ++ F.map Event.FlushSurface ++ R ++
          (if preserve_contents then
            [Event.LoadSurface
              (RecycleSurface B c overlaps params gpu_addr preserve_contents untopological).2.1]
          else []) ∧
      F.Nodup ∧
      (∀ s, s ∈ F ↔ (s ∈ overlaps ∧ (c.surfaces s).is_modified = true)) ∧
      F.Pairwise (fun a b =>
        (c.surfaces a).modification_tick ≤ (c.surfaces b).modification_tick) ∧
      (∀ e ∈ R, ∃ a b, e = Event.UpdatePagesCachedCount a b 1) := by
  have hfr := (foldl_Unregister_frame overlaps c).2.1
  have hsnd : (sortByTick (overlaps.foldl Unregister c) overlaps).Nodup :=
    (List.perm_insertionSort (tickLE (overlaps.foldl Unregister c)) _).nodup_iff.mpr hn
  have hsorted : (sortByTick (overlaps.foldl Unregister c) overlaps).Sorted
      (tickLE (overlaps.foldl Unregister c)) :=
    List.sorted_insertionSort (tickLE (overlaps.foldl Unregister c)) _
  have hev := (foldl_FlushSurface _ hsnd (overlaps.foldl Unregister c)).1
  obtain ⟨R, hR, hRn⟩ := InitializeSurface_events B
    ((sortByTick (overlaps.foldl Unregister c) overlaps).foldl FlushSurface
      (overlaps.foldl Unregister c)) gpu_addr params preserve_contents
  rw [RecycleSurface_eq, recycleAfterUnregister_of_flush _ _ _ _ _ _ _ hflush]
  refine ⟨(sortByTick (overlaps.foldl Unregister c) overlaps).filter
    (fun s => ((overlaps.foldl Unregister c).surfaces s).is_modified), R, ?_,
    hsnd.filter _, ?_, ?_, hRn⟩
  · rw [hR, hev]
  · intro s
    rw [List.mem_filter, sortByTick, List.mem_insertionSort, (hfr s).2.1]
  · refine (hsorted.filter _).imp ?_
    intro a b hab
    unfold tickLE at hab
    rw [(hfr a).2.2.1, (hfr b).2.2.1] at hab
    exact hab

/-- C13 (amended): recycle under Flush. Whenever `RecycleSurface`, called on distinct overlaps,
resolves to the Flush strategy, the calls it adds after the unregistration loop
are, in this order: the write-backs of exactly the overlaps that were modified
on entry, each once, in ascending order of their modification ticks; then the
page-count notification of the new surface's registration, if any; then the load
of the new surface from guest memory, which happens exactly when
`preserve_contents` is set (accurate-emulation mode alone does not load it). -/
theorem RecycleSurface_flush (B : Backend) (c : TextureCache) (overlaps : List Nat)
    (params : SurfaceParams) (gpu_addr : Nat) (preserve_contents : Bool)
    (untopological : MatchTopologyResult) (hn : overlaps.Nodup)
    (hflush : PickStrategy B (overlaps.foldl Unregister c) overlaps params untopological =
      RecycleStrategy.Flush) :
    ∃ F : List Nat, ∃ R : List Event,
      (RecycleSurface B c overlaps params gpu_addr preserve_contents untopological).1.events =
        (overlaps.foldl Unregister c).events ++ F.map Event.FlushSurface ++ R ++
          (if preserve_contents then
            [Event.LoadSurface
              (RecycleSurface B c overlaps params gpu_addr preserve_contents untopological).2.1]
          else []) ∧
      F.Nodup ∧
      (∀ s, s ∈ F ↔ (s ∈ overlaps ∧ (c.surfaces s).is_modified = true)) ∧
      F.Pairwise (fun a b =>
        (c.surfaces a).modification_tick ≤ (c.surfaces b).modification_tick) ∧
      (∀ e ∈ R, ∃ a b, e = Event.UpdatePagesCachedCount a b 1) :=
  recycle_flush_trace B c overlaps params gpu_addr preserve_contents untopological hn
    hflush

end TextureCache

end VideoCommon

namespace VideoCommon

namespace TextureCache

/-! ## Resolution scenarios of `GetSurface` -/

theorem TryReconstructSurface_of_3d (B : Backend) (c : TextureCache) (overlaps : List Nat)
    (params : SurfaceParams) (gpu_addr : Nat) (h3d : params.target = SurfaceTarget.Texture3D) :
    TryReconstructSurface B c overlaps params gpu_addr = (c, none) := by
  unfold TryReconstructSurface
  rw [if_pos h3d]

theorem GetSurfaceFromOverlaps_of_3d (B : Backend) (c : TextureCache) (gpu_addr : Nat)
    (params : SurfaceParams) (preserve_contents is_render : Bool) (cache_addr : Nat)
    (L : List Nat)
    (hq : c.GetSurfacesInRegion cache_addr (B.GetGuestSizeInBytes params) = (c, L))
    (hne : L ≠ []) (h3d : params.target = SurfaceTarget.Texture3D)
    (hview : ∀ x, L = [x] →
      B.EmplaceView (c.surfaces x) params gpu_addr (B.GetGuestSizeInBytes params) = none) :
    ∃ r, GetSurfaceFromOverlaps B c gpu_addr params preserve_contents is_render cache_addr =
      RecycleSurface B c L params gpu_addr preserve_contents r := by
  unfold GetSurfaceFromOverlaps
  simp only [hq]
  have hemp : L.isEmpty = false := by
    cases L with
    | nil => exact absurd rfl hne
    | cons x rest => rfl
  rw [hemp]
  simp only [Bool.false_eq_true, if_false]
  cases hfind : (L.map (fun s => B.MatchesTopology (c.surfaces s).params params)).find?
      (fun r => decide (r ≠ MatchTopologyResult.FullMatch)) with
  | some r => exact ⟨r, rfl⟩
  | none =>
    refine ⟨MatchTopologyResult.FullMatch, ?_⟩
    rcases L with _ | ⟨x, _ | ⟨y, rest⟩⟩
    · exact absurd rfl hne
    · simp only [hview x rfl, TryReconstructSurface_of_3d B c [x] params gpu_addr h3d]
      split_ifs <;> rfl
    · simp only [TryReconstructSurface_of_3d B c (x :: y :: rest) params gpu_addr h3d]

theorem GetUncachedSurface_other (B : Backend) (c : TextureCache) (gpu_addr : Nat)
    (params : SurfaceParams) (s : Nat) (hs : s ≠ (GetUncachedSurface B c gpu_addr params).2) :
    (GetUncachedSurface B c gpu_addr params).1.surfaces s = c.surfaces s := by
  cases hr : c.TryGetReservedSurface params with
  | some n =>
    rw [GetUncachedSurface_reserved B c gpu_addr params n hr] at hs ⊢
    exact Function.update_noteq hs _ _
  | none =>
    rw [GetUncachedSurface_created B c gpu_addr params hr] at hs ⊢
    exact Function.update_noteq hs _ _

theorem GetUncachedSurface_origin (B : Backend) (c : TextureCache) (hres : c.ReserveKeyed)
    (gpu_addr : Nat) (params : SurfaceParams) :
    (GetUncachedSurface B c gpu_addr params).2 = c.num_surfaces ∨
      (c.surfaces (GetUncachedSurface B c gpu_addr params).2).params = params := by
  cases hr : c.TryGetReservedSurface params with
  | some n =>
    rw [GetUncachedSurface_reserved B c gpu_addr params n hr]
    exact Or.inr (hres params n (find_reserved_unregistered c params n hr).2).2
  | none =>
    rw [GetUncachedSurface_created B c gpu_addr params hr]
    exact Or.inl rfl

theorem Register_other (B : Backend) (c : TextureCache) (n s : Nat) (hs : s ≠ n) :
    (Register B c n).surfaces s = c.surfaces s := by
  by_cases hptr : B.GetPointer (c.surfaces n).gpu_addr = 0
  · rw [Register_of_null B c n hptr]
  · cases hcpu : B.GpuToCpuAddress (c.surfaces n).gpu_addr with
    | none => rw [Register_of_unmapped B c n hcpu]
    | some cpu =>
      rw [Register_eq B c n cpu hptr hcpu]
      exact Function.update_noteq hs _ _

theorem Register_registry_mem (B : Backend) (c : TextureCache) (n x p : Nat)
    (hx : x ∈ (Register B c n).registry p) : x ∈ c.registry p ∨ x = n := by
  by_cases hptr : B.GetPointer (c.surfaces n).gpu_addr = 0
  · rw [Register_of_null B c n hptr] at hx; exact Or.inl hx
  · cases hcpu : B.GpuToCpuAddress (c.surfaces n).gpu_addr with
    | none => rw [Register_of_unmapped B c n hcpu] at hx; exact Or.inl hx
    | some cpu =>
      rw [Register_eq B c n cpu hptr hcpu] at hx
      have hx' : x ∈ mapBuckets (fun l => l ++ [n])
          (pageRange (page (B.GetPointer (c.surfaces n).gpu_addr))
            (page (sub64 (add64 (B.GetPointer (c.surfaces n).gpu_addr)
              (c.surfaces n).guest_memory_size) 1))) c.registry p := hx
      rw [mapBuckets_apply _ _ (pageRange_nodup _ _)] at hx'
      split at hx'
      · rw [List.mem_append, List.mem_singleton] at hx'
        exact hx'
      · exact Or.inl hx'

theorem Register_flag (B : Backend) (c : TextureCache) (n cpu_addr : Nat)
    (hptr : B.GetPointer (c.surfaces n).gpu_addr ≠ 0)
    (hcpu : B.GpuToCpuAddress (c.surfaces n).gpu_addr = some cpu_addr) :
    ((Register B c n).surfaces n).is_registered = true ∧
      ((Register B c n).surfaces n).params = (c.surfaces n).params := by
  rw [Register_eq B c n cpu_addr hptr hcpu]
  constructor
  · show (Function.update c.surfaces n _ n).is_registered = true
    rw [Function.update_same]; rfl
  · show (Function.update c.surfaces n _ n).params = _
    rw [Function.update_same]; rfl

end TextureCache

end VideoCommon

namespace VideoCommon

namespace TextureCache

theorem InitializeSurface_state (B : Backend) (c : TextureCache) (gpu_addr : Nat)
    (params : SurfaceParams) (preserve_contents : Bool) :
    (InitializeSurface B c gpu_addr params preserve_contents).1 =
      if preserve_contents then
        (Register B (GetUncachedSurface B c gpu_addr params).1
          (GetUncachedSurface B c gpu_addr params).2).LoadSurface
            (GetUncachedSurface B c gpu_addr params).2
      else
        Register B (GetUncachedSurface B c gpu_addr params).1
          (GetUncachedSurface B c gpu_addr params).2 := by
  unfold InitializeSurface
  cases preserve_contents <;> rfl

theorem InitializeSurface_effect (B : Backend) (c : TextureCache) (hres : c.ReserveKeyed)
    (gpu_addr cpu_addr : Nat) (params : SurfaceParams) (preserve_contents : Bool)
    (hptr : B.GetPointer gpu_addr ≠ 0) (hcpu : B.GpuToCpuAddress gpu_addr = some cpu_addr) :
    (InitializeSurface B c gpu_addr params preserve_contents).2.2 =
      some (View.main (InitializeSurface B c gpu_addr params preserve_contents).2.1) ∧
    ((InitializeSurface B c gpu_addr params preserve_contents).1.surfaces
      (InitializeSurface B c gpu_addr params preserve_contents).2.1).is_registered = true ∧
    ((InitializeSurface B c gpu_addr params preserve_contents).1.surfaces
      (InitializeSurface B c gpu_addr params preserve_contents).2.1).params = params ∧
    (∀ s, s ≠ (InitializeSurface B c gpu_addr params preserve_contents).2.1 →
      ((InitializeSurface B c gpu_addr params preserve_contents).1.surfaces s).is_registered =
        (c.surfaces s).is_registered) ∧
    (∀ p x, x ∈ (InitializeSurface B c gpu_addr params preserve_contents).1.registry p →
      x ∈ c.registry p ∨ x = (InitializeSurface B c gpu_addr params preserve_contents).2.1) ∧
    ((InitializeSurface B c gpu_addr params preserve_contents).2.1 = c.num_surfaces ∨
      (c.surfaces (InitializeSurface B c gpu_addr params preserve_contents).2.1).params =
        params) := by
  have hg := (GetUncachedSurface_result B c gpu_addr params).1
  have hfl := Register_flag B (GetUncachedSurface B c gpu_addr params).1
    (GetUncachedSurface B c gpu_addr params).2 cpu_addr (by rw [hg]; exact hptr)
    (by rw [hg]; exact hcpu)
  have hM := LoadSurface_modificationOnly
    (Register B (GetUncachedSurface B c gpu_addr params).1
      (GetUncachedSurface B c gpu_addr params).2) (GetUncachedSurface B c gpu_addr params).2
  have hst := InitializeSurface_state B c gpu_addr params preserve_contents
  have hflag : ∀ s, ((InitializeSurface B c gpu_addr params preserve_contents).1.surfaces
      s).is_registered = ((Register B (GetUncachedSurface B c gpu_addr params).1
        (GetUncachedSurface B c gpu_addr params).2).surfaces s).is_registered := by
    intro s
    rw [hst]
    cases preserve_contents
    · rfl
    · exact (hM.fields s).2.2.2.2.2.2.1
  have hpar : ∀ s, ((InitializeSurface B c gpu_addr params preserve_contents).1.surfaces
      s).params = ((Register B (GetUncachedSurface B c gpu_addr params).1
        (GetUncachedSurface B c gpu_addr params).2).surfaces s).params := by
    intro s
    rw [hst]
    cases preserve_contents
    · rfl
    · exact (hM.fields s).1
  have hregy : (InitializeSurface B c gpu_addr params preserve_contents).1.registry =
      (Register B (GetUncachedSurface B c gpu_addr params).1
        (GetUncachedSurface B c gpu_addr params).2).registry := by
    rw [hst]
    cases preserve_contents
    · rfl
    · exact hM.registry
  rw [InitializeSurface_result]
  refine ⟨rfl, ?_, ?_, ?_, ?_, GetUncachedSurface_origin B c hres gpu_addr params⟩
  · rw [hflag]; exact hfl.1
  · rw [hpar, hfl.2]; exact GetUncachedSurface_params B c hres gpu_addr params
  · intro s hs
    rw [hflag, Register_other B _ _ s hs, GetUncachedSurface_other B c gpu_addr params s hs]
  · intro p x hx
    rw [hregy] at hx
    rcases Register_registry_mem B _ _ x p hx with h | h
    · rw [(GetUncachedSurface_frame B c gpu_addr params).1] at h
      exact Or.inl h
    · exact Or.inr h

theorem PickStrategy_of_3d (B : Backend) (c : TextureCache) (overlaps : List Nat)
    (params : SurfaceParams) (untopological : MatchTopologyResult)
    (h3d : params.target = SurfaceTarget.Texture3D) :
    PickStrategy B c overlaps params untopological = RecycleStrategy.Flush := by
  unfold PickStrategy
  by_cases h1 : B.use_accurate_gpu_emulation = true
  · rw [if_pos h1]
  · rw [if_neg h1, if_pos (by simp [h3d])]

theorem GetSurface_of_3d_over_other (B : Backend) (c : TextureCache) (gpu_addr : Nat)
    (params : SurfaceParams) (preserve_contents is_render : Bool) (S : Nat)
    (hinv : c.RegistryInv) (hptr : B.GetPointer gpu_addr ≠ 0)
    (hsize : 0 < B.GetGuestSizeInBytes params)
    (hwrap : B.GetPointer gpu_addr + B.GetGuestSizeInBytes params < 2 ^ 64)
    (h3d : params.target = SurfaceTarget.Texture3D)
    (hS : (c.surfaces S).is_registered = true)
    (hSaddr : (c.surfaces S).cache_addr = B.GetPointer gpu_addr)
    (hS2d : (c.surfaces S).params.target ≠ SurfaceTarget.Texture3D)
    (hview : B.EmplaceView (c.surfaces S) params gpu_addr (B.GetGuestSizeInBytes params) =
      none) :
    ∃ L r, GetSurface B c gpu_addr params preserve_contents is_render =
        RecycleSurface B c L params gpu_addr preserve_contents r ∧
      S ∈ L ∧ L.Nodup ∧ (∀ s ∈ L, (c.surfaces s).is_registered = true) := by
  have hl1 : c.l1_cache (B.GetPointer gpu_addr) = some S := (hinv.index S _).mpr ⟨hS, hSaddr⟩
  unfold GetSurface
  simp only [hptr, if_false, hl1]
  by_cases htop : B.MatchesTopology (c.surfaces S).params params = MatchTopologyResult.FullMatch
  · rw [if_neg (by simpa using htop)]
    have hcond : (decide (B.MatchesStructure (c.surfaces S).params params ≠
        MatchStructureResult.None) &&
        (decide (params.target ≠ SurfaceTarget.Texture3D) ||
          (c.surfaces S).MatchTarget params.target)) = false := by
      simp [h3d, Surface.MatchTarget, hS2d]
    rw [hcond]
    simp only [Bool.false_eq_true, if_false]
    have hmemS : S ∈ (c.GetSurfacesInRegion (B.GetPointer gpu_addr)
        (B.GetGuestSizeInBytes params)).2 := by
      rw [mem_GetSurfacesInRegion_iff c hinv.toBucketsExact _ _ hwrap]
      refine ⟨hS, ?_⟩
      have hr := hinv.ranges S hS
      rw [rangesIntersect_iff hr.1 (by omega)]
      omega
    obtain ⟨r, hr⟩ := GetSurfaceFromOverlaps_of_3d B c gpu_addr params preserve_contents
      is_render (B.GetPointer gpu_addr)
      (c.GetSurfacesInRegion (B.GetPointer gpu_addr) (B.GetGuestSizeInBytes params)).2
      (Prod.ext (GetSurfacesInRegion_state c hinv.picked _ _) rfl)
      (List.ne_nil_of_mem hmemS) h3d
      (by
        intro x hx
        rw [hx, List.mem_singleton] at hmemS
        rw [← hmemS]; exact hview)
    refine ⟨_, r, hr, hmemS, GetSurfacesInRegion_nodup c hinv.picked _ _, ?_⟩
    intro s hs
    exact ((mem_GetSurfacesInRegion_iff c hinv.toBucketsExact _ _ hwrap s).mp hs).1
  · rw [if_pos (by simpa using htop)]
    refine ⟨[S], _, rfl, List.mem_singleton_self S, List.nodup_singleton S, ?_⟩
    intro s hs
    rw [List.mem_singleton] at hs
    rw [hs]; exact hS

end TextureCache

end VideoCommon

namespace VideoCommon

namespace TextureCache

theorem eq_singleton_of_nodup (L : List Nat) (S : Nat) (hn : L.Nodup)
    (hmem : ∀ s, s ∈ L ↔ s = S) : L = [S] := by
  have hp : L.Perm [S] := by
    rw [List.perm_ext_iff_of_nodup hn (List.nodup_singleton S)]
    intro s
    rw [hmem s, List.mem_singleton]
  exact List.perm_singleton.mp hp

theorem GetSurfaceFromOverlaps_carved (B : Backend) (c : TextureCache) (gpu_addr : Nat)
    (params : SurfaceParams) (preserve_contents is_render : Bool) (cache_addr : Nat)
    (S view : Nat)
    (hq : c.GetSurfacesInRegion cache_addr (B.GetGuestSizeInBytes params) = (c, [S]))
    (htop : B.MatchesTopology (c.surfaces S).params params = MatchTopologyResult.FullMatch)
    (hinside : (c.surfaces S).IsInside gpu_addr
      (add64 gpu_addr (B.GetGuestSizeInBytes params)) = true)
    (hformat : (c.surfaces S).MatchFormat params.pixel_format = true)
    (hview : B.EmplaceView (c.surfaces S) params gpu_addr (B.GetGuestSizeInBytes params) =
      some view) :
    GetSurfaceFromOverlaps B c gpu_addr params preserve_contents is_render cache_addr =
      (c, (S, some (View.carved S view))) := by
  unfold GetSurfaceFromOverlaps
  simp only [hq]
  simp [htop, hinside, hview, hformat]

/-- C15: scenario A, the exact hit. For a backend whose comparisons fully match equal params,
in every state in which a surface `S` is the exact-address index entry for the
request's (translatable) cache address and the request's params equal the params
of `S`, `GetSurface` returns `S` with the main view of `S` and leaves the whole
cache state as it was: registered flags, page buckets, exact-address index and
reserve pool included. -/
theorem GetSurface_exact_hit_frame (B : Backend) (c : TextureCache) (gpu_addr : Nat)
    (params : SurfaceParams) (preserve_contents is_render : Bool) (S : Nat)
    (hptr : B.GetPointer gpu_addr ≠ 0)
    (hl1 : c.l1_cache (B.GetPointer gpu_addr) = some S)
    (hparams : (c.surfaces S).params = params)
    (htop : B.MatchesTopology params params = MatchTopologyResult.FullMatch)
    (hstr : B.MatchesStructure params params = MatchStructureResult.FullMatch) :
    (GetSurface B c gpu_addr params preserve_contents is_render).2 = (S, some (View.main S)) ∧
    (GetSurface B c gpu_addr params preserve_contents is_render).1 = c ∧
    (GetSurface B c gpu_addr params preserve_contents is_render).1.registry = c.registry ∧
    (GetSurface B c gpu_addr params preserve_contents is_render).1.l1_cache = c.l1_cache ∧
    (GetSurface B c gpu_addr params preserve_contents is_render).1.surface_reserve =
      c.surface_reserve ∧
    (∀ s, ((GetSurface B c gpu_addr params preserve_contents is_render).1.surfaces
      s).is_registered = (c.surfaces s).is_registered) := by
  rw [GetSurface_exact_hit B c gpu_addr params preserve_contents is_render S hptr hl1 hparams
    htop hstr]
  exact ⟨rfl, rfl, rfl, rfl, rfl, fun _ => rfl⟩

end TextureCache

end VideoCommon

namespace VideoCommon

namespace TextureCache

end TextureCache

end VideoCommon

namespace VideoCommon

namespace TextureCache

/-! ## Facts about the example states -/

theorem Register_reserve (B : Backend) (c : TextureCache) (n : Nat) :
    (Register B c n).surface_reserve = c.surface_reserve := by
  by_cases hptr : B.GetPointer (c.surfaces n).gpu_addr = 0
  · rw [Register_of_null B c n hptr]
  · cases hcpu : B.GpuToCpuAddress (c.surfaces n).gpu_addr with
    | none => rw [Register_of_unmapped B c n hcpu]
    | some cpu => rw [Register_eq B c n cpu hptr hcpu]

theorem InitializeSurface_reserve (B : Backend) (c : TextureCache) (gpu_addr : Nat)
    (params : SurfaceParams) (preserve_contents : Bool) :
    (InitializeSurface B c gpu_addr params preserve_contents).1.surface_reserve =
      c.surface_reserve := by
  rw [InitializeSurface_state]
  cases preserve_contents
  · exact (Register_reserve B _ _).trans (GetUncachedSurface_frame B c gpu_addr params).2.2.2.1
  · exact ((LoadSurface_modificationOnly _ _).reserve.trans (Register_reserve B _ _)).trans
      (GetUncachedSurface_frame B c gpu_addr params).2.2.2.1

theorem reserveKeyed_of_empty (c : TextureCache) (h : c.surface_reserve = fun _ => []) :
    c.ReserveKeyed := by
  intro p s hs
  rw [h] at hs
  cases hs

theorem oneModified_reserveKeyed : Example.oneModified.ReserveKeyed :=
  reserveKeyed_of_empty _
    (InitializeSurface_reserve Example.backend (init Example.maxwell3d) 0x100000
      (Example.texture 4 4 2 PixelFormat.Z16) false)

theorem mipChain_inv : Example.mipChain.RegistryInv := by
  unfold Example.mipChain
  exact InitializeSurface_inv Example.backend (init Example.maxwell3d) (init_inv _)
    (fun p s hs => by simp [init] at hs) 0x100000 0x100000 _ false (by decide!) (by decide!)
    rfl (by decide!) (by decide!)

theorem mipChain_registered (s : Nat)
    (h : (Example.mipChain.surfaces s).is_registered = true) : s = 0 := by
  by_contra hs
  have h2 := mipChain_inv.fresh s (by
    have : Example.mipChain.num_surfaces = 1 := by decide!
    omega)
  rw [h] at h2; cases h2

end TextureCache

end VideoCommon

namespace VideoCommon

namespace TextureCache

/-! ## The render-target slots -/

theorem SlotsKept.same (c : TextureCache) : SlotsKept c c := ⟨rfl, rfl⟩

theorem SlotsKept.andThen {c d e : TextureCache} (h1 : SlotsKept c d) (h2 : SlotsKept d e) :
    SlotsKept c e :=
  ⟨h2.slots.trans h1.slots, h2.depth.trans h1.depth⟩

theorem ModificationOnly.slotsKept {c d : TextureCache} (h : ModificationOnly c d) :
    SlotsKept c d := ⟨h.slots, h.depth⟩

theorem Unregister_slots (c : TextureCache) (s : Nat) : SlotsKept c (c.Unregister s) := by
  cases hs : c.Shielded s
  · rw [Unregister_eq c s hs]; exact ⟨rfl, rfl⟩
  · rw [Unregister_of_shielded c s hs]; exact ⟨rfl, rfl⟩

theorem Register_slots (B : Backend) (c : TextureCache) (n : Nat) :
    SlotsKept c (Register B c n) := by
  by_cases hptr : B.GetPointer (c.surfaces n).gpu_addr = 0
  · rw [Register_of_null B c n hptr]; exact ⟨rfl, rfl⟩
  · cases hcpu : B.GpuToCpuAddress (c.surfaces n).gpu_addr with
    | none => rw [Register_of_unmapped B c n hcpu]; exact ⟨rfl, rfl⟩
    | some cpu => rw [Register_eq B c n cpu hptr hcpu]; exact ⟨rfl, rfl⟩

theorem GetUncachedSurface_slots (B : Backend) (c : TextureCache) (gpu_addr : Nat)
    (params : SurfaceParams) : SlotsKept c (GetUncachedSurface B c gpu_addr params).1 := by
  cases hr : c.TryGetReservedSurface params with
  | some n => rw [GetUncachedSurface_reserved B c gpu_addr params n hr]; exact ⟨rfl, rfl⟩
  | none => rw [GetUncachedSurface_created B c gpu_addr params hr]; exact ⟨rfl, rfl⟩

theorem InitializeSurface_slots (B : Backend) (c : TextureCache) (gpu_addr : Nat)
    (params : SurfaceParams) (preserve_contents : Bool) :
    SlotsKept c (InitializeSurface B c gpu_addr params preserve_contents).1 := by
  rw [InitializeSurface_state]
  cases preserve_contents
  · exact (GetUncachedSurface_slots B c gpu_addr params).andThen (Register_slots B _ _)
  · exact ((GetUncachedSurface_slots B c gpu_addr params).andThen (Register_slots B _ _)).andThen
      (LoadSurface_modificationOnly _ _).slotsKept

theorem foldl_Unregister_slots (L : List Nat) (c : TextureCache) :
    SlotsKept c (L.foldl Unregister c) := by
  induction L generalizing c with
  | nil => exact SlotsKept.same c
  | cons s rest ih => exact (Unregister_slots c s).andThen (ih (c.Unregister s))

theorem RecycleSurface_slots (B : Backend) (c : TextureCache) (overlaps : List Nat)
    (params : SurfaceParams) (gpu_addr : Nat) (preserve_contents : Bool)
    (untopological : MatchTopologyResult) :
    SlotsKept c
      (RecycleSurface B c overlaps params gpu_addr preserve_contents untopological).1 := by
  rw [RecycleSurface_eq]
  rcases PickStrategy_cases B (overlaps.foldl Unregister c) overlaps params untopological
    with h | h
  · rw [recycleAfterUnregister_of_ignore _ _ _ _ _ _ _ h]
    exact (foldl_Unregister_slots overlaps c).andThen (InitializeSurface_slots B _ _ _ _)
  · rw [recycleAfterUnregister_of_flush _ _ _ _ _ _ _ h]
    exact ((foldl_Unregister_slots overlaps c).andThen
      (foldl_FlushSurface_modificationOnly _ _).slotsKept).andThen
      (InitializeSurface_slots B _ _ _ _)

theorem rebuild_tail_slots (B : Backend) (d : TextureCache) (ev : List Event)
    (current_surface new_surface : Nat) (f : Surface → Surface) :
    SlotsKept d
      ((Register B (Unregister { d with events := ev } current_surface) new_surface).Tick.1.modify
        new_surface f) :=
  (⟨rfl, rfl⟩ : SlotsKept d { d with events := ev }).andThen
    ((Unregister_slots _ _).andThen ((Register_slots B _ _).andThen ⟨rfl, rfl⟩))

theorem RebuildSurface_slots (B : Backend) (c : TextureCache) (current_surface : Nat)
    (params : SurfaceParams) (is_render : Bool) :
    SlotsKept c (RebuildSurface B c current_surface params is_render).1 := by
  unfold RebuildSurface
  dsimp only
  split_ifs
  all_goals
    exact (GetUncachedSurface_slots B c _ _).andThen (rebuild_tail_slots B _ _ _ _ _)

theorem reconstructLoop_slots (B : Backend) (params : SurfaceParams) (new_surface : Nat)
    (L : List Nat) (c : TextureCache) (modified : Bool) (passed_tests : Nat) :
    SlotsKept c (reconstructLoop B params new_surface L c modified passed_tests).1 := by
  induction L generalizing c modified passed_tests with
  | nil => exact SlotsKept.same c
  | cons s rest ih =>
    unfold reconstructLoop
    dsimp only
    split_ifs
    · exact SlotsKept.same c
    · split
      · exact ih c modified passed_tests
      · split_ifs
        · exact ih c modified passed_tests
        · exact ⟨(ih _ _ _).slots, (ih _ _ _).depth⟩

theorem TryReconstructSurface_slots (B : Backend) (c : TextureCache) (overlaps : List Nat)
    (params : SurfaceParams) (gpu_addr : Nat) :
    SlotsKept c (TryReconstructSurface B c overlaps params gpu_addr).1 := by
  have h1 := GetUncachedSurface_slots B c gpu_addr params
  have h2 := reconstructLoop_slots B params (GetUncachedSurface B c gpu_addr params).2 overlaps
    (GetUncachedSurface B c gpu_addr params).1 false 0
  unfold TryReconstructSurface
  split_ifs
  · exact SlotsKept.same c
  · dsimp only
    split
    · rename_i c2 heq
      rw [heq] at h2
      exact h1.andThen h2
    · rename_i c2 modified passed heq
      rw [heq] at h2
      split_ifs
      · exact h1.andThen h2
      · exact h1.andThen h2
      · refine (h1.andThen h2).andThen ((foldl_Unregister_slots overlaps c2).andThen ?_)
        exact ⟨(Register_slots B _ _).slots, (Register_slots B _ _).depth⟩

end TextureCache

end VideoCommon

namespace VideoCommon

namespace TextureCache

theorem GetSurfacesInRegion_slots (c : TextureCache) (cache_addr size : Nat) :
    SlotsKept c (c.GetSurfacesInRegion cache_addr size).1 := by
  unfold GetSurfacesInRegion
  split_ifs
  · exact ⟨rfl, rfl⟩
  · exact ⟨rfl, rfl⟩

theorem ManageStructuralMatch_slots (B : Backend) (c : TextureCache) (current_surface : Nat)
    (params : SurfaceParams) (is_render : Bool) :
    SlotsKept c (ManageStructuralMatch B c current_surface params is_render).1 := by
  unfold ManageStructuralMatch
  dsimp only
  split_ifs
  all_goals first
    | exact SlotsKept.same c
    | exact RebuildSurface_slots B c current_surface params is_render

theorem recycle_after_reconstruct_slots (B : Backend) (c : TextureCache) (overlaps : List Nat)
    (params : SurfaceParams) (gpu_addr : Nat) (preserve_contents : Bool) :
    SlotsKept c
      (match TryReconstructSurface B c overlaps params gpu_addr with
        | (c2, some view) => (c2, view)
        | (c2, none) =>
          RecycleSurface B c2 overlaps params gpu_addr preserve_contents
            MatchTopologyResult.FullMatch).1 := by
  have h := TryReconstructSurface_slots B c overlaps params gpu_addr
  split
  · rename_i c2 view heq
    rw [heq] at h
    exact h
  · rename_i c2 heq
    rw [heq] at h
    exact h.andThen (RecycleSurface_slots B c2 _ _ _ _ _)

theorem slots_of_eq {α : Type} {x : TextureCache × α} {c c2 : TextureCache} {a : α}
    (h : SlotsKept c x.1) (heq : x = (c2, a)) : SlotsKept c c2 := by
  rw [heq] at h
  exact h

theorem GetSurfaceFromOverlaps_eq (B : Backend) (c : TextureCache) (gpu_addr : Nat)
    (params : SurfaceParams) (preserve_contents is_render : Bool) (cache_addr : Nat) :
    GetSurfaceFromOverlaps B c gpu_addr params preserve_contents is_render cache_addr =
      resolveOverlaps B (c.GetSurfacesInRegion cache_addr (B.GetGuestSizeInBytes params)).1
        (c.GetSurfacesInRegion cache_addr (B.GetGuestSizeInBytes params)).2 gpu_addr params
        preserve_contents is_render := by
  unfold GetSurfaceFromOverlaps resolveOverlaps
  rfl

theorem resolveOverlaps_slots (B : Backend) (c1 : TextureCache) (overlaps : List Nat)
    (gpu_addr : Nat) (params : SurfaceParams) (preserve_contents is_render : Bool) :
    SlotsKept c1
      (resolveOverlaps B c1 overlaps gpu_addr params preserve_contents is_render).1 := by
  unfold resolveOverlaps
  dsimp only
  repeat' split
  all_goals with_reducible first
    | exact SlotsKept.same _
    | exact InitializeSurface_slots B c1 _ _ _
    | exact RecycleSurface_slots B c1 _ _ _ _ _
    | exact RebuildSurface_slots B c1 _ _ _
    | exact (RebuildSurface_slots B c1 _ _ _).andThen (RecycleSurface_slots B _ _ _ _ _ _)
    | exact slots_of_eq (TryReconstructSurface_slots B c1 _ _ _) (by assumption)
    | exact (slots_of_eq (TryReconstructSurface_slots B c1 _ _ _) (by assumption)).andThen
        (RecycleSurface_slots B _ _ _ _ _ _)

theorem GetSurfaceFromOverlaps_slots (B : Backend) (c : TextureCache) (gpu_addr : Nat)
    (params : SurfaceParams) (preserve_contents is_render : Bool) (cache_addr : Nat) :
    SlotsKept c
      (GetSurfaceFromOverlaps B c gpu_addr params preserve_contents is_render cache_addr).1 := by
  rw [GetSurfaceFromOverlaps_eq]
  exact (GetSurfacesInRegion_slots c _ _).andThen (resolveOverlaps_slots B _ _ _ _ _ _)

theorem GetSurface_slots (B : Backend) (c : TextureCache) (gpu_addr : Nat)
    (params : SurfaceParams) (preserve_contents is_render : Bool) :
    SlotsKept c (GetSurface B c gpu_addr params preserve_contents is_render).1 := by
  unfold GetSurface
  dsimp only
  split_ifs
  · exact InitializeSurface_slots B c _ _ _
  · split
    · split_ifs
      · exact RecycleSurface_slots B c _ _ _ _ _
      · exact ManageStructuralMatch_slots B c _ _ _
      · exact RebuildSurface_slots B c _ _ _
      · exact GetSurfaceFromOverlaps_slots B c _ _ _ _ _
    · exact GetSurfaceFromOverlaps_slots B c _ _ _ _ _

end TextureCache

end VideoCommon

namespace VideoCommon

namespace TextureCache

theorem GetColorBufferSurface_of_clean (B : Backend) (c : TextureCache) (index : Nat)
    (preserve_contents : Bool) (h : c.maxwell3d.dirty_render_target index = false) :
    GetColorBufferSurface B c index preserve_contents = (c, (c.render_targets index).view) := by
  unfold GetColorBufferSurface
  simp [h]

theorem GetDepthBufferSurface_of_clean (B : Backend) (c : TextureCache)
    (preserve_contents : Bool) (h : c.maxwell3d.dirty_depth_buffer = false) :
    GetDepthBufferSurface B c preserve_contents = (c, c.depth_buffer.view) := by
  unfold GetDepthBufferSurface
  simp [h]

theorem GetColorBufferSurface_of_dirty (B : Backend) (c : TextureCache) (index : Nat)
    (preserve_contents : Bool) (hdirty : c.maxwell3d.dirty_render_target index = true)
    (hcount : index < c.maxwell3d.rt_control_count)
    (haddr : (c.maxwell3d.rt index).address ≠ 0)
    (hfmt : (c.maxwell3d.rt index).format_none = false) :
    GetColorBufferSurface B c index preserve_contents =
      (bindColorSlot
        (GetSurface B (c.clearColorDirty index) (c.maxwell3d.rt index).address
          (c.maxwell3d.rt index).params preserve_contents true).1 index
        (GetSurface B (c.clearColorDirty index) (c.maxwell3d.rt index).address
          (c.maxwell3d.rt index).params preserve_contents true).2,
       (GetSurface B (c.clearColorDirty index) (c.maxwell3d.rt index).address
          (c.maxwell3d.rt index).params preserve_contents true).2.2) := by
  unfold GetColorBufferSurface
  simp only [hdirty, Bool.not_true, Bool.false_eq_true, if_false]
  rw [if_neg (by simp [hfmt, haddr]; omega)]
  rfl

theorem GetColorBufferSurface_of_disabled (B : Backend) (c : TextureCache) (index : Nat)
    (preserve_contents : Bool) (hdirty : c.maxwell3d.dirty_render_target index = true)
    (hoff : (decide (c.maxwell3d.rt_control_count ≤ index) ||
      decide ((c.maxwell3d.rt index).address = 0) || (c.maxwell3d.rt index).format_none) = true) :
    GetColorBufferSurface B c index preserve_contents =
      ((c.clearColorDirty index).SetEmptyColorBuffer index, none) := by
  unfold GetColorBufferSurface
  simp only [hdirty, Bool.not_true, Bool.false_eq_true, if_false]
  rw [if_pos hoff]
  rfl

theorem GetDepthBufferSurface_of_dirty (B : Backend) (c : TextureCache)
    (preserve_contents : Bool) (hdirty : c.maxwell3d.dirty_depth_buffer = true)
    (haddr : c.maxwell3d.zeta_address ≠ 0) (hen : c.maxwell3d.zeta_enable = true) :
    GetDepthBufferSurface B c preserve_contents =
      (bindDepthSlot
        (GetSurface B c.clearDepthDirty c.maxwell3d.zeta_address c.maxwell3d.zeta_params
          preserve_contents true).1
        (GetSurface B c.clearDepthDirty c.maxwell3d.zeta_address c.maxwell3d.zeta_params
          preserve_contents true).2,
       (GetSurface B c.clearDepthDirty c.maxwell3d.zeta_address c.maxwell3d.zeta_params
          preserve_contents true).2.2) := by
  unfold GetDepthBufferSurface
  simp only [hdirty, Bool.not_true, Bool.false_eq_true, if_false]
  rw [if_neg (by simp [haddr, hen])]
  rfl

theorem GetDepthBufferSurface_of_disabled (B : Backend) (c : TextureCache)
    (preserve_contents : Bool) (hdirty : c.maxwell3d.dirty_depth_buffer = true)
    (hoff : (decide (c.maxwell3d.zeta_address = 0) || !c.maxwell3d.zeta_enable) = true) :
    GetDepthBufferSurface B c preserve_contents = (c.clearDepthDirty.SetEmptyDepthBuffer, none) := by
  unfold GetDepthBufferSurface
  simp only [hdirty, Bool.not_true, Bool.false_eq_true, if_false]
  rw [if_pos hoff]
  rfl

theorem bindColorSlot_spec (c1 : TextureCache) (index : Nat) (sv : Nat × Option View) :
    (bindColorSlot c1 index sv).render_targets index = { target := some sv.1, view := sv.2 } ∧
    ((bindColorSlot c1 index sv).surfaces sv.1).is_target = true ∧
    ((bindColorSlot c1 index sv).surfaces sv.1).index = index ∧
    (∀ old, (c1.render_targets index).target = some old → old ≠ sv.1 →
      ((bindColorSlot c1 index sv).surfaces old).is_target = false ∧
      ((bindColorSlot c1 index sv).surfaces old).index = NO_RT) ∧
    (bindColorSlot c1 index sv).maxwell3d = c1.maxwell3d := by
  unfold bindColorSlot
  cases ht : (c1.render_targets index).target with
  | none =>
    refine ⟨?_, ?_, ?_, ?_, rfl⟩
    · simp [modify]
    · simp [modify, Surface.MarkAsRenderTarget]
    · simp [modify, Surface.MarkAsRenderTarget]
    · intro old ho
      cases ho
  | some t =>
    refine ⟨?_, ?_, ?_, ?_, rfl⟩
    · simp [modify]
    · simp [modify, Surface.MarkAsRenderTarget]
    · simp [modify, Surface.MarkAsRenderTarget]
    · intro old ho hne
      cases ho
      simp [modify, Surface.MarkAsRenderTarget, Function.update_noteq hne]

theorem bindDepthSlot_spec (c1 : TextureCache) (sv : Nat × Option View) :
    (bindDepthSlot c1 sv).depth_buffer = { target := some sv.1, view := sv.2 } ∧
    ((bindDepthSlot c1 sv).surfaces sv.1).is_target = true ∧
    ((bindDepthSlot c1 sv).surfaces sv.1).index = DEPTH_RT ∧
    (∀ old, c1.depth_buffer.target = some old → old ≠ sv.1 →
      ((bindDepthSlot c1 sv).surfaces old).is_target = false ∧
      ((bindDepthSlot c1 sv).surfaces old).index = NO_RT) ∧
    (bindDepthSlot c1 sv).maxwell3d = c1.maxwell3d := by
  unfold bindDepthSlot
  cases ht : c1.depth_buffer.target with
  | none =>
    refine ⟨?_, ?_, ?_, ?_, rfl⟩
    · simp [modify]
    · simp [modify, Surface.MarkAsRenderTarget]
    · simp [modify, Surface.MarkAsRenderTarget]
    · intro old ho
      cases ho
  | some t =>
    refine ⟨?_, ?_, ?_, ?_, rfl⟩
    · simp [modify]
    · simp [modify, Surface.MarkAsRenderTarget]
    · simp [modify, Surface.MarkAsRenderTarget]
    · intro old ho hne
      cases ho
      simp [modify, Surface.MarkAsRenderTarget, Function.update_noteq hne]

theorem SetEmptyColorBuffer_maxwell (c : TextureCache) (index : Nat) :
    (c.SetEmptyColorBuffer index).maxwell3d = c.maxwell3d := by
  unfold SetEmptyColorBuffer
  split <;> rfl

theorem SetEmptyDepthBuffer_maxwell (c : TextureCache) :
    c.SetEmptyDepthBuffer.maxwell3d = c.maxwell3d := by
  unfold SetEmptyDepthBuffer
  split <;> rfl

/-- C18: a clean slot returns the cached view. If the dirty flag of colour slot `index` is
clear, `GetColorBufferSurface(index, preserve_contents)` returns the view cached
in that slot and leaves the whole state as it was (no resolution, no registration
change, no render-target mark change, dirty flags untouched); if the depth dirty
flag is clear, `GetDepthBufferSurface(preserve_contents)` returns the view cached
in the depth slot and leaves the whole state as it was. -/
theorem clean_slot_returns_cached_view (B : Backend) (c : TextureCache) (index : Nat)
    (preserve_contents : Bool) :
    (c.maxwell3d.dirty_render_target index = false →
      GetColorBufferSurface B c index preserve_contents = (c, (c.render_targets index).view)) ∧
    (c.maxwell3d.dirty_depth_buffer = false →
      GetDepthBufferSurface B c preserve_contents = (c, c.depth_buffer.view)) :=
  ⟨GetColorBufferSurface_of_clean B c index preserve_contents,
    GetDepthBufferSurface_of_clean B c preserve_contents⟩

/-- C19: a dirty slot is re-resolved and re-marked. When the dirty flag of colour slot `index`
is set and the slot's registers are enabled with a non-zero address, after
`GetColorBufferSurface(index, preserve_contents)` the view returned and the slot
are exactly the (surface, view) pair that `GetSurface` returns for that
configuration (called as a render resolution, in the state with the flag
cleared); that surface is marked as render target with index `index`, and the
surface the slot held before, if it is another one, is not marked as render
target and carries `NO_RT`. The same holds for `GetDepthBufferSurface` with the
depth slot, the zeta registers and the mark `DEPTH_RT`. -/
theorem dirty_slot_resolved_and_marked (B : Backend) (c : TextureCache) (index : Nat)
    (preserve_contents : Bool) :
    (c.maxwell3d.dirty_render_target index = true →
      index < c.maxwell3d.rt_control_count →
      (c.maxwell3d.rt index).address ≠ 0 →
      (c.maxwell3d.rt index).format_none = false →
      (GetColorBufferSurface B c index preserve_contents).2 =
        (GetSurface B (c.clearColorDirty index) (c.maxwell3d.rt index).address
          (c.maxwell3d.rt index).params preserve_contents true).2.2 ∧
      (GetColorBufferSurface B c index preserve_contents).1.render_targets index =
        { target := some (GetSurface B (c.clearColorDirty index) (c.maxwell3d.rt index).address
            (c.maxwell3d.rt index).params preserve_contents true).2.1,
          view := (GetSurface B (c.clearColorDirty index) (c.maxwell3d.rt index).address
            (c.maxwell3d.rt index).params preserve_contents true).2.2 } ∧
      ((GetColorBufferSurface B c index preserve_contents).1.surfaces
        (GetSurface B (c.clearColorDirty index) (c.maxwell3d.rt index).address
          (c.maxwell3d.rt index).params preserve_contents true).2.1).is_target = true ∧
      ((GetColorBufferSurface B c index preserve_contents).1.surfaces
        (GetSurface B (c.clearColorDirty index) (c.maxwell3d.rt index).address
          (c.maxwell3d.rt index).params preserve_contents true).2.1).index = index ∧
      (∀ old, (c.render_targets index).target = some old →
        old ≠ (GetSurface B (c.clearColorDirty index) (c.maxwell3d.rt index).address
          (c.maxwell3d.rt index).params preserve_contents true).2.1 →
        ((GetColorBufferSurface B c index preserve_contents).1.surfaces old).is_target = false ∧
        ((GetColorBufferSurface B c index preserve_contents).1.surfaces old).index = NO_RT)) ∧
    (c.maxwell3d.dirty_depth_buffer = true →
      c.maxwell3d.zeta_address ≠ 0 →
      c.maxwell3d.zeta_enable = true →
      (GetDepthBufferSurface B c preserve_contents).2 =
        (GetSurface B c.clearDepthDirty c.maxwell3d.zeta_address c.maxwell3d.zeta_params
          preserve_contents true).2.2 ∧
      (GetDepthBufferSurface B c preserve_contents).1.depth_buffer =
        { target := some (GetSurface B c.clearDepthDirty c.maxwell3d.zeta_address
            c.maxwell3d.zeta_params preserve_contents true).2.1,
          view := (GetSurface B c.clearDepthDirty c.maxwell3d.zeta_address
            c.maxwell3d.zeta_params preserve_contents true).2.2 } ∧
      ((GetDepthBufferSurface B c preserve_contents).1.surfaces
        (GetSurface B c.clearDepthDirty c.maxwell3d.zeta_address c.maxwell3d.zeta_params
          preserve_contents true).2.1).is_target = true ∧
      ((GetDepthBufferSurface B c preserve_contents).1.surfaces
        (GetSurface B c.clearDepthDirty c.maxwell3d.zeta_address c.maxwell3d.zeta_params
          preserve_contents true).2.1).index = DEPTH_RT ∧
      (∀ old, c.depth_buffer.target = some old →
        old ≠ (GetSurface B c.clearDepthDirty c.maxwell3d.zeta_address c.maxwell3d.zeta_params
          preserve_contents true).2.1 →
        ((GetDepthBufferSurface B c preserve_contents).1.surfaces old).is_target = false ∧
        ((GetDepthBufferSurface B c preserve_contents).1.surfaces old).index = NO_RT)) := by
  constructor
  · intro hdirty hcount haddr hfmt
    rw [GetColorBufferSurface_of_dirty B c index preserve_contents hdirty hcount haddr hfmt]
    obtain ⟨h1, h2, h3, h4, _⟩ := bindColorSlot_spec
      (GetSurface B (c.clearColorDirty index) (c.maxwell3d.rt index).address
        (c.maxwell3d.rt index).params preserve_contents true).1 index
      (GetSurface B (c.clearColorDirty index) (c.maxwell3d.rt index).address
        (c.maxwell3d.rt index).params preserve_contents true).2
    have hs := (GetSurface_slots B (c.clearColorDirty index) (c.maxwell3d.rt index).address
      (c.maxwell3d.rt index).params preserve_contents true).slots
    refine ⟨rfl, h1, h2, h3, ?_⟩
    intro old ho hne
    apply h4 old _ hne
    rw [hs]; exact ho
  · intro hdirty haddr hen
    rw [GetDepthBufferSurface_of_dirty B c preserve_contents hdirty haddr hen]
    obtain ⟨h1, h2, h3, h4, _⟩ := bindDepthSlot_spec
      (GetSurface B c.clearDepthDirty c.maxwell3d.zeta_address c.maxwell3d.zeta_params
        preserve_contents true).1
      (GetSurface B c.clearDepthDirty c.maxwell3d.zeta_address c.maxwell3d.zeta_params
        preserve_contents true).2
    have hs := (GetSurface_slots B c.clearDepthDirty c.maxwell3d.zeta_address
      c.maxwell3d.zeta_params preserve_contents true).depth
    refine ⟨rfl, h1, h2, h3, ?_⟩
    intro old ho hne
    apply h4 old _ hne
    rw [hs]; exact ho

theorem GetColorBufferSurface_flag (B : Backend) (c : TextureCache) (index : Nat)
    (preserve_contents : Bool) :
    (GetColorBufferSurface B c index preserve_contents).1.maxwell3d.dirty_render_target index =
      (if (c.maxwell3d.dirty_render_target index &&
          decide (index < c.maxwell3d.rt_control_count) &&
          decide ((c.maxwell3d.rt index).address ≠ 0) &&
          !(c.maxwell3d.rt index).format_none) = true then
        (GetSurface B (c.clearColorDirty index) (c.maxwell3d.rt index).address
          (c.maxwell3d.rt index).params preserve_contents true).1.maxwell3d.dirty_render_target
            index
      else false) := by
  cases hd : c.maxwell3d.dirty_render_target index with
  | false =>
    rw [GetColorBufferSurface_of_clean B c index preserve_contents hd]
    simp [hd]
  | true =>
    by_cases hon : index < c.maxwell3d.rt_control_count ∧ (c.maxwell3d.rt index).address ≠ 0 ∧
        (c.maxwell3d.rt index).format_none = false
    · obtain ⟨h1, h2, h3⟩ := hon
      rw [GetColorBufferSurface_of_dirty B c index preserve_contents hd h1 h2 h3,
        if_pos (by simp [h1, h2, h3])]
      exact congrArg (fun m => m.dirty_render_target index) (bindColorSlot_spec _ _ _).2.2.2.2
    · have hoff : (decide (c.maxwell3d.rt_control_count ≤ index) ||
          decide ((c.maxwell3d.rt index).address = 0) || (c.maxwell3d.rt index).format_none) =
          true := by
        by_cases h1 : index < c.maxwell3d.rt_control_count
        · by_cases h2 : (c.maxwell3d.rt index).address = 0
          · simp [h2]
          · cases h3 : (c.maxwell3d.rt index).format_none
            · exact absurd ⟨h1, h2, h3⟩ hon
            · simp
        · simp [Nat.le_of_not_lt h1]
      rw [GetColorBufferSurface_of_disabled B c index preserve_contents hd hoff,
        SetEmptyColorBuffer_maxwell, if_neg]
      · show Function.update c.maxwell3d.dirty_render_target index false index = false
        rw [Function.update_same]
      · intro hcond
        simp only [Bool.and_eq_true, decide_eq_true_eq, Bool.not_eq_true'] at hcond
        exact hon ⟨hcond.1.1.2, hcond.1.2, hcond.2⟩

theorem GetDepthBufferSurface_flag (B : Backend) (c : TextureCache) (preserve_contents : Bool) :
    (GetDepthBufferSurface B c preserve_contents).1.maxwell3d.dirty_depth_buffer =
      (if (c.maxwell3d.dirty_depth_buffer && decide (c.maxwell3d.zeta_address ≠ 0) &&
          c.maxwell3d.zeta_enable) = true then
        (GetSurface B c.clearDepthDirty c.maxwell3d.zeta_address c.maxwell3d.zeta_params
          preserve_contents true).1.maxwell3d.dirty_depth_buffer
      else false) := by
  cases hd : c.maxwell3d.dirty_depth_buffer with
  | false =>
    rw [GetDepthBufferSurface_of_clean B c preserve_contents hd]
    simp [hd]
  | true =>
    by_cases hon : c.maxwell3d.zeta_address ≠ 0 ∧ c.maxwell3d.zeta_enable = true
    · obtain ⟨h1, h2⟩ := hon
      rw [GetDepthBufferSurface_of_dirty B c preserve_contents hd h1 h2,
        if_pos (by simp [h1, h2])]
      exact congrArg (fun m => m.dirty_depth_buffer) (bindDepthSlot_spec _ _).2.2.2.2
    · have hoff : (decide (c.maxwell3d.zeta_address = 0) || !c.maxwell3d.zeta_enable) = true := by
        by_cases h1 : c.maxwell3d.zeta_address = 0
        · simp [h1]
        · cases h2 : c.maxwell3d.zeta_enable
          · simp
          · exact absurd ⟨h1, h2⟩ hon
      rw [GetDepthBufferSurface_of_disabled B c preserve_contents hd hoff,
        SetEmptyDepthBuffer_maxwell, if_neg]
      · rfl
      · intro hcond
        simp only [Bool.and_eq_true, decide_eq_true_eq] at hcond
        exact hon ⟨hcond.1.2, hcond.2⟩

theorem Unregister_maxwell (c : TextureCache) (s : Nat) :
    (c.Unregister s).maxwell3d = c.unregisterDirty s := by
  cases hs : c.Shielded s
  · rw [Unregister_eq c s hs]
  · rw [Unregister_of_shielded c s hs]
    unfold Shielded at hs
    unfold unregisterDirty
    simp only [Bool.and_eq_true] at hs
    simp [hs.1]

/-- C20 (amended): the dirty flags are cleared by the accessors and set externally or by
`Unregister`. `GetColorBufferSurface(index, ...)` clears the dirty flag of the
slot before it resolves and touches no flag afterwards: on return the flag has
the value the `GetSurface` resolution left (clear when the slot was clean or is
disabled); likewise for `GetDepthBufferSurface`. When the flag is clear on
return, an immediately following call returns the cached view and changes
nothing. The cache itself sets dirty flags in one place: `Unregister` of a
surface marked as render target, with the guard off, sets the dirty flag of the
slot the surface is marked for (the depth flag for `DEPTH_RT`); with the guard on
or for an unmarked surface it leaves the `Maxwell3D` state alone. -/
theorem dirty_flag_after_accessor (B : Backend) (c : TextureCache) (index : Nat)
    (preserve_contents again : Bool) :
    (GetColorBufferSurface B c index preserve_contents).1.maxwell3d.dirty_render_target index =
      (if (c.maxwell3d.dirty_render_target index &&
          decide (index < c.maxwell3d.rt_control_count) &&
          decide ((c.maxwell3d.rt index).address ≠ 0) &&
          !(c.maxwell3d.rt index).format_none) = true then
        (GetSurface B (c.clearColorDirty index) (c.maxwell3d.rt index).address
          (c.maxwell3d.rt index).params preserve_contents true).1.maxwell3d.dirty_render_target
            index
      else false) ∧
    (GetDepthBufferSurface B c preserve_contents).1.maxwell3d.dirty_depth_buffer =
      (if (c.maxwell3d.dirty_depth_buffer && decide (c.maxwell3d.zeta_address ≠ 0) &&
          c.maxwell3d.zeta_enable) = true then
        (GetSurface B c.clearDepthDirty c.maxwell3d.zeta_address c.maxwell3d.zeta_params
          preserve_contents true).1.maxwell3d.dirty_depth_buffer
      else false) ∧
    ((GetColorBufferSurface B c index preserve_contents).1.maxwell3d.dirty_render_target index =
        false →
      GetColorBufferSurface B (GetColorBufferSurface B c index preserve_contents).1 index again =
        ((GetColorBufferSurface B c index preserve_contents).1,
          ((GetColorBufferSurface B c index preserve_contents).1.render_targets index).view)) ∧
    ((GetDepthBufferSurface B c preserve_contents).1.maxwell3d.dirty_depth_buffer = false →
      GetDepthBufferSurface B (GetDepthBufferSurface B c preserve_contents).1 again =
        ((GetDepthBufferSurface B c preserve_contents).1,
          (GetDepthBufferSurface B c preserve_contents).1.depth_buffer.view)) ∧
    (∀ s, (c.guard_render_targets = true ∨ (c.surfaces s).is_target = false) →
      (c.Unregister s).maxwell3d = c.maxwell3d) ∧
    (∀ s, c.guard_render_targets = false → (c.surfaces s).is_target = true →
      if (c.surfaces s).index = DEPTH_RT then
        (c.Unregister s).maxwell3d.dirty_depth_buffer = true
      else (c.Unregister s).maxwell3d.dirty_render_target (c.surfaces s).index = true) := by
  refine ⟨GetColorBufferSurface_flag B c index preserve_contents,
    GetDepthBufferSurface_flag B c preserve_contents,
    GetColorBufferSurface_of_clean B _ index again,
    GetDepthBufferSurface_of_clean B _ again, ?_, ?_⟩
  · intro s hs
    rw [Unregister_maxwell]
    unfold unregisterDirty
    rcases hs with h | h <;> simp [h]
  · intro s hg ht
    rw [Unregister_maxwell]
    unfold unregisterDirty ManageRenderTargetUnregister
    simp only [hg, ht, Bool.not_false, Bool.and_self, if_true]
    split_ifs with h
    · simp [h]
    · simp [h]

end TextureCache

end VideoCommon

namespace VideoCommon

namespace TextureCache

/-! ## Recycling at concrete inputs -/

/-- C12 counterexample: with the render-target guard enabled, recycling over the bound render
target (a request for a 4×4 `R32F` texture at its address, which the exact-address
step of `GetSurface` hands to `RecycleSurface` with that surface as the only
overlap) leaves the overlap registered: after the unregistration loop, and still
on return, its registered flag is set and it sits in its page bucket, and the
reserve list of its params is empty; the same request through `GetSurface`
returns a second surface and leaves the first one registered. -/
theorem RecycleSurface_keeps_guarded_overlap :
    Example.targetGuarded.guard_render_targets = true ∧
    (Example.targetGuarded.surfaces 0).is_registered = true ∧
    (([0].foldl Unregister Example.targetGuarded).surfaces 0).is_registered = true ∧
    0 ∈ ([0].foldl Unregister Example.targetGuarded).registry (page 0x100000) ∧
    ([0].foldl Unregister Example.targetGuarded).surface_reserve
      (Example.targetGuarded.surfaces 0).params = [] ∧
    ((RecycleSurface Example.backend Example.targetGuarded [0]
      (Example.texture 4 4 1 PixelFormat.R32F) 0x100000 false
      MatchTopologyResult.None).1.surfaces 0).is_registered = true ∧
    ((GetSurface Example.backend Example.targetGuarded 0x100000
      (Example.texture 4 4 1 PixelFormat.R32F) false false).1.surfaces 0).is_registered = true ∧
    (GetSurface Example.backend Example.targetGuarded 0x100000
      (Example.texture 4 4 1 PixelFormat.R32F) false false).2.1 = 1 := by
  decide!

/-- C13 counterexample: with accurate emulation enabled and `preserve_contents` clear, recycling
over the modified surface resolves to Flush, writes the overlap back, and does
not load the new surface from guest memory. -/
theorem RecycleSurface_flush_accurate_without_load :
    Example.accurateBackend.use_accurate_gpu_emulation = true ∧
    PickStrategy Example.accurateBackend ([0].foldl Unregister Example.oneModified) [0]
      (Example.texture 4 4 1 PixelFormat.R32F) MatchTopologyResult.None = RecycleStrategy.Flush ∧
    (RecycleSurface Example.accurateBackend Example.oneModified [0]
      (Example.texture 4 4 1 PixelFormat.R32F) 0x100000 false MatchTopologyResult.None).2.1 = 1 ∧
    (RecycleSurface Example.accurateBackend Example.oneModified [0]
      (Example.texture 4 4 1 PixelFormat.R32F) 0x100000 false MatchTopologyResult.None).1.events =
      Example.oneModified.events ++
        [Event.UpdatePagesCachedCount 0x100000 40 (-1), Event.FlushSurface 0,
          Event.UpdatePagesCachedCount 0x100000 64 1] := by
  decide!

/-- C14: under Ignore the new surface is never loaded. For every call, `RecycleSurface` that
does not resolve to Flush initialises the new surface with the load switched off,
whatever `preserve_contents` is (Ignore is only picked when accurate emulation
is off, and the load flag is `preserve_contents && accurate`). At the cache
holding one `Z16` texture, a request for a 4×4 `R32F` texture at the same address
with `preserve_contents` set resolves to Ignore and the trace it leaves (also when
the request comes through `GetSurface`) holds the unregistration and the
registration only, no load. -/
theorem RecycleSurface_ignore_never_loads :
    (∀ (B : Backend) (c : TextureCache) (overlaps : List Nat) (params : SurfaceParams)
      (gpu_addr : Nat) (preserve_contents : Bool) (untopological : MatchTopologyResult),
      RecycleSurface B c overlaps params gpu_addr preserve_contents untopological =
        (if PickStrategy B (overlaps.foldl Unregister c) overlaps params untopological =
            RecycleStrategy.Flush then
          InitializeSurface B
            ((sortByTick (overlaps.foldl Unregister c) overlaps).foldl FlushSurface
              (overlaps.foldl Unregister c))
            gpu_addr params preserve_contents
        else InitializeSurface B (overlaps.foldl Unregister c) gpu_addr params false)) ∧
    PickStrategy Example.backend ([0].foldl Unregister Example.oneSurface) [0]
      (Example.texture 4 4 1 PixelFormat.R32F) MatchTopologyResult.None = RecycleStrategy.Ignore ∧
    (GetSurface Example.backend Example.oneSurface 0x100000
      (Example.texture 4 4 1 PixelFormat.R32F) true false).1.events =
      (RecycleSurface Example.backend Example.oneSurface [0]
        (Example.texture 4 4 1 PixelFormat.R32F) 0x100000 true
        MatchTopologyResult.None).1.events ∧
    (RecycleSurface Example.backend Example.oneSurface [0]
      (Example.texture 4 4 1 PixelFormat.R32F) 0x100000 true MatchTopologyResult.None).2.1 = 1 ∧
    (RecycleSurface Example.backend Example.oneSurface [0]
      (Example.texture 4 4 1 PixelFormat.R32F) 0x100000 true MatchTopologyResult.None).1.events =
      Example.oneSurface.events ++
        [Event.UpdatePagesCachedCount 0x100000 40 (-1),
          Event.UpdatePagesCachedCount 0x100000 64 1] :=
  ⟨RecycleSurface_ignore_eq, by decide!⟩

end TextureCache

end VideoCommon

namespace VideoCommon

namespace TextureCache

/-- C17 counterexample: a one-layer array texture requested again with its own params at its
own address. The surface is the only registered surface that overlaps the
candidate range, its topology fully matches, it contains the requested range,
its format matches and it can emplace a view for the request, yet `GetSurface`
resolves at the exact-address step and returns the surface with its main view,
not with the carved view. -/
theorem GetSurface_exact_step_precedes_carving :
    (Example.layeredSurface.surfaces 0).is_registered = true ∧
    (Example.layeredSurface.GetSurfacesInRegion (Example.backend.GetPointer 0x100000)
      (Example.backend.GetGuestSizeInBytes
        { Example.texture 4 4 1 PixelFormat.R16U with is_layered := true })).2 = [0] ∧
    Example.backend.MatchesTopology (Example.layeredSurface.surfaces 0).params
      { Example.texture 4 4 1 PixelFormat.R16U with is_layered := true } =
        MatchTopologyResult.FullMatch ∧
    (Example.layeredSurface.surfaces 0).IsInside 0x100000
      (add64 0x100000 (Example.backend.GetGuestSizeInBytes
        { Example.texture 4 4 1 PixelFormat.R16U with is_layered := true })) = true ∧
    (Example.layeredSurface.surfaces 0).MatchFormat PixelFormat.R16U = true ∧
    Example.backend.EmplaceView (Example.layeredSurface.surfaces 0)
      { Example.texture 4 4 1 PixelFormat.R16U with is_layered := true } 0x100000
      (Example.backend.GetGuestSizeInBytes
        { Example.texture 4 4 1 PixelFormat.R16U with is_layered := true }) = some 0 ∧
    (GetSurface Example.backend Example.layeredSurface 0x100000
      { Example.texture 4 4 1 PixelFormat.R16U with is_layered := true } true false).2 =
      (0, some (View.main 0)) ∧
    (GetSurface Example.backend Example.layeredSurface 0x100000
      { Example.texture 4 4 1 PixelFormat.R16U with is_layered := true } true false).2 ≠
      (0, some (View.carved 0 0)) := by
  decide!

end TextureCache

end VideoCommon

namespace VideoCommon

namespace TextureCache

/-- C20 counterexample: the cache sets dirty flags itself. With colour slot 0 bound and the
guard off, invalidating the range of the bound surface sets the dirty flag of
slot 0, which was clear; and after the registers of the slot have been rewritten
to another shape at the same address, `GetColorBufferSurface(0, ...)` recycles
the previous occupant during its own resolution, so the flag it cleared is set
again on return. -/
theorem accessor_leaves_dirty_flag_set :
    Example.targetBound.maxwell3d.dirty_render_target 0 = false ∧
    Example.targetBound.guard_render_targets = false ∧
    (Example.targetBound.InvalidateRegion 0x100000 0x1000).maxwell3d.dirty_render_target 0 =
      true ∧
    (Example.targetRetargeted.surfaces 0).is_target = true ∧
    (Example.targetRetargeted.surfaces 0).index = 0 ∧
    (GetColorBufferSurface Example.backend Example.targetRetargeted 0
      true).1.maxwell3d.dirty_render_target 0 = true ∧
    (GetColorBufferSurface Example.backend Example.targetRetargeted 0 true).2 =
      some (View.main 1) := by
  decide!

end TextureCache

end VideoCommon

namespace VideoCommon

namespace TextureCache

/-! ## The recycle and slot theorems at concrete inputs -/

/-- C13 (amended) at the cache holding one modified surface, recycled under accurate
emulation with `preserve_contents` set. -/
theorem RecycleSurface_flush_witness :
    [0].Nodup ∧
    PickStrategy Example.accurateBackend ([0].foldl Unregister Example.oneModified) [0]
      (Example.texture 4 4 1 PixelFormat.R32F) MatchTopologyResult.None =
        RecycleStrategy.Flush ∧
    (∃ F : List Nat, ∃ R : List Event,
      (RecycleSurface Example.accurateBackend Example.oneModified [0]
        (Example.texture 4 4 1 PixelFormat.R32F) 0x100000 true
        MatchTopologyResult.None).1.events =
        ([0].foldl Unregister Example.oneModified).events ++ F.map Event.FlushSurface ++ R ++
          (if true then
            [Event.LoadSurface
              (RecycleSurface Example.accurateBackend Example.oneModified [0]
                (Example.texture 4 4 1 PixelFormat.R32F) 0x100000 true
                MatchTopologyResult.None).2.1]
          else []) ∧
      F.Nodup ∧
      (∀ s, s ∈ F ↔ (s ∈ [0] ∧ (Example.oneModified.surfaces s).is_modified = true)) ∧
      F.Pairwise (fun a b =>
        (Example.oneModified.surfaces a).modification_tick ≤
          (Example.oneModified.surfaces b).modification_tick) ∧
      (∀ e ∈ R, ∃ a b, e = Event.UpdatePagesCachedCount a b 1)) :=
  ⟨by decide, by decide!,
    RecycleSurface_flush Example.accurateBackend Example.oneModified [0]
      (Example.texture 4 4 1 PixelFormat.R32F) 0x100000 true MatchTopologyResult.None
      (by decide) (by decide!)⟩

/-- C15 at the cache holding one registered surface, requested again with its own params. -/
theorem GetSurface_exact_hit_frame_witness :
    Example.backend.GetPointer 0x100000 ≠ 0 ∧
    Example.oneSurface.l1_cache (Example.backend.GetPointer 0x100000) = some 0 ∧
    (Example.oneSurface.surfaces 0).params = Example.texture 4 4 2 PixelFormat.Z16 ∧
    ((GetSurface Example.backend Example.oneSurface 0x100000
        (Example.texture 4 4 2 PixelFormat.Z16) true false).2 = (0, some (View.main 0)) ∧
      (GetSurface Example.backend Example.oneSurface 0x100000
        (Example.texture 4 4 2 PixelFormat.Z16) true false).1 = Example.oneSurface ∧
      (GetSurface Example.backend Example.oneSurface 0x100000
        (Example.texture 4 4 2 PixelFormat.Z16) true false).1.registry =
          Example.oneSurface.registry ∧
      (GetSurface Example.backend Example.oneSurface 0x100000
        (Example.texture 4 4 2 PixelFormat.Z16) true false).1.l1_cache =
          Example.oneSurface.l1_cache ∧
      (GetSurface Example.backend Example.oneSurface 0x100000
        (Example.texture 4 4 2 PixelFormat.Z16) true false).1.surface_reserve =
          Example.oneSurface.surface_reserve ∧
      (∀ s, ((GetSurface Example.backend Example.oneSurface 0x100000
        (Example.texture 4 4 2 PixelFormat.Z16) true false).1.surfaces s).is_registered =
          (Example.oneSurface.surfaces s).is_registered)) :=
  ⟨by decide!, by decide!, by decide!,
    GetSurface_exact_hit_frame Example.backend Example.oneSurface 0x100000
      (Example.texture 4 4 2 PixelFormat.Z16) true false 0 (by decide!) (by decide!)
      (by decide!) (by decide!) (by decide!)⟩

/-- C18 at the empty cache with nothing dirty. -/
theorem clean_slot_returns_cached_view_witness :
    (init Example.maxwell3d).maxwell3d.dirty_render_target 0 = false ∧
    (init Example.maxwell3d).maxwell3d.dirty_depth_buffer = false ∧
    GetColorBufferSurface Example.backend (init Example.maxwell3d) 0 true =
      (init Example.maxwell3d, ((init Example.maxwell3d).render_targets 0).view) ∧
    GetDepthBufferSurface Example.backend (init Example.maxwell3d) true =
      (init Example.maxwell3d, (init Example.maxwell3d).depth_buffer.view) :=
  ⟨rfl, rfl,
    (clean_slot_returns_cached_view Example.backend (init Example.maxwell3d) 0 true).1 rfl,
    (clean_slot_returns_cached_view Example.backend (init Example.maxwell3d) 0 true).2 rfl⟩

/-- C19 at the empty cache with colour slot 0 dirty and configured: the slot takes the
resolved pair and the surface is marked for slot 0. -/
theorem dirty_slot_resolved_and_marked_witness :
    (init Example.renderSetup).maxwell3d.dirty_render_target 0 = true ∧
    0 < (init Example.renderSetup).maxwell3d.rt_control_count ∧
    ((init Example.renderSetup).maxwell3d.rt 0).address ≠ 0 ∧
    ((init Example.renderSetup).maxwell3d.rt 0).format_none = false ∧
    (GetColorBufferSurface Example.backend (init Example.renderSetup) 0 true).1.render_targets 0 =
      { target := some (GetSurface Example.backend ((init Example.renderSetup).clearColorDirty 0)
          ((init Example.renderSetup).maxwell3d.rt 0).address
          ((init Example.renderSetup).maxwell3d.rt 0).params true true).2.1,
        view := (GetSurface Example.backend ((init Example.renderSetup).clearColorDirty 0)
          ((init Example.renderSetup).maxwell3d.rt 0).address
          ((init Example.renderSetup).maxwell3d.rt 0).params true true).2.2 } ∧
    ((GetColorBufferSurface Example.backend (init Example.renderSetup) 0 true).1.surfaces
      (GetSurface Example.backend ((init Example.renderSetup).clearColorDirty 0)
        ((init Example.renderSetup).maxwell3d.rt 0).address
        ((init Example.renderSetup).maxwell3d.rt 0).params true true).2.1).is_target = true ∧
    (init Example.depthSetup).maxwell3d.dirty_depth_buffer = true ∧
    ((GetDepthBufferSurface Example.backend (init Example.depthSetup) true).1.surfaces
      (GetSurface Example.backend (init Example.depthSetup).clearDepthDirty
        (init Example.depthSetup).maxwell3d.zeta_address
        (init Example.depthSetup).maxwell3d.zeta_params true true).2.1).index = DEPTH_RT :=
  ⟨by decide!, by decide!, by decide!, by decide!,
    ((dirty_slot_resolved_and_marked Example.backend (init Example.renderSetup) 0 true).1
      (by decide!) (by decide!) (by decide!) (by decide!)).2.1,
    ((dirty_slot_resolved_and_marked Example.backend (init Example.renderSetup) 0 true).1
      (by decide!) (by decide!) (by decide!) (by decide!)).2.2.1,
    by decide!,
    ((dirty_slot_resolved_and_marked Example.backend (init Example.depthSetup) 0 true).2
      (by decide!) (by decide!) (by decide!)).2.2.2.1⟩

end TextureCache

end VideoCommon

namespace VideoCommon

namespace TextureCache

/-! ## Relations carried through every path of the resolution -/

theorem FrameRel.load {B : Backend} {R : TextureCache → TextureCache → Prop}
    (F : FrameRel B R) (c : TextureCache) (n : Nat) : R c (c.LoadSurface n) :=
  F.andThen _ _ _ (F.trace c (c.events ++ [Event.LoadSurface n])) (F.stamp _ n false)

theorem FrameRel.flush {B : Backend} {R : TextureCache → TextureCache → Prop}
    (F : FrameRel B R) (c : TextureCache) (n : Nat) : R c (c.FlushSurface n) := by
  unfold FlushSurface
  split
  · exact F.same c
  · exact F.andThen _ _ _ (F.trace c (c.events ++ [Event.FlushSurface n])) (F.stamp _ n false)

theorem FrameRel.unregisterAll {B : Backend} {R : TextureCache → TextureCache → Prop}
    (F : FrameRel B R) (L : List Nat) (c : TextureCache) : R c (L.foldl Unregister c) := by
  induction L generalizing c with
  | nil => exact F.same c
  | cons s rest ih => exact F.andThen _ _ _ (F.unregister c s) (ih (c.Unregister s))

theorem FrameRel.flushAll {B : Backend} {R : TextureCache → TextureCache → Prop}
    (F : FrameRel B R) (L : List Nat) (c : TextureCache) : R c (L.foldl FlushSurface c) := by
  induction L generalizing c with
  | nil => exact F.same c
  | cons s rest ih => exact F.andThen _ _ _ (F.flush c s) (ih (c.FlushSurface s))

theorem FrameRel.initSurface {B : Backend} {R : TextureCache → TextureCache → Prop}
    (F : FrameRel B R) (c : TextureCache) (gpu_addr : Nat) (params : SurfaceParams)
    (preserve_contents : Bool) :
    R c (InitializeSurface B c gpu_addr params preserve_contents).1 := by
  rw [InitializeSurface_state]
  cases preserve_contents
  · exact F.andThen _ _ _ (F.uncached c gpu_addr params) (F.register _ _)
  · exact F.andThen _ _ _ (F.andThen _ _ _ (F.uncached c gpu_addr params) (F.register _ _))
      (F.load _ _)

theorem FrameRel.recycle {B : Backend} {R : TextureCache → TextureCache → Prop}
    (F : FrameRel B R) (c : TextureCache) (overlaps : List Nat) (params : SurfaceParams)
    (gpu_addr : Nat) (preserve_contents : Bool) (untopological : MatchTopologyResult) :
    R c (RecycleSurface B c overlaps params gpu_addr preserve_contents untopological).1 := by
  rw [RecycleSurface_eq]
  rcases PickStrategy_cases B (overlaps.foldl Unregister c) overlaps params untopological
    with h | h
  · rw [recycleAfterUnregister_of_ignore _ _ _ _ _ _ _ h]
    exact F.andThen _ _ _ (F.unregisterAll overlaps c) (F.initSurface _ _ _ _)
  · rw [recycleAfterUnregister_of_flush _ _ _ _ _ _ _ h]
    exact F.andThen _ _ _ (F.andThen _ _ _ (F.unregisterAll overlaps c)
      (F.flushAll _ _)) (F.initSurface _ _ _ _)

theorem FrameRel.rebuild_tail {B : Backend} {R : TextureCache → TextureCache → Prop}
    (F : FrameRel B R) (d : TextureCache) (ev : List Event) (current_surface new_surface : Nat) :
    R d
      ((Register B (Unregister { d with events := ev } current_surface) new_surface).Tick.1.modify
        new_surface
        (fun s => s.MarkAsModified
          (((Register B (Unregister { d with events := ev } current_surface)
            new_surface).Tick.1.surfaces current_surface).is_modified)
          (Register B (Unregister { d with events := ev } current_surface) new_surface).Tick.2)) :=
  F.andThen _ _ _ (F.trace d ev)
    (F.andThen _ _ _ (F.unregister _ _) (F.andThen _ _ _ (F.register _ _) (F.stamp _ _ _)))

theorem FrameRel.rebuild {B : Backend} {R : TextureCache → TextureCache → Prop}
    (F : FrameRel B R) (c : TextureCache) (current_surface : Nat) (params : SurfaceParams)
    (is_render : Bool) : R c (RebuildSurface B c current_surface params is_render).1 := by
  unfold RebuildSurface
  dsimp only
  split_ifs
  all_goals
    exact F.andThen _ _ _ (F.uncached c _ _) (F.rebuild_tail _ _ _ _)

theorem FrameRel.loop {B : Backend} {R : TextureCache → TextureCache → Prop}
    (F : FrameRel B R) (params : SurfaceParams) (new_surface : Nat)
    (L : List Nat) (c : TextureCache) (modified : Bool) (passed_tests : Nat) :
    R c (TextureCache.reconstructLoop B params new_surface L c modified passed_tests).1 := by
  induction L generalizing c modified passed_tests with
  | nil => exact F.same c
  | cons s rest ih =>
    unfold TextureCache.reconstructLoop
    dsimp only
    split_ifs
    · exact F.same c
    · split
      · exact ih c modified passed_tests
      · split_ifs
        · exact ih c modified passed_tests
        · exact F.andThen _ _ _ (F.trace c _) (ih _ _ _)

theorem FrameRel.reconstruct {B : Backend} {R : TextureCache → TextureCache → Prop}
    (F : FrameRel B R) (c : TextureCache) (overlaps : List Nat)
    (params : SurfaceParams) (gpu_addr : Nat) :
    R c (TryReconstructSurface B c overlaps params gpu_addr).1 := by
  have h1 := F.uncached c gpu_addr params
  have h2 := F.loop params (GetUncachedSurface B c gpu_addr params).2 overlaps
    (GetUncachedSurface B c gpu_addr params).1 false 0
  unfold TryReconstructSurface
  split_ifs
  · exact F.same c
  · dsimp only
    split
    · rename_i c2 heq
      rw [heq] at h2
      exact F.andThen _ _ _ h1 h2
    · rename_i c2 modified passed heq
      rw [heq] at h2
      split_ifs
      · exact F.andThen _ _ _ h1 h2
      · exact F.andThen _ _ _ h1 h2
      · exact F.andThen _ _ _ (F.andThen _ _ _ h1 h2)
          (F.andThen _ _ _ (F.unregisterAll overlaps c2)
            (F.andThen _ _ _ (F.stamp _ _ modified) (F.register _ _)))

end TextureCache

end VideoCommon

namespace VideoCommon

namespace TextureCache

theorem FrameRel.structural {B : Backend} {R : TextureCache → TextureCache → Prop}
    (F : FrameRel B R) (c : TextureCache) (current_surface : Nat) (params : SurfaceParams)
    (is_render : Bool) :
    R c (ManageStructuralMatch B c current_surface params is_render).1 := by
  unfold ManageStructuralMatch
  dsimp only
  split_ifs
  all_goals first
    | exact F.same c
    | exact F.rebuild c current_surface params is_render

theorem FrameRel.of_eq {B : Backend} {R : TextureCache → TextureCache → Prop}
    (_F : FrameRel B R) {α : Type} {x : TextureCache × α} {c c2 : TextureCache} {a : α}
    (h : R c x.1) (heq : x = (c2, a)) : R c c2 := by
  rw [heq] at h
  exact h

theorem FrameRel.overlaps {B : Backend} {R : TextureCache → TextureCache → Prop}
    (F : FrameRel B R) (c1 : TextureCache) (overlaps : List Nat)
    (gpu_addr : Nat) (params : SurfaceParams) (preserve_contents is_render : Bool) :
    R c1 (resolveOverlaps B c1 overlaps gpu_addr params preserve_contents is_render).1 := by
  unfold resolveOverlaps
  dsimp only
  repeat' split
  all_goals with_reducible first
    | exact F.same _
    | exact F.initSurface c1 _ _ _
    | exact F.recycle c1 _ _ _ _ _
    | exact F.rebuild c1 _ _ _
    | exact F.andThen _ _ _ (F.rebuild c1 _ _ _) (F.recycle _ _ _ _ _ _)
    | exact F.of_eq (F.reconstruct c1 _ _ _) (by assumption)
    | exact F.andThen _ _ _ (F.of_eq (F.reconstruct c1 _ _ _) (by assumption))
        (F.recycle _ _ _ _ _ _)

theorem FrameRel.fromOverlaps {B : Backend} {R : TextureCache → TextureCache → Prop}
    (F : FrameRel B R) (c : TextureCache) (gpu_addr : Nat)
    (params : SurfaceParams) (preserve_contents is_render : Bool) (cache_addr : Nat) :
    R c (GetSurfaceFromOverlaps B c gpu_addr params preserve_contents is_render cache_addr).1 := by
  rw [GetSurfaceFromOverlaps_eq]
  exact F.andThen _ _ _ (F.region c _ _) (F.overlaps _ _ _ _ _ _)

theorem FrameRel.getSurface {B : Backend} {R : TextureCache → TextureCache → Prop}
    (F : FrameRel B R) (c : TextureCache) (gpu_addr : Nat)
    (params : SurfaceParams) (preserve_contents is_render : Bool) :
    R c (GetSurface B c gpu_addr params preserve_contents is_render).1 := by
  unfold GetSurface
  dsimp only
  split_ifs
  · exact F.initSurface c _ _ _
  · split
    · split_ifs
      · exact F.recycle c _ _ _ _ _
      · exact F.structural c _ _ _
      · exact F.rebuild c _ _ _
      · exact F.fromOverlaps c _ _ _ _ _
    · exact F.fromOverlaps c _ _ _ _ _

theorem FrameRel.invalidate {B : Backend} {R : TextureCache → TextureCache → Prop}
    (F : FrameRel B R) (c : TextureCache) (addr size : Nat) :
    R c (c.InvalidateRegion addr size) := by
  unfold InvalidateRegion
  exact F.andThen _ _ _ (F.region c addr size) (F.unregisterAll _ _)

theorem FrameRel.flushRegion {B : Backend} {R : TextureCache → TextureCache → Prop}
    (F : FrameRel B R) (c : TextureCache) (addr size : Nat) :
    R c (c.FlushRegion addr size) := by
  unfold FlushRegion
  dsimp only
  split
  · exact F.region c addr size
  · exact F.andThen _ _ _ (F.region c addr size) (F.flushAll _ _)

theorem FrameRel.deduce {B : Backend} {R : TextureCache → TextureCache → Prop}
    (F : FrameRel B R) (c : TextureCache) (gpu_addr : Nat) (params : SurfaceParams) :
    R c (DeduceSurface B c gpu_addr params).1 := by
  have hov : ∀ cache_addr, R c (DeduceFromOverlaps B c params cache_addr).1 := by
    intro cache_addr
    have hq := F.region c cache_addr (B.GetGuestSizeInBytes params)
    unfold DeduceFromOverlaps
    dsimp only
    split <;> exact hq
  unfold DeduceSurface
  dsimp only
  split_ifs
  · exact F.same c
  · split
    · split_ifs
      · exact F.same c
      · exact F.same c
      · exact hov _
    · exact hov _

theorem FrameRel.bestBlit {B : Backend} {R : TextureCache → TextureCache → Prop}
    (F : FrameRel B R) (c : TextureCache) (src_params dst_params : SurfaceParams)
    (src_gpu_addr dst_gpu_addr : Nat) :
    R c (DeduceBestBlit B c src_params dst_params src_gpu_addr dst_gpu_addr).1 := by
  unfold DeduceBestBlit
  exact F.andThen _ _ _ (F.deduce c src_gpu_addr src_params) (F.deduce _ src_gpu_addr src_params)

theorem FrameRel.fermiCopy {B : Backend} {R : TextureCache → TextureCache → Prop}
    (F : FrameRel B R) (c : TextureCache) (src_gpu_addr : Nat) (src_params : SurfaceParams)
    (dst_gpu_addr : Nat) (dst_params : SurfaceParams) :
    R c ((DoFermiCopy B c src_gpu_addr src_params dst_gpu_addr dst_params).getD c) := by
  have h1 := F.bestBlit c src_params dst_params src_gpu_addr dst_gpu_addr
  unfold DoFermiCopy
  dsimp only
  cases hd : (DeduceBestBlit B c src_params dst_params src_gpu_addr dst_gpu_addr).2 with
  | none => exact F.same c
  | some blit_params =>
    simp only [Option.map_some', Option.getD_some]
    exact F.andThen _ _ _ h1
      (F.andThen _ _ _ (F.getSurface _ dst_gpu_addr blit_params.2 true false)
        (F.andThen _ _ _ (F.getSurface _ src_gpu_addr blit_params.1 true false)
          (F.andThen _ _ _ (F.trace _ _) (F.stamp _ _ true))))

end TextureCache

end VideoCommon

namespace VideoCommon

namespace TextureCache

/-! ## The overlap query touches nothing but the picked marks -/

theorem pickSurface_pickOnly (h0 : Nat → Surface) (a e : Nat) (acc : (Nat → Surface) × List Nat)
    (s : Nat) (h : PickOnly h0 acc.1) : PickOnly h0 (pickSurface a e acc s).1 := by
  unfold pickSurface
  split
  · intro t
    by_cases hts : t = s
    · subst hts
      show ({ Function.update acc.1 t _ t with is_picked := false } : Surface) = _
      rw [Function.update_same]
      exact h t
    · show ({ Function.update acc.1 s _ t with is_picked := false } : Surface) = _
      rw [Function.update_noteq hts]
      exact h t
  · exact h

theorem foldl_pickSurface_pickOnly (h0 : Nat → Surface) (a e : Nat) (l : List Nat)
    (acc : (Nat → Surface) × List Nat) (h : PickOnly h0 acc.1) :
    PickOnly h0 (l.foldl (pickSurface a e) acc).1 := by
  induction l generalizing acc with
  | nil => exact h
  | cons s rest ih => exact ih _ (pickSurface_pickOnly h0 a e acc s h)

theorem walk_pickOnly (c : TextureCache) (h0 : Nat → Surface) (a e : Nat) (ps : List Nat)
    (acc : (Nat → Surface) × List Nat) (h : PickOnly h0 acc.1) :
    PickOnly h0
      (ps.foldl (fun acc p => (c.registry p).foldl (pickSurface a e) acc) acc).1 := by
  induction ps generalizing acc with
  | nil => exact h
  | cons p rest ih => exact ih _ (foldl_pickSurface_pickOnly h0 a e _ acc h)

theorem unmark_pickOnly (h0 : Nat → Surface) (l : List Nat) (h1 : Nat → Surface)
    (h : PickOnly h0 h1) :
    PickOnly h0
      (l.foldl (fun h surface => Function.update h surface { h surface with is_picked := false })
        h1) := by
  intro t
  rw [foldl_unmark]
  split
  · exact h t
  · exact h t

theorem GetSurfacesInRegion_shape (c : TextureCache) (addr size : Nat) :
    ∃ h, (c.GetSurfacesInRegion addr size).1 = { c with surfaces := h } ∧
      PickOnly c.surfaces h := by
  unfold GetSurfacesInRegion
  split
  · exact ⟨c.surfaces, rfl, fun _ => rfl⟩
  · exact ⟨_, rfl, unmark_pickOnly _ _ _ (walk_pickOnly c c.surfaces _ _ _ _ (fun _ => rfl))⟩

theorem PickOnly.kept {h1 h2 : Nat → Surface} (h : PickOnly h1 h2) (s : Nat) :
    (h2 s).params = (h1 s).params ∧ (h2 s).is_registered = (h1 s).is_registered ∧
    (h2 s).is_target = (h1 s).is_target ∧
    (h2 s).modification_tick = (h1 s).modification_tick ∧
    (h2 s).is_modified = (h1 s).is_modified ∧ (h2 s).index = (h1 s).index := by
  have := h s
  simp only [Surface.mk.injEq] at this
  obtain ⟨h1, _, _, _, _, _, _, h8, h9, h10, _, h12, h13⟩ := this
  exact ⟨h1, h10, h12, h9, h8, h13⟩

/-! ## The sampled set -/

theorem samplingKept_frame (B : Backend) : FrameRel B SamplingKept where
  same := fun _ => ⟨rfl, rfl⟩
  andThen := fun _ _ _ h1 h2 => ⟨h2.1.trans h1.1, h2.2.trans h1.2⟩
  unregister := by
    intro c s
    cases hs : c.Shielded s
    · rw [Unregister_eq c s hs]; exact ⟨rfl, rfl⟩
    · rw [Unregister_of_shielded c s hs]; exact ⟨rfl, rfl⟩
  register := by
    intro c n
    by_cases hptr : B.GetPointer (c.surfaces n).gpu_addr = 0
    · rw [Register_of_null B c n hptr]; exact ⟨rfl, rfl⟩
    · cases hcpu : B.GpuToCpuAddress (c.surfaces n).gpu_addr with
      | none => rw [Register_of_unmapped B c n hcpu]; exact ⟨rfl, rfl⟩
      | some cpu => rw [Register_eq B c n cpu hptr hcpu]; exact ⟨rfl, rfl⟩
  uncached := by
    intro c gpu_addr params
    cases hr : c.TryGetReservedSurface params with
    | some n => rw [GetUncachedSurface_reserved B c gpu_addr params n hr]; exact ⟨rfl, rfl⟩
    | none => rw [GetUncachedSurface_created B c gpu_addr params hr]; exact ⟨rfl, rfl⟩
  trace := fun _ _ => ⟨rfl, rfl⟩
  stamp := fun _ _ _ => ⟨rfl, rfl⟩
  region := by
    intro c addr size
    obtain ⟨h, heq, _⟩ := GetSurfacesInRegion_shape c addr size
    rw [heq]; exact ⟨rfl, rfl⟩

end TextureCache

end VideoCommon

namespace VideoCommon

namespace TextureCache

/-! ## The sampled set and the texture barrier -/

theorem GetColorBufferSurface_cases (B : Backend) (c : TextureCache) (index : Nat)
    (preserve_contents : Bool) :
    (GetColorBufferSurface B c index preserve_contents).1 = c ∨
    (GetColorBufferSurface B c index preserve_contents).1 =
      (c.clearColorDirty index).SetEmptyColorBuffer index ∨
    (GetColorBufferSurface B c index preserve_contents).1 =
      bindColorSlot
        (GetSurface B (c.clearColorDirty index) (c.maxwell3d.rt index).address
          (c.maxwell3d.rt index).params preserve_contents true).1 index
        (GetSurface B (c.clearColorDirty index) (c.maxwell3d.rt index).address
          (c.maxwell3d.rt index).params preserve_contents true).2 := by
  cases hd : c.maxwell3d.dirty_render_target index with
  | false =>
    rw [GetColorBufferSurface_of_clean B c index preserve_contents hd]
    exact Or.inl rfl
  | true =>
    cases hoff : (decide (c.maxwell3d.rt_control_count ≤ index) ||
        decide ((c.maxwell3d.rt index).address = 0) || (c.maxwell3d.rt index).format_none) with
    | true =>
      rw [GetColorBufferSurface_of_disabled B c index preserve_contents hd hoff]
      exact Or.inr (Or.inl rfl)
    | false =>
      simp only [Bool.or_eq_false_iff, decide_eq_false_iff_not, not_le] at hoff
      rw [GetColorBufferSurface_of_dirty B c index preserve_contents hd hoff.1.1 hoff.1.2 hoff.2]
      exact Or.inr (Or.inr rfl)

theorem GetDepthBufferSurface_cases (B : Backend) (c : TextureCache) (preserve_contents : Bool) :
    (GetDepthBufferSurface B c preserve_contents).1 = c ∨
    (GetDepthBufferSurface B c preserve_contents).1 = c.clearDepthDirty.SetEmptyDepthBuffer ∨
    (GetDepthBufferSurface B c preserve_contents).1 =
      bindDepthSlot
        (GetSurface B c.clearDepthDirty c.maxwell3d.zeta_address c.maxwell3d.zeta_params
          preserve_contents true).1
        (GetSurface B c.clearDepthDirty c.maxwell3d.zeta_address c.maxwell3d.zeta_params
          preserve_contents true).2 := by
  cases hd : c.maxwell3d.dirty_depth_buffer with
  | false =>
    rw [GetDepthBufferSurface_of_clean B c preserve_contents hd]
    exact Or.inl rfl
  | true =>
    cases hoff : (decide (c.maxwell3d.zeta_address = 0) || !c.maxwell3d.zeta_enable) with
    | true =>
      rw [GetDepthBufferSurface_of_disabled B c preserve_contents hd hoff]
      exact Or.inr (Or.inl rfl)
    | false =>
      simp only [Bool.or_eq_false_iff, decide_eq_false_iff_not, Bool.not_eq_false'] at hoff
      rw [GetDepthBufferSurface_of_dirty B c preserve_contents hd hoff.1 hoff.2]
      exact Or.inr (Or.inr rfl)

theorem SetEmptyColorBuffer_sampling (c : TextureCache) (index : Nat) :
    SamplingKept c (c.SetEmptyColorBuffer index) := by
  unfold SetEmptyColorBuffer
  split <;> exact ⟨rfl, rfl⟩

theorem SetEmptyDepthBuffer_sampling (c : TextureCache) : SamplingKept c c.SetEmptyDepthBuffer := by
  unfold SetEmptyDepthBuffer
  split <;> exact ⟨rfl, rfl⟩

theorem bindColorSlot_sampling (c : TextureCache) (index : Nat) (sv : Nat × Option View) :
    SamplingKept c (bindColorSlot c index sv) := by
  unfold bindColorSlot
  split <;> exact ⟨rfl, rfl⟩

theorem bindDepthSlot_sampling (c : TextureCache) (sv : Nat × Option View) :
    SamplingKept c (bindDepthSlot c sv) := by
  unfold bindDepthSlot
  split <;> exact ⟨rfl, rfl⟩

theorem GetColorBufferSurface_sampling (B : Backend) (c : TextureCache) (index : Nat)
    (preserve_contents : Bool) :
    SamplingKept c (GetColorBufferSurface B c index preserve_contents).1 := by
  have F := samplingKept_frame B
  rcases GetColorBufferSurface_cases B c index preserve_contents with h | h | h <;> rw [h]
  · exact ⟨rfl, rfl⟩
  · exact SetEmptyColorBuffer_sampling (c.clearColorDirty index) index
  · exact F.andThen (c.clearColorDirty index) _ _
      (F.getSurface (c.clearColorDirty index) _ _ _ _) (bindColorSlot_sampling _ _ _)

theorem GetDepthBufferSurface_sampling (B : Backend) (c : TextureCache)
    (preserve_contents : Bool) :
    SamplingKept c (GetDepthBufferSurface B c preserve_contents).1 := by
  have F := samplingKept_frame B
  rcases GetDepthBufferSurface_cases B c preserve_contents with h | h | h <;> rw [h]
  · exact ⟨rfl, rfl⟩
  · exact SetEmptyDepthBuffer_sampling c.clearDepthDirty
  · exact F.andThen c.clearDepthDirty _ _
      (F.getSurface c.clearDepthDirty _ _ _ _) (bindDepthSlot_sampling _ _)

theorem GetTextureSurface_sampled (B : Backend) (c : TextureCache) (gpu_addr : Nat)
    (params : SurfaceParams) :
    (GetTextureSurface B c gpu_addr params).1.sampled_textures =
      (if gpu_addr ≠ 0 ∧ c.guard_samplers = true then
        c.sampled_textures ++ [(GetSurface B c gpu_addr params true false).2.1]
      else c.sampled_textures) := by
  have hk := (samplingKept_frame B).getSurface c gpu_addr params true false
  unfold GetTextureSurface
  by_cases h0 : gpu_addr = 0
  · simp [h0]
  · rw [if_neg h0]
    dsimp only
    cases hg : c.guard_samplers
    · simp [hk.2, hg, hk.1]
    · simp [hk.2, hg, hk.1, h0]

theorem GetImageSurface_sampled (B : Backend) (c : TextureCache) (gpu_addr : Nat)
    (params : SurfaceParams) :
    (GetImageSurface B c gpu_addr params).1.sampled_textures =
      (if gpu_addr ≠ 0 ∧ c.guard_samplers = true then
        c.sampled_textures ++ [(GetSurface B c gpu_addr params true false).2.1]
      else c.sampled_textures) := by
  have hk := (samplingKept_frame B).getSurface c gpu_addr params true false
  unfold GetImageSurface
  by_cases h0 : gpu_addr = 0
  · simp [h0]
  · rw [if_neg h0]
    dsimp only
    cases hg : c.guard_samplers
    · simp [hk.2, hg, hk.1]
    · simp [hk.2, hg, hk.1, h0]

/-- C21 (amended): the texture barrier. `TextureBarrier()` returns true if and only if a surface
of the sampled set is currently marked as render target, and leaves the sampled
set empty, so that a second `TextureBarrier()` with nothing in between returns
false. The sampled set is what the sampling calls recorded while the sampler guard
was enabled: `GetTextureSurface` and `GetImageSurface` with a non-zero address
append the surface they resolve exactly when `guard_samplers` is set (with the
guard off, or for a zero address, they record nothing), `TextureBarrier` empties
the set, and no other call of the public interface changes it. -/
theorem TextureBarrier_sampled (B : Backend) (c : TextureCache) :
    (c.TextureBarrier.2 = true ↔
      ∃ s ∈ c.sampled_textures, (c.TextureBarrier.1.surfaces s).is_target = true) ∧
    c.TextureBarrier.1.sampled_textures = [] ∧
    c.TextureBarrier.1.TextureBarrier.2 = false ∧
    (∀ op : Op, (applyOp B c op).sampled_textures =
      match op with
      | Op.TextureBarrier => []
      | Op.GetTextureSurface gpu_addr params =>
        if gpu_addr ≠ 0 ∧ c.guard_samplers = true then
          c.sampled_textures ++ [(GetSurface B c gpu_addr params true false).2.1]
        else c.sampled_textures
      | Op.GetImageSurface gpu_addr params =>
        if gpu_addr ≠ 0 ∧ c.guard_samplers = true then
          c.sampled_textures ++ [(GetSurface B c gpu_addr params true false).2.1]
        else c.sampled_textures
      | _ => c.sampled_textures) := by
  have F := samplingKept_frame B
  refine ⟨?_, rfl, rfl, ?_⟩
  · unfold TextureBarrier
    simp only [List.any_eq_true]
  · intro op
    cases op with
    | InvalidateRegion addr size => exact (F.invalidate c addr size).1
    | FlushRegion addr size => exact (F.flushRegion c addr size).1
    | GuardRenderTargets g => rfl
    | GuardSamplers g => rfl
    | GetTextureSurface gpu_addr params => exact GetTextureSurface_sampled B c gpu_addr params
    | GetImageSurface gpu_addr params => exact GetImageSurface_sampled B c gpu_addr params
    | TextureBarrier => rfl
    | GetDepthBufferSurface pc => exact (GetDepthBufferSurface_sampling B c pc).1
    | GetColorBufferSurface index pc => exact (GetColorBufferSurface_sampling B c index pc).1
    | MarkColorBufferInUse index =>
      show (c.MarkColorBufferInUse index).sampled_textures = _
      unfold MarkColorBufferInUse
      split <;> rfl
    | MarkDepthBufferInUse =>
      show c.MarkDepthBufferInUse.sampled_textures = _
      unfold MarkDepthBufferInUse
      split <;> rfl
    | SetEmptyDepthBuffer => exact (SetEmptyDepthBuffer_sampling c).1
    | SetEmptyColorBuffer index => exact (SetEmptyColorBuffer_sampling c index).1
    | DoFermiCopy sa sp da dp => exact (F.fermiCopy c sa sp da dp).1
    | WriteRegisters m => rfl

end TextureCache

end VideoCommon

namespace VideoCommon

namespace TextureCache

/-! ## Modification ticks -/

theorem Advances.of_same {c d : TextureCache} (h1 : d.ticks = c.ticks)
    (h0 : d.ticks_drawn = c.ticks_drawn)
    (h2 : ∀ s, (d.surfaces s).modification_tick = (c.surfaces s).modification_tick ∨
      (d.surfaces s).modification_tick = 0) : Advances c d := by
  refine ⟨Nat.le_of_eq h0.symm, by rw [h1, h0, Nat.sub_self]; rfl, fun _ => ⟨?_, ?_, ?_⟩⟩
  · rw [h1, h0, Nat.sub_self]; rfl
  · intro s
    rcases h2 s with h | h
    · exact Or.inl h
    · exact Or.inr (Or.inl h)
  · rintro ⟨hb, hd⟩
    constructor
    · intro s
      rw [h1]
      rcases h2 s with h | h
      · rw [h]; exact hb s
      · rw [h]; exact Nat.zero_le _
    · intro s t hst heq
      rcases h2 s with hs | hs
      · rcases h2 t with ht | ht
        · rw [hs]
          apply hd s t hst
          rw [← hs, ← ht]; exact heq
        · rw [heq, ht]
      · exact hs

theorem Advances.chain {c d e : TextureCache} (h1 : Advances c d) (h2 : Advances d e) :
    Advances c e := by
  obtain ⟨l1, a1, b1⟩ := h1
  obtain ⟨l2, a2, b2⟩ := h2
  have hk : e.ticks_drawn - c.ticks_drawn =
      (d.ticks_drawn - c.ticks_drawn) + (e.ticks_drawn - d.ticks_drawn) := by omega
  refine ⟨Nat.le_trans l1 l2, ?_, ?_⟩
  · rw [hk, a2, Nat.add_mod, a1, ← Nat.add_mod, Nat.add_assoc]
  · intro hlt
    rw [hk] at hlt ⊢
    obtain ⟨e1, f1, i1⟩ := b1 (by omega)
    obtain ⟨e2, f2, i2⟩ := b2 (by omega)
    refine ⟨by omega, ?_, fun h => i2 (i1 h)⟩
    intro s
    rcases f2 s with h | h | h
    · rcases f1 s with g | g | g
      · exact Or.inl (h.trans g)
      · exact Or.inr (Or.inl (h.trans g))
      · refine Or.inr (Or.inr ⟨by rw [h]; exact g.1, ?_⟩)
        rw [h]; omega
    · exact Or.inr (Or.inl h)
    · exact Or.inr (Or.inr ⟨by omega, h.2⟩)

theorem Advances.of_mark (c : TextureCache) (n : Nat) (m : Bool) :
    Advances c (c.Tick.1.modify n (fun s => s.MarkAsModified m c.Tick.2)) := by
  have hsurf : ∀ s, ((c.Tick.1.modify n (fun s => s.MarkAsModified m c.Tick.2)).surfaces
      s).modification_tick =
      if s = n then add64 c.ticks 1 else (c.surfaces s).modification_tick := by
    intro s
    by_cases hs : s = n
    · subst hs; simp [Tick, modify, Surface.MarkAsModified]
    · simp [Tick, modify, Function.update_noteq hs, hs]
  have htick : (c.Tick.1.modify n (fun s => s.MarkAsModified m c.Tick.2)).ticks =
      add64 c.ticks 1 := rfl
  have hdrawn : (c.Tick.1.modify n (fun s => s.MarkAsModified m c.Tick.2)).ticks_drawn =
      c.ticks_drawn + 1 := rfl
  have hone : c.ticks_drawn + 1 - c.ticks_drawn = 1 := by omega
  refine ⟨by rw [hdrawn]; exact Nat.le_succ _,
    by rw [htick, hdrawn, hone]; unfold add64; exact Nat.mod_mod _ _, ?_⟩
  rw [hdrawn, hone]
  intro hlt
  have hadd : add64 c.ticks 1 = c.ticks + 1 := Nat.mod_eq_of_lt hlt
  refine ⟨by rw [htick, hadd], ?_, ?_⟩
  · intro s
    rw [hsurf s, htick, hadd]
    by_cases hs : s = n
    · rw [if_pos hs]; exact Or.inr (Or.inr ⟨by omega, le_refl _⟩)
    · rw [if_neg hs]; exact Or.inl rfl
  · rintro ⟨hb, hd⟩
    constructor
    · intro s
      rw [hsurf s, htick, hadd]
      split
      · exact le_refl _
      · exact Nat.le_succ_of_le (hb s)
    · intro s t hst heq
      rw [hsurf s, hsurf t, hadd] at heq
      rw [hsurf s, hadd]
      by_cases hs : s = n
      · have ht : t ≠ n := fun h => hst (hs.trans h.symm)
        rw [if_pos hs, if_neg ht] at heq
        have := hb t
        omega
      · by_cases ht : t = n
        · rw [if_neg hs, if_pos ht] at heq
          have := hb s
          omega
        · rw [if_neg hs, if_neg ht] at heq
          rw [if_neg hs]
          exact hd s t hst heq

theorem Unregister_ticks (c : TextureCache) (s : Nat) : (c.Unregister s).ticks = c.ticks := by
  cases hs : c.Shielded s
  · rw [Unregister_eq c s hs]
  · rw [Unregister_of_shielded c s hs]

theorem Register_ticks (B : Backend) (c : TextureCache) (n : Nat) :
    (Register B c n).ticks = c.ticks ∧
    ∀ s, ((Register B c n).surfaces s).modification_tick = (c.surfaces s).modification_tick := by
  by_cases hptr : B.GetPointer (c.surfaces n).gpu_addr = 0
  · rw [Register_of_null B c n hptr]; exact ⟨rfl, fun _ => rfl⟩
  · cases hcpu : B.GpuToCpuAddress (c.surfaces n).gpu_addr with
    | none => rw [Register_of_unmapped B c n hcpu]; exact ⟨rfl, fun _ => rfl⟩
    | some cpu =>
      rw [Register_eq B c n cpu hptr hcpu]
      refine ⟨rfl, fun s => ?_⟩
      by_cases hs : s = n
      · subst hs
        show (Function.update c.surfaces s _ s).modification_tick = _
        rw [Function.update_same]; rfl
      · show (Function.update c.surfaces n _ s).modification_tick = _
        rw [Function.update_noteq hs]

theorem GetUncachedSurface_ticks (B : Backend) (c : TextureCache) (gpu_addr : Nat)
    (params : SurfaceParams) :
    (GetUncachedSurface B c gpu_addr params).1.ticks = c.ticks ∧
    ∀ s, ((GetUncachedSurface B c gpu_addr params).1.surfaces s).modification_tick =
        (c.surfaces s).modification_tick ∨
      ((GetUncachedSurface B c gpu_addr params).1.surfaces s).modification_tick = 0 := by
  cases hr : c.TryGetReservedSurface params with
  | some n =>
    rw [GetUncachedSurface_reserved B c gpu_addr params n hr]
    refine ⟨rfl, fun s => Or.inl ?_⟩
    by_cases hs : s = n
    · subst hs
      show (Function.update c.surfaces s _ s).modification_tick = _
      rw [Function.update_same]
    · show (Function.update c.surfaces n _ s).modification_tick = _
      rw [Function.update_noteq hs]
  | none =>
    rw [GetUncachedSurface_created B c gpu_addr params hr]
    refine ⟨rfl, fun s => ?_⟩
    by_cases hs : s = c.num_surfaces
    · right
      subst hs
      show (Function.update c.surfaces c.num_surfaces _ c.num_surfaces).modification_tick = _
      rw [Function.update_same]; rfl
    · left
      show (Function.update c.surfaces c.num_surfaces _ s).modification_tick = _
      rw [Function.update_noteq hs]

theorem Unregister_ticks_drawn (c : TextureCache) (s : Nat) :
    (c.Unregister s).ticks_drawn = c.ticks_drawn := by
  cases hs : c.Shielded s
  · rw [Unregister_eq c s hs]
  · rw [Unregister_of_shielded c s hs]

theorem Register_ticks_drawn (B : Backend) (c : TextureCache) (n : Nat) :
    (Register B c n).ticks_drawn = c.ticks_drawn := by
  by_cases hptr : B.GetPointer (c.surfaces n).gpu_addr = 0
  · rw [Register_of_null B c n hptr]
  · cases hcpu : B.GpuToCpuAddress (c.surfaces n).gpu_addr with
    | none => rw [Register_of_unmapped B c n hcpu]
    | some cpu => rw [Register_eq B c n cpu hptr hcpu]

theorem GetUncachedSurface_ticks_drawn (B : Backend) (c : TextureCache) (gpu_addr : Nat)
    (params : SurfaceParams) :
    (GetUncachedSurface B c gpu_addr params).1.ticks_drawn = c.ticks_drawn := by
  cases hr : c.TryGetReservedSurface params with
  | some n => rw [GetUncachedSurface_reserved B c gpu_addr params n hr]; rfl
  | none => rw [GetUncachedSurface_created B c gpu_addr params hr]; rfl

theorem advances_frame (B : Backend) : FrameRel B Advances where
  same := fun _ => Advances.of_same rfl rfl (fun _ => Or.inl rfl)
  andThen := fun _ _ _ h1 h2 => h1.chain h2
  unregister := fun c s =>
    Advances.of_same (Unregister_ticks c s) (Unregister_ticks_drawn c s)
      (fun t => Or.inl (Unregister_params c s t).2.2.1)
  register := fun c n =>
    Advances.of_same (Register_ticks B c n).1 (Register_ticks_drawn B c n)
      (fun s => Or.inl ((Register_ticks B c n).2 s))
  uncached := fun c gpu_addr params =>
    Advances.of_same (GetUncachedSurface_ticks B c gpu_addr params).1
      (GetUncachedSurface_ticks_drawn B c gpu_addr params)
      (GetUncachedSurface_ticks B c gpu_addr params).2
  trace := fun _ _ => Advances.of_same rfl rfl (fun _ => Or.inl rfl)
  stamp := fun c n m => Advances.of_mark c n m
  region := by
    intro c addr size
    obtain ⟨h, heq, hp⟩ := GetSurfacesInRegion_shape c addr size
    rw [heq]
    exact Advances.of_same rfl rfl (fun s => Or.inl (hp.kept s).2.2.2.1)

end TextureCache

end VideoCommon

namespace VideoCommon

namespace TextureCache

theorem modify_mark_ticks (c : TextureCache) (t : Nat) (b : Bool) (i : Nat) (s : Nat) :
    ((c.modify t (fun x => x.MarkAsRenderTarget b i)).surfaces s).modification_tick =
      (c.surfaces s).modification_tick := by
  by_cases hs : s = t
  · subst hs; simp [modify, Surface.MarkAsRenderTarget]
  · simp [modify, Function.update_noteq hs]

theorem SetEmptyColorBuffer_advances (c : TextureCache) (index : Nat) :
    Advances c (c.SetEmptyColorBuffer index) := by
  unfold SetEmptyColorBuffer
  split
  · exact Advances.of_same rfl rfl (fun _ => Or.inl rfl)
  · exact Advances.of_same rfl rfl (fun s => Or.inl (modify_mark_ticks c _ _ _ s))

theorem SetEmptyDepthBuffer_advances (c : TextureCache) : Advances c c.SetEmptyDepthBuffer := by
  unfold SetEmptyDepthBuffer
  split
  · exact Advances.of_same rfl rfl (fun _ => Or.inl rfl)
  · exact Advances.of_same rfl rfl (fun s => Or.inl (modify_mark_ticks c _ _ _ s))

theorem bindColorSlot_advances (c : TextureCache) (index : Nat) (sv : Nat × Option View) :
    Advances c (bindColorSlot c index sv) := by
  unfold bindColorSlot
  split
  · refine Advances.of_same rfl rfl (fun s => Or.inl ?_)
    rename_i old _
    exact (modify_mark_ticks _ sv.1 true index s).trans (modify_mark_ticks c old false NO_RT s)
  · exact Advances.of_same rfl rfl (fun s => Or.inl (modify_mark_ticks _ sv.1 true index s))

theorem bindDepthSlot_advances (c : TextureCache) (sv : Nat × Option View) :
    Advances c (bindDepthSlot c sv) := by
  unfold bindDepthSlot
  split
  · refine Advances.of_same rfl rfl (fun s => Or.inl ?_)
    rename_i old _
    exact (modify_mark_ticks _ sv.1 true DEPTH_RT s).trans (modify_mark_ticks c old false NO_RT s)
  · exact Advances.of_same rfl rfl (fun s => Or.inl (modify_mark_ticks _ sv.1 true DEPTH_RT s))

theorem GetColorBufferSurface_advances (B : Backend) (c : TextureCache) (index : Nat)
    (preserve_contents : Bool) :
    Advances c (GetColorBufferSurface B c index preserve_contents).1 := by
  have F := advances_frame B
  have h0 : Advances c (c.clearColorDirty index) := Advances.of_same rfl rfl (fun _ => Or.inl rfl)
  rcases GetColorBufferSurface_cases B c index preserve_contents with h | h | h <;> rw [h]
  · exact F.same c
  · exact h0.chain (SetEmptyColorBuffer_advances _ index)
  · exact h0.chain ((F.getSurface (c.clearColorDirty index) _ _ _ _).chain
      (bindColorSlot_advances _ _ _))

theorem GetDepthBufferSurface_advances (B : Backend) (c : TextureCache)
    (preserve_contents : Bool) :
    Advances c (GetDepthBufferSurface B c preserve_contents).1 := by
  have F := advances_frame B
  have h0 : Advances c c.clearDepthDirty := Advances.of_same rfl rfl (fun _ => Or.inl rfl)
  rcases GetDepthBufferSurface_cases B c preserve_contents with h | h | h <;> rw [h]
  · exact F.same c
  · exact h0.chain (SetEmptyDepthBuffer_advances _)
  · exact h0.chain ((F.getSurface c.clearDepthDirty _ _ _ _).chain (bindDepthSlot_advances _ _))

theorem GetTextureSurface_advances (B : Backend) (c : TextureCache) (gpu_addr : Nat)
    (params : SurfaceParams) : Advances c (GetTextureSurface B c gpu_addr params).1 := by
  have hk := (advances_frame B).getSurface c gpu_addr params true false
  unfold GetTextureSurface
  split
  · exact (advances_frame B).same c
  · dsimp only
    split
    · exact hk.chain (Advances.of_same rfl rfl (fun _ => Or.inl rfl))
    · exact hk

theorem GetImageSurface_advances (B : Backend) (c : TextureCache) (gpu_addr : Nat)
    (params : SurfaceParams) : Advances c (GetImageSurface B c gpu_addr params).1 := by
  have hk := (advances_frame B).getSurface c gpu_addr params true false
  unfold GetImageSurface
  split
  · exact (advances_frame B).same c
  · dsimp only
    split
    · exact hk.chain (Advances.of_same rfl rfl (fun _ => Or.inl rfl))
    · exact hk

theorem applyOp_advances (B : Backend) (c : TextureCache) (op : Op) :
    Advances c (applyOp B c op) := by
  have F := advances_frame B
  cases op with
  | InvalidateRegion addr size => exact F.invalidate c addr size
  | FlushRegion addr size => exact F.flushRegion c addr size
  | GuardRenderTargets g => exact Advances.of_same rfl rfl (fun _ => Or.inl rfl)
  | GuardSamplers g => exact Advances.of_same rfl rfl (fun _ => Or.inl rfl)
  | GetTextureSurface gpu_addr params => exact GetTextureSurface_advances B c gpu_addr params
  | GetImageSurface gpu_addr params => exact GetImageSurface_advances B c gpu_addr params
  | TextureBarrier => exact Advances.of_same rfl rfl (fun _ => Or.inl rfl)
  | GetDepthBufferSurface pc => exact GetDepthBufferSurface_advances B c pc
  | GetColorBufferSurface index pc => exact GetColorBufferSurface_advances B c index pc
  | MarkColorBufferInUse index =>
    show Advances c (c.MarkColorBufferInUse index)
    unfold MarkColorBufferInUse
    split
    · exact F.stamp c _ true
    · exact F.same c
  | MarkDepthBufferInUse =>
    show Advances c c.MarkDepthBufferInUse
    unfold MarkDepthBufferInUse
    split
    · exact F.stamp c _ true
    · exact F.same c
  | SetEmptyDepthBuffer => exact SetEmptyDepthBuffer_advances c
  | SetEmptyColorBuffer index => exact SetEmptyColorBuffer_advances c index
  | DoFermiCopy sa sp da dp => exact F.fermiCopy c sa sp da dp
  | WriteRegisters m => exact Advances.of_same rfl rfl (fun _ => Or.inl rfl)

theorem run_advances (B : Backend) (c : TextureCache) (ops : List Op) :
    Advances c (run B c ops) := by
  unfold run
  induction ops generalizing c with
  | nil => exact (advances_frame B).same c
  | cons op rest ih => exact (applyOp_advances B c op).chain (ih (applyOp B c op))

theorem init_ticksInv (m : Maxwell3D) : TicksInv (init m) :=
  ⟨fun _ => Nat.le_refl _, fun _ _ _ _ => rfl⟩

end TextureCache

end VideoCommon

namespace VideoCommon

namespace TextureCache

/-! ## The render-target guard -/

theorem ShieldKept.of_fields {s : Nat} {c d : TextureCache}
    (hnum : c.num_surfaces ≤ d.num_surfaces)
    (hg : d.guard_render_targets = c.guard_render_targets)
    (hf : s < c.num_surfaces →
      (d.surfaces s).params = (c.surfaces s).params ∧
      (d.surfaces s).is_target = (c.surfaces s).is_target ∧
      ((c.surfaces s).is_registered = true → (d.surfaces s).is_registered = true))
    (hr : ∀ p, s ∈ c.registry p → s ∈ d.registry p)
    (hm : c.erased_end = true → d.erased_end = true) : ShieldKept s c d := by
  refine ⟨hm, ?_⟩
  rintro ⟨hlt, hsh, hreg⟩
  obtain ⟨h1, h2, h3⟩ := hf hlt
  refine ⟨Nat.lt_of_lt_of_le hlt hnum, ?_, h3 hreg, fun _ => hr⟩
  unfold Shielded Surface.IsProtected at hsh ⊢
  rw [hg, h1, h2]
  exact hsh

theorem Unregister_erased_end_mono (c : TextureCache) (s : Nat)
    (h : c.erased_end = true) : (c.Unregister s).erased_end = true := by
  cases hs : c.Shielded s
  · rw [Unregister_eq c s hs]
    show (c.erased_end || c.erasesEnd s) = true
    rw [h]; rfl
  · rw [Unregister_of_shielded c s hs]; exact h

theorem Register_erased_end (B : Backend) (c : TextureCache) (n : Nat) :
    (Register B c n).erased_end = c.erased_end := by
  by_cases hptr : B.GetPointer (c.surfaces n).gpu_addr = 0
  · rw [Register_of_null B c n hptr]
  · cases hcpu : B.GpuToCpuAddress (c.surfaces n).gpu_addr with
    | none => rw [Register_of_unmapped B c n hcpu]
    | some cpu => rw [Register_eq B c n cpu hptr hcpu]

theorem GetUncachedSurface_erased_end (B : Backend) (c : TextureCache) (gpu_addr : Nat)
    (params : SurfaceParams) :
    (GetUncachedSurface B c gpu_addr params).1.erased_end = c.erased_end := by
  cases hr : c.TryGetReservedSurface params with
  | some n => rw [GetUncachedSurface_reserved B c gpu_addr params n hr]; rfl
  | none => rw [GetUncachedSurface_created B c gpu_addr params hr]; rfl

theorem Unregister_registry_other (c : TextureCache) (t s p : Nat) (hst : s ≠ t)
    (h : s ∈ c.registry p) : s ∈ (c.Unregister t).registry p := by
  cases hs : c.Shielded t
  · rw [Unregister_eq c t hs]
    show s ∈ mapBuckets (fun l => l.erase t) _ c.registry p
    rw [mapBuckets_apply _ _ (pageRange_nodup _ _)]
    split
    · exact (List.mem_erase_of_ne hst).mpr h
    · exact h
  · rw [Unregister_of_shielded c t hs]; exact h

theorem Register_registry_mono (B : Backend) (c : TextureCache) (n s p : Nat)
    (h : s ∈ c.registry p) : s ∈ (Register B c n).registry p := by
  by_cases hptr : B.GetPointer (c.surfaces n).gpu_addr = 0
  · rw [Register_of_null B c n hptr]; exact h
  · cases hcpu : B.GpuToCpuAddress (c.surfaces n).gpu_addr with
    | none => rw [Register_of_unmapped B c n hcpu]; exact h
    | some cpu =>
      rw [Register_eq B c n cpu hptr hcpu]
      show s ∈ mapBuckets (fun l => l ++ [n]) _ c.registry p
      rw [mapBuckets_apply _ _ (pageRange_nodup _ _)]
      split
      · exact List.mem_append_left _ h
      · exact h

theorem Register_fields (B : Backend) (c : TextureCache) (n s : Nat) :
    (Register B c n).num_surfaces = c.num_surfaces ∧
    (Register B c n).guard_render_targets = c.guard_render_targets ∧
    ((Register B c n).surfaces s).params = (c.surfaces s).params ∧
    ((Register B c n).surfaces s).is_target = (c.surfaces s).is_target ∧
    ((c.surfaces s).is_registered = true → ((Register B c n).surfaces s).is_registered = true) := by
  by_cases hptr : B.GetPointer (c.surfaces n).gpu_addr = 0
  · rw [Register_of_null B c n hptr]; exact ⟨rfl, rfl, rfl, rfl, id⟩
  · cases hcpu : B.GpuToCpuAddress (c.surfaces n).gpu_addr with
    | none => rw [Register_of_unmapped B c n hcpu]; exact ⟨rfl, rfl, rfl, rfl, id⟩
    | some cpu =>
      rw [Register_eq B c n cpu hptr hcpu]
      refine ⟨rfl, rfl, ?_, ?_, ?_⟩
      all_goals
        by_cases hs : s = n
        · subst hs
          simp [registeredSurface]
        · simp [Function.update_noteq hs]

theorem GetUncachedSurface_fields (B : Backend) (c : TextureCache) (gpu_addr : Nat)
    (params : SurfaceParams) (s : Nat) (hlt : s < c.num_surfaces) :
    c.num_surfaces ≤ (GetUncachedSurface B c gpu_addr params).1.num_surfaces ∧
    ((GetUncachedSurface B c gpu_addr params).1.surfaces s).params = (c.surfaces s).params ∧
    ((GetUncachedSurface B c gpu_addr params).1.surfaces s).is_target =
      (c.surfaces s).is_target ∧
    ((GetUncachedSurface B c gpu_addr params).1.surfaces s).is_registered =
      (c.surfaces s).is_registered := by
  cases hr : c.TryGetReservedSurface params with
  | some n =>
    rw [GetUncachedSurface_reserved B c gpu_addr params n hr]
    refine ⟨Nat.le_refl _, ?_, ?_, ?_⟩
    all_goals
      by_cases hs : s = n
      · subst hs; simp [modify]
      · simp [modify, Function.update_noteq hs]
  | none =>
    rw [GetUncachedSurface_created B c gpu_addr params hr]
    have hs : s ≠ c.num_surfaces := Nat.ne_of_lt hlt
    refine ⟨Nat.le_succ _, ?_, ?_, ?_⟩
    all_goals simp [CreateSurface, Function.update_noteq hs]

theorem shieldKept_frame (B : Backend) (s : Nat) : FrameRel B (ShieldKept s) where
  same := fun _ => ⟨id, fun h => ⟨h.1, h.2.1, h.2.2, fun _ _ hp => hp⟩⟩
  andThen := by
    intro c d e h1 h2
    refine ⟨fun h => h2.1 (h1.1 h), fun hc => ?_⟩
    obtain ⟨a1, a2, a3, a4⟩ := h1.2 hc
    obtain ⟨b1, b2, b3, b4⟩ := h2.2 ⟨a1, a2, a3⟩
    refine ⟨b1, b2, b3, fun he p hp => b4 he p (a4 ?_ p hp)⟩
    cases hd : d.erased_end
    · rfl
    · rw [h2.1 hd] at he; cases he
  unregister := by
    intro c t
    refine ⟨Unregister_erased_end_mono c t, fun hc => ?_⟩
    by_cases hst : s = t
    · subst hst
      rw [Unregister_of_shielded c s hc.2.1]
      exact ⟨hc.1, hc.2.1, hc.2.2, fun _ _ hp => hp⟩
    · have hsurf : (c.Unregister t).surfaces s = c.surfaces s := by
        rw [Unregister_surfaces, if_neg (fun h => hst h.1)]
      refine (ShieldKept.of_fields (Nat.le_of_eq (Unregister_num c t).symm)
        (Unregister_guard c t) (fun _ => ?_)
        (fun p hp => Unregister_registry_other c t s p hst hp)
        (Unregister_erased_end_mono c t)).2 hc
      rw [hsurf]
      exact ⟨rfl, rfl, id⟩
  register := fun c n =>
    ShieldKept.of_fields (Nat.le_of_eq (Register_fields B c n s).1.symm)
      (Register_fields B c n s).2.1
      (fun _ => ⟨(Register_fields B c n s).2.2.1, (Register_fields B c n s).2.2.2.1,
        (Register_fields B c n s).2.2.2.2⟩)
      (fun p hp => Register_registry_mono B c n s p hp)
      (fun h => by rw [Register_erased_end]; exact h)
  uncached := fun c gpu_addr params =>
    ShieldKept.of_fields
      (by
        cases hr : c.TryGetReservedSurface params with
        | some n => rw [GetUncachedSurface_reserved B c gpu_addr params n hr]; exact Nat.le_refl _
        | none => rw [GetUncachedSurface_created B c gpu_addr params hr]; exact Nat.le_succ _)
      (GetUncachedSurface_frame B c gpu_addr params).2.2.2.2.1
      (fun hlt => ⟨(GetUncachedSurface_fields B c gpu_addr params s hlt).2.1,
        (GetUncachedSurface_fields B c gpu_addr params s hlt).2.2.1,
        fun h => by rw [(GetUncachedSurface_fields B c gpu_addr params s hlt).2.2.2]; exact h⟩)
      (fun p hp => by rw [(GetUncachedSurface_frame B c gpu_addr params).1]; exact hp)
      (fun h => by rw [GetUncachedSurface_erased_end]; exact h)
  trace := fun _ _ => ShieldKept.of_fields (Nat.le_refl _) rfl (fun _ => ⟨rfl, rfl, id⟩)
    (fun _ hp => hp) id
  stamp := by
    intro c n m
    refine ShieldKept.of_fields (Nat.le_refl _) rfl (fun _ => ?_) (fun _ hp => hp) id
    by_cases hs : s = n
    · subst hs; simp [Tick, modify, Surface.MarkAsModified]
    · simp [Tick, modify, Function.update_noteq hs]
  region := by
    intro c addr size
    obtain ⟨h, heq, hp⟩ := GetSurfacesInRegion_shape c addr size
    rw [heq]
    exact ShieldKept.of_fields (Nat.le_refl _) rfl
      (fun _ => ⟨(hp.kept s).1, (hp.kept s).2.2.1,
        fun hr => by
          show (h s).is_registered = true
          rw [(hp.kept s).2.1]; exact hr⟩)
      (fun _ hq => hq) id

end TextureCache

end VideoCommon

namespace VideoCommon

namespace TextureCache

/-! ## The reserve pool and the structural match -/

theorem TryGetReservedSurface_first (c : TextureCache) (params : SurfaceParams)
    (pre post : List Nat) (S : Nat) (hlist : c.surface_reserve params = pre ++ S :: post)
    (hpre : ∀ x ∈ pre, (c.surfaces x).is_registered = true)
    (hS : (c.surfaces S).is_registered = false) :
    c.TryGetReservedSurface params = some S := by
  unfold TryGetReservedSurface
  rw [hlist, List.find?_append]
  have h1 : pre.find? (fun surface => !(c.surfaces surface).is_registered) = none := by
    rw [List.find?_eq_none]
    intro x hx
    simp [hpre x hx]
  rw [h1]
  simp [hS]

theorem TryGetReservedSurface_none (c : TextureCache) (params : SurfaceParams) :
    c.TryGetReservedSurface params = none ↔
      ∀ x ∈ c.surface_reserve params, (c.surfaces x).is_registered = true := by
  unfold TryGetReservedSurface
  rw [List.find?_eq_none]
  simp

/-- C23: the reserve pool is consulted first. `GetUncachedSurface(gpu_addr, params)` returns the
first entry of the reserve list keyed by `params` whose registered flag is clear,
after setting its GPU address to `gpu_addr`, and then creates no surface object;
when every entry of the list is registered (in particular when the list is empty)
it returns the object `CreateSurface(gpu_addr, params)` creates; and it creates an
object only in that case. -/
theorem GetUncachedSurface_reserve_first (B : Backend) (c : TextureCache) (gpu_addr : Nat)
    (params : SurfaceParams) :
    (∀ pre S post, c.surface_reserve params = pre ++ S :: post →
      (∀ x ∈ pre, (c.surfaces x).is_registered = true) →
      (c.surfaces S).is_registered = false →
      GetUncachedSurface B c gpu_addr params =
        (c.modify S (fun x => { x with gpu_addr := gpu_addr }), S) ∧
      (GetUncachedSurface B c gpu_addr params).1.num_surfaces = c.num_surfaces ∧
      ((GetUncachedSurface B c gpu_addr params).1.surfaces S).gpu_addr = gpu_addr) ∧
    ((∀ x ∈ c.surface_reserve params, (c.surfaces x).is_registered = true) →
      GetUncachedSurface B c gpu_addr params = CreateSurface B c gpu_addr params ∧
      (GetUncachedSurface B c gpu_addr params).2 = c.num_surfaces ∧
      (GetUncachedSurface B c gpu_addr params).1.num_surfaces = c.num_surfaces + 1) ∧
    ((GetUncachedSurface B c gpu_addr params).1.num_surfaces ≠ c.num_surfaces →
      ∀ x ∈ c.surface_reserve params, (c.surfaces x).is_registered = true) := by
  refine ⟨?_, ?_, ?_⟩
  · intro pre S post hlist hpre hS
    rw [GetUncachedSurface_reserved B c gpu_addr params S
      (TryGetReservedSurface_first c params pre post S hlist hpre hS)]
    refine ⟨rfl, rfl, ?_⟩
    show (Function.update c.surfaces S _ S).gpu_addr = gpu_addr
    rw [Function.update_same]
  · intro hall
    rw [GetUncachedSurface_created B c gpu_addr params
      ((TryGetReservedSurface_none c params).mpr hall)]
    exact ⟨rfl, rfl, rfl⟩
  · intro hne
    rw [← TryGetReservedSurface_none]
    cases hr : c.TryGetReservedSurface params with
    | none => rfl
    | some n =>
      rw [GetUncachedSurface_reserved B c gpu_addr params n hr] at hne
      exact absurd rfl hne

/-- C29: the structural reconciliation decision. `ManageStructuralMatch(current, params,
is_render)` returns `current` itself in the unchanged state, with its main view
when `current` matches the requested target and with the overview
`EmplaceOverview(params)` when it does not, whenever the format of `current`
matches the requested format, or the call is not for a render target and the
sibling of the format of `current` is the requested format; in every remaining
case it returns what `RebuildSurface(current, params, is_render)` returns. -/
theorem ManageStructuralMatch_decision (B : Backend) (c : TextureCache) (current : Nat)
    (params : SurfaceParams) (is_render : Bool) :
    ManageStructuralMatch B c current params is_render =
      (if (c.surfaces current).MatchFormat params.pixel_format = true ∨
          (is_render = false ∧
            c.GetSiblingFormat (c.surfaces current).params.pixel_format =
              params.pixel_format) then
        (c, (current,
          some (if (c.surfaces current).MatchTarget params.target = true then View.main current
            else View.overview current params)))
      else RebuildSurface B c current params is_render) := by
  unfold ManageStructuralMatch
  cases hf : (c.surfaces current).MatchFormat params.pixel_format <;>
    cases hr : is_render <;>
    cases ht : (c.surfaces current).MatchTarget params.target <;>
    by_cases hs : c.GetSiblingFormat (c.surfaces current).params.pixel_format =
      params.pixel_format <;>
    simp [hs]

end TextureCache

end VideoCommon

namespace VideoCommon

namespace TextureCache

/-! ## Rebuilding a surface -/

theorem modify_surfaces (c : TextureCache) (n : Nat) (f : Surface → Surface) (s : Nat) :
    (c.modify n f).surfaces s = if s = n then f (c.surfaces n) else c.surfaces s := by
  unfold modify
  by_cases hs : s = n
  · subst hs; simp
  · simp [hs, Function.update_noteq hs]

theorem RebuildSurface_shape (B : Backend) (c : TextureCache) (current : Nat)
    (params : SurfaceParams) (is_render : Bool) :
    ∃ (P : SurfaceParams) (ev : List Event),
      RebuildSurface B c current params is_render =
        ((Register B
            (Unregister { (GetUncachedSurface B c (c.surfaces current).gpu_addr P).1 with
              events := ev } current)
            (GetUncachedSurface B c (c.surfaces current).gpu_addr P).2).Tick.1.modify
          (GetUncachedSurface B c (c.surfaces current).gpu_addr P).2
          (fun s => s.MarkAsModified
            (((Register B
              (Unregister { (GetUncachedSurface B c (c.surfaces current).gpu_addr P).1 with
                events := ev } current)
              (GetUncachedSurface B c (c.surfaces current).gpu_addr P).2).Tick.1.surfaces
                current).is_modified)
            (Register B
              (Unregister { (GetUncachedSurface B c (c.surfaces current).gpu_addr P).1 with
                events := ev } current)
              (GetUncachedSurface B c (c.surfaces current).gpu_addr P).2).Tick.2),
         ((GetUncachedSurface B c (c.surfaces current).gpu_addr P).2,
          some (View.main (GetUncachedSurface B c (c.surfaces current).gpu_addr P).2))) := by
  unfold RebuildSurface
  dsimp only
  split_ifs
  all_goals exact ⟨_, _, rfl⟩

/-- C30 (amended): rebuild carries over the modified flag and stamps a fresh tick. In a state in
which `current` is a created, registered surface that is not shielded by the
render-target guard and whose GPU address translates, `RebuildSurface(current,
params, is_render)` ends with `current` unregistered and the new surface, another
object, registered at the GPU address of `current`; it returns the new surface
with its main view; the modified flag of the new surface is the one `current` had
on entry, and its modification tick is the freshly drawn tick, the new value of
the counter (not the tick of `current`). -/
theorem RebuildSurface_post (B : Backend) (c : TextureCache) (current cpu_addr : Nat)
    (params : SurfaceParams) (is_render : Bool)
    (hlt : current < c.num_surfaces)
    (hreg : (c.surfaces current).is_registered = true)
    (hsh : c.Shielded current = false)
    (hptr : B.GetPointer (c.surfaces current).gpu_addr ≠ 0)
    (hcpu : B.GpuToCpuAddress (c.surfaces current).gpu_addr = some cpu_addr) :
    (RebuildSurface B c current params is_render).2.2 =
      some (View.main (RebuildSurface B c current params is_render).2.1) ∧
    (RebuildSurface B c current params is_render).2.1 ≠ current ∧
    ((RebuildSurface B c current params is_render).1.surfaces current).is_registered = false ∧
    ((RebuildSurface B c current params is_render).1.surfaces
      (RebuildSurface B c current params is_render).2.1).is_registered = true ∧
    ((RebuildSurface B c current params is_render).1.surfaces
      (RebuildSurface B c current params is_render).2.1).gpu_addr =
        (c.surfaces current).gpu_addr ∧
    ((RebuildSurface B c current params is_render).1.surfaces
      (RebuildSurface B c current params is_render).2.1).cache_addr =
        B.GetPointer (c.surfaces current).gpu_addr ∧
    ((RebuildSurface B c current params is_render).1.surfaces
      (RebuildSurface B c current params is_render).2.1).is_modified =
        (c.surfaces current).is_modified ∧
    ((RebuildSurface B c current params is_render).1.surfaces
      (RebuildSurface B c current params is_render).2.1).modification_tick =
        (c.ticks + 1) % 2 ^ 64 ∧
    (RebuildSurface B c current params is_render).1.ticks = (c.ticks + 1) % 2 ^ 64 := by
  obtain ⟨P, ev, heq⟩ := RebuildSurface_shape B c current params is_render
  rw [heq]
  have hres := GetUncachedSurface_result B c (c.surfaces current).gpu_addr P
  have hne : (GetUncachedSurface B c (c.surfaces current).gpu_addr P).2 ≠ current := by
    intro h
    rcases hres.2.2 with h1 | h1
    · rw [h, hreg] at h1; cases h1
    · rw [h] at h1; omega
  have hcur : (GetUncachedSurface B c (c.surfaces current).gpu_addr P).1.surfaces current =
      c.surfaces current :=
    GetUncachedSurface_other B c _ P current (Ne.symm hne)
  have hguard := (GetUncachedSurface_frame B c (c.surfaces current).gpu_addr P).2.2.2.2.1
  have hticks := (GetUncachedSurface_ticks B c (c.surfaces current).gpu_addr P).1
  -- the state in which `Unregister(current)` runs
  obtain ⟨u, hu⟩ : ∃ u, u = ({ (GetUncachedSurface B c (c.surfaces current).gpu_addr P).1 with
      events := ev } : TextureCache) := ⟨_, rfl⟩
  have hu_surf : u.surfaces = (GetUncachedSurface B c (c.surfaces current).gpu_addr P).1.surfaces := by
    rw [hu]
  have hu_sh : u.Shielded current = false := by
    unfold Shielded at hsh ⊢
    rw [hu_surf, hcur]
    rw [hu]
    show ((GetUncachedSurface B c (c.surfaces current).gpu_addr P).1.guard_render_targets &&
      (c.surfaces current).IsProtected) = false
    rw [hguard]; exact hsh
  rw [← hu]
  have hn_un : ((u.Unregister current).surfaces
      (GetUncachedSurface B c (c.surfaces current).gpu_addr P).2) =
      (GetUncachedSurface B c (c.surfaces current).gpu_addr P).1.surfaces
        (GetUncachedSurface B c (c.surfaces current).gpu_addr P).2 := by
    rw [Unregister_surfaces, if_neg (fun h => hne h.1), hu_surf]
  have hcur_un : (u.Unregister current).surfaces current =
      { c.surfaces current with is_registered := false } := by
    rw [Unregister_surfaces, if_pos ⟨rfl, hu_sh⟩, hu_surf, hcur]
  have hgpu : ((u.Unregister current).surfaces
      (GetUncachedSurface B c (c.surfaces current).gpu_addr P).2).gpu_addr =
      (c.surfaces current).gpu_addr := by
    rw [hn_un]; exact hres.1
  have hR := Register_eq B (u.Unregister current)
    (GetUncachedSurface B c (c.surfaces current).gpu_addr P).2 cpu_addr
    (by rw [hgpu]; exact hptr) (by rw [hgpu]; exact hcpu)
  have hRt := Register_ticks B (u.Unregister current)
    (GetUncachedSurface B c (c.surfaces current).gpu_addr P).2
  have hRcur := Register_other B (u.Unregister current)
    (GetUncachedSurface B c (c.surfaces current).gpu_addr P).2 current (Ne.symm hne)
  have hticks4 : (Register B (u.Unregister current)
      (GetUncachedSurface B c (c.surfaces current).gpu_addr P).2).ticks = c.ticks := by
    rw [hRt.1, Unregister_ticks, hu]
    exact hticks
  have hnew : (Register B (u.Unregister current)
      (GetUncachedSurface B c (c.surfaces current).gpu_addr P).2).surfaces
      (GetUncachedSurface B c (c.surfaces current).gpu_addr P).2 =
      registeredSurface B ((u.Unregister current).surfaces
        (GetUncachedSurface B c (c.surfaces current).gpu_addr P).2)
        (B.GetPointer (c.surfaces current).gpu_addr) cpu_addr := by
    rw [hR]
    show Function.update _ _ _ _ = _
    rw [Function.update_same, hgpu]
  refine ⟨rfl, hne, ?_, ?_, ?_, ?_, ?_, ?_, ?_⟩
  · rw [modify_surfaces, if_neg (Ne.symm hne)]
    show ((Register B _ _).surfaces current).is_registered = false
    rw [hRcur, hcur_un]
  · rw [modify_surfaces, if_pos rfl]
    show ((Register B _ _).surfaces _).is_registered = true
    rw [hnew]; rfl
  · rw [modify_surfaces, if_pos rfl]
    show ((Register B _ _).surfaces _).gpu_addr = _
    rw [hnew]; exact hgpu
  · rw [modify_surfaces, if_pos rfl]
    show ((Register B _ _).surfaces _).cache_addr = _
    rw [hnew]; rfl
  · rw [modify_surfaces, if_pos rfl]
    show ((Register B _ _).surfaces current).is_modified = _
    rw [hRcur, hcur_un]
  · rw [modify_surfaces, if_pos rfl]
    show add64 (Register B _ _).ticks 1 = _
    rw [hticks4]; rfl
  · show add64 (Register B _ _).ticks 1 = _
    rw [hticks4]; rfl

end TextureCache

end VideoCommon

namespace VideoCommon

namespace TextureCache

/-! ## Deduction -/

theorem DeduceFromOverlaps_classify (B : Backend) (c : TextureCache) (hinv : c.BucketsExact)
    (params : SurfaceParams) (cache_addr : Nat)
    (hwrap : cache_addr + B.GetGuestSizeInBytes params < 2 ^ 64) :
    (DeduceFromOverlaps B c params cache_addr).1 = c ∧
    ((∀ s, ¬ ((c.surfaces s).is_registered = true ∧
        RangesIntersect (c.surfaces s).cache_addr (c.surfaces s).cache_addr_end cache_addr
          (cache_addr + B.GetGuestSizeInBytes params))) →
      (DeduceFromOverlaps B c params cache_addr).2 =
        { type := DeductionType.DeductionIncomplete, surface := none }) ∧
    (∀ S, (∀ s, ((c.surfaces s).is_registered = true ∧
        RangesIntersect (c.surfaces s).cache_addr (c.surfaces s).cache_addr_end cache_addr
          (cache_addr + B.GetGuestSizeInBytes params)) ↔ s = S) →
      (DeduceFromOverlaps B c params cache_addr).2 =
        { type := DeductionType.DeductionComplete, surface := some S }) ∧
    (∀ a b, a ≠ b →
      ((c.surfaces a).is_registered = true ∧
        RangesIntersect (c.surfaces a).cache_addr (c.surfaces a).cache_addr_end cache_addr
          (cache_addr + B.GetGuestSizeInBytes params)) →
      ((c.surfaces b).is_registered = true ∧
        RangesIntersect (c.surfaces b).cache_addr (c.surfaces b).cache_addr_end cache_addr
          (cache_addr + B.GetGuestSizeInBytes params)) →
      (DeduceFromOverlaps B c params cache_addr).2 =
        { type := DeductionType.DeductionFailed, surface := none }) := by
  have hst := GetSurfacesInRegion_state c hinv.picked cache_addr (B.GetGuestSizeInBytes params)
  have hnd := GetSurfacesInRegion_nodup c hinv.picked cache_addr (B.GetGuestSizeInBytes params)
  have hmem := mem_GetSurfacesInRegion_iff c hinv cache_addr (B.GetGuestSizeInBytes params) hwrap
  obtain ⟨L, hL⟩ : ∃ L, (c.GetSurfacesInRegion cache_addr (B.GetGuestSizeInBytes params)).2 = L :=
    ⟨_, rfl⟩
  have hq : c.GetSurfacesInRegion cache_addr (B.GetGuestSizeInBytes params) = (c, L) :=
    Prod.ext hst hL
  rw [hL] at hnd hmem
  unfold DeduceFromOverlaps
  simp only [hq]
  refine ⟨?_, ?_, ?_, ?_⟩
  · rcases L with _ | ⟨x, _ | ⟨y, rest⟩⟩ <;> rfl
  · intro hnone
    have : L = [] := List.eq_nil_iff_forall_not_mem.mpr (fun s hs => hnone s ((hmem s).mp hs))
    rw [this]
  · intro S hS
    have : L = [S] := eq_singleton_of_nodup L S hnd (fun s => (hmem s).trans (hS s))
    rw [this]
  · intro a b hab ha hb
    have hma := (hmem a).mpr ha
    have hmb := (hmem b).mpr hb
    rcases L with _ | ⟨x, _ | ⟨y, rest⟩⟩
    · cases hma
    · rw [List.mem_singleton] at hma hmb
      exact absurd (hma.trans hmb.symm) hab
    · rfl

end TextureCache

end VideoCommon

namespace VideoCommon

namespace TextureCache

/-! ## Blit format inference -/

theorem DeduceSurface_state (B : Backend) (c : TextureCache)
    (hp : ∀ s, (c.surfaces s).is_picked = false) (gpu_addr : Nat) (params : SurfaceParams) :
    (DeduceSurface B c gpu_addr params).1 = c := by
  have hov : ∀ cache_addr, (DeduceFromOverlaps B c params cache_addr).1 = c := by
    intro cache_addr
    have hst := GetSurfacesInRegion_state c hp cache_addr (B.GetGuestSizeInBytes params)
    unfold DeduceFromOverlaps
    dsimp only
    split <;> exact hst
  unfold DeduceSurface
  dsimp only
  split_ifs
  · rfl
  · split
    · split_ifs
      · rfl
      · rfl
      · exact hov _
    · exact hov _

theorem DeduceSurface_complete (B : Backend) (c : TextureCache) (gpu_addr : Nat)
    (params : SurfaceParams)
    (h : (DeduceSurface B c gpu_addr params).2.type = DeductionType.DeductionComplete) :
    ∃ S, (DeduceSurface B c gpu_addr params).2.surface = some S := by
  have hov : ∀ cache_addr,
      (DeduceFromOverlaps B c params cache_addr).2.type = DeductionType.DeductionComplete →
      ∃ S, (DeduceFromOverlaps B c params cache_addr).2.surface = some S := by
    intro cache_addr
    unfold DeduceFromOverlaps
    dsimp only
    split
    · intro h; cases h
    · intro _; exact ⟨_, rfl⟩
    · intro h; cases h
  revert h
  unfold DeduceSurface
  dsimp only
  split_ifs
  · intro h; cases h
  · split
    · split_ifs
      · intro h; cases h
      · intro _; exact ⟨_, rfl⟩
      · exact hov _
    · exact hov _

theorem DeduceBestBlit_eq (B : Backend) (c : TextureCache) (src_params dst_params : SurfaceParams)
    (src_gpu_addr dst_gpu_addr : Nat) :
    DeduceBestBlit B c src_params dst_params src_gpu_addr dst_gpu_addr =
      ((DeduceSurface B (DeduceSurface B c src_gpu_addr src_params).1 src_gpu_addr
          src_params).1,
        DeduceBestBlitFrom B
          (DeduceSurface B (DeduceSurface B c src_gpu_addr src_params).1 src_gpu_addr
            src_params).1
          src_params dst_params (DeduceSurface B c src_gpu_addr src_params).2
          (DeduceSurface B (DeduceSurface B c src_gpu_addr src_params).1 src_gpu_addr
            src_params).2) := by
  unfold DeduceBestBlit
  rfl

theorem DeduceBestBlitFrom_same (B : Backend) (c : TextureCache)
    (src_params dst_params : SurfaceParams) (D : Deduction) :
    (D.type ≠ DeductionType.DeductionComplete →
      DeduceBestBlitFrom B c src_params dst_params D D = some (src_params, dst_params)) ∧
    (∀ S, D.type = DeductionType.DeductionComplete → D.surface = some S →
      DeduceBestBlitFrom B c src_params dst_params D D =
        if B.IsPixelFormatZeta (c.surfaces S).params = true then
          some ({ src_params with
                    pixel_format := (c.surfaces S).params.pixel_format
                    component_type := (c.surfaces S).params.component_type
                    type := (c.surfaces S).params.type },
                { dst_params with
                    pixel_format := (c.surfaces S).params.pixel_format
                    component_type := (c.surfaces S).params.component_type
                    type := (c.surfaces S).params.type })
        else some (src_params, dst_params)) := by
  obtain ⟨t, s⟩ := D
  constructor
  · intro ht
    cases t
    · exact absurd rfl ht
    · simp [DeduceBestBlitFrom, Deduction.Failed, Deduction.Incomplete]
    · simp [DeduceBestBlitFrom, Deduction.Failed, Deduction.Incomplete]
  · intro S ht hs
    simp only at ht hs
    subst ht hs
    cases hz : B.IsPixelFormatZeta (c.surfaces S).params <;>
      simp [DeduceBestBlitFrom, Deduction.Failed, Deduction.Incomplete, Deduction.IsDepth,
        inherit_format, hz]

theorem DeduceBestBlitFrom_destination (B : Backend) (c : TextureCache)
    (src_params dp1 dp2 : SurfaceParams) (D1 D2 : Deduction) :
    (DeduceBestBlitFrom B c src_params dp1 D1 D2 = none ∧
      DeduceBestBlitFrom B c src_params dp2 D1 D2 = none) ∨
    (DeduceBestBlitFrom B c src_params dp1 D1 D2 = some (src_params, dp1) ∧
      DeduceBestBlitFrom B c src_params dp2 D1 D2 = some (src_params, dp2)) ∨
    (∃ new_src S,
      DeduceBestBlitFrom B c src_params dp1 D1 D2 =
        some (new_src,
          { dp1 with
              pixel_format := (c.surfaces S).params.pixel_format
              component_type := (c.surfaces S).params.component_type
              type := (c.surfaces S).params.type }) ∧
      DeduceBestBlitFrom B c src_params dp2 D1 D2 =
        some (new_src,
          { dp2 with
              pixel_format := (c.surfaces S).params.pixel_format
              component_type := (c.surfaces S).params.component_type
              type := (c.surfaces S).params.type })) := by
  obtain ⟨t1, s1⟩ := D1
  obtain ⟨t2, s2⟩ := D2
  rcases s1 with _ | a <;> rcases s2 with _ | b <;> cases t1 <;> cases t2 <;>
    (try cases hza : B.IsPixelFormatZeta (c.surfaces a).params) <;>
    (try cases hzb : B.IsPixelFormatZeta (c.surfaces b).params) <;>
    simp [DeduceBestBlitFrom, Deduction.Failed, Deduction.Incomplete, Deduction.IsDepth,
      inherit_format, *]
  all_goals exact Or.inr ⟨_, rfl, rfl, rfl⟩

/-- C27: blit format inference. In a state where no picked mark is left set, if either probe of
`DeduceBestBlit` is Failed, `src_params` and `dst_params` are left unchanged; if
both probes are Complete and at least one of the two deduced surfaces has a depth
pixel format, then on return `src_params` carries the pixel format, component
type and surface type of the surface of the source deduction and `dst_params`
those of the surface of the destination deduction. (Both probes being made with
the source address and the source params, the two deductions are the same, so
"at least one is depth" and "both are depth", the test the code makes, coincide.)
When the probes are Complete and the deduced surface is not depth, the params are
left unchanged. -/
theorem DeduceBestBlit_inference (B : Backend) (c : TextureCache)
    (src_params dst_params : SurfaceParams) (src_gpu_addr dst_gpu_addr : Nat)
    (hp : ∀ s, (c.surfaces s).is_picked = false) :
    ((Deduction.Failed (DeduceSurface B c src_gpu_addr src_params).2 = true ∨
        Deduction.Failed (DeduceSurface B (DeduceSurface B c src_gpu_addr src_params).1
          src_gpu_addr src_params).2 = true) →
      (DeduceBestBlit B c src_params dst_params src_gpu_addr dst_gpu_addr).2 =
        some (src_params, dst_params)) ∧
    ((DeduceSurface B c src_gpu_addr src_params).2.type = DeductionType.DeductionComplete →
      (DeduceSurface B (DeduceSurface B c src_gpu_addr src_params).1 src_gpu_addr
        src_params).2.type = DeductionType.DeductionComplete →
      (Deduction.IsDepth B c (DeduceSurface B c src_gpu_addr src_params).2 = some true ∨
        Deduction.IsDepth B c (DeduceSurface B (DeduceSurface B c src_gpu_addr src_params).1
          src_gpu_addr src_params).2 = some true) →
      ∃ S1 S2,
        (DeduceSurface B c src_gpu_addr src_params).2.surface = some S1 ∧
        (DeduceSurface B (DeduceSurface B c src_gpu_addr src_params).1 src_gpu_addr
          src_params).2.surface = some S2 ∧
        (DeduceBestBlit B c src_params dst_params src_gpu_addr dst_gpu_addr).2 =
          some ({ src_params with
                    pixel_format := (c.surfaces S1).params.pixel_format
                    component_type := (c.surfaces S1).params.component_type
                    type := (c.surfaces S1).params.type },
                { dst_params with
                    pixel_format := (c.surfaces S2).params.pixel_format
                    component_type := (c.surfaces S2).params.component_type
                    type := (c.surfaces S2).params.type })) ∧
    ((DeduceSurface B c src_gpu_addr src_params).2.type = DeductionType.DeductionComplete →
      Deduction.IsDepth B c (DeduceSurface B c src_gpu_addr src_params).2 = some false →
      (DeduceBestBlit B c src_params dst_params src_gpu_addr dst_gpu_addr).2 =
        some (src_params, dst_params)) := by
  have hst := DeduceSurface_state B c hp src_gpu_addr src_params
  rw [DeduceBestBlit_eq, hst, hst]
  obtain ⟨h1, h2⟩ := DeduceBestBlitFrom_same B c src_params dst_params
    (DeduceSurface B c src_gpu_addr src_params).2
  refine ⟨?_, ?_, ?_⟩
  · intro hf
    apply h1
    intro hc
    unfold Deduction.Failed at hf
    rw [hc] at hf
    simp at hf
  · intro hc _ hd
    obtain ⟨S, hS⟩ := DeduceSurface_complete B c src_gpu_addr src_params hc
    have hz : B.IsPixelFormatZeta (c.surfaces S).params = true := by
      unfold Deduction.IsDepth at hd
      rw [hS] at hd
      simpa using hd
    refine ⟨S, S, hS, hS, ?_⟩
    show DeduceBestBlitFrom B c src_params dst_params _ _ = _
    rw [h2 S hc hS, if_pos hz]
  · intro hc hd
    obtain ⟨S, hS⟩ := DeduceSurface_complete B c src_gpu_addr src_params hc
    have hz : B.IsPixelFormatZeta (c.surfaces S).params = false := by
      unfold Deduction.IsDepth at hd
      rw [hS] at hd
      simpa using hd
    show DeduceBestBlitFrom B c src_params dst_params _ _ = _
    rw [h2 S hc hS, if_neg (by rw [hz]; simp)]

/-- C28: `DeduceBestBlit` ignores the destination endpoint. The destination probe is computed
from the source address and the source params; for a fixed state, source address
and source params, two runs that differ in `dst_gpu_addr` and in the initial
`dst_params` leave the same state and make the same decision: both dereference a
null surface, or both leave `src_params` and their `dst_params` untouched, or both
write the same values into `src_params` and the pixel format, component type and
type of the same surface into their `dst_params`. -/
theorem DeduceBestBlit_ignores_destination (B : Backend) (c : TextureCache)
    (src_params dp1 dp2 : SurfaceParams) (src_gpu_addr da1 da2 : Nat) :
    DeduceBestBlit B c src_params dp1 src_gpu_addr da1 =
      ((DeduceSurface B (DeduceSurface B c src_gpu_addr src_params).1 src_gpu_addr
          src_params).1,
        DeduceBestBlitFrom B
          (DeduceSurface B (DeduceSurface B c src_gpu_addr src_params).1 src_gpu_addr
            src_params).1
          src_params dp1 (DeduceSurface B c src_gpu_addr src_params).2
          (DeduceSurface B (DeduceSurface B c src_gpu_addr src_params).1 src_gpu_addr
            src_params).2) ∧
    (DeduceBestBlit B c src_params dp1 src_gpu_addr da1).1 =
      (DeduceBestBlit B c src_params dp2 src_gpu_addr da2).1 ∧
    (((DeduceBestBlit B c src_params dp1 src_gpu_addr da1).2 = none ∧
        (DeduceBestBlit B c src_params dp2 src_gpu_addr da2).2 = none) ∨
      ((DeduceBestBlit B c src_params dp1 src_gpu_addr da1).2 = some (src_params, dp1) ∧
        (DeduceBestBlit B c src_params dp2 src_gpu_addr da2).2 = some (src_params, dp2)) ∨
      (∃ new_src S,
        (DeduceBestBlit B c src_params dp1 src_gpu_addr da1).2 =
          some (new_src,
            { dp1 with
                pixel_format :=
                  ((DeduceBestBlit B c src_params dp1 src_gpu_addr da1).1.surfaces
                    S).params.pixel_format
                component_type :=
                  ((DeduceBestBlit B c src_params dp1 src_gpu_addr da1).1.surfaces
                    S).params.component_type
                type :=
                  ((DeduceBestBlit B c src_params dp1 src_gpu_addr da1).1.surfaces
                    S).params.type }) ∧
        (DeduceBestBlit B c src_params dp2 src_gpu_addr da2).2 =
          some (new_src,
            { dp2 with
                pixel_format :=
                  ((DeduceBestBlit B c src_params dp1 src_gpu_addr da1).1.surfaces
                    S).params.pixel_format
                component_type :=
                  ((DeduceBestBlit B c src_params dp1 src_gpu_addr da1).1.surfaces
                    S).params.component_type
                type :=
                  ((DeduceBestBlit B c src_params dp1 src_gpu_addr da1).1.surfaces
                    S).params.type }))) := by
  refine ⟨DeduceBestBlit_eq B c src_params dp1 src_gpu_addr da1, ?_, ?_⟩
  · rw [DeduceBestBlit_eq, DeduceBestBlit_eq]
  · rw [DeduceBestBlit_eq, DeduceBestBlit_eq]
    exact DeduceBestBlitFrom_destination B _ src_params dp1 dp2 _ _

end TextureCache

end VideoCommon

namespace VideoCommon

namespace TextureCache

/-! ## Sampling, notifications, deduction and rebuild at concrete inputs -/

/-- C21 counterexample: with the sampler guard off (its initial value), sampling the surface
bound to colour slot 0 records nothing: `GetTextureSurface` resolves surface 0,
which is marked as render target, and the following `TextureBarrier()` returns
false. -/
theorem TextureBarrier_misses_unguarded_sample :
    Example.targetBound.guard_samplers = false ∧
    (GetTextureSurface Example.backend Example.targetBound 0x100000
      { Example.texture 4 4 1 PixelFormat.R16U with block_depth := 1 }).2 =
        some (View.main 0) ∧
    (GetSurface Example.backend Example.targetBound 0x100000
      { Example.texture 4 4 1 PixelFormat.R16U with block_depth := 1 } true false).2.1 = 0 ∧
    ((GetTextureSurface Example.backend Example.targetBound 0x100000
      { Example.texture 4 4 1 PixelFormat.R16U with block_depth := 1 }).1.surfaces
        0).is_target = true ∧
    (GetTextureSurface Example.backend Example.targetBound 0x100000
      { Example.texture 4 4 1 PixelFormat.R16U with block_depth := 1 }).1.sampled_textures =
        [] ∧
    (GetTextureSurface Example.backend Example.targetBound 0x100000
      { Example.texture 4 4 1 PixelFormat.R16U with block_depth := 1 }).1.TextureBarrier.2 =
        false := by
  decide!

/-- C24: the page-count notifications are not balanced in every reachable state. After the two
texture resolutions that take the mirage path (a two-level compressed texture,
then its mip level 1 under another format of the same block size), surface 0 has
been registered once and unregistered twice: the deltas sent for its range
`(0x100000, 160)` sum to `-1`, while before the second resolution the surface
was registered and the sum was `1`. -/
theorem page_count_unbalanced_by_mirage_recycle :
    (Example.compressedSampled.surfaces 0).is_registered = true ∧
    netPages Example.compressedSampled.events 0x100000 160 = 1 ∧
    (Example.mirageRecycled.surfaces 0).is_registered = false ∧
    (Example.mirageRecycled.surfaces 0).cpu_addr = 0x100000 ∧
    (Example.mirageRecycled.surfaces 0).guest_memory_size = 160 ∧
    (Example.mirageRecycled.surfaces 1).guest_memory_size = 208 ∧
    (Example.mirageRecycled.surfaces 2).guest_memory_size = 16 ∧
    Example.mirageRecycled.num_surfaces = 3 ∧
    Example.mirageRecycled.events =
      [Event.UpdatePagesCachedCount 0x100000 160 1, Event.LoadSurface 0,
        Event.UpdatePagesCachedCount 0x100000 160 (-1),
        Event.UpdatePagesCachedCount 0x100000 208 1,
        Event.UpdatePagesCachedCount 0x100000 160 (-1),
        Event.UpdatePagesCachedCount 0x100090 16 1] ∧
    netPages Example.mirageRecycled.events 0x100000 160 = -1 := by
  decide!

/-- C26 counterexample: with one `Z16` texture registered at `0x100000`, the probe for a 4×4
`R32F` texture at the same address returns Failed although exactly one registered
surface overlaps the candidate range (the exact-address entry does not match the
topology of the request); and in the empty cache the probe for an address that
fails translation returns Failed although no registered surface overlaps. -/
theorem DeduceSurface_fails_on_single_overlap :
    (Example.oneSurface.GetSurfacesInRegion (Example.backend.GetPointer 0x100000)
      (Example.backend.GetGuestSizeInBytes (Example.texture 4 4 1 PixelFormat.R32F))).2 = [0] ∧
    (DeduceSurface Example.backend Example.oneSurface 0x100000
      (Example.texture 4 4 1 PixelFormat.R32F)).2 =
        { type := DeductionType.DeductionFailed, surface := none } ∧
    (init Example.maxwell3d).num_surfaces = 0 ∧
    (DeduceSurface Example.backend (init Example.maxwell3d) (2 ^ 40)
      (Example.texture 4 4 1 PixelFormat.R32F)).2 =
        { type := DeductionType.DeductionFailed, surface := none } := by
  decide!

/-- C30 counterexample: rebuilding the modified surface 0 (stamped with tick 1) yields surface 1
with the modified flag carried over and the modification tick 2, the freshly
drawn tick, not the tick of surface 0. -/
theorem RebuildSurface_stamps_fresh_tick :
    (Example.oneModified.surfaces 0).is_registered = true ∧
    (Example.oneModified.surfaces 0).is_modified = true ∧
    (Example.oneModified.surfaces 0).modification_tick = 1 ∧
    (RebuildSurface Example.backend Example.oneModified 0
      (Example.texture 4 4 2 PixelFormat.R16U) false).2 = (1, some (View.main 1)) ∧
    ((RebuildSurface Example.backend Example.oneModified 0
      (Example.texture 4 4 2 PixelFormat.R16U) false).1.surfaces 1).is_modified = true ∧
    ((RebuildSurface Example.backend Example.oneModified 0
      (Example.texture 4 4 2 PixelFormat.R16U) false).1.surfaces 1).modification_tick = 2 := by
  decide!

end TextureCache

end VideoCommon

namespace VideoCommon

namespace TextureCache

/-! ## The guard, deduction and rebuild theorems at concrete inputs -/

/-- C23 at the cache whose only surface has been invalidated and sits in the reserve pool. -/
theorem GetUncachedSurface_reserve_first_witness :
    Example.depthInvalidated.surface_reserve (Example.texture 4 4 2 PixelFormat.Z16) =
      [] ++ 0 :: [] ∧
    (Example.depthInvalidated.surfaces 0).is_registered = false ∧
    GetUncachedSurface Example.backend Example.depthInvalidated 0x200000
        (Example.texture 4 4 2 PixelFormat.Z16) =
      (Example.depthInvalidated.modify 0 (fun x => { x with gpu_addr := 0x200000 }), 0) ∧
    (GetUncachedSurface Example.backend Example.depthInvalidated 0x200000
      (Example.texture 4 4 2 PixelFormat.Z16)).1.num_surfaces =
        Example.depthInvalidated.num_surfaces :=
  ⟨by decide!, by decide!,
    ((GetUncachedSurface_reserve_first Example.backend Example.depthInvalidated 0x200000
      (Example.texture 4 4 2 PixelFormat.Z16)).1 [] 0 [] (by decide!)
      (fun x hx => by cases hx) (by decide!)).1,
    ((GetUncachedSurface_reserve_first Example.backend Example.depthInvalidated 0x200000
      (Example.texture 4 4 2 PixelFormat.Z16)).1 [] 0 [] (by decide!)
      (fun x hx => by cases hx) (by decide!)).2.1⟩

/-- C27 at the cache holding one registered `Z16` surface, for a blit whose source is an `R16U`
texture of the same shape at its address. -/
theorem DeduceBestBlit_inference_witness :
    (∀ s, (Example.oneSurface.surfaces s).is_picked = false) ∧
    (DeduceSurface Example.backend Example.oneSurface 0x100000
      (Example.texture 4 4 2 PixelFormat.R16U)).2.type = DeductionType.DeductionComplete ∧
    Deduction.IsDepth Example.backend Example.oneSurface
      (DeduceSurface Example.backend Example.oneSurface 0x100000
        (Example.texture 4 4 2 PixelFormat.R16U)).2 = some true ∧
    (∃ S1 S2,
      (DeduceSurface Example.backend Example.oneSurface 0x100000
        (Example.texture 4 4 2 PixelFormat.R16U)).2.surface = some S1 ∧
      (DeduceSurface Example.backend
        (DeduceSurface Example.backend Example.oneSurface 0x100000
          (Example.texture 4 4 2 PixelFormat.R16U)).1 0x100000
        (Example.texture 4 4 2 PixelFormat.R16U)).2.surface = some S2 ∧
      (DeduceBestBlit Example.backend Example.oneSurface
        (Example.texture 4 4 2 PixelFormat.R16U) (Example.texture 4 4 1 PixelFormat.R32F)
        0x100000 0x200000).2 =
        some ({ Example.texture 4 4 2 PixelFormat.R16U with
                  pixel_format := (Example.oneSurface.surfaces S1).params.pixel_format
                  component_type := (Example.oneSurface.surfaces S1).params.component_type
                  type := (Example.oneSurface.surfaces S1).params.type },
              { Example.texture 4 4 1 PixelFormat.R32F with
                  pixel_format := (Example.oneSurface.surfaces S2).params.pixel_format
                  component_type := (Example.oneSurface.surfaces S2).params.component_type
                  type := (Example.oneSurface.surfaces S2).params.type })) :=
  ⟨oneSurface_inv.picked, by decide!, by decide!,
    (DeduceBestBlit_inference Example.backend Example.oneSurface
      (Example.texture 4 4 2 PixelFormat.R16U) (Example.texture 4 4 1 PixelFormat.R32F)
      0x100000 0x200000 oneSurface_inv.picked).2.1 (by decide!) (by decide!)
      (Or.inl (by decide!))⟩

/-- C30 (amended) at the cache holding one modified surface, rebuilt as an `R16U` texture. -/
theorem RebuildSurface_post_witness :
    0 < Example.oneModified.num_surfaces ∧
    (Example.oneModified.surfaces 0).is_registered = true ∧
    Example.oneModified.Shielded 0 = false ∧
    Example.backend.GetPointer (Example.oneModified.surfaces 0).gpu_addr ≠ 0 ∧
    Example.backend.GpuToCpuAddress (Example.oneModified.surfaces 0).gpu_addr =
      some 0x100000 ∧
    ((RebuildSurface Example.backend Example.oneModified 0
      (Example.texture 4 4 2 PixelFormat.R16U) false).1.surfaces 0).is_registered = false ∧
    ((RebuildSurface Example.backend Example.oneModified 0
      (Example.texture 4 4 2 PixelFormat.R16U) false).1.surfaces
      (RebuildSurface Example.backend Example.oneModified 0
        (Example.texture 4 4 2 PixelFormat.R16U) false).2.1).is_modified =
        (Example.oneModified.surfaces 0).is_modified ∧
    ((RebuildSurface Example.backend Example.oneModified 0
      (Example.texture 4 4 2 PixelFormat.R16U) false).1.surfaces
      (RebuildSurface Example.backend Example.oneModified 0
        (Example.texture 4 4 2 PixelFormat.R16U) false).2.1).modification_tick =
        (Example.oneModified.ticks + 1) % 2 ^ 64 :=
  ⟨by decide!, by decide!, by decide!, by decide!, by decide!,
    (RebuildSurface_post Example.backend Example.oneModified 0 0x100000
      (Example.texture 4 4 2 PixelFormat.R16U) false (by decide!) (by decide!) (by decide!)
      (by decide!) (by decide!)).2.2.1,
    (RebuildSurface_post Example.backend Example.oneModified 0 0x100000
      (Example.texture 4 4 2 PixelFormat.R16U) false (by decide!) (by decide!) (by decide!)
      (by decide!) (by decide!)).2.2.2.2.2.2.1,
    (RebuildSurface_post Example.backend Example.oneModified 0 0x100000
      (Example.texture 4 4 2 PixelFormat.R16U) false (by decide!) (by decide!) (by decide!)
      (by decide!) (by decide!)).2.2.2.2.2.2.2.1⟩

end TextureCache

end VideoCommon

namespace VideoCommon
namespace TextureCache

theorem reconstructLoop_result (B : Backend) (params : SurfaceParams) (new_surface : Nat)
    (L : List Nat) (c : TextureCache) (modified : Bool) (passed_tests : Nat)
    (hp : passed_tests < 2 ^ 32) :
    (reconstructLoop B params new_surface L c modified passed_tests).2 =
      if L.any (overlapUnfit c) = true then none
      else some (modified || L.any (fun s =>
          overlapMatches B c new_surface s && (c.surfaces s).is_modified),
        (passed_tests + L.countP (overlapMatches B c new_surface)) % 2 ^ 32) := by
  induction L generalizing c modified passed_tests with
  | nil =>
    simp only [reconstructLoop, List.any_nil, List.countP_nil, Bool.or_false, Nat.add_zero,
      Bool.false_eq_true, if_false, Nat.mod_eq_of_lt hp]
  | cons s rest ih =>
    unfold reconstructLoop
    dsimp only
    cases hu : overlapUnfit c s with
    | true =>
      have hu2 := hu
      unfold overlapUnfit at hu2
      rw [if_pos hu2]
      simp [hu]
    | false =>
      have hu2 := hu
      unfold overlapUnfit at hu2
      rw [if_neg (by rw [hu2]; simp)]
      cases hl : B.GetLayerMipmap (c.surfaces new_surface) (c.surfaces s).gpu_addr with
      | none =>
        have hm : overlapMatches B c new_surface s = false := by
          unfold overlapMatches; rw [hl]
        dsimp only
        rw [ih c modified passed_tests hp]
        simp [hu, hm]
      | some lm =>
        obtain ⟨layer, mipmap⟩ := lm
        dsimp only
        by_cases hsz : B.GetMipmapSize (c.surfaces new_surface) mipmap =
            (c.surfaces s).guest_memory_size
        · have hm : overlapMatches B c new_surface s = true := by
            unfold overlapMatches; rw [hl]; simp [hsz]
          rw [if_neg (by simpa using hsz)]
          rw [ih _ _ _ (Nat.mod_lt _ (by norm_num))]
          have e1 : overlapUnfit { c with events := c.events ++ [Event.ImageCopy s new_surface
              [0, 0, 0, 0, 0, layer, 0, mipmap, B.IntersectWidth (c.surfaces s).params params 0 mipmap,
                B.IntersectHeight (c.surfaces s).params params 0 mipmap, 1]] }
              = overlapUnfit c := rfl
          have e2 : overlapMatches B { c with events := c.events ++ [Event.ImageCopy s new_surface
              [0, 0, 0, 0, 0, layer, 0, mipmap, B.IntersectWidth (c.surfaces s).params params 0 mipmap,
                B.IntersectHeight (c.surfaces s).params params 0 mipmap, 1]] } new_surface
              = overlapMatches B c new_surface := rfl
          rw [e1, e2]
          simp only [List.any_cons, hu, Bool.false_or, List.countP_cons, hm, if_true,
            Bool.true_and]
          by_cases hr : rest.any (overlapUnfit c) = true
          · rw [if_pos hr, if_pos hr]
          · rw [if_neg hr, if_neg hr]
            congr 1
            congr 1
            · cases modified <;> cases (c.surfaces s).is_modified <;> simp
            · rw [Nat.mod_add_mod]; congr 1; omega
        · have hm : overlapMatches B c new_surface s = false := by
            unfold overlapMatches; rw [hl]; simp [hsz]
          rw [if_pos (by simpa using hsz)]
          rw [ih c modified passed_tests hp]
          simp [hu, hm]

theorem reconstructLoop_state (B : Backend) (params : SurfaceParams) (new_surface : Nat)
    (L : List Nat) (c : TextureCache) (modified : Bool) (passed_tests : Nat) :
    ∃ ev : List Event,
      (reconstructLoop B params new_surface L c modified passed_tests).1 =
        { c with events := c.events ++ ev } ∧
      ∀ e ∈ ev, ∃ a b cp, e = Event.ImageCopy a b cp := by
  induction L generalizing c modified passed_tests with
  | nil => exact ⟨[], by simp [reconstructLoop], fun e he => by cases he⟩
  | cons s rest ih =>
    unfold reconstructLoop
    dsimp only
    split_ifs
    · exact ⟨[], by simp, fun e he => by cases he⟩
    · split
      · exact ih c modified passed_tests
      · split_ifs
        · exact ih c modified passed_tests
        · rename_i layer mipmap _ _
          obtain ⟨ev, h1, h2⟩ := ih
            { c with events := c.events ++ [Event.ImageCopy s new_surface
              [0, 0, 0, 0, 0, layer, 0, mipmap,
                B.IntersectWidth (c.surfaces s).params params 0 mipmap,
                B.IntersectHeight (c.surfaces s).params params 0 mipmap, 1]] }
            (modified || (c.surfaces s).is_modified) ((passed_tests + 1) % 2 ^ 32)
          refine ⟨Event.ImageCopy s new_surface
              [0, 0, 0, 0, 0, layer, 0, mipmap,
                B.IntersectWidth (c.surfaces s).params params 0 mipmap,
                B.IntersectHeight (c.surfaces s).params params 0 mipmap, 1] :: ev, ?_, ?_⟩
          · rw [h1]; simp
          · intro e he
            rcases List.mem_cons.mp he with h | h
            · exact ⟨_, _, _, h⟩
            · exact h2 e h

/-- `TryReconstructSurface` for a request that is not a 3D texture, in terms of the candidate
`GetUncachedSurface` returns and of the result of the loop over the overlaps. -/
theorem TryReconstructSurface_eq (B : Backend) (c : TextureCache) (overlaps : List Nat)
    (params : SurfaceParams) (gpu_addr : Nat) (h3d : params.target ≠ SurfaceTarget.Texture3D) :
    TryReconstructSurface B c overlaps params gpu_addr =
      match (reconstructLoop B params (GetUncachedSurface B c gpu_addr params).2 overlaps
          (GetUncachedSurface B c gpu_addr params).1 false 0).2 with
      | none =>
        ((reconstructLoop B params (GetUncachedSurface B c gpu_addr params).2 overlaps
          (GetUncachedSurface B c gpu_addr params).1 false 0).1, none)
      | some (modified, passed_tests) =>
        if passed_tests = 0 ∨
            (B.use_accurate_gpu_emulation = true ∧ passed_tests ≠ overlaps.length) then
          ((reconstructLoop B params (GetUncachedSurface B c gpu_addr params).2 overlaps
            (GetUncachedSurface B c gpu_addr params).1 false 0).1, none)
        else
          (Register B
            (((overlaps.foldl Unregister
              (reconstructLoop B params (GetUncachedSurface B c gpu_addr params).2 overlaps
                (GetUncachedSurface B c gpu_addr params).1 false 0).1).Tick.1).modify
              (GetUncachedSurface B c gpu_addr params).2
              (fun s => s.MarkAsModified modified
                (overlaps.foldl Unregister
                  (reconstructLoop B params (GetUncachedSurface B c gpu_addr params).2 overlaps
                    (GetUncachedSurface B c gpu_addr params).1 false 0).1).Tick.2))
            (GetUncachedSurface B c gpu_addr params).2,
           some ((GetUncachedSurface B c gpu_addr params).2,
             some (View.main (GetUncachedSurface B c gpu_addr params).2))) := by
  unfold TryReconstructSurface
  rw [if_neg h3d]
  dsimp only
  rcases hr : reconstructLoop B params (GetUncachedSurface B c gpu_addr params).2 overlaps
      (GetUncachedSurface B c gpu_addr params).1 false 0 with ⟨c2, _ | ⟨modified, passed_tests⟩⟩
  · rfl
  · dsimp only
    by_cases h0 : passed_tests = 0
    · simp [h0]
    · cases hacc : B.use_accurate_gpu_emulation
      · simp [h0]
      · by_cases hl : passed_tests = overlaps.length
        · simp [h0, hl]
        · simp [h0, hl]

theorem GetUncachedSurface_shape (B : Backend) (c : TextureCache) (gpu_addr : Nat)
    (params : SurfaceParams) :
    ∃ (h : Nat → Surface) (n : Nat),
      (GetUncachedSurface B c gpu_addr params).1 = { c with surfaces := h, num_surfaces := n } ∧
      ∀ s, s < c.num_surfaces → { h s with gpu_addr := 0 } = { c.surfaces s with gpu_addr := 0 } := by
  unfold GetUncachedSurface
  split
  · rename_i surface _
    refine ⟨_, c.num_surfaces, rfl, ?_⟩
    intro s _
    by_cases hs : s = surface
    · subst hs; simp
    · simp [Function.update_noteq hs]
  · refine ⟨_, c.num_surfaces + 1, rfl, ?_⟩
    intro s hs
    have : s ≠ c.num_surfaces := by omega
    simp [Function.update_noteq this]

theorem foldl_Unregister_heap (L : List Nat) (c : TextureCache) (t : Nat) :
    (L.foldl Unregister c).surfaces t =
      if t ∈ L ∧ c.Shielded t = false then { c.surfaces t with is_registered := false }
      else c.surfaces t := by
  induction L generalizing c with
  | nil => simp
  | cons s rest ih =>
    rw [List.foldl_cons, ih, Unregister_shielded_other, Unregister_surfaces]
    by_cases hts : t = s
    · subst hts
      cases hsh : c.Shielded t <;> simp [hsh]
    · by_cases hm : t ∈ rest <;> cases hsh : c.Shielded t <;> simp [hts, hm, hsh]

theorem Register_kept (B : Backend) (c : TextureCache) (n s : Nat) :
    ((Register B c n).surfaces s).is_modified = (c.surfaces s).is_modified ∧
    ((Register B c n).surfaces s).gpu_addr = (c.surfaces s).gpu_addr ∧
    ((Register B c n).surfaces s).modification_tick = (c.surfaces s).modification_tick := by
  by_cases hptr : B.GetPointer (c.surfaces n).gpu_addr = 0
  · rw [Register_of_null B c n hptr]; exact ⟨rfl, rfl, rfl⟩
  · cases hcpu : B.GpuToCpuAddress (c.surfaces n).gpu_addr with
    | none => rw [Register_of_unmapped B c n hcpu]; exact ⟨rfl, rfl, rfl⟩
    | some cpu_addr =>
      rw [Register_eq B c n cpu_addr hptr hcpu]
      by_cases hs : s = n
      · subst hs; simp [registeredSurface]
      · simp [Function.update_noteq hs]

/-- C31: the reconstruction success condition. For fewer than `2 ^ 32` overlaps (the counter of
passed tests is a `u32`), `TryReconstructSurface(overlaps, params, gpu_addr)` returns a
surface if and only if the requested target is not `Texture3D`, no overlap is layered
or has more than one mip level, at least one overlap matches the candidate (its GPU
address locates a layer/mip of the candidate and its byte size is the candidate's
byte size of that mip level), and, in accurate-emulation mode, every overlap matches.
The candidate is the surface `GetUncachedSurface(gpu_addr, params)` returns, and every
other surface is read as it was on entry. -/
theorem TryReconstructSurface_succeeds_iff (B : Backend) (c : TextureCache) (overlaps : List Nat)
    (params : SurfaceParams) (gpu_addr : Nat) (hlen : overlaps.length < 2 ^ 32) :
    ((TryReconstructSurface B c overlaps params gpu_addr).2.isSome = true ↔
      (params.target ≠ SurfaceTarget.Texture3D ∧
       (∀ s ∈ overlaps,
          ((GetUncachedSurface B c gpu_addr params).1.surfaces s).params.is_layered = false ∧
          ((GetUncachedSurface B c gpu_addr params).1.surfaces s).params.num_levels ≤ 1) ∧
       (∃ s ∈ overlaps,
          overlapMatches B (GetUncachedSurface B c gpu_addr params).1
            (GetUncachedSurface B c gpu_addr params).2 s = true) ∧
       (B.use_accurate_gpu_emulation = true →
          ∀ s ∈ overlaps,
            overlapMatches B (GetUncachedSurface B c gpu_addr params).1
              (GetUncachedSurface B c gpu_addr params).2 s = true))) ∧
    (∀ s, s ≠ (GetUncachedSurface B c gpu_addr params).2 →
      (GetUncachedSurface B c gpu_addr params).1.surfaces s = c.surfaces s) := by
  refine ⟨?_, fun s hs => GetUncachedSurface_other B c gpu_addr params s hs⟩
  by_cases h3d : params.target = SurfaceTarget.Texture3D
  · unfold TryReconstructSurface
    rw [if_pos h3d]
    simp [h3d]
  · rw [TryReconstructSurface_eq B c overlaps params gpu_addr h3d,
      reconstructLoop_result B params _ overlaps _ false 0 (by norm_num)]
    have hcnt : List.countP (overlapMatches B (GetUncachedSurface B c gpu_addr params).1
        (GetUncachedSurface B c gpu_addr params).2) overlaps ≤ overlaps.length :=
      List.countP_le_length _
    have hmod : (0 + List.countP (overlapMatches B (GetUncachedSurface B c gpu_addr params).1
        (GetUncachedSurface B c gpu_addr params).2) overlaps) % 2 ^ 32 =
        List.countP (overlapMatches B (GetUncachedSurface B c gpu_addr params).1
        (GetUncachedSurface B c gpu_addr params).2) overlaps := by
      rw [Nat.zero_add]; exact Nat.mod_eq_of_lt (by omega)
    rw [hmod]
    have hunfit : (overlaps.any (overlapUnfit (GetUncachedSurface B c gpu_addr params).1) = true) ↔
        ¬ ∀ s ∈ overlaps,
          ((GetUncachedSurface B c gpu_addr params).1.surfaces s).params.is_layered = false ∧
          ((GetUncachedSurface B c gpu_addr params).1.surfaces s).params.num_levels ≤ 1 := by
      simp only [List.any_eq_true, overlapUnfit, Bool.or_eq_true, decide_eq_true_eq, not_forall,
        not_and_or, Bool.not_eq_false, not_le]
      constructor
      · rintro ⟨s, hs, h⟩; exact ⟨s, hs, h⟩
      · rintro ⟨s, hs, h⟩; exact ⟨s, hs, h⟩
    have hzero : List.countP (overlapMatches B (GetUncachedSurface B c gpu_addr params).1
        (GetUncachedSurface B c gpu_addr params).2) overlaps = 0 ↔
        ¬ ∃ s ∈ overlaps, overlapMatches B (GetUncachedSurface B c gpu_addr params).1
            (GetUncachedSurface B c gpu_addr params).2 s = true := by
      rw [List.countP_eq_zero]; simp
    have hall : List.countP (overlapMatches B (GetUncachedSurface B c gpu_addr params).1
        (GetUncachedSurface B c gpu_addr params).2) overlaps = overlaps.length ↔
        ∀ s ∈ overlaps, overlapMatches B (GetUncachedSurface B c gpu_addr params).1
            (GetUncachedSurface B c gpu_addr params).2 s = true :=
      List.countP_eq_length
    by_cases hu : overlaps.any (overlapUnfit (GetUncachedSurface B c gpu_addr params).1) = true
    · rw [if_pos hu]
      have := hunfit.mp hu
      simp only [Option.isSome_none, Bool.false_eq_true, false_iff]
      exact fun h => this h.2.1
    · rw [if_neg hu]
      have hfit := not_not.mp (mt hunfit.mpr hu)
      dsimp only
      split_ifs with hc
      · simp only [Option.isSome_none, Bool.false_eq_true, false_iff]
        rintro ⟨_, _, hex, hacc⟩
        rcases hc with h0 | ⟨ha, hne⟩
        · exact hzero.mp h0 hex
        · exact hne (hall.mpr (hacc ha))
      · simp only [Option.isSome_some, true_iff]
        rw [not_or, not_and_or, not_not] at hc
        refine ⟨h3d, hfit, not_not.mp (mt hzero.mpr hc.1), ?_⟩
        intro ha
        rcases hc.2 with h | h
        · exact absurd ha h
        · exact hall.mp h

/-- C37: a failed reconstruction is atomic. Whenever `TryReconstructSurface` returns no result,
the page buckets, the exact-address index, the reserve pool, the tick counter, the
guards, the slots and the `Maxwell3D` state are those on entry; every surface object
that existed on entry has the registered flag, cache range, modified flag and
modification tick it had; and the only calls that left the cache are image copies
into the candidate (no page-count notification: no `Register`, no `Unregister`). -/
theorem TryReconstructSurface_failure_atomic (B : Backend) (c : TextureCache)
    (overlaps : List Nat) (params : SurfaceParams) (gpu_addr : Nat)
    (hfail : (TryReconstructSurface B c overlaps params gpu_addr).2 = none) :
    (TryReconstructSurface B c overlaps params gpu_addr).1.registry = c.registry ∧
    (TryReconstructSurface B c overlaps params gpu_addr).1.l1_cache = c.l1_cache ∧
    (TryReconstructSurface B c overlaps params gpu_addr).1.surface_reserve = c.surface_reserve ∧
    (TryReconstructSurface B c overlaps params gpu_addr).1.ticks = c.ticks ∧
    (TryReconstructSurface B c overlaps params gpu_addr).1.guard_render_targets =
      c.guard_render_targets ∧
    (TryReconstructSurface B c overlaps params gpu_addr).1.maxwell3d = c.maxwell3d ∧
    (TryReconstructSurface B c overlaps params gpu_addr).1.render_targets = c.render_targets ∧
    (TryReconstructSurface B c overlaps params gpu_addr).1.depth_buffer = c.depth_buffer ∧
    (∀ s, s < c.num_surfaces →
      ((TryReconstructSurface B c overlaps params gpu_addr).1.surfaces s).is_registered =
        (c.surfaces s).is_registered ∧
      ((TryReconstructSurface B c overlaps params gpu_addr).1.surfaces s).cache_addr =
        (c.surfaces s).cache_addr ∧
      ((TryReconstructSurface B c overlaps params gpu_addr).1.surfaces s).cache_addr_end =
        (c.surfaces s).cache_addr_end ∧
      ((TryReconstructSurface B c overlaps params gpu_addr).1.surfaces s).is_modified =
        (c.surfaces s).is_modified ∧
      ((TryReconstructSurface B c overlaps params gpu_addr).1.surfaces s).modification_tick =
        (c.surfaces s).modification_tick) ∧
    (∃ ev : List Event,
      (TryReconstructSurface B c overlaps params gpu_addr).1.events = c.events ++ ev ∧
      ∀ e ∈ ev, ∃ src dst copy, e = Event.ImageCopy src dst copy) := by
  by_cases h3d : params.target = SurfaceTarget.Texture3D
  · unfold TryReconstructSurface
    rw [if_pos h3d]
    exact ⟨rfl, rfl, rfl, rfl, rfl, rfl, rfl, rfl, fun _ _ => ⟨rfl, rfl, rfl, rfl, rfl⟩,
      [], by simp, fun e he => by cases he⟩
  · obtain ⟨h, n, hshape, hheap⟩ := GetUncachedSurface_shape B c gpu_addr params
    obtain ⟨ev, hst, hev⟩ := reconstructLoop_state B params
      (GetUncachedSurface B c gpu_addr params).2 overlaps
      (GetUncachedSurface B c gpu_addr params).1 false 0
    have key : (TryReconstructSurface B c overlaps params gpu_addr).1 =
        (reconstructLoop B params (GetUncachedSurface B c gpu_addr params).2 overlaps
          (GetUncachedSurface B c gpu_addr params).1 false 0).1 := by
      rw [TryReconstructSurface_eq B c overlaps params gpu_addr h3d] at hfail ⊢
      cases hr : (reconstructLoop B params (GetUncachedSurface B c gpu_addr params).2 overlaps
          (GetUncachedSurface B c gpu_addr params).1 false 0).2 with
      | none => rfl
      | some mp =>
        obtain ⟨m, p⟩ := mp
        rw [hr] at hfail
        dsimp only at hfail ⊢
        split_ifs at hfail ⊢ with hc
        · rfl
    rw [key, hst, hshape]
    refine ⟨rfl, rfl, rfl, rfl, rfl, rfl, rfl, rfl, ?_, ev, rfl, hev⟩
    intro s hs
    have := hheap s hs
    simp only [Surface.mk.injEq] at this
    obtain ⟨_, _, h3, h4, _, _, _, h8, h9, h10, _, _, _⟩ := this
    exact ⟨h10, h3, h4, h8, h9⟩

/-- C32 (amended): the state a successful reconstruction leaves. When `TryReconstructSurface`
succeeds on overlaps that are created, registered surfaces not shielded by the
render-target guard, for an address that translates, it returns the candidate with
its main view; the candidate is none of the overlaps; every overlap is unregistered
and the candidate is registered at `gpu_addr`; the candidate is stamped with a
freshly drawn tick; and its modified flag is the logical OR of the modified flags of
the overlaps that matched (an overlap that was skipped does not contribute). -/
theorem TryReconstructSurface_post (B : Backend) (c : TextureCache) (overlaps : List Nat)
    (params : SurfaceParams) (gpu_addr cpu_addr : Nat)
    (hsucc : (TryReconstructSurface B c overlaps params gpu_addr).2.isSome = true)
    (hreg : ∀ s ∈ overlaps, s < c.num_surfaces ∧ (c.surfaces s).is_registered = true)
    (hsh : ∀ s ∈ overlaps, c.Shielded s = false)
    (hptr : B.GetPointer gpu_addr ≠ 0) (hcpu : B.GpuToCpuAddress gpu_addr = some cpu_addr) :
    (TryReconstructSurface B c overlaps params gpu_addr).2 =
      some ((GetUncachedSurface B c gpu_addr params).2,
        some (View.main (GetUncachedSurface B c gpu_addr params).2)) ∧
    (GetUncachedSurface B c gpu_addr params).2 ∉ overlaps ∧
    (∀ s ∈ overlaps,
      ((TryReconstructSurface B c overlaps params gpu_addr).1.surfaces s).is_registered = false) ∧
    ((TryReconstructSurface B c overlaps params gpu_addr).1.surfaces
      (GetUncachedSurface B c gpu_addr params).2).is_registered = true ∧
    ((TryReconstructSurface B c overlaps params gpu_addr).1.surfaces
      (GetUncachedSurface B c gpu_addr params).2).gpu_addr = gpu_addr ∧
    ((TryReconstructSurface B c overlaps params gpu_addr).1.surfaces
      (GetUncachedSurface B c gpu_addr params).2).modification_tick = (c.ticks + 1) % 2 ^ 64 ∧
    ((TryReconstructSurface B c overlaps params gpu_addr).1.surfaces
      (GetUncachedSurface B c gpu_addr params).2).is_modified =
        overlaps.any (fun s =>
          overlapMatches B (GetUncachedSurface B c gpu_addr params).1
            (GetUncachedSurface B c gpu_addr params).2 s && (c.surfaces s).is_modified) := by
  have h3d : params.target ≠ SurfaceTarget.Texture3D := by
    intro h
    unfold TryReconstructSurface at hsucc
    rw [if_pos h] at hsucc
    cases hsucc
  have hres := GetUncachedSurface_result B c gpu_addr params
  have hfr := GetUncachedSurface_frame B c gpu_addr params
  have hnot : (GetUncachedSurface B c gpu_addr params).2 ∉ overlaps := by
    intro hm
    obtain ⟨h1, h2⟩ := hreg _ hm
    rcases hres.2.2 with h | h
    · rw [h2] at h; cases h
    · omega
  have hne : ∀ s ∈ overlaps, s ≠ (GetUncachedSurface B c gpu_addr params).2 :=
    fun s hs h => hnot (h ▸ hs)
  obtain ⟨ev, hst, -⟩ := reconstructLoop_state B params
    (GetUncachedSurface B c gpu_addr params).2 overlaps
    (GetUncachedSurface B c gpu_addr params).1 false 0
  have hloop := reconstructLoop_result B params (GetUncachedSurface B c gpu_addr params).2
    overlaps (GetUncachedSurface B c gpu_addr params).1 false 0 (by norm_num)
  rw [TryReconstructSurface_eq B c overlaps params gpu_addr h3d] at hsucc ⊢
  rw [hloop] at hsucc ⊢
  by_cases hu : overlaps.any (overlapUnfit (GetUncachedSurface B c gpu_addr params).1) = true
  · rw [if_pos hu] at hsucc; cases hsucc
  · rw [if_neg hu] at hsucc ⊢
    dsimp only at hsucc ⊢
    split_ifs at hsucc ⊢ with hc
    · cases hsucc
    · rw [hst]
      have hheap := foldl_Unregister_heap overlaps
        { (GetUncachedSurface B c gpu_addr params).1 with
          events := (GetUncachedSurface B c gpu_addr params).1.events ++ ev }
      have hshield : ∀ s ∈ overlaps,
          Shielded { (GetUncachedSurface B c gpu_addr params).1 with
            events := (GetUncachedSurface B c gpu_addr params).1.events ++ ev } s = false := by
        intro s hs
        have h1 := hsh s hs
        unfold Shielded at h1 ⊢
        show ((GetUncachedSurface B c gpu_addr params).1.guard_render_targets &&
          ((GetUncachedSurface B c gpu_addr params).1.surfaces s).IsProtected) = false
        rw [hfr.2.2.2.2.1, GetUncachedSurface_other B c gpu_addr params s (hne s hs)]
        exact h1
      have hN : (overlaps.foldl Unregister
          { (GetUncachedSurface B c gpu_addr params).1 with
            events := (GetUncachedSurface B c gpu_addr params).1.events ++ ev }).surfaces
            (GetUncachedSurface B c gpu_addr params).2 =
          (GetUncachedSurface B c gpu_addr params).1.surfaces
            (GetUncachedSurface B c gpu_addr params).2 := by
        rw [hheap, if_neg (fun h => hnot h.1)]
      refine ⟨rfl, hnot, ?_, ?_, ?_, ?_, ?_⟩
      · intro s hs
        rw [Register_other B _ _ s (hne s hs), modify_surfaces, if_neg (hne s hs)]
        show ((overlaps.foldl Unregister _).surfaces s).is_registered = false
        rw [hheap, if_pos ⟨hs, hshield s hs⟩]
      · refine (Register_flag B _ _ cpu_addr ?_ ?_).1
        · rw [modify_surfaces, if_pos rfl]
          show B.GetPointer ((overlaps.foldl Unregister _).surfaces _).gpu_addr ≠ 0
          rw [hN, hres.1]; exact hptr
        · rw [modify_surfaces, if_pos rfl]
          show B.GpuToCpuAddress ((overlaps.foldl Unregister _).surfaces _).gpu_addr = _
          rw [hN, hres.1]; exact hcpu
      · rw [(Register_kept B _ _ _).2.1, modify_surfaces, if_pos rfl]
        show ((overlaps.foldl Unregister _).surfaces _).gpu_addr = gpu_addr
        rw [hN, hres.1]
      · rw [(Register_kept B _ _ _).2.2, modify_surfaces, if_pos rfl]
        show add64 (overlaps.foldl Unregister _).ticks 1 = _
        have : (overlaps.foldl Unregister
            { (GetUncachedSurface B c gpu_addr params).1 with
              events := (GetUncachedSurface B c gpu_addr params).1.events ++ ev }).ticks =
            c.ticks := by
          have h1 : ∀ (L : List Nat) (d : TextureCache), (L.foldl Unregister d).ticks = d.ticks := by
            intro L
            induction L with
            | nil => intro d; rfl
            | cons a rest ih => intro d; rw [List.foldl_cons, ih, Unregister_ticks]
          rw [h1]
          exact (GetUncachedSurface_ticks B c gpu_addr params).1
        rw [this]; rfl
      · rw [(Register_kept B _ _ _).1, modify_surfaces, if_pos rfl]
        show (false || overlaps.any _) = _
        rw [Bool.false_or]
        apply any_congr_mem
        intro s hs
        rw [GetUncachedSurface_other B c gpu_addr params s (hne s hs)]

end TextureCache
end VideoCommon

namespace VideoCommon
namespace TextureCache

theorem DeduceSurface_wellformed (B : Backend) (c : TextureCache) (gpu_addr : Nat)
    (params : SurfaceParams) :
    (DeduceSurface B c gpu_addr params).2.type = DeductionType.DeductionComplete ↔
      (DeduceSurface B c gpu_addr params).2.surface ≠ none := by
  have hov : ∀ cache_addr,
      ((DeduceFromOverlaps B c params cache_addr).2.type = DeductionType.DeductionComplete ↔
        (DeduceFromOverlaps B c params cache_addr).2.surface ≠ none) := by
    intro cache_addr
    unfold DeduceFromOverlaps
    dsimp only
    split <;> simp
  unfold DeduceSurface
  dsimp only
  split_ifs
  · simp
  · split
    · split_ifs
      · simp
      · simp
      · exact hov _
    · exact hov _

/-- C39: `DeduceBestBlit` never reads a missing surface. A deduction returned by
`DeduceSurface` carries a surface exactly when its type is Complete; for every pair of
deductions of which the Complete ones carry a surface, the body of `DeduceBestBlit`
dereferences no null surface (in the embedding a null dereference, in `IsDepth()` or
in `inherit_format`, makes the result `none`, as it does for a Complete deduction
without surface); hence `DeduceBestBlit` and `DoFermiCopy` never dereference one. -/
theorem DeduceBestBlit_reads_complete_only (B : Backend) (c : TextureCache)
    (src_params dst_params : SurfaceParams) (src_gpu_addr dst_gpu_addr : Nat) :
    (∀ gpu_addr params,
      ((DeduceSurface B c gpu_addr params).2.type = DeductionType.DeductionComplete ↔
        (DeduceSurface B c gpu_addr params).2.surface ≠ none)) ∧
    (∀ (d : TextureCache) (deduced_src deduced_dst : Deduction),
      (deduced_src.type = DeductionType.DeductionComplete → deduced_src.surface ≠ none) →
      (deduced_dst.type = DeductionType.DeductionComplete → deduced_dst.surface ≠ none) →
      DeduceBestBlitFrom B d src_params dst_params deduced_src deduced_dst ≠ none) ∧
    DeduceBestBlitFrom B c src_params dst_params
      { type := DeductionType.DeductionComplete, surface := none }
      { type := DeductionType.DeductionComplete, surface := none } = none ∧
    (DeduceBestBlit B c src_params dst_params src_gpu_addr dst_gpu_addr).2 ≠ none ∧
    DoFermiCopy B c src_gpu_addr src_params dst_gpu_addr dst_params ≠ none := by
  have hfrom : ∀ (d : TextureCache) (deduced_src deduced_dst : Deduction),
      (deduced_src.type = DeductionType.DeductionComplete → deduced_src.surface ≠ none) →
      (deduced_dst.type = DeductionType.DeductionComplete → deduced_dst.surface ≠ none) →
      DeduceBestBlitFrom B d src_params dst_params deduced_src deduced_dst ≠ none := by
    intro d D1 D2 h1 h2
    obtain ⟨t1, s1⟩ := D1
    obtain ⟨t2, s2⟩ := D2
    rcases s1 with _ | a <;> rcases s2 with _ | b <;> cases t1 <;> cases t2 <;>
      (try cases hza : B.IsPixelFormatZeta (d.surfaces a).params) <;>
      (try cases hzb : B.IsPixelFormatZeta (d.surfaces b).params) <;>
      simp [DeduceBestBlitFrom, Deduction.Failed, Deduction.Incomplete, Deduction.IsDepth,
        inherit_format, *] at h1 h2 ⊢
  have hblit : (DeduceBestBlit B c src_params dst_params src_gpu_addr dst_gpu_addr).2 ≠ none := by
    rw [DeduceBestBlit_eq]
    exact hfrom _ _ _ (DeduceSurface_wellformed B c src_gpu_addr src_params).mp
      (DeduceSurface_wellformed B _ src_gpu_addr src_params).mp
  refine ⟨fun a p => DeduceSurface_wellformed B c a p, hfrom, ?_, hblit, ?_⟩
  · simp [DeduceBestBlitFrom, Deduction.Failed, Deduction.Incomplete, Deduction.IsDepth]
  · unfold DoFermiCopy
    cases hd : (DeduceBestBlit B c src_params dst_params src_gpu_addr dst_gpu_addr).2 with
    | none => exact absurd hd hblit
    | some bp =>
      rcases hq : DeduceBestBlit B c src_params dst_params src_gpu_addr dst_gpu_addr with ⟨c1, d⟩
      rw [hq] at hd
      simp only at hd
      subst hd
      simp

/-- A frame relation that also holds across a change of a render-target mark and across a
write to the guards, the slots, the sampled set and the `Maxwell3D` state holds across
every call of the public interface. -/
theorem FrameRel.ofOp {B : Backend} {R : TextureCache → TextureCache → Prop}
    (F : FrameRel B R)
    (hmark : ∀ (c : TextureCache) (n : Nat) (b : Bool) (i : Nat),
      R c (c.modify n (fun s => s.MarkAsRenderTarget b i)))
    (hrest : ∀ (c : TextureCache) (g1 g2 : Bool) (rt : Nat → FramebufferTargetInfo)
      (db : FramebufferTargetInfo) (st : List Nat) (mx : Maxwell3D),
      R c { c with guard_render_targets := g1, guard_samplers := g2, render_targets := rt,
                   depth_buffer := db, sampled_textures := st, maxwell3d := mx })
    (c : TextureCache) (op : Op) : R c (applyOp B c op) := by
  have hmx : ∀ (c : TextureCache) (mx : Maxwell3D), R c { c with maxwell3d := mx } :=
    fun c mx => hrest c c.guard_render_targets c.guard_samplers c.render_targets c.depth_buffer
      c.sampled_textures mx
  have hrt : ∀ (c : TextureCache) (rt : Nat → FramebufferTargetInfo),
      R c { c with render_targets := rt } :=
    fun c rt => hrest c c.guard_render_targets c.guard_samplers rt c.depth_buffer
      c.sampled_textures c.maxwell3d
  have hdb : ∀ (c : TextureCache) (db : FramebufferTargetInfo),
      R c { c with depth_buffer := db } :=
    fun c db => hrest c c.guard_render_targets c.guard_samplers c.render_targets db
      c.sampled_textures c.maxwell3d
  have hst : ∀ (c : TextureCache) (st : List Nat), R c { c with sampled_textures := st } :=
    fun c st => hrest c c.guard_render_targets c.guard_samplers c.render_targets c.depth_buffer
      st c.maxwell3d
  have hemptyC : ∀ (c : TextureCache) (index : Nat), R c (c.SetEmptyColorBuffer index) := by
    intro c index
    unfold SetEmptyColorBuffer
    split
    · exact F.same c
    · exact F.andThen _ _ _ (hmark c _ false NO_RT) (hrt _ _)
  have hemptyD : ∀ (c : TextureCache), R c c.SetEmptyDepthBuffer := by
    intro c
    unfold SetEmptyDepthBuffer
    split
    · exact F.same c
    · exact F.andThen _ _ _ (hmark c _ false NO_RT) (hdb _ _)
  have hbindC : ∀ (c : TextureCache) (index : Nat) (sv : Nat × Option View),
      R c (bindColorSlot c index sv) := by
    intro c index sv
    unfold bindColorSlot
    dsimp only
    split
    · exact F.andThen _ _ _ (F.andThen _ _ _ (hmark c _ false NO_RT) (hrt _ _)) (hmark _ _ _ _)
    · exact F.andThen _ _ _ (hrt _ _) (hmark _ _ _ _)
  have hbindD : ∀ (c : TextureCache) (sv : Nat × Option View), R c (bindDepthSlot c sv) := by
    intro c sv
    unfold bindDepthSlot
    dsimp only
    split
    · exact F.andThen _ _ _ (F.andThen _ _ _ (hmark c _ false NO_RT) (hdb _ _)) (hmark _ _ _ _)
    · exact F.andThen _ _ _ (hdb _ _) (hmark _ _ _ _)
  have hsample : ∀ (c : TextureCache) (gpu_addr : Nat) (params : SurfaceParams),
      R c (if (GetSurface B c gpu_addr params true false).1.guard_samplers = true then
        { (GetSurface B c gpu_addr params true false).1 with
            sampled_textures := (GetSurface B c gpu_addr params true false).1.sampled_textures ++
              [(GetSurface B c gpu_addr params true false).2.1] }
        else (GetSurface B c gpu_addr params true false).1) := by
    intro c gpu_addr params
    split
    · exact F.andThen _ _ _ (F.getSurface c gpu_addr params true false) (hst _ _)
    · exact F.getSurface c gpu_addr params true false
  cases op with
  | InvalidateRegion addr size => exact F.invalidate c addr size
  | FlushRegion addr size => exact F.flushRegion c addr size
  | GuardRenderTargets g =>
    exact hrest c g c.guard_samplers c.render_targets c.depth_buffer c.sampled_textures
      c.maxwell3d
  | GuardSamplers g =>
    exact hrest c c.guard_render_targets g c.render_targets c.depth_buffer c.sampled_textures
      c.maxwell3d
  | GetTextureSurface gpu_addr params =>
    show R c (GetTextureSurface B c gpu_addr params).1
    unfold GetTextureSurface
    split
    · exact F.same c
    · exact hsample c gpu_addr params
  | GetImageSurface gpu_addr params =>
    show R c (GetImageSurface B c gpu_addr params).1
    unfold GetImageSurface
    split
    · exact F.same c
    · exact hsample c gpu_addr params
  | TextureBarrier => exact hst c []
  | GetDepthBufferSurface pc =>
    show R c (GetDepthBufferSurface B c pc).1
    rcases GetDepthBufferSurface_cases B c pc with h | h | h <;> rw [h]
    · exact F.same c
    · exact F.andThen _ _ _ (hmx c _) (hemptyD _)
    · exact F.andThen _ _ _ (F.andThen _ _ _ (hmx c _) (F.getSurface _ _ _ _ _)) (hbindD _ _)
  | GetColorBufferSurface index pc =>
    show R c (GetColorBufferSurface B c index pc).1
    rcases GetColorBufferSurface_cases B c index pc with h | h | h <;> rw [h]
    · exact F.same c
    · exact F.andThen _ _ _ (hmx c _) (hemptyC _ _)
    · exact F.andThen _ _ _ (F.andThen _ _ _ (hmx c _) (F.getSurface _ _ _ _ _)) (hbindC _ _ _)
  | MarkColorBufferInUse index =>
    show R c (c.MarkColorBufferInUse index)
    unfold MarkColorBufferInUse
    split
    · exact F.stamp c _ true
    · exact F.same c
  | MarkDepthBufferInUse =>
    show R c c.MarkDepthBufferInUse
    unfold MarkDepthBufferInUse
    split
    · exact F.stamp c _ true
    · exact F.same c
  | SetEmptyDepthBuffer => exact hemptyD c
  | SetEmptyColorBuffer index => exact hemptyC c index
  | DoFermiCopy sa sp da dp => exact F.fermiCopy c sa sp da dp
  | WriteRegisters m => exact hmx c m

theorem FrameRel.ofRun {B : Backend} {R : TextureCache → TextureCache → Prop}
    (F : FrameRel B R)
    (hmark : ∀ (c : TextureCache) (n : Nat) (b : Bool) (i : Nat),
      R c (c.modify n (fun s => s.MarkAsRenderTarget b i)))
    (hrest : ∀ (c : TextureCache) (g1 g2 : Bool) (rt : Nat → FramebufferTargetInfo)
      (db : FramebufferTargetInfo) (st : List Nat) (mx : Maxwell3D),
      R c { c with guard_render_targets := g1, guard_samplers := g2, render_targets := rt,
                   depth_buffer := db, sampled_textures := st, maxwell3d := mx })
    (c : TextureCache) (ops : List Op) : R c (run B c ops) := by
  induction ops generalizing c with
  | nil => exact F.same c
  | cons op rest ih =>
    exact F.andThen _ _ _ (F.ofOp hmark hrest c op) (ih (applyOp B c op))

theorem tableKept_frame (B : Backend) : FrameRel B TableKept where
  same := fun _ => rfl
  andThen := fun _ _ _ h1 h2 => h2.trans h1
  unregister := by
    intro c s
    cases hs : c.Shielded s
    · rw [Unregister_eq c s hs]; rfl
    · rw [Unregister_of_shielded c s hs]; rfl
  register := by
    intro c n
    by_cases hptr : B.GetPointer (c.surfaces n).gpu_addr = 0
    · rw [Register_of_null B c n hptr]; rfl
    · cases hcpu : B.GpuToCpuAddress (c.surfaces n).gpu_addr with
      | none => rw [Register_of_unmapped B c n hcpu]; rfl
      | some cpu => rw [Register_eq B c n cpu hptr hcpu]; rfl
  uncached := by
    intro c gpu_addr params
    obtain ⟨h, n, heq, _⟩ := GetUncachedSurface_shape B c gpu_addr params
    show (GetUncachedSurface B c gpu_addr params).1.siblings_table = _
    rw [heq]
  trace := fun _ _ => rfl
  stamp := fun _ _ _ => rfl
  region := by
    intro c addr size
    obtain ⟨h, heq, _⟩ := GetSurfacesInRegion_shape c addr size
    show (c.GetSurfacesInRegion addr size).1.siblings_table = _
    rw [heq]

/-- C33: the format-sibling table is a symmetric pairing of depth and colour formats. After
construction `GetSiblingFormat` maps `Z16` to `R16U`, `Z32F` to `R32F`, `Z32FS8` to
`RG32F` and each of those colour formats back to its depth format, and every other
valid format to `Invalid`; so `GetSiblingFormat(GetSiblingFormat(f)) = f` for every
format whose sibling is not `Invalid`, and no valid format is its own sibling. No call
of the public interface writes the table: in every state reached from the constructor
the table is the one the constructor filled. -/
theorem GetSiblingFormat_pairing (B : Backend) (m : Maxwell3D) (ops : List Op) :
    (init m).GetSiblingFormat PixelFormat.Z16 = PixelFormat.R16U ∧
    (init m).GetSiblingFormat PixelFormat.R16U = PixelFormat.Z16 ∧
    (init m).GetSiblingFormat PixelFormat.Z32F = PixelFormat.R32F ∧
    (init m).GetSiblingFormat PixelFormat.R32F = PixelFormat.Z32F ∧
    (init m).GetSiblingFormat PixelFormat.Z32FS8 = PixelFormat.RG32F ∧
    (init m).GetSiblingFormat PixelFormat.RG32F = PixelFormat.Z32FS8 ∧
    (∀ n, (init m).GetSiblingFormat (PixelFormat.Other n) = PixelFormat.Invalid) ∧
    (∀ f, (init m).GetSiblingFormat f ≠ PixelFormat.Invalid →
      (init m).GetSiblingFormat ((init m).GetSiblingFormat f) = f) ∧
    (∀ f, f ≠ PixelFormat.Invalid → (init m).GetSiblingFormat f ≠ f) ∧
    (∀ (c : TextureCache) (op : Op) (f : PixelFormat),
      (applyOp B c op).GetSiblingFormat f = c.GetSiblingFormat f) ∧
    (∀ f, (run B (init m) ops).GetSiblingFormat f = (init m).GetSiblingFormat f) := by
  have F := tableKept_frame B
  have hmark : ∀ (c : TextureCache) (n : Nat) (b : Bool) (i : Nat),
      TableKept c (c.modify n (fun s => s.MarkAsRenderTarget b i)) := fun _ _ _ _ => rfl
  have hrest : ∀ (c : TextureCache) (g1 g2 : Bool) (rt : Nat → FramebufferTargetInfo)
      (db : FramebufferTargetInfo) (st : List Nat) (mx : Maxwell3D),
      TableKept c
        { c with guard_render_targets := g1, guard_samplers := g2, render_targets := rt,
                 depth_buffer := db, sampled_textures := st, maxwell3d := mx } :=
    fun _ _ _ _ _ _ _ => rfl
  have hpair : ∀ f g, (init m).GetSiblingFormat f = g ↔
      (make_siblings (make_siblings (make_siblings (fun _ => PixelFormat.Invalid)
        PixelFormat.Z16 PixelFormat.R16U) PixelFormat.Z32F PixelFormat.R32F)
        PixelFormat.Z32FS8 PixelFormat.RG32F) f = g := fun _ _ => Iff.rfl
  refine ⟨(hpair _ _).mpr (by decide), (hpair _ _).mpr (by decide), (hpair _ _).mpr (by decide),
    (hpair _ _).mpr (by decide), (hpair _ _).mpr (by decide), (hpair _ _).mpr (by decide),
    ?_, ?_, ?_, ?_, ?_⟩
  · intro n; simp [GetSiblingFormat, init, make_siblings, Function.update]
  · intro f
    cases f <;> simp [GetSiblingFormat, init, make_siblings, Function.update]
  · intro f
    cases f <;> simp [GetSiblingFormat, init, make_siblings, Function.update]
  · intro c op f
    unfold GetSiblingFormat
    rw [F.ofOp hmark hrest c op]
  · intro f
    unfold GetSiblingFormat
    rw [F.ofRun hmark hrest (init m) ops]

theorem FlushSurface_clears (c : TextureCache) (s t : Nat)
    (h : t = s ∨ (c.surfaces t).is_modified = false) :
    ((c.FlushSurface s).surfaces t).is_modified = false := by
  unfold FlushSurface
  cases hm : (c.surfaces s).is_modified
  · simp only [Bool.not_false, if_true]
    rcases h with h | h
    · rw [h]; exact hm
    · exact h
  · simp only [Bool.not_true, Bool.false_eq_true, if_false]
    by_cases hts : t = s
    · subst hts
      simp [Tick, modify, Surface.MarkAsModified]
    · rcases h with h | h
      · exact absurd h hts
      · simp [Tick, modify, Surface.MarkAsModified, Function.update_noteq hts, h]

theorem foldl_FlushSurface_clears (L : List Nat) (c : TextureCache) (t : Nat)
    (h : t ∈ L ∨ (c.surfaces t).is_modified = false) :
    ((L.foldl FlushSurface c).surfaces t).is_modified = false := by
  induction L generalizing c with
  | nil =>
    rcases h with h | h
    · cases h
    · exact h
  | cons a rest ih =>
    rw [List.foldl_cons]
    rcases h with h | h
    · rcases List.mem_cons.mp h with h1 | h1
      · exact ih _ (Or.inr (FlushSurface_clears c a t (Or.inl h1)))
      · exact ih _ (Or.inl h1)
    · exact ih _ (Or.inr (FlushSurface_clears c a t (Or.inr h)))

theorem foldl_FlushSurface_of_clean (L : List Nat) (c : TextureCache)
    (h : ∀ s ∈ L, (c.surfaces s).is_modified = false) : L.foldl FlushSurface c = c := by
  induction L with
  | nil => rfl
  | cons a rest ih =>
    have ha : c.FlushSurface a = c := by
      unfold FlushSurface
      rw [h a (List.mem_cons_self _ _)]
      rfl
    rw [List.foldl_cons, ha]
    exact ih (fun s hs => h s (List.mem_cons_of_mem _ hs))

theorem mem_sortByTick (c : TextureCache) (L : List Nat) (s : Nat) :
    s ∈ sortByTick c L ↔ s ∈ L :=
  (List.perm_insertionSort (tickLE c) L).mem_iff

theorem FlushRegion_eq (c : TextureCache) (hp : ∀ s, (c.surfaces s).is_picked = false)
    (addr size : Nat) :
    c.FlushRegion addr size =
      (sortByTick c (c.GetSurfacesInRegion addr size).2).foldl FlushSurface c := by
  have hst := GetSurfacesInRegion_state c hp addr size
  unfold FlushRegion
  rcases hq : c.GetSurfacesInRegion addr size with ⟨c1, L⟩
  rw [hq] at hst
  simp only at hst
  subst hst
  dsimp only
  cases L with
  | nil => rfl
  | cons a rest => rfl

theorem ModificationOnly.bucketsExact {c d : TextureCache} (h : ModificationOnly c d)
    (hinv : c.BucketsExact) : d.BucketsExact := by
  refine { buckets := ?_, ranges := ?_, picked := ?_ }
  · intro s p
    obtain ⟨_, _, h3, h4, _, _, h7, _, _, _⟩ := h.fields s
    rw [h.registry, h3, h4, h7]; exact hinv.buckets s p
  · intro s
    obtain ⟨_, _, h3, h4, _, _, h7, _, _, _⟩ := h.fields s
    rw [h3, h4, h7]; exact hinv.ranges s
  · intro s
    obtain ⟨_, _, _, _, _, _, _, h8, _, _⟩ := h.fields s
    rw [h8]; exact hinv.picked s

/-- C40: `FlushRegion` is idempotent and registration-preserving. In a state whose page buckets
are exact, for a region that does not wrap around, `FlushRegion(addr, size)` leaves
the page buckets, the exact-address index, the reserve pool and the registered flag
and cache range of every surface as they were; afterwards every registered surface
overlapping the region has its modified flag clear; and an immediately repeated
`FlushRegion(addr, size)` leaves the whole state unchanged (in particular it writes
nothing back to guest memory and draws no tick). -/
theorem FlushRegion_idempotent (c : TextureCache) (hinv : c.BucketsExact) (addr size : Nat)
    (hwrap : addr + size < 2 ^ 64) :
    (c.FlushRegion addr size).registry = c.registry ∧
    (c.FlushRegion addr size).l1_cache = c.l1_cache ∧
    (c.FlushRegion addr size).surface_reserve = c.surface_reserve ∧
    (c.FlushRegion addr size).num_surfaces = c.num_surfaces ∧
    (∀ s, ((c.FlushRegion addr size).surfaces s).is_registered = (c.surfaces s).is_registered ∧
      ((c.FlushRegion addr size).surfaces s).cache_addr = (c.surfaces s).cache_addr ∧
      ((c.FlushRegion addr size).surfaces s).cache_addr_end = (c.surfaces s).cache_addr_end) ∧
    (∀ s, ((c.FlushRegion addr size).surfaces s).is_registered = true →
      RangesIntersect ((c.FlushRegion addr size).surfaces s).cache_addr
        ((c.FlushRegion addr size).surfaces s).cache_addr_end addr (addr + size) →
      ((c.FlushRegion addr size).surfaces s).is_modified = false) ∧
    (c.FlushRegion addr size).FlushRegion addr size = c.FlushRegion addr size ∧
    ((c.FlushRegion addr size).FlushRegion addr size).events = (c.FlushRegion addr size).events ∧
    ((c.FlushRegion addr size).FlushRegion addr size).ticks = (c.FlushRegion addr size).ticks := by
  have heq := FlushRegion_eq c hinv.picked addr size
  have hmo : ModificationOnly c (c.FlushRegion addr size) := by
    rw [heq]; exact foldl_FlushSurface_modificationOnly _ c
  have hinv2 := hmo.bucketsExact hinv
  have hclear : ∀ s, ((c.FlushRegion addr size).surfaces s).is_registered = true →
      RangesIntersect ((c.FlushRegion addr size).surfaces s).cache_addr
        ((c.FlushRegion addr size).surfaces s).cache_addr_end addr (addr + size) →
      ((c.FlushRegion addr size).surfaces s).is_modified = false := by
    intro s hr hi
    obtain ⟨_, _, h3, h4, _, _, h7, _, _, _⟩ := hmo.fields s
    rw [h3, h4] at hi
    rw [h7] at hr
    have hmem := (mem_GetSurfacesInRegion_iff c hinv addr size hwrap s).mpr ⟨hr, hi⟩
    rw [heq]
    exact foldl_FlushSurface_clears _ c s (Or.inl ((mem_sortByTick c _ s).mpr hmem))
  have hidem : (c.FlushRegion addr size).FlushRegion addr size = c.FlushRegion addr size := by
    rw [FlushRegion_eq (c.FlushRegion addr size) hinv2.picked addr size]
    apply foldl_FlushSurface_of_clean
    intro s hs
    have hmem := (mem_GetSurfacesInRegion_iff _ hinv2 addr size hwrap s).mp
      ((mem_sortByTick _ _ s).mp hs)
    exact hclear s hmem.1 hmem.2
  refine ⟨hmo.registry, hmo.l1_cache, hmo.reserve, hmo.num, ?_, hclear, hidem, ?_, ?_⟩
  · intro s
    obtain ⟨_, _, h3, h4, _, _, h7, _, _, _⟩ := hmo.fields s
    exact ⟨h7, h3, h4⟩
  · rw [hidem]
  · rw [hidem]

end TextureCache
end VideoCommon

namespace VideoCommon
namespace TextureCache

theorem CacheInv.carried {B : Backend} {c d : TextureCache} (hinv : CacheInv B c)
    (hreg : d.registry = c.registry) (hl1 : d.l1_cache = c.l1_cache)
    (hres : d.surface_reserve = c.surface_reserve) (hnum : d.num_surfaces = c.num_surfaces)
    (h : ∀ s, (d.surfaces s).is_registered = (c.surfaces s).is_registered ∧
      (d.surfaces s).cache_addr = (c.surfaces s).cache_addr ∧
      (d.surfaces s).cache_addr_end = (c.surfaces s).cache_addr_end ∧
      (d.surfaces s).gpu_addr = (c.surfaces s).gpu_addr ∧
      (d.surfaces s).is_picked = (c.surfaces s).is_picked ∧
      (d.surfaces s).params = (c.surfaces s).params) : CacheInv B d := by
  refine { count := ?_, picked := ?_, fresh := ?_, index := ?_, reserve := ?_, mapped := ?_,
                   keyed := ?_, pointed := ?_ }
  · intro s p
    obtain ⟨h1, h2, h3, _, _⟩ := h s
    rw [hreg, h1, h2, h3]; exact hinv.count s p
  · intro s; rw [(h s).2.2.2.2.1]; exact hinv.picked s
  · intro s hs; rw [(h s).1]; exact hinv.fresh s (hnum ▸ hs)
  · intro a s hl
    rw [hl1] at hl
    rw [(h s).1, (h s).2.1]; exact hinv.index a s hl
  · intro p s hs
    rw [hres] at hs
    rw [hnum]; exact hinv.reserve p s hs
  · intro s hs
    rw [(h s).1] at hs
    rw [(h s).2.2.2.1]; exact hinv.mapped s hs
  · intro p s hs
    rw [hres] at hs
    rw [(h s).2.2.2.2.2]; exact hinv.keyed p s hs
  · intro s hs
    rw [(h s).1] at hs
    rw [(h s).2.1, (h s).2.2.2.1]; exact hinv.pointed s hs

theorem CacheInv.created {B : Backend} {c : TextureCache} (hinv : CacheInv B c) (s : Nat)
    (h : (c.surfaces s).is_registered = true) : s < c.num_surfaces := by
  by_contra hn
  have := hinv.fresh s (Nat.le_of_not_lt hn)
  rw [h] at this; cases this

theorem CacheInv.registered_of_mem {B : Backend} {c : TextureCache} (hinv : CacheInv B c)
    (s p : Nat) (h : s ∈ c.registry p) : (c.surfaces s).is_registered = true := by
  have hc := hinv.count s p
  have hpos : 0 < (c.registry p).count s := List.count_pos_iff.mpr h
  by_contra hn
  rw [if_neg (fun h => hn h.1)] at hc
  omega

theorem ModificationOnly.cacheInv {B : Backend} {c d : TextureCache} (h : ModificationOnly c d)
    (hinv : CacheInv B c) : CacheInv B d := by
  refine hinv.carried h.registry h.l1_cache h.reserve h.num ?_
  intro s
  obtain ⟨h1, h2, h3, h4, _, _, h7, h8, _, _⟩ := h.fields s
  exact ⟨h7, h3, h4, h2, h8, h1⟩

theorem init_cacheInv (B : Backend) (m : Maxwell3D) : CacheInv B (init m) := by
  refine { count := ?_, picked := ?_, fresh := ?_, index := ?_, reserve := ?_, mapped := ?_,
                   keyed := ?_, pointed := ?_ } <;>
    simp [init, unallocated]

theorem Unregister_cacheInv (B : Backend) (c : TextureCache) (hinv : CacheInv B c) (s : Nat)
    (hlt : s < c.num_surfaces) : CacheInv B (c.Unregister s) := by
  cases hs : c.Shielded s with
  | true => rw [Unregister_of_shielded c s hs]; exact hinv
  | false =>
    rw [Unregister_eq c s hs]
    refine { count := ?_, picked := ?_, fresh := ?_, index := ?_, reserve := ?_, mapped := ?_,
                   keyed := ?_, pointed := ?_ }
    · intro t p
      simp only [mapBuckets_apply _ _ (pageRange_nodup _ _)]
      by_cases hts : t = s
      · subst hts
        simp only [Function.update_same, Bool.false_eq_true, false_and, if_false]
        have hc := hinv.count t p
        split
        · rename_i hp
          rw [List.count_erase_self, hc]
          split <;> rfl
        · rename_i hp
          rw [hc, if_neg (fun h => hp h.2)]
      · simp only [Function.update_noteq hts]
        split
        · rw [List.count_erase_of_ne hts]; exact hinv.count t p
        · exact hinv.count t p
    · intro t
      by_cases hts : t = s
      · subst hts; simp only [Function.update_same]; exact hinv.picked t
      · simp only [Function.update_noteq hts]; exact hinv.picked t
    · intro t ht
      by_cases hts : t = s
      · subst hts; simp only [Function.update_same]
      · simp only [Function.update_noteq hts]; exact hinv.fresh t ht
    · intro a t hl
      by_cases ha : a = (c.surfaces s).cache_addr
      · subst ha
        simp only [Function.update_same] at hl
        cases hl
      · simp only [Function.update_noteq ha] at hl
        have h1 := hinv.index a t hl
        have hts : t ≠ s := by
          intro h; subst h; exact ha h1.2.symm
        simp only [Function.update_noteq hts]
        exact h1
    · intro p t ht
      by_cases hp : p = (c.surfaces s).params
      · subst hp
        simp only [Function.update_same, List.mem_append, List.mem_singleton] at ht
        rcases ht with h | h
        · exact hinv.reserve _ t h
        · rw [h]; exact hlt
      · simp only [Function.update_noteq hp] at ht
        exact hinv.reserve p t ht
    · intro t ht
      by_cases hts : t = s
      · subst hts
        simp only [Function.update_same] at ht
        cases ht
      · simp only [Function.update_noteq hts] at ht ⊢
        exact hinv.mapped t ht
    · intro p t ht
      have hpar : (Function.update c.surfaces s { c.surfaces s with is_registered := false }
          t).params = (c.surfaces t).params := by
        by_cases hts : t = s
        · subst hts; simp only [Function.update_same]
        · simp only [Function.update_noteq hts]
      show (Function.update c.surfaces s { c.surfaces s with is_registered := false }
          t).params = p
      rw [hpar]
      by_cases hp : p = (c.surfaces s).params
      · subst hp
        simp only [Function.update_same, List.mem_append, List.mem_singleton] at ht
        rcases ht with h | h
        · exact hinv.keyed _ t h
        · rw [h]
      · simp only [Function.update_noteq hp] at ht
        exact hinv.keyed p t ht
    · intro t ht
      by_cases hts : t = s
      · subst hts
        simp only [Function.update_same] at ht
        cases ht
      · simp only [Function.update_noteq hts] at ht ⊢
        exact hinv.pointed t ht

theorem Register_cacheInv (B : Backend) (c : TextureCache) (hinv : CacheInv B c) (n : Nat)
    (hlt : n < c.num_surfaces)
    (hun : (c.surfaces n).is_registered = false) : CacheInv B (Register B c n) := by
  by_cases hptr : B.GetPointer (c.surfaces n).gpu_addr = 0
  · rw [Register_of_null B c n hptr]; exact hinv
  · cases hcpu : B.GpuToCpuAddress (c.surfaces n).gpu_addr with
    | none => rw [Register_of_unmapped B c n hcpu]; exact hinv
    | some cpu_addr =>
      rw [Register_eq B c n cpu_addr hptr hcpu]
      have hzero : ∀ p, (c.registry p).count n = 0 := by
        intro p
        rw [hinv.count n p, if_neg (fun h => by rw [hun] at h; cases h.1)]
      refine { count := ?_, picked := ?_, fresh := ?_, index := ?_, reserve := ?_, mapped := ?_,
                   keyed := ?_, pointed := ?_ }
      · intro t p
        simp only [mapBuckets_apply _ _ (pageRange_nodup _ _)]
        by_cases hts : t = n
        · subst hts
          simp only [Function.update_same, registeredSurface, true_and]
          split
          · rw [List.count_append, hzero p]; simp
          · exact hzero p
        · simp only [Function.update_noteq hts]
          split
          · rw [List.count_append, List.count_eq_zero_of_not_mem (a := t) (l := [n])
              (by simpa using hts), Nat.add_zero]
            exact hinv.count t p
          · exact hinv.count t p
      · intro t
        by_cases hts : t = n
        · subst hts; simp only [Function.update_same, registeredSurface]; exact hinv.picked t
        · simp only [Function.update_noteq hts]; exact hinv.picked t
      · intro t ht
        have hts : t ≠ n := by
          intro h
          subst h
          exact absurd hlt (Nat.not_lt.mpr ht)
        simp only [Function.update_noteq hts]; exact hinv.fresh t ht
      · intro a t hl
        by_cases ha : a = B.GetPointer (c.surfaces n).gpu_addr
        · subst ha
          simp only [Function.update_same, Option.some.injEq] at hl
          subst hl
          simp [registeredSurface]
        · simp only [Function.update_noteq ha] at hl
          have h1 := hinv.index a t hl
          have hts : t ≠ n := by
            intro h; subst h; rw [hun] at h1; cases h1.1
          simp only [Function.update_noteq hts]
          exact h1
      · exact hinv.reserve
      · intro t ht
        by_cases hts : t = n
        · subst hts
          simp only [Function.update_same, registeredSurface]
          exact ⟨hptr, by rw [hcpu]; simp⟩
        · simp only [Function.update_noteq hts] at ht ⊢
          exact hinv.mapped t ht
      · intro p t ht
        by_cases hts : t = n
        · subst hts
          simp only [Function.update_same, registeredSurface]
          exact hinv.keyed p t ht
        · simp only [Function.update_noteq hts]
          exact hinv.keyed p t ht
      · intro t ht
        by_cases hts : t = n
        · subst hts
          simp only [Function.update_same, registeredSurface]
        · simp only [Function.update_noteq hts] at ht ⊢
          exact hinv.pointed t ht

theorem Settled.from_earlier {B : Backend} {gpu_addr : Nat} {c c1 : TextureCache}
    {x : TextureCache × (Nat × Option View)} (h : Settled B gpu_addr c1 x)
    (hle : c.num_surfaces ≤ c1.num_surfaces) : Settled B gpu_addr c x :=
  ⟨h.1, Nat.le_trans hle h.2.1, h.2.2.1, h.2.2.2⟩

theorem GetUncachedSurface_cacheInv (B : Backend) (c : TextureCache) (hinv : CacheInv B c)
    (gpu_addr : Nat) (params : SurfaceParams) :
    CacheInv B (GetUncachedSurface B c gpu_addr params).1 ∧
    c.num_surfaces ≤ (GetUncachedSurface B c gpu_addr params).1.num_surfaces ∧
    (GetUncachedSurface B c gpu_addr params).2 <
      (GetUncachedSurface B c gpu_addr params).1.num_surfaces := by
  cases hr : c.TryGetReservedSurface params with
  | some n =>
    obtain ⟨hun, hmem⟩ := find_reserved_unregistered c params n hr
    rw [GetUncachedSurface_reserved B c gpu_addr params n hr]
    refine ⟨?_, Nat.le_refl _, hinv.reserve params n hmem⟩
    refine { count := ?_, picked := ?_, fresh := ?_, index := ?_, reserve := ?_, mapped := ?_,
                   keyed := ?_, pointed := ?_ }
    · intro t p
      by_cases hts : t = n
      · subst hts; simp only [modify, Function.update_same]; exact hinv.count t p
      · simp only [modify, Function.update_noteq hts]; exact hinv.count t p
    · intro t
      by_cases hts : t = n
      · subst hts; simp only [modify, Function.update_same]; exact hinv.picked t
      · simp only [modify, Function.update_noteq hts]; exact hinv.picked t
    · intro t ht
      by_cases hts : t = n
      · subst hts; simp only [modify, Function.update_same]; exact hun
      · simp only [modify, Function.update_noteq hts]; exact hinv.fresh t ht
    · intro a t hl
      have h1 := hinv.index a t hl
      by_cases hts : t = n
      · subst hts; rw [hun] at h1; cases h1.1
      · simp only [modify, Function.update_noteq hts]; exact h1
    · exact hinv.reserve
    · intro t ht
      by_cases hts : t = n
      · subst hts
        simp only [modify, Function.update_same] at ht
        rw [hun] at ht; cases ht
      · simp only [modify, Function.update_noteq hts] at ht ⊢
        exact hinv.mapped t ht
    · intro p t ht
      by_cases hts : t = n
      · subst hts; simp only [modify, Function.update_same]; exact hinv.keyed p t ht
      · simp only [modify, Function.update_noteq hts]; exact hinv.keyed p t ht
    · intro t ht
      by_cases hts : t = n
      · subst hts
        simp only [modify, Function.update_same] at ht
        rw [hun] at ht; cases ht
      · simp only [modify, Function.update_noteq hts] at ht ⊢
        exact hinv.pointed t ht
  | none =>
    have hfresh := hinv.fresh c.num_surfaces (Nat.le_refl _)
    rw [GetUncachedSurface_created B c gpu_addr params hr]
    refine ⟨?_, Nat.le_succ _, Nat.lt_succ_self _⟩
    refine { count := ?_, picked := ?_, fresh := ?_, index := ?_, reserve := ?_, mapped := ?_,
                   keyed := ?_, pointed := ?_ }
    · intro t p
      by_cases hts : t = c.num_surfaces
      · subst hts
        simp only [CreateSurface, newSurface, Function.update_same, Bool.false_eq_true,
          false_and, if_false]
        rw [hinv.count, if_neg (fun h => by rw [hfresh] at h; cases h.1)]
      · simp only [CreateSurface, Function.update_noteq hts]; exact hinv.count t p
    · intro t
      by_cases hts : t = c.num_surfaces
      · subst hts; simp [CreateSurface, newSurface]
      · simp only [CreateSurface, Function.update_noteq hts]; exact hinv.picked t
    · intro t ht
      have ht2 : c.num_surfaces + 1 ≤ t := ht
      have hts : t ≠ c.num_surfaces := by omega
      simp only [CreateSurface, Function.update_noteq hts]
      exact hinv.fresh t (by omega)
    · intro a t hl
      have h1 := hinv.index a t hl
      have hts : t ≠ c.num_surfaces := by
        intro h; subst h; rw [hfresh] at h1; cases h1.1
      simp only [CreateSurface, Function.update_noteq hts]; exact h1
    · intro p t ht
      exact Nat.lt_succ_of_lt (hinv.reserve p t ht)
    · intro t ht
      by_cases hts : t = c.num_surfaces
      · subst hts
        simp [CreateSurface, newSurface] at ht
      · simp only [CreateSurface, Function.update_noteq hts] at ht ⊢
        exact hinv.mapped t ht
    · intro p t ht
      have hts : t ≠ c.num_surfaces := Nat.ne_of_lt (hinv.reserve p t ht)
      simp only [CreateSurface, Function.update_noteq hts]
      exact hinv.keyed p t ht
    · intro t ht
      by_cases hts : t = c.num_surfaces
      · subst hts
        simp [CreateSurface, newSurface] at ht
      · simp only [CreateSurface, Function.update_noteq hts] at ht ⊢
        exact hinv.pointed t ht

theorem foldl_Unregister_cacheInv (B : Backend) (L : List Nat) (c : TextureCache)
    (hinv : CacheInv B c) (hL : ∀ s ∈ L, s < c.num_surfaces) :
    CacheInv B (L.foldl Unregister c) ∧ (L.foldl Unregister c).num_surfaces = c.num_surfaces := by
  induction L generalizing c with
  | nil => exact ⟨hinv, rfl⟩
  | cons a rest ih =>
    rw [List.foldl_cons]
    have h1 := Unregister_cacheInv B c hinv a (hL a (List.mem_cons_self _ _))
    have h2 := ih (c.Unregister a) h1
      (fun s hs => by rw [Unregister_num]; exact hL s (List.mem_cons_of_mem _ hs))
    exact ⟨h2.1, by rw [h2.2, Unregister_num]⟩

theorem InitializeSurface_settled (B : Backend) (c : TextureCache) (hinv : CacheInv B c)
    (gpu_addr : Nat) (params : SurfaceParams) (preserve_contents : Bool) :
    Settled B gpu_addr c (InitializeSurface B c gpu_addr params preserve_contents) := by
  obtain ⟨h1, h2, h3⟩ := GetUncachedSurface_cacheInv B c hinv gpu_addr params
  have hres := GetUncachedSurface_result B c gpu_addr params
  have hreg := Register_cacheInv B _ h1 _ h3 hres.2.1
  have hflag : B.GetPointer gpu_addr ≠ 0 → B.GpuToCpuAddress gpu_addr ≠ none →
      ((Register B (GetUncachedSurface B c gpu_addr params).1
        (GetUncachedSurface B c gpu_addr params).2).surfaces
        (GetUncachedSurface B c gpu_addr params).2).is_registered = true := by
    intro hp hc
    obtain ⟨cpu, hcpu⟩ := Option.ne_none_iff_exists'.mp hc
    exact (Register_flag B _ _ cpu (by rw [hres.1]; exact hp) (by rw [hres.1]; exact hcpu)).1
  have hnum := (Register_fields B (GetUncachedSurface B c gpu_addr params).1
    (GetUncachedSurface B c gpu_addr params).2 0).1
  unfold InitializeSurface
  dsimp only
  cases preserve_contents with
  | false =>
    simp only [Bool.false_eq_true, if_false]
    exact ⟨hreg, by rw [hnum]; exact h2, by rw [hnum]; exact h3, hflag⟩
  | true =>
    simp only [if_true]
    have hmo := LoadSurface_modificationOnly
      (Register B (GetUncachedSurface B c gpu_addr params).1
        (GetUncachedSurface B c gpu_addr params).2)
      (GetUncachedSurface B c gpu_addr params).2
    refine ⟨hmo.cacheInv hreg, by rw [hmo.num, hnum]; exact h2,
      by rw [hmo.num, hnum]; exact h3, ?_⟩
    intro hp hc
    show ((LoadSurface _ _).surfaces _).is_registered = true
    rw [(hmo.fields _).2.2.2.2.2.2.1]
    exact hflag hp hc

theorem RecycleSurface_settled (B : Backend) (c : TextureCache) (hinv : CacheInv B c)
    (overlaps : List Nat) (hL : ∀ s ∈ overlaps, s < c.num_surfaces) (params : SurfaceParams)
    (gpu_addr : Nat) (preserve_contents : Bool) (untopological : MatchTopologyResult) :
    Settled B gpu_addr c
      (RecycleSurface B c overlaps params gpu_addr preserve_contents untopological) := by
  obtain ⟨h1, h2⟩ := foldl_Unregister_cacheInv B overlaps c hinv hL
  rw [RecycleSurface_eq]
  rcases PickStrategy_cases B (overlaps.foldl Unregister c) overlaps params untopological
    with h | h
  · rw [recycleAfterUnregister_of_ignore _ _ _ _ _ _ _ h]
    exact (InitializeSurface_settled B _ h1 gpu_addr params _).from_earlier (Nat.le_of_eq h2.symm)
  · rw [recycleAfterUnregister_of_flush _ _ _ _ _ _ _ h]
    have hmo := foldl_FlushSurface_modificationOnly
      (sortByTick (overlaps.foldl Unregister c) overlaps) (overlaps.foldl Unregister c)
    exact (InitializeSurface_settled B _ (hmo.cacheInv h1) gpu_addr params _).from_earlier
      (by rw [hmo.num, h2])

theorem Unregister_kept (c : TextureCache) (s t : Nat) :
    ((c.Unregister s).surfaces t).gpu_addr = (c.surfaces t).gpu_addr ∧
    ((c.surfaces t).is_registered = false → ((c.Unregister s).surfaces t).is_registered = false) := by
  rw [Unregister_surfaces]
  split
  · exact ⟨rfl, fun _ => rfl⟩
  · exact ⟨rfl, fun h => h⟩

theorem RebuildSurface_settled (B : Backend) (c : TextureCache) (hinv : CacheInv B c)
    (current : Nat) (hreg : (c.surfaces current).is_registered = true)
    (params : SurfaceParams) (is_render : Bool) :
    CacheInv B (RebuildSurface B c current params is_render).1 ∧
    c.num_surfaces ≤ (RebuildSurface B c current params is_render).1.num_surfaces ∧
    ((RebuildSurface B c current params is_render).1.surfaces
      (RebuildSurface B c current params is_render).2.1).is_registered = true := by
  obtain ⟨P, ev, heq⟩ := RebuildSurface_shape B c current params is_render
  rw [heq]
  have hlt := hinv.created current hreg
  obtain ⟨hptr, hcpu⟩ := hinv.mapped current hreg
  obtain ⟨cpu, hcpu⟩ := Option.ne_none_iff_exists'.mp hcpu
  obtain ⟨h1, h2, h3⟩ := GetUncachedSurface_cacheInv B c hinv (c.surfaces current).gpu_addr P
  have hres := GetUncachedSurface_result B c (c.surfaces current).gpu_addr P
  have h1e : CacheInv B { (GetUncachedSurface B c (c.surfaces current).gpu_addr P).1 with
      events := ev } := h1.carried rfl rfl rfl rfl (fun _ => ⟨rfl, rfl, rfl, rfl, rfl, rfl⟩)
  have hun := Unregister_cacheInv B _ h1e current (Nat.lt_of_lt_of_le hlt h2)
  have hk := Unregister_kept { (GetUncachedSurface B c (c.surfaces current).gpu_addr P).1 with
      events := ev } current (GetUncachedSurface B c (c.surfaces current).gpu_addr P).2
  have hr := Register_cacheInv B _ hun (GetUncachedSurface B c (c.surfaces current).gpu_addr P).2
    (by rw [Unregister_num]; exact h3) (hk.2 hres.2.1)
  have hflag := (Register_flag B
    (Unregister { (GetUncachedSurface B c (c.surfaces current).gpu_addr P).1 with
      events := ev } current)
    (GetUncachedSurface B c (c.surfaces current).gpu_addr P).2 cpu
    (by rw [hk.1]; show B.GetPointer ((GetUncachedSurface B c _ P).1.surfaces _).gpu_addr ≠ 0
        rw [hres.1]; exact hptr)
    (by rw [hk.1]; show B.GpuToCpuAddress ((GetUncachedSurface B c _ P).1.surfaces _).gpu_addr = _
        rw [hres.1]; exact hcpu)).1
  have hnum := (Register_fields B
    (Unregister { (GetUncachedSurface B c (c.surfaces current).gpu_addr P).1 with
      events := ev } current)
    (GetUncachedSurface B c (c.surfaces current).gpu_addr P).2 0).1
  have hmo : ∀ (X : TextureCache) (n : Nat) (m : Bool),
      ModificationOnly X (X.Tick.1.modify n (fun s => s.MarkAsModified m X.Tick.2)) :=
    fun X n m => ModificationOnly.of_stamp X n m _ _ X.events _
  refine ⟨(hmo _ _ _).cacheInv hr, ?_, ?_⟩
  · rw [(hmo _ _ _).num, hnum, Unregister_num]; exact h2
  · dsimp only
    rw [((hmo _ _ _).fields _).2.2.2.2.2.2.1]
    exact hflag

theorem ManageStructuralMatch_settled (B : Backend) (c : TextureCache) (hinv : CacheInv B c)
    (current : Nat) (hreg : (c.surfaces current).is_registered = true)
    (params : SurfaceParams) (is_render : Bool) :
    CacheInv B (ManageStructuralMatch B c current params is_render).1 ∧
    c.num_surfaces ≤ (ManageStructuralMatch B c current params is_render).1.num_surfaces ∧
    ((ManageStructuralMatch B c current params is_render).1.surfaces
      (ManageStructuralMatch B c current params is_render).2.1).is_registered = true := by
  unfold ManageStructuralMatch
  dsimp only
  split_ifs
  all_goals first
    | exact ⟨hinv, Nat.le_refl _, hreg⟩
    | exact RebuildSurface_settled B c hinv current hreg params is_render

theorem TryReconstructSurface_settled (B : Backend) (c : TextureCache) (hinv : CacheInv B c)
    (overlaps : List Nat) (hL : ∀ s ∈ overlaps, s < c.num_surfaces) (params : SurfaceParams)
    (gpu_addr : Nat) :
    CacheInv B (TryReconstructSurface B c overlaps params gpu_addr).1 ∧
    c.num_surfaces ≤ (TryReconstructSurface B c overlaps params gpu_addr).1.num_surfaces ∧
    ∀ view, (TryReconstructSurface B c overlaps params gpu_addr).2 = some view →
      view.1 < (TryReconstructSurface B c overlaps params gpu_addr).1.num_surfaces ∧
      (B.GetPointer gpu_addr ≠ 0 → B.GpuToCpuAddress gpu_addr ≠ none →
      ((TryReconstructSurface B c overlaps params gpu_addr).1.surfaces view.1).is_registered =
        true) := by
  by_cases h3d : params.target = SurfaceTarget.Texture3D
  · unfold TryReconstructSurface
    rw [if_pos h3d]
    exact ⟨hinv, Nat.le_refl _, fun v hv => by cases hv⟩
  · obtain ⟨h1, h2, h3⟩ := GetUncachedSurface_cacheInv B c hinv gpu_addr params
    have hres := GetUncachedSurface_result B c gpu_addr params
    obtain ⟨ev, hst, -⟩ := reconstructLoop_state B params
      (GetUncachedSurface B c gpu_addr params).2 overlaps
      (GetUncachedSurface B c gpu_addr params).1 false 0
    have h1e : CacheInv B { (GetUncachedSurface B c gpu_addr params).1 with
        events := (GetUncachedSurface B c gpu_addr params).1.events ++ ev } :=
      h1.carried rfl rfl rfl rfl (fun _ => ⟨rfl, rfl, rfl, rfl, rfl, rfl⟩)
    rw [TryReconstructSurface_eq B c overlaps params gpu_addr h3d]
    cases hr : (reconstructLoop B params (GetUncachedSurface B c gpu_addr params).2 overlaps
        (GetUncachedSurface B c gpu_addr params).1 false 0).2 with
    | none =>
      dsimp only
      rw [hst]
      exact ⟨h1e, h2, fun v hv => by cases hv⟩
    | some mp =>
      obtain ⟨m, p⟩ := mp
      dsimp only
      split_ifs with hc
      · rw [hst]
        exact ⟨h1e, h2, fun v hv => by cases hv⟩
      · rw [hst]
        obtain ⟨hu1, hu2⟩ := foldl_Unregister_cacheInv B overlaps
          { (GetUncachedSurface B c gpu_addr params).1 with
            events := (GetUncachedSurface B c gpu_addr params).1.events ++ ev } h1e
          (fun s hs => Nat.lt_of_lt_of_le (hL s hs) h2)
        have hmo : ∀ (X : TextureCache) (n : Nat) (m : Bool),
            ModificationOnly X (X.Tick.1.modify n (fun s => s.MarkAsModified m X.Tick.2)) :=
          fun X n m => ModificationOnly.of_stamp X n m _ _ X.events _
        have hheap := foldl_Unregister_heap overlaps
          { (GetUncachedSurface B c gpu_addr params).1 with
            events := (GetUncachedSurface B c gpu_addr params).1.events ++ ev }
          (GetUncachedSurface B c gpu_addr params).2
        have hN : ((overlaps.foldl Unregister
            { (GetUncachedSurface B c gpu_addr params).1 with
              events := (GetUncachedSurface B c gpu_addr params).1.events ++ ev }).surfaces
              (GetUncachedSurface B c gpu_addr params).2).is_registered = false ∧
            ((overlaps.foldl Unregister
            { (GetUncachedSurface B c gpu_addr params).1 with
              events := (GetUncachedSurface B c gpu_addr params).1.events ++ ev }).surfaces
              (GetUncachedSurface B c gpu_addr params).2).gpu_addr = gpu_addr := by
          rw [hheap]
          split
          · exact ⟨rfl, hres.1⟩
          · exact ⟨hres.2.1, hres.1⟩
        have hs := (hmo (overlaps.foldl Unregister
            { (GetUncachedSurface B c gpu_addr params).1 with
              events := (GetUncachedSurface B c gpu_addr params).1.events ++ ev })
            (GetUncachedSurface B c gpu_addr params).2 m)
        have hf := hs.fields (GetUncachedSurface B c gpu_addr params).2
        have hreg := Register_cacheInv B _ (hs.cacheInv hu1)
          (GetUncachedSurface B c gpu_addr params).2
          (by rw [hs.num, hu2]; exact h3)
          (by rw [hf.2.2.2.2.2.2.1]; exact hN.1)
        refine ⟨hreg, ?_, ?_⟩
        · rw [(Register_fields B _ _ 0).1, hs.num, hu2]; exact h2
        · intro v hv
          cases hv
          refine ⟨by rw [(Register_fields B _ _ 0).1, hs.num, hu2]; exact h3, ?_⟩
          intro hp hcq
          obtain ⟨cpu, hcpu⟩ := Option.ne_none_iff_exists'.mp hcq
          exact (Register_flag B _ _ cpu
            (by rw [hf.2.1, hN.2]; exact hp) (by rw [hf.2.1, hN.2]; exact hcpu)).1

theorem settled_of_reconstruct (B : Backend) (c1 c2 : TextureCache) (hinv : CacheInv B c1)
    (overlaps : List Nat) (hL : ∀ s ∈ overlaps, s < c1.num_surfaces) (params : SurfaceParams)
    (gpu_addr : Nat) (view : Nat × Option View)
    (h : TryReconstructSurface B c1 overlaps params gpu_addr = (c2, some view)) :
    Settled B gpu_addr c1 (c2, view) := by
  obtain ⟨h1, h2, h3⟩ := TryReconstructSurface_settled B c1 hinv overlaps hL params gpu_addr
  rw [h] at h1 h2 h3
  exact ⟨h1, h2, (h3 view rfl).1, (h3 view rfl).2⟩

theorem settled_of_reconstruct_recycle (B : Backend) (c1 c2 : TextureCache) (hinv : CacheInv B c1)
    (overlaps : List Nat) (hL : ∀ s ∈ overlaps, s < c1.num_surfaces) (params : SurfaceParams)
    (gpu_addr : Nat) (preserve_contents : Bool) (untopological : MatchTopologyResult)
    (h : TryReconstructSurface B c1 overlaps params gpu_addr = (c2, none)) :
    Settled B gpu_addr c1
      (RecycleSurface B c2 overlaps params gpu_addr preserve_contents untopological) := by
  obtain ⟨h1, h2, -⟩ := TryReconstructSurface_settled B c1 hinv overlaps hL params gpu_addr
  rw [h] at h1 h2
  exact (RecycleSurface_settled B c2 h1 overlaps
    (fun s hs => Nat.lt_of_lt_of_le (hL s hs) h2) params gpu_addr preserve_contents
    untopological).from_earlier h2

theorem settled_of_rebuild (B : Backend) (c1 : TextureCache) (hinv : CacheInv B c1)
    (current : Nat) (hreg : (c1.surfaces current).is_registered = true)
    (new_params : SurfaceParams) (is_render : Bool) (gpu_addr : Nat) (view : Option View) :
    Settled B gpu_addr c1
      ((RebuildSurface B c1 current new_params is_render).1,
        ((RebuildSurface B c1 current new_params is_render).2.1, view)) := by
  obtain ⟨h1, h2, h3⟩ := RebuildSurface_settled B c1 hinv current hreg new_params is_render
  exact ⟨h1, h2, h1.created _ h3, fun _ _ => h3⟩

theorem settled_of_rebuild_recycle (B : Backend) (c1 : TextureCache) (hinv : CacheInv B c1)
    (current : Nat) (hreg : (c1.surfaces current).is_registered = true)
    (new_params : SurfaceParams) (is_render : Bool)
    (overlaps : List Nat) (hL : ∀ s ∈ overlaps, s < c1.num_surfaces) (params : SurfaceParams)
    (gpu_addr : Nat) (preserve_contents : Bool) (untopological : MatchTopologyResult) :
    Settled B gpu_addr c1
      (RecycleSurface B (RebuildSurface B c1 current new_params is_render).1 overlaps params
        gpu_addr preserve_contents untopological) := by
  obtain ⟨h1, h2, -⟩ := RebuildSurface_settled B c1 hinv current hreg new_params is_render
  exact (RecycleSurface_settled B _ h1 overlaps
    (fun s hs => Nat.lt_of_lt_of_le (hL s hs) h2) params gpu_addr preserve_contents
    untopological).from_earlier h2

theorem settled_of_registered (B : Backend) (c : TextureCache) (hinv : CacheInv B c)
    (gpu_addr r : Nat) (view : Option View) (hreg : (c.surfaces r).is_registered = true) :
    Settled B gpu_addr c (c, (r, view)) :=
  ⟨hinv, Nat.le_refl _, hinv.created r hreg, fun _ _ => hreg⟩

theorem resolveOverlaps_settled (B : Backend) (c1 : TextureCache) (hinv : CacheInv B c1)
    (overlaps : List Nat) (hreg : ∀ s ∈ overlaps, (c1.surfaces s).is_registered = true)
    (gpu_addr : Nat) (params : SurfaceParams) (preserve_contents is_render : Bool) :
    Settled B gpu_addr c1
      (resolveOverlaps B c1 overlaps gpu_addr params preserve_contents is_render) := by
  have hL : ∀ s ∈ overlaps, s < c1.num_surfaces := fun s hs => hinv.created s (hreg s hs)
  unfold resolveOverlaps
  dsimp only
  repeat' split
  all_goals with_reducible first
    | exact InitializeSurface_settled B c1 hinv _ _ _
    | exact RecycleSurface_settled B c1 hinv _ hL _ _ _ _
    | exact settled_of_reconstruct B c1 _ hinv _ hL _ _ _ (by assumption)
    | exact settled_of_reconstruct_recycle B c1 _ hinv _ hL _ _ _ _ (by assumption)
    | exact settled_of_rebuild B c1 hinv _ (hreg _ (List.mem_singleton_self _)) _ _ _ _
    | exact settled_of_rebuild_recycle B c1 hinv _ (hreg _ (List.mem_singleton_self _)) _ _ _ hL
        _ _ _ _
    | exact settled_of_registered B c1 hinv _ _ _ (hreg _ (List.mem_singleton_self _))

theorem mem_GetSurfacesInRegion_bucket (c : TextureCache)
    (hp : ∀ s, (c.surfaces s).is_picked = false) (addr size s : Nat)
    (h : s ∈ (c.GetSurfacesInRegion addr size).2) : ∃ p, s ∈ c.registry p := by
  by_cases hsize : size = 0
  · unfold GetSurfacesInRegion at h
    rw [if_pos hsize] at h
    cases h
  · rw [GetSurfacesInRegion_eq c hp addr size hsize] at h
    rcases (mem_walkList c _ _ _ [] s).mp h with h1 | ⟨⟨p, _, hp2⟩, _⟩
    · cases h1
    · exact ⟨p, hp2⟩

theorem GetSurfaceFromOverlaps_settled (B : Backend) (c : TextureCache) (hinv : CacheInv B c)
    (gpu_addr : Nat) (params : SurfaceParams) (preserve_contents is_render : Bool)
    (cache_addr : Nat) :
    Settled B gpu_addr c
      (GetSurfaceFromOverlaps B c gpu_addr params preserve_contents is_render cache_addr) := by
  rw [GetSurfaceFromOverlaps_eq]
  have hst := GetSurfacesInRegion_state c hinv.picked cache_addr (B.GetGuestSizeInBytes params)
  have hmem := mem_GetSurfacesInRegion_bucket c hinv.picked cache_addr
    (B.GetGuestSizeInBytes params)
  rw [hst]
  exact resolveOverlaps_settled B c hinv _
    (fun s hs => by
      obtain ⟨p, hp⟩ := hmem s hs
      exact hinv.registered_of_mem s p hp) gpu_addr params preserve_contents is_render

theorem GetSurface_settled (B : Backend) (c : TextureCache) (hinv : CacheInv B c)
    (gpu_addr : Nat) (params : SurfaceParams) (preserve_contents is_render : Bool) :
    Settled B gpu_addr c (GetSurface B c gpu_addr params preserve_contents is_render) := by
  unfold GetSurface
  dsimp only
  split_ifs with h0
  · obtain ⟨h1, h2, h3, -⟩ := InitializeSurface_settled B c hinv gpu_addr
      { params with width := 1, height := 1, depth := 1, block_height := 0, block_depth := 0 }
      false
    exact ⟨h1, h2, h3, fun hp _ => absurd h0 hp⟩
  · split
    · rename_i current hl
      have hreg := (hinv.index _ current hl).1
      split_ifs
      · exact RecycleSurface_settled B c hinv _
          (fun s hs => by
            rw [List.mem_singleton] at hs
            rw [hs]; exact hinv.created current hreg) _ _ _ _
      · obtain ⟨h1, h2, h3⟩ := ManageStructuralMatch_settled B c hinv current hreg params is_render
        exact ⟨h1, h2, h1.created _ h3, fun _ _ => h3⟩
      · obtain ⟨h1, h2, h3⟩ := RebuildSurface_settled B c hinv current hreg params is_render
        exact ⟨h1, h2, h1.created _ h3, fun _ _ => h3⟩
      · exact GetSurfaceFromOverlaps_settled B c hinv _ _ _ _ _
    · exact GetSurfaceFromOverlaps_settled B c hinv _ _ _ _ _

theorem mark_cacheInv (B : Backend) (c : TextureCache) (hinv : CacheInv B c) (n : Nat) (b : Bool)
    (i : Nat) : CacheInv B (c.modify n (fun s => s.MarkAsRenderTarget b i)) := by
  refine hinv.carried rfl rfl rfl rfl ?_
  intro s
  rw [modify_surfaces]
  split
  · rename_i h; subst h; exact ⟨rfl, rfl, rfl, rfl, rfl, rfl⟩
  · exact ⟨rfl, rfl, rfl, rfl, rfl, rfl⟩

theorem CacheInv.with_fields {B : Backend} {c : TextureCache} (hinv : CacheInv B c)
    (g1 g2 : Bool) (rt : Nat → FramebufferTargetInfo) (db : FramebufferTargetInfo)
    (st : List Nat) (mx : Maxwell3D) (ev : List Event) :
    CacheInv B { c with guard_render_targets := g1, guard_samplers := g2, render_targets := rt,
                        depth_buffer := db, sampled_textures := st, maxwell3d := mx, events := ev } :=
  hinv.carried rfl rfl rfl rfl (fun _ => ⟨rfl, rfl, rfl, rfl, rfl, rfl⟩)

theorem SetEmptyColorBuffer_cacheInv (B : Backend) (c : TextureCache) (hinv : CacheInv B c)
    (index : Nat) : CacheInv B (c.SetEmptyColorBuffer index) := by
  unfold SetEmptyColorBuffer
  split
  · exact hinv
  · exact (mark_cacheInv B c hinv _ false NO_RT).with_fields _ _ _ _ _ _ _

theorem SetEmptyDepthBuffer_cacheInv (B : Backend) (c : TextureCache) (hinv : CacheInv B c) :
    CacheInv B c.SetEmptyDepthBuffer := by
  unfold SetEmptyDepthBuffer
  split
  · exact hinv
  · exact (mark_cacheInv B c hinv _ false NO_RT).with_fields _ _ _ _ _ _ _

theorem bindColorSlot_cacheInv (B : Backend) (c : TextureCache) (hinv : CacheInv B c)
    (index : Nat) (sv : Nat × Option View) : CacheInv B (bindColorSlot c index sv) := by
  unfold bindColorSlot
  dsimp only
  split
  · exact mark_cacheInv B _
      ((mark_cacheInv B c hinv _ false NO_RT).with_fields _ _ _ _ _ _ _) _ _ _
  · exact mark_cacheInv B _ (hinv.with_fields _ _ _ _ _ _ _) _ _ _

theorem bindDepthSlot_cacheInv (B : Backend) (c : TextureCache) (hinv : CacheInv B c)
    (sv : Nat × Option View) : CacheInv B (bindDepthSlot c sv) := by
  unfold bindDepthSlot
  dsimp only
  split
  · exact mark_cacheInv B _
      ((mark_cacheInv B c hinv _ false NO_RT).with_fields _ _ _ _ _ _ _) _ _ _
  · exact mark_cacheInv B _ (hinv.with_fields _ _ _ _ _ _ _) _ _ _

theorem stamp_cacheInv (B : Backend) (c : TextureCache) (hinv : CacheInv B c) (n : Nat)
    (m : Bool) : CacheInv B (c.Tick.1.modify n (fun s => s.MarkAsModified m c.Tick.2)) :=
  (ModificationOnly.of_stamp c n m _ _ c.events _).cacheInv hinv

theorem InvalidateRegion_cacheInv (B : Backend) (c : TextureCache) (hinv : CacheInv B c)
    (addr size : Nat) : CacheInv B (c.InvalidateRegion addr size) := by
  have hst := GetSurfacesInRegion_state c hinv.picked addr size
  have hmem := mem_GetSurfacesInRegion_bucket c hinv.picked addr size
  unfold InvalidateRegion
  rcases hq : c.GetSurfacesInRegion addr size with ⟨c1, L⟩
  rw [hq] at hst hmem
  simp only at hst hmem
  subst hst
  dsimp only
  exact (foldl_Unregister_cacheInv B L c1 hinv (fun s hs => by
    obtain ⟨p, hp⟩ := hmem s hs
    exact hinv.created s (hinv.registered_of_mem s p hp))).1

theorem FlushRegion_cacheInv (B : Backend) (c : TextureCache) (hinv : CacheInv B c)
    (addr size : Nat) : CacheInv B (c.FlushRegion addr size) := by
  rw [FlushRegion_eq c hinv.picked addr size]
  exact (foldl_FlushSurface_modificationOnly _ c).cacheInv hinv

theorem DoFermiCopy_cacheInv (B : Backend) (c : TextureCache) (hinv : CacheInv B c)
    (src_gpu_addr : Nat) (src_params : SurfaceParams) (dst_gpu_addr : Nat)
    (dst_params : SurfaceParams) :
    CacheInv B ((DoFermiCopy B c src_gpu_addr src_params dst_gpu_addr dst_params).getD c) := by
  have h1 := DeduceSurface_state B c hinv.picked src_gpu_addr src_params
  have hb : (DeduceBestBlit B c src_params dst_params src_gpu_addr dst_gpu_addr).1 = c := by
    rw [DeduceBestBlit_eq]
    dsimp only
    rw [h1, h1]
  unfold DoFermiCopy
  rcases hq : DeduceBestBlit B c src_params dst_params src_gpu_addr dst_gpu_addr with ⟨c1, d⟩
  rw [hq] at hb
  simp only at hb
  subst hb
  dsimp only
  cases d with
  | none => exact hinv
  | some bp =>
    simp only [Option.map_some', Option.getD_some]
    have g1 := (GetSurface_settled B c1 hinv dst_gpu_addr bp.2 true false).1
    have g2 := (GetSurface_settled B _ g1 src_gpu_addr bp.1 true false).1
    exact stamp_cacheInv B _ (g2.with_fields _ _ _ _ _ _ _) _ _

theorem applyOp_cacheInv (B : Backend) (c : TextureCache) (hinv : CacheInv B c) (op : Op) :
    CacheInv B (applyOp B c op) := by
  have hsample : ∀ (gpu_addr : Nat) (params : SurfaceParams),
      CacheInv B (if (GetSurface B c gpu_addr params true false).1.guard_samplers = true then
        { (GetSurface B c gpu_addr params true false).1 with
            sampled_textures := (GetSurface B c gpu_addr params true false).1.sampled_textures ++
              [(GetSurface B c gpu_addr params true false).2.1] }
        else (GetSurface B c gpu_addr params true false).1) := by
    intro gpu_addr params
    have g := (GetSurface_settled B c hinv gpu_addr params true false).1
    split
    · exact g.with_fields _ _ _ _ _ _ _
    · exact g
  cases op with
  | InvalidateRegion addr size => exact InvalidateRegion_cacheInv B c hinv addr size
  | FlushRegion addr size => exact FlushRegion_cacheInv B c hinv addr size
  | GuardRenderTargets g => exact hinv.with_fields g _ _ _ _ _ _
  | GuardSamplers g => exact hinv.with_fields _ g _ _ _ _ _
  | GetTextureSurface gpu_addr params =>
    show CacheInv B (GetTextureSurface B c gpu_addr params).1
    unfold GetTextureSurface
    split
    · exact hinv
    · exact hsample gpu_addr params
  | GetImageSurface gpu_addr params =>
    show CacheInv B (GetImageSurface B c gpu_addr params).1
    unfold GetImageSurface
    split
    · exact hinv
    · exact hsample gpu_addr params
  | TextureBarrier => exact hinv.with_fields _ _ _ _ [] _ _
  | GetDepthBufferSurface pc =>
    show CacheInv B (GetDepthBufferSurface B c pc).1
    rcases GetDepthBufferSurface_cases B c pc with h | h | h <;> rw [h]
    · exact hinv
    · exact SetEmptyDepthBuffer_cacheInv B _ (hinv.with_fields _ _ _ _ _ _ _)
    · exact bindDepthSlot_cacheInv B _
        (GetSurface_settled B _ (hinv.with_fields _ _ _ _ _ _ _) _ _ _ _).1 _
  | GetColorBufferSurface index pc =>
    show CacheInv B (GetColorBufferSurface B c index pc).1
    rcases GetColorBufferSurface_cases B c index pc with h | h | h <;> rw [h]
    · exact hinv
    · exact SetEmptyColorBuffer_cacheInv B _ (hinv.with_fields _ _ _ _ _ _ _) _
    · exact bindColorSlot_cacheInv B _
        (GetSurface_settled B _ (hinv.with_fields _ _ _ _ _ _ _) _ _ _ _).1 _ _
  | MarkColorBufferInUse index =>
    show CacheInv B (c.MarkColorBufferInUse index)
    unfold MarkColorBufferInUse
    split
    · exact stamp_cacheInv B c hinv _ true
    · exact hinv
  | MarkDepthBufferInUse =>
    show CacheInv B c.MarkDepthBufferInUse
    unfold MarkDepthBufferInUse
    split
    · exact stamp_cacheInv B c hinv _ true
    · exact hinv
  | SetEmptyDepthBuffer => exact SetEmptyDepthBuffer_cacheInv B c hinv
  | SetEmptyColorBuffer index => exact SetEmptyColorBuffer_cacheInv B c hinv index
  | DoFermiCopy sa sp da dp => exact DoFermiCopy_cacheInv B c hinv sa sp da dp
  | WriteRegisters m => exact hinv.with_fields _ _ _ _ _ m _

theorem run_cacheInv (B : Backend) (c : TextureCache) (hinv : CacheInv B c) (ops : List Op) :
    CacheInv B (run B c ops) := by
  induction ops generalizing c with
  | nil => exact hinv
  | cons op rest ih => exact ih (applyOp B c op) (applyOp_cacheInv B c hinv op)

end TextureCache
end VideoCommon

namespace VideoCommon
namespace TextureCache

theorem TryReconstructSurface_register_site (B : Backend) (c : TextureCache)
    (overlaps : List Nat) (params : SurfaceParams) (gpu_addr : Nat)
    (hsucc : (TryReconstructSurface B c overlaps params gpu_addr).2 ≠ none) :
    ∃ (modified : Bool) (ev : List Event),
      (TryReconstructSurface B c overlaps params gpu_addr).1 =
        Register B
          (((overlaps.foldl Unregister
            { (GetUncachedSurface B c gpu_addr params).1 with events := ev }).Tick.1).modify
            (GetUncachedSurface B c gpu_addr params).2
            (fun s => s.MarkAsModified modified
              (overlaps.foldl Unregister
                { (GetUncachedSurface B c gpu_addr params).1 with events := ev }).Tick.2))
          (GetUncachedSurface B c gpu_addr params).2 ∧
      ((((overlaps.foldl Unregister
            { (GetUncachedSurface B c gpu_addr params).1 with events := ev }).Tick.1).modify
            (GetUncachedSurface B c gpu_addr params).2
            (fun s => s.MarkAsModified modified
              (overlaps.foldl Unregister
                { (GetUncachedSurface B c gpu_addr params).1 with events := ev }).Tick.2)).surfaces
          (GetUncachedSurface B c gpu_addr params).2).is_registered = false := by
  have h3d : params.target ≠ SurfaceTarget.Texture3D := by
    intro h
    unfold TryReconstructSurface at hsucc
    rw [if_pos h] at hsucc
    exact hsucc rfl
  have hres := GetUncachedSurface_result B c gpu_addr params
  obtain ⟨ev, hst, -⟩ := reconstructLoop_state B params
    (GetUncachedSurface B c gpu_addr params).2 overlaps
    (GetUncachedSurface B c gpu_addr params).1 false 0
  rw [TryReconstructSurface_eq B c overlaps params gpu_addr h3d] at hsucc ⊢
  cases hr : (reconstructLoop B params (GetUncachedSurface B c gpu_addr params).2 overlaps
      (GetUncachedSurface B c gpu_addr params).1 false 0).2 with
  | none => rw [hr] at hsucc; exact absurd rfl hsucc
  | some mp =>
    obtain ⟨md, p⟩ := mp
    rw [hr] at hsucc
    dsimp only at hsucc ⊢
    split_ifs at hsucc ⊢ with hc
    · exact absurd rfl hsucc
    · rw [hst]
      refine ⟨md, (GetUncachedSurface B c gpu_addr params).1.events ++ ev, rfl, ?_⟩
      rw [modify_surfaces, if_pos rfl]
      show ((overlaps.foldl Unregister _).surfaces _).is_registered = false
      rw [foldl_Unregister_heap]
      split
      · rfl
      · exact hres.2.1

end TextureCache
end VideoCommon

namespace VideoCommon
namespace TextureCache

theorem GetSurfaceFromOverlaps_mirage_recycle (B : Backend) (c : TextureCache) (gpu_addr : Nat)
    (params : SurfaceParams) (preserve_contents is_render : Bool) (cache_addr : Nat)
    (S view : Nat)
    (hq : c.GetSurfacesInRegion cache_addr (B.GetGuestSizeInBytes params) = (c, [S]))
    (htop : B.MatchesTopology (c.surfaces S).params params = MatchTopologyResult.FullMatch)
    (hinside : (c.surfaces S).IsInside gpu_addr
      (add64 gpu_addr (B.GetGuestSizeInBytes params)) = true)
    (hformat : (c.surfaces S).MatchFormat params.pixel_format = false)
    (hview : B.EmplaceView (c.surfaces S) params gpu_addr (B.GetGuestSizeInBytes params) =
      some view)
    (hmirage : B.EmplaceView
      ((RebuildSurface B c S (mirageParams B (c.surfaces S).params params) is_render).1.surfaces
        (RebuildSurface B c S (mirageParams B (c.surfaces S).params params) is_render).2.1)
      params gpu_addr (B.GetGuestSizeInBytes params) = none) :
    GetSurfaceFromOverlaps B c gpu_addr params preserve_contents is_render cache_addr =
      RecycleSurface B
        (RebuildSurface B c S (mirageParams B (c.surfaces S).params params) is_render).1 [S]
        params gpu_addr preserve_contents MatchTopologyResult.FullMatch := by
  unfold mirageParams at hmirage ⊢
  unfold GetSurfaceFromOverlaps
  simp only [hq]
  simp [htop, hinside, hview, hformat, hmirage]

theorem GetSurface_of_no_entry (B : Backend) (c : TextureCache) (gpu_addr : Nat)
    (params : SurfaceParams) (preserve_contents is_render : Bool)
    (hptr : B.GetPointer gpu_addr ≠ 0) (hl1 : c.l1_cache (B.GetPointer gpu_addr) = none) :
    GetSurface B c gpu_addr params preserve_contents is_render =
      GetSurfaceFromOverlaps B c gpu_addr params preserve_contents is_render
        (B.GetPointer gpu_addr) := by
  unfold GetSurface
  dsimp only
  rw [if_neg hptr, hl1]

theorem GetTextureSurface_unguarded (B : Backend) (c : TextureCache) (gpu_addr : Nat)
    (params : SurfaceParams) (h0 : gpu_addr ≠ 0) (hg : c.guard_samplers = false) :
    (GetTextureSurface B c gpu_addr params).1 = (GetSurface B c gpu_addr params true false).1 := by
  have hk := (samplingKept_frame B).getSurface c gpu_addr params true false
  unfold GetTextureSurface
  rw [if_neg h0]
  dsimp only
  rw [hk.2, hg]
  rfl

theorem compressedSampled_inv : Example.compressedSampled.RegistryInv := by
  unfold Example.compressedSampled
  rw [GetTextureSurface_unguarded _ _ _ _ (by decide) rfl,
    GetSurface_of_no_overlap Example.backend (init Example.maxwell3d) 0x100000 _ true false
      (init_inv _) (by decide!) (by decide!) (by decide!)
      (fun s h => by simp [init, unallocated] at h)]
  exact InitializeSurface_inv Example.backend (init Example.maxwell3d) (init_inv _)
    (fun p s hs => by simp [init] at hs) 0x100000 0x100000 _ true (by decide!) (by decide!)
    rfl (by decide!) (by decide!)

/-- C34: `GetSurface` does unregister a surface twice. Whenever the sole overlap `S` carves a
view for the request, its format differs from the requested one and the surface
rebuilt from it cannot carve the view, steps 2 and 3 of `GetSurface` are
`RecycleSurface` applied to the same overlap list `[S]` in the state `RebuildSurface`
left, in which `S` has already been unregistered. At the cache holding one two-level
compressed texture (a state that satisfies the registry invariant) the request for
its mip level 1 under another format of the same block size takes this path: in the
state `RecycleSurface` starts from, surface 0 has its registered flag clear, is in no
bucket of its page, and the exact-address entry at its cache address names surface 1;
the second `Unregister(surface 0)` is not skipped by the guard, erases that entry and
notifies the rasterizer again. -/
theorem GetSurface_unregisters_twice_on_mirage_path :
    (∀ (B : Backend) (c : TextureCache) (gpu_addr : Nat) (params : SurfaceParams)
      (preserve_contents is_render : Bool) (cache_addr S view : Nat),
      c.GetSurfacesInRegion cache_addr (B.GetGuestSizeInBytes params) = (c, [S]) →
      B.MatchesTopology (c.surfaces S).params params = MatchTopologyResult.FullMatch →
      (c.surfaces S).IsInside gpu_addr (add64 gpu_addr (B.GetGuestSizeInBytes params)) = true →
      (c.surfaces S).MatchFormat params.pixel_format = false →
      B.EmplaceView (c.surfaces S) params gpu_addr (B.GetGuestSizeInBytes params) = some view →
      B.EmplaceView
        ((RebuildSurface B c S (mirageParams B (c.surfaces S).params params) is_render).1.surfaces
          (RebuildSurface B c S (mirageParams B (c.surfaces S).params params) is_render).2.1)
        params gpu_addr (B.GetGuestSizeInBytes params) = none →
      GetSurfaceFromOverlaps B c gpu_addr params preserve_contents is_render cache_addr =
        RecycleSurface B
          (RebuildSurface B c S (mirageParams B (c.surfaces S).params params) is_render).1 [S]
          params gpu_addr preserve_contents MatchTopologyResult.FullMatch) ∧
    Example.compressedSampled.RegistryInv ∧
    GetSurface Example.backend Example.compressedSampled 0x100090
        (Example.texture 4 4 1 (PixelFormat.Other 8)) true false =
      RecycleSurface Example.backend
        (RebuildSurface Example.backend Example.compressedSampled 0
          (mirageParams Example.backend (Example.compressedSampled.surfaces 0).params
            (Example.texture 4 4 1 (PixelFormat.Other 8))) false).1 [0]
        (Example.texture 4 4 1 (PixelFormat.Other 8)) 0x100090 true
        MatchTopologyResult.FullMatch ∧
    (Example.compressedSampled.surfaces 0).is_registered = true ∧
    ((RebuildSurface Example.backend Example.compressedSampled 0
      (mirageParams Example.backend (Example.compressedSampled.surfaces 0).params
        (Example.texture 4 4 1 (PixelFormat.Other 8))) false).1.surfaces 0).is_registered =
      false ∧
    (RebuildSurface Example.backend Example.compressedSampled 0
      (mirageParams Example.backend (Example.compressedSampled.surfaces 0).params
        (Example.texture 4 4 1 (PixelFormat.Other 8))) false).1.Shielded 0 = false ∧
    0 ∉ (RebuildSurface Example.backend Example.compressedSampled 0
      (mirageParams Example.backend (Example.compressedSampled.surfaces 0).params
        (Example.texture 4 4 1 (PixelFormat.Other 8))) false).1.registry (page 0x100000) ∧
    ((RebuildSurface Example.backend Example.compressedSampled 0
      (mirageParams Example.backend (Example.compressedSampled.surfaces 0).params
        (Example.texture 4 4 1 (PixelFormat.Other 8))) false).1.surfaces 0).cache_addr =
      0x100000 ∧
    (RebuildSurface Example.backend Example.compressedSampled 0
      (mirageParams Example.backend (Example.compressedSampled.surfaces 0).params
        (Example.texture 4 4 1 (PixelFormat.Other 8))) false).1.l1_cache 0x100000 = some 1 ∧
    ((RebuildSurface Example.backend Example.compressedSampled 0
      (mirageParams Example.backend (Example.compressedSampled.surfaces 0).params
        (Example.texture 4 4 1 (PixelFormat.Other 8))) false).1.Unregister 0).l1_cache
        0x100000 = none ∧
    ((RebuildSurface Example.backend Example.compressedSampled 0
      (mirageParams Example.backend (Example.compressedSampled.surfaces 0).params
        (Example.texture 4 4 1 (PixelFormat.Other 8))) false).1.Unregister 0).events =
      (RebuildSurface Example.backend Example.compressedSampled 0
        (mirageParams Example.backend (Example.compressedSampled.surfaces 0).params
          (Example.texture 4 4 1 (PixelFormat.Other 8))) false).1.events ++
        [Event.UpdatePagesCachedCount 0x100000 160 (-1)] := by
  refine ⟨fun B c gpu_addr params pc ir cache_addr S view hq htop hinside hformat hview hmirage =>
    GetSurfaceFromOverlaps_mirage_recycle B c gpu_addr params pc ir cache_addr S view hq htop
      hinside hformat hview hmirage, compressedSampled_inv, ?_, by decide!, by decide!,
    by decide!, by decide!, by decide!, by decide!, by decide!, by decide!⟩
  rw [GetSurface_of_no_entry Example.backend Example.compressedSampled 0x100090 _ true false
    (by decide!) (by decide!)]
  exact GetSurfaceFromOverlaps_mirage_recycle Example.backend Example.compressedSampled 0x100090
    _ true false _ 0 1
    (Prod.ext (GetSurfacesInRegion_state _ compressedSampled_inv.picked _ _) (by decide!))
    (by decide!) (by decide!) (by decide!) (by decide!) (by decide!)

end TextureCache
end VideoCommon

namespace VideoCommon
namespace TextureCache

theorem MarksKept.of_heap {c d : TextureCache} (h1 : d.render_targets = c.render_targets)
    (h2 : d.depth_buffer = c.depth_buffer) (h3 : d.num_surfaces = c.num_surfaces)
    (h4 : ∀ s, (d.surfaces s).is_target = (c.surfaces s).is_target ∧
      (d.surfaces s).index = (c.surfaces s).index) : MarksKept c d :=
  ⟨h1, h2, Nat.le_of_eq h3.symm, fun s => Or.inl (h4 s)⟩

theorem marksKept_frame (B : Backend) : FrameRel B MarksKept where
  same := fun _ => ⟨rfl, rfl, Nat.le_refl _, fun _ => Or.inl ⟨rfl, rfl⟩⟩
  andThen := by
    intro c d e h1 h2
    refine ⟨h2.1.trans h1.1, h2.2.1.trans h1.2.1, Nat.le_trans h1.2.2.1 h2.2.2.1, ?_⟩
    intro s
    rcases h2.2.2.2 s with ⟨a1, a2⟩ | ⟨a1, a2, a3⟩
    · rcases h1.2.2.2 s with ⟨b1, b2⟩ | ⟨b1, b2, b3⟩
      · exact Or.inl ⟨a1.trans b1, a2.trans b2⟩
      · exact Or.inr ⟨b1, Nat.lt_of_lt_of_le b2 h2.2.2.1, a1.trans b3⟩
    · exact Or.inr ⟨Nat.le_trans h1.2.2.1 a1, a2, a3⟩
  unregister := by
    intro c s
    refine MarksKept.of_heap (Unregister_slots c s).slots (Unregister_slots c s).depth
      (Unregister_num c s) ?_
    intro t
    exact ⟨(Unregister_params c s t).2.2.2.1, (Unregister_params c s t).2.2.2.2⟩
  register := by
    intro c n
    by_cases hptr : B.GetPointer (c.surfaces n).gpu_addr = 0
    · rw [Register_of_null B c n hptr]
      exact ⟨rfl, rfl, Nat.le_refl _, fun _ => Or.inl ⟨rfl, rfl⟩⟩
    · cases hcpu : B.GpuToCpuAddress (c.surfaces n).gpu_addr with
      | none =>
        rw [Register_of_unmapped B c n hcpu]
        exact ⟨rfl, rfl, Nat.le_refl _, fun _ => Or.inl ⟨rfl, rfl⟩⟩
      | some cpu =>
        rw [Register_eq B c n cpu hptr hcpu]
        refine MarksKept.of_heap rfl rfl rfl ?_
        intro t
        by_cases ht : t = n
        · subst ht; simp [registeredSurface]
        · simp [Function.update_noteq ht]
  uncached := by
    intro c gpu_addr params
    cases hr : c.TryGetReservedSurface params with
    | some n =>
      rw [GetUncachedSurface_reserved B c gpu_addr params n hr]
      refine MarksKept.of_heap rfl rfl rfl ?_
      intro t
      rw [modify_surfaces]
      split
      · rename_i h; subst h; exact ⟨rfl, rfl⟩
      · exact ⟨rfl, rfl⟩
    | none =>
      rw [GetUncachedSurface_created B c gpu_addr params hr]
      refine ⟨rfl, rfl, Nat.le_succ _, ?_⟩
      intro t
      by_cases ht : t = c.num_surfaces
      · subst ht
        exact Or.inr ⟨Nat.le_refl _, Nat.lt_succ_self _, by simp [CreateSurface, newSurface]⟩
      · exact Or.inl (by simp [CreateSurface, Function.update_noteq ht])
  trace := fun _ _ => ⟨rfl, rfl, Nat.le_refl _, fun _ => Or.inl ⟨rfl, rfl⟩⟩
  stamp := by
    intro c n m
    have h := ModificationOnly.of_stamp c n m (c.Tick.2) (c.Tick.1.ticks) c.events (c.Tick.1.ticks_drawn)
    refine MarksKept.of_heap h.slots h.depth h.num ?_
    intro t
    exact ⟨(h.fields t).2.2.2.2.2.2.2.2.1, (h.fields t).2.2.2.2.2.2.2.2.2⟩
  region := by
    intro c addr size
    obtain ⟨h, heq, hp⟩ := GetSurfacesInRegion_shape c addr size
    rw [heq]
    refine MarksKept.of_heap rfl rfl rfl ?_
    intro t
    exact ⟨(hp.kept t).2.2.1, (hp.kept t).2.2.2.2.2⟩

theorem MarksKept.slotsMarked {c d : TextureCache} (h : MarksKept c d) (hm : SlotsMarked c) :
    SlotsMarked d := by
  obtain ⟨h1, h2, h3, h4⟩ := h
  have hsame : ∀ S, (c.surfaces S).is_target = true →
      (d.surfaces S).is_target = true ∧ (d.surfaces S).index = (c.surfaces S).index := by
    intro S hS
    rcases h4 S with ⟨a1, a2⟩ | ⟨a1, _, _⟩
    · exact ⟨a1.trans hS, a2⟩
    · exact absurd (hm.created S hS) (Nat.not_lt.mpr a1)
  have hback : ∀ S, (d.surfaces S).is_target = true →
      (c.surfaces S).is_target = true ∧ (d.surfaces S).index = (c.surfaces S).index := by
    intro S hS
    rcases h4 S with ⟨a1, a2⟩ | ⟨_, _, a3⟩
    · exact ⟨a1 ▸ hS, a2⟩
    · rw [a3] at hS; cases hS
  refine { colour := ?_, depth := ?_, marked := ?_, created := ?_ }
  · intro i S hs
    rw [h1] at hs
    obtain ⟨b1, b2, b3⟩ := hm.colour i S hs
    exact ⟨b1, (hsame S b2).1, (hsame S b2).2.trans b3⟩
  · intro S hs
    rw [h2] at hs
    obtain ⟨b2, b3⟩ := hm.depth S hs
    exact ⟨(hsame S b2).1, (hsame S b2).2.trans b3⟩
  · intro S hS
    obtain ⟨b1, b2⟩ := hback S hS
    rw [h1, h2, b2]
    exact hm.marked S b1
  · intro S hS
    exact Nat.lt_of_lt_of_le (hm.created S (hback S hS).1) h3

theorem bindColorSlot_marks (c1 : TextureCache) (index : Nat) (sv : Nat × Option View) :
    (∀ j, (bindColorSlot c1 index sv).render_targets j =
      if j = index then { target := some sv.1, view := sv.2 } else c1.render_targets j) ∧
    (bindColorSlot c1 index sv).depth_buffer = c1.depth_buffer ∧
    (bindColorSlot c1 index sv).num_surfaces = c1.num_surfaces ∧
    (∀ t, ((bindColorSlot c1 index sv).surfaces t).is_target =
      if t = sv.1 then true
      else if (c1.render_targets index).target = some t then false
      else (c1.surfaces t).is_target) ∧
    (∀ t, ((bindColorSlot c1 index sv).surfaces t).index =
      if t = sv.1 then index
      else if (c1.render_targets index).target = some t then NO_RT
      else (c1.surfaces t).index) := by
  unfold bindColorSlot
  dsimp only
  cases hold : (c1.render_targets index).target with
  | none =>
    refine ⟨?_, rfl, rfl, ?_, ?_⟩
    · intro j
      by_cases hj : j = index
      · subst hj; simp [modify]
      · simp [modify, Function.update_noteq hj, hj]
    · intro t
      by_cases ht : t = sv.1
      · subst ht; simp [modify, Surface.MarkAsRenderTarget]
      · simp [modify, Function.update_noteq ht, ht]
    · intro t
      by_cases ht : t = sv.1
      · subst ht; simp [modify, Surface.MarkAsRenderTarget]
      · simp [modify, Function.update_noteq ht, ht]
  | some old =>
    refine ⟨?_, rfl, rfl, ?_, ?_⟩
    · intro j
      by_cases hj : j = index
      · subst hj; simp [modify]
      · simp [modify, Function.update_noteq hj, hj]
    · intro t
      by_cases ht : t = sv.1
      · subst ht; simp [modify, Surface.MarkAsRenderTarget]
      · by_cases ho : t = old
        · subst ho; simp [modify, Function.update_noteq ht, ht, Surface.MarkAsRenderTarget]
        · have ho2 : old ≠ t := fun h => ho h.symm
          simp [modify, Function.update_noteq ht, Function.update_noteq ho, ht, ho2]
    · intro t
      by_cases ht : t = sv.1
      · subst ht; simp [modify, Surface.MarkAsRenderTarget]
      · by_cases ho : t = old
        · subst ho; simp [modify, Function.update_noteq ht, ht, Surface.MarkAsRenderTarget]
        · have ho2 : old ≠ t := fun h => ho h.symm
          simp [modify, Function.update_noteq ht, Function.update_noteq ho, ht, ho2]

theorem bindDepthSlot_marks (c1 : TextureCache) (sv : Nat × Option View) :
    (bindDepthSlot c1 sv).render_targets = c1.render_targets ∧
    (bindDepthSlot c1 sv).depth_buffer = { target := some sv.1, view := sv.2 } ∧
    (bindDepthSlot c1 sv).num_surfaces = c1.num_surfaces ∧
    (∀ t, ((bindDepthSlot c1 sv).surfaces t).is_target =
      if t = sv.1 then true
      else if c1.depth_buffer.target = some t then false
      else (c1.surfaces t).is_target) ∧
    (∀ t, ((bindDepthSlot c1 sv).surfaces t).index =
      if t = sv.1 then DEPTH_RT
      else if c1.depth_buffer.target = some t then NO_RT
      else (c1.surfaces t).index) := by
  unfold bindDepthSlot
  dsimp only
  cases hold : c1.depth_buffer.target with
  | none =>
    refine ⟨rfl, rfl, rfl, ?_, ?_⟩
    · intro t
      by_cases ht : t = sv.1
      · subst ht; simp [modify, Surface.MarkAsRenderTarget]
      · simp [modify, Function.update_noteq ht, ht]
    · intro t
      by_cases ht : t = sv.1
      · subst ht; simp [modify, Surface.MarkAsRenderTarget]
      · simp [modify, Function.update_noteq ht, ht]
  | some old =>
    refine ⟨rfl, rfl, rfl, ?_, ?_⟩
    · intro t
      by_cases ht : t = sv.1
      · subst ht; simp [modify, Surface.MarkAsRenderTarget]
      · by_cases ho : t = old
        · subst ho; simp [modify, Function.update_noteq ht, ht, Surface.MarkAsRenderTarget]
        · have ho2 : old ≠ t := fun h => ho h.symm
          simp [modify, Function.update_noteq ht, Function.update_noteq ho, ht, ho2]
    · intro t
      by_cases ht : t = sv.1
      · subst ht; simp [modify, Surface.MarkAsRenderTarget]
      · by_cases ho : t = old
        · subst ho; simp [modify, Function.update_noteq ht, ht, Surface.MarkAsRenderTarget]
        · have ho2 : old ≠ t := fun h => ho h.symm
          simp [modify, Function.update_noteq ht, Function.update_noteq ho, ht, ho2]

theorem SetEmptyColorBuffer_marks (c : TextureCache) (index : Nat) :
    (∀ j, ((c.SetEmptyColorBuffer index).render_targets j).target =
      if j = index then none else (c.render_targets j).target) ∧
    (c.SetEmptyColorBuffer index).depth_buffer = c.depth_buffer ∧
    (c.SetEmptyColorBuffer index).num_surfaces = c.num_surfaces ∧
    (∀ t, ((c.SetEmptyColorBuffer index).surfaces t).is_target =
      if (c.render_targets index).target = some t then false else (c.surfaces t).is_target) ∧
    (∀ t, ((c.SetEmptyColorBuffer index).surfaces t).index =
      if (c.render_targets index).target = some t then NO_RT else (c.surfaces t).index) := by
  unfold SetEmptyColorBuffer
  cases hold : (c.render_targets index).target with
  | none =>
    refine ⟨?_, rfl, rfl, ?_, ?_⟩
    · intro j
      by_cases hj : j = index
      · subst hj; simp [hold]
      · simp [hj]
    · intro t; simp
    · intro t; simp
  | some old =>
    refine ⟨?_, rfl, rfl, ?_, ?_⟩
    · intro j
      by_cases hj : j = index
      · subst hj; simp [modify]
      · simp [modify, Function.update_noteq hj, hj]
    · intro t
      by_cases ho : t = old
      · subst ho; simp [modify, Surface.MarkAsRenderTarget]
      · have ho2 : old ≠ t := fun h => ho h.symm
        simp [modify, Function.update_noteq ho, ho2]
    · intro t
      by_cases ho : t = old
      · subst ho; simp [modify, Surface.MarkAsRenderTarget]
      · have ho2 : old ≠ t := fun h => ho h.symm
        simp [modify, Function.update_noteq ho, ho2]

theorem SetEmptyDepthBuffer_marks (c : TextureCache) :
    c.SetEmptyDepthBuffer.render_targets = c.render_targets ∧
    c.SetEmptyDepthBuffer.depth_buffer.target = none ∧
    c.SetEmptyDepthBuffer.num_surfaces = c.num_surfaces ∧
    (∀ t, (c.SetEmptyDepthBuffer.surfaces t).is_target =
      if c.depth_buffer.target = some t then false else (c.surfaces t).is_target) ∧
    (∀ t, (c.SetEmptyDepthBuffer.surfaces t).index =
      if c.depth_buffer.target = some t then NO_RT else (c.surfaces t).index) := by
  unfold SetEmptyDepthBuffer
  cases hold : c.depth_buffer.target with
  | none =>
    refine ⟨rfl, hold, rfl, ?_, ?_⟩
    · intro t; simp
    · intro t; simp
  | some old =>
    refine ⟨rfl, rfl, rfl, ?_, ?_⟩
    · intro t
      by_cases ho : t = old
      · subst ho; simp [modify, Surface.MarkAsRenderTarget]
      · have ho2 : old ≠ t := fun h => ho h.symm
        simp [modify, Function.update_noteq ho, ho2]
    · intro t
      by_cases ho : t = old
      · subst ho; simp [modify, Surface.MarkAsRenderTarget]
      · have ho2 : old ≠ t := fun h => ho h.symm
        simp [modify, Function.update_noteq ho, ho2]

theorem colour_ne_depth {i : Nat} (h : i < NumRenderTargets) : i ≠ DEPTH_RT := by
  unfold NumRenderTargets at h
  unfold DEPTH_RT
  omega

theorem SetEmptyColorBuffer_slotsMarked (c : TextureCache) (hm : SlotsMarked c) (index : Nat) :
    SlotsMarked (c.SetEmptyColorBuffer index) := by
  obtain ⟨hrt, hdb, hnum, hT, hI⟩ := SetEmptyColorBuffer_marks c index
  have hkeep : ∀ S, (c.surfaces S).is_target = true → (c.surfaces S).index ≠ index →
      (c.render_targets index).target ≠ some S := by
    intro S _ hne hs
    exact hne (hm.colour index S hs).2.2
  refine { colour := ?_, depth := ?_, marked := ?_, created := ?_ }
  · intro i S hs
    rw [hrt] at hs
    by_cases hi : i = index
    · rw [if_pos hi] at hs; cases hs
    · rw [if_neg hi] at hs
      obtain ⟨b1, b2, b3⟩ := hm.colour i S hs
      have hk := hkeep S b2 (by rw [b3]; exact hi)
      rw [hT, hI, if_neg hk, if_neg hk]
      exact ⟨b1, b2, b3⟩
  · intro S hs
    rw [hdb] at hs
    obtain ⟨b2, b3⟩ := hm.depth S hs
    have hk : (c.render_targets index).target ≠ some S := by
      intro h
      obtain ⟨a1, _, a3⟩ := hm.colour index S h
      exact colour_ne_depth a1 (a3.symm.trans b3)
    rw [hT, hI, if_neg hk, if_neg hk]
    exact ⟨b2, b3⟩
  · intro S hS
    rw [hT] at hS
    by_cases hk : (c.render_targets index).target = some S
    · rw [if_pos hk] at hS; cases hS
    · rw [if_neg hk] at hS
      rw [hI, if_neg hk, hdb, hrt]
      rcases hm.marked S hS with ⟨a1, a2⟩ | ⟨a1, a2⟩
      · exact Or.inl ⟨a1, a2⟩
      · refine Or.inr ⟨a1, ?_⟩
        have hne : (c.surfaces S).index ≠ index := by
          intro h; rw [h] at a2; exact hk a2
        rw [if_neg hne]; exact a2
  · intro S hS
    rw [hT] at hS
    by_cases hk : (c.render_targets index).target = some S
    · rw [if_pos hk] at hS; cases hS
    · rw [if_neg hk] at hS
      rw [hnum]; exact hm.created S hS

theorem SetEmptyDepthBuffer_slotsMarked (c : TextureCache) (hm : SlotsMarked c) :
    SlotsMarked c.SetEmptyDepthBuffer := by
  obtain ⟨hrt, hdb, hnum, hT, hI⟩ := SetEmptyDepthBuffer_marks c
  refine { colour := ?_, depth := ?_, marked := ?_, created := ?_ }
  · intro i S hs
    rw [hrt] at hs
    obtain ⟨b1, b2, b3⟩ := hm.colour i S hs
    have hk : c.depth_buffer.target ≠ some S := by
      intro h
      exact colour_ne_depth b1 (b3.symm.trans (hm.depth S h).2)
    rw [hT, hI, if_neg hk, if_neg hk]
    exact ⟨b1, b2, b3⟩
  · intro S hs
    rw [hdb] at hs; cases hs
  · intro S hS
    rw [hT] at hS
    by_cases hk : c.depth_buffer.target = some S
    · rw [if_pos hk] at hS; cases hS
    · rw [if_neg hk] at hS
      rw [hI, if_neg hk, hrt]
      rcases hm.marked S hS with ⟨a1, a2⟩ | ⟨a1, a2⟩
      · exact absurd a2 hk
      · exact Or.inr ⟨a1, a2⟩
  · intro S hS
    rw [hT] at hS
    by_cases hk : c.depth_buffer.target = some S
    · rw [if_pos hk] at hS; cases hS
    · rw [if_neg hk] at hS
      rw [hnum]; exact hm.created S hS

theorem bindColorSlot_slotsMarked (c1 : TextureCache) (hm : SlotsMarked c1) (index : Nat)
    (hidx : index < NumRenderTargets) (sv : Nat × Option View)
    (hlt : sv.1 < c1.num_surfaces) (hna : ¬ SlotAliased (bindColorSlot c1 index sv)) :
    SlotsMarked (bindColorSlot c1 index sv) := by
  obtain ⟨hrt, hdb, hnum, hT, hI⟩ := bindColorSlot_marks c1 index sv
  have hslot : ((bindColorSlot c1 index sv).render_targets index).target = some sv.1 := by
    rw [hrt, if_pos rfl]
  have hother : ∀ i, i < NumRenderTargets → i ≠ index →
      (c1.render_targets i).target ≠ some sv.1 := by
    intro i hi hne hs
    apply hna
    refine Or.inl ⟨index, hidx, i, hi, fun h => hne h.symm, ?_, ?_⟩
    · rw [hslot]; simp
    · rw [hslot, hrt, if_neg hne, hs]
  have hdepth : c1.depth_buffer.target ≠ some sv.1 := by
    intro hs
    apply hna
    refine Or.inr ⟨index, hidx, ?_, ?_⟩
    · rw [hslot]; simp
    · rw [hslot, hdb, hs]
  refine { colour := ?_, depth := ?_, marked := ?_, created := ?_ }
  · intro i S hs
    rw [hrt] at hs
    by_cases hi : i = index
    · rw [if_pos hi] at hs
      simp only [Option.some.injEq] at hs
      subst hs
      rw [hT, hI, if_pos rfl, if_pos rfl, hi]
      exact ⟨hidx, rfl, rfl⟩
    · rw [if_neg hi] at hs
      obtain ⟨b1, b2, b3⟩ := hm.colour i S hs
      have hS : S ≠ sv.1 := by
        intro h; rw [h] at hs; exact hother i b1 hi hs
      have hk : (c1.render_targets index).target ≠ some S := by
        intro h
        exact hi (b3.symm.trans (hm.colour index S h).2.2)
      rw [hT, hI, if_neg hS, if_neg hS, if_neg hk, if_neg hk]
      exact ⟨b1, b2, b3⟩
  · intro S hs
    rw [hdb] at hs
    obtain ⟨b2, b3⟩ := hm.depth S hs
    have hS : S ≠ sv.1 := by
      intro h; rw [h] at hs; exact hdepth hs
    have hk : (c1.render_targets index).target ≠ some S := by
      intro h
      obtain ⟨a1, _, a3⟩ := hm.colour index S h
      exact colour_ne_depth a1 (a3.symm.trans b3)
    rw [hT, hI, if_neg hS, if_neg hS, if_neg hk, if_neg hk]
    exact ⟨b2, b3⟩
  · intro S hS
    by_cases hs : S = sv.1
    · subst hs
      rw [hI, if_pos rfl]
      exact Or.inr ⟨hidx, hslot⟩
    · rw [hT, if_neg hs] at hS
      by_cases hk : (c1.render_targets index).target = some S
      · rw [if_pos hk] at hS; cases hS
      · rw [if_neg hk] at hS
        rw [hI, if_neg hs, if_neg hk, hdb, hrt]
        rcases hm.marked S hS with ⟨a1, a2⟩ | ⟨a1, a2⟩
        · exact Or.inl ⟨a1, a2⟩
        · refine Or.inr ⟨a1, ?_⟩
          have hne : (c1.surfaces S).index ≠ index := by
            intro h; rw [h] at a2; exact hk a2
          rw [if_neg hne]; exact a2
  · intro S hS
    rw [hnum]
    by_cases hs : S = sv.1
    · rw [hs]; exact hlt
    · rw [hT, if_neg hs] at hS
      by_cases hk : (c1.render_targets index).target = some S
      · rw [if_pos hk] at hS; cases hS
      · rw [if_neg hk] at hS
        exact hm.created S hS

theorem bindDepthSlot_slotsMarked (c1 : TextureCache) (hm : SlotsMarked c1)
    (sv : Nat × Option View) (hlt : sv.1 < c1.num_surfaces)
    (hna : ¬ SlotAliased (bindDepthSlot c1 sv)) : SlotsMarked (bindDepthSlot c1 sv) := by
  obtain ⟨hrt, hdb, hnum, hT, hI⟩ := bindDepthSlot_marks c1 sv
  have hother : ∀ i, (c1.render_targets i).target ≠ some sv.1 := by
    intro i hs
    apply hna
    refine Or.inr ⟨i, (hm.colour i sv.1 hs).1, ?_, ?_⟩
    · rw [hrt, hs]; simp
    · rw [hrt, hs, hdb]
  refine { colour := ?_, depth := ?_, marked := ?_, created := ?_ }
  · intro i S hs
    rw [hrt] at hs
    obtain ⟨b1, b2, b3⟩ := hm.colour i S hs
    have hS : S ≠ sv.1 := by
      intro h; rw [h] at hs; exact hother i hs
    have hk : c1.depth_buffer.target ≠ some S := by
      intro h
      exact colour_ne_depth b1 (b3.symm.trans (hm.depth S h).2)
    rw [hT, hI, if_neg hS, if_neg hS, if_neg hk, if_neg hk]
    exact ⟨b1, b2, b3⟩
  · intro S hs
    rw [hdb] at hs
    simp only [Option.some.injEq] at hs
    subst hs
    rw [hT, hI, if_pos rfl, if_pos rfl]
    exact ⟨rfl, rfl⟩
  · intro S hS
    by_cases hs : S = sv.1
    · subst hs
      rw [hI, if_pos rfl, hdb]
      exact Or.inl ⟨rfl, rfl⟩
    · rw [hT, if_neg hs] at hS
      by_cases hk : c1.depth_buffer.target = some S
      · rw [if_pos hk] at hS; cases hS
      · rw [if_neg hk] at hS
        rw [hI, if_neg hs, if_neg hk, hrt]
        rcases hm.marked S hS with ⟨a1, a2⟩ | ⟨a1, a2⟩
        · exact absurd a2 hk
        · exact Or.inr ⟨a1, a2⟩
  · intro S hS
    rw [hnum]
    by_cases hs : S = sv.1
    · rw [hs]; exact hlt
    · rw [hT, if_neg hs] at hS
      by_cases hk : c1.depth_buffer.target = some S
      · rw [if_pos hk] at hS; cases hS
      · rw [if_neg hk] at hS
        exact hm.created S hS

theorem MarksKept.with_parts {c d : TextureCache} (h : MarksKept c d)
    (g1 g2 : Bool) (st : List Nat) (mx : Maxwell3D) (ev : List Event) :
    MarksKept c { d with guard_render_targets := g1, guard_samplers := g2,
                         sampled_textures := st, maxwell3d := mx, events := ev } :=
  ⟨h.1, h.2.1, h.2.2.1, h.2.2.2⟩

theorem init_slotsMarked (m : Maxwell3D) : SlotsMarked (init m) := by
  refine { colour := ?_, depth := ?_, marked := ?_, created := ?_ } <;>
    simp [init, unallocated]

theorem applyOp_slotsMarked (B : Backend) (c : TextureCache) (op : Op) (hinv : CacheInv B c)
    (hm : SlotsMarked c) (hr : op.inRange = true) (hna : ¬ SlotAliased (applyOp B c op)) :
    SlotsMarked (applyOp B c op) := by
  have F := marksKept_frame B
  have hsample : ∀ (gpu_addr : Nat) (params : SurfaceParams),
      MarksKept c (if (GetSurface B c gpu_addr params true false).1.guard_samplers = true then
        { (GetSurface B c gpu_addr params true false).1 with
            sampled_textures := (GetSurface B c gpu_addr params true false).1.sampled_textures ++
              [(GetSurface B c gpu_addr params true false).2.1] }
        else (GetSurface B c gpu_addr params true false).1) := by
    intro gpu_addr params
    have g := F.getSurface c gpu_addr params true false
    split
    · exact g.with_parts _ _ _ _ _
    · exact g
  cases op with
  | InvalidateRegion addr size => exact (F.invalidate c addr size).slotsMarked hm
  | FlushRegion addr size => exact (F.flushRegion c addr size).slotsMarked hm
  | GuardRenderTargets g => exact ((F.same c).with_parts g _ _ _ _).slotsMarked hm
  | GuardSamplers g => exact ((F.same c).with_parts _ g _ _ _).slotsMarked hm
  | GetTextureSurface gpu_addr params =>
    show SlotsMarked (GetTextureSurface B c gpu_addr params).1
    unfold GetTextureSurface
    split
    · exact hm
    · exact (hsample gpu_addr params).slotsMarked hm
  | GetImageSurface gpu_addr params =>
    show SlotsMarked (GetImageSurface B c gpu_addr params).1
    unfold GetImageSurface
    split
    · exact hm
    · exact (hsample gpu_addr params).slotsMarked hm
  | TextureBarrier => exact ((F.same c).with_parts _ _ [] _ _).slotsMarked hm
  | GetDepthBufferSurface pc =>
    have hc0 : SlotsMarked c.clearDepthDirty :=
      ((F.same c).with_parts _ _ _ _ _).slotsMarked hm
    have hi0 : CacheInv B c.clearDepthDirty := hinv.with_fields _ _ _ _ _ _ _
    change ¬ SlotAliased (GetDepthBufferSurface B c pc).1 at hna
    show SlotsMarked (GetDepthBufferSurface B c pc).1
    rcases GetDepthBufferSurface_cases B c pc with h | h | h <;> rw [h] at hna ⊢
    · exact hm
    · exact SetEmptyDepthBuffer_slotsMarked _ hc0
    · exact bindDepthSlot_slotsMarked _ ((F.getSurface _ _ _ _ _).slotsMarked hc0) _
        (GetSurface_settled B _ hi0 _ _ _ _).2.2.1 hna
  | GetColorBufferSurface index pc =>
    have hidx : index < NumRenderTargets := by simpa [Op.inRange] using hr
    have hc0 : SlotsMarked (c.clearColorDirty index) :=
      ((F.same c).with_parts _ _ _ _ _).slotsMarked hm
    have hi0 : CacheInv B (c.clearColorDirty index) := hinv.with_fields _ _ _ _ _ _ _
    change ¬ SlotAliased (GetColorBufferSurface B c index pc).1 at hna
    show SlotsMarked (GetColorBufferSurface B c index pc).1
    rcases GetColorBufferSurface_cases B c index pc with h | h | h <;> rw [h] at hna ⊢
    · exact hm
    · exact SetEmptyColorBuffer_slotsMarked _ hc0 _
    · exact bindColorSlot_slotsMarked _ ((F.getSurface _ _ _ _ _).slotsMarked hc0) _ hidx _
        (GetSurface_settled B _ hi0 _ _ _ _).2.2.1 hna
  | MarkColorBufferInUse index =>
    show SlotsMarked (c.MarkColorBufferInUse index)
    unfold MarkColorBufferInUse
    split
    · exact (F.stamp c _ true).slotsMarked hm
    · exact hm
  | MarkDepthBufferInUse =>
    show SlotsMarked c.MarkDepthBufferInUse
    unfold MarkDepthBufferInUse
    split
    · exact (F.stamp c _ true).slotsMarked hm
    · exact hm
  | SetEmptyDepthBuffer => exact SetEmptyDepthBuffer_slotsMarked c hm
  | SetEmptyColorBuffer index => exact SetEmptyColorBuffer_slotsMarked c hm index
  | DoFermiCopy sa sp da dp => exact (F.fermiCopy c sa sp da dp).slotsMarked hm
  | WriteRegisters mx => exact ((F.same c).with_parts _ _ _ mx _).slotsMarked hm

theorem run_slotsMarked (B : Backend) (c : TextureCache) (ops : List Op) (hinv : CacheInv B c)
    (hm : SlotsMarked c) (hr : ∀ op ∈ ops, op.inRange = true)
    (hna : ∀ k, k ≤ ops.length → ¬ SlotAliased (run B c (ops.take k))) :
    SlotsMarked (run B c ops) := by
  induction ops generalizing c with
  | nil => exact hm
  | cons op rest ih =>
    have h1 : ¬ SlotAliased (applyOp B c op) := hna 1 (by simp)
    refine ih (applyOp B c op) (applyOp_cacheInv B c hinv op)
      (applyOp_slotsMarked B c op hinv hm (hr op (List.mem_cons_self _ _)) h1)
      (fun o ho => hr o (List.mem_cons_of_mem _ ho)) ?_
    intro k hk
    exact hna (k + 1) (by simpa using hk)

/-- C38 (amended): slot/mark consistency. In a state reached from the constructor by calls of
the public interface whose colour slot indices are below `NumRenderTargets`, if after
none of the calls a surface occupied two slots at once, then each occupied colour slot
`i` holds a created surface marked as render target with index `i`, the occupied depth
slot holds a surface marked with index `DEPTH_RT`, and every surface marked as render
target is the occupant of the slot its index names. -/
theorem slot_marks_consistent (B : Backend) (m : Maxwell3D) (ops : List Op)
    (hrange : ∀ op ∈ ops, op.inRange = true)
    (hna : ∀ k, k ≤ ops.length → ¬ SlotAliased (run B (init m) (ops.take k))) :
    (∀ i S, ((run B (init m) ops).render_targets i).target = some S →
      i < NumRenderTargets ∧ S < (run B (init m) ops).num_surfaces ∧
      ((run B (init m) ops).surfaces S).is_target = true ∧
      ((run B (init m) ops).surfaces S).index = i) ∧
    (∀ S, (run B (init m) ops).depth_buffer.target = some S →
      S < (run B (init m) ops).num_surfaces ∧
      ((run B (init m) ops).surfaces S).is_target = true ∧
      ((run B (init m) ops).surfaces S).index = DEPTH_RT) ∧
    (∀ S, ((run B (init m) ops).surfaces S).is_target = true →
      (((run B (init m) ops).surfaces S).index = DEPTH_RT ∧
        (run B (init m) ops).depth_buffer.target = some S) ∨
      (((run B (init m) ops).surfaces S).index < NumRenderTargets ∧
        ((run B (init m) ops).render_targets
          ((run B (init m) ops).surfaces S).index).target = some S)) := by
  have h := run_slotsMarked B (init m) ops (init_cacheInv B m) (init_slotsMarked m) hrange hna
  refine ⟨?_, ?_, h.marked⟩
  · intro i S hs
    obtain ⟨a1, a2, a3⟩ := h.colour i S hs
    exact ⟨a1, h.created S a2, a2, a3⟩
  · intro S hs
    obtain ⟨a2, a3⟩ := h.depth S hs
    exact ⟨h.created S a2, a2, a3⟩

end TextureCache
end VideoCommon

namespace VideoCommon
namespace TextureCache

/-- C32 counterexample: the overlaps are surface 0 (modified, at `0x100020`) and surface 1
(unmodified, at `0x100000`), 32 bytes each; for a 4×4 `R16U` candidate with two mip
levels at `0x100000` surface 1 matches mip level 0 and surface 0 is skipped (mip level 1
has 8 bytes). The reconstruction succeeds, both overlaps are unregistered, and the
modified flag of the new surface 2 is clear although overlap 0 was modified; the same
happens when the request comes through `GetSurface`. With the render-target guard on,
a successful reconstruction over a protected render target leaves that overlap
registered. And where `gpu_addr` has no host pointer (the holed backend), a successful
reconstruction returns a candidate that is not registered. -/
theorem TryReconstructSurface_drops_skipped_modified_flag :
    (Example.fragments.surfaces 0).is_registered = true ∧
    (Example.fragments.surfaces 1).is_registered = true ∧
    (Example.fragments.surfaces 0).is_modified = true ∧
    (Example.fragments.surfaces 1).is_modified = false ∧
    overlapMatches Example.backend
      (GetUncachedSurface Example.backend Example.fragments 0x100000
        (Example.texture 4 4 2 PixelFormat.R16U)).1 2 0 = false ∧
    overlapMatches Example.backend
      (GetUncachedSurface Example.backend Example.fragments 0x100000
        (Example.texture 4 4 2 PixelFormat.R16U)).1 2 1 = true ∧
    (TryReconstructSurface Example.backend Example.fragments [0, 1]
      (Example.texture 4 4 2 PixelFormat.R16U) 0x100000).2 = some (2, some (View.main 2)) ∧
    ((TryReconstructSurface Example.backend Example.fragments [0, 1]
      (Example.texture 4 4 2 PixelFormat.R16U) 0x100000).1.surfaces 0).is_registered = false ∧
    ((TryReconstructSurface Example.backend Example.fragments [0, 1]
      (Example.texture 4 4 2 PixelFormat.R16U) 0x100000).1.surfaces 1).is_registered = false ∧
    ((TryReconstructSurface Example.backend Example.fragments [0, 1]
      (Example.texture 4 4 2 PixelFormat.R16U) 0x100000).1.surfaces 2).is_modified = false ∧
    (GetSurface Example.backend Example.fragments 0x100000
      (Example.texture 4 4 2 PixelFormat.R16U) true false).2 = (2, some (View.main 2)) ∧
    ((GetSurface Example.backend Example.fragments 0x100000
      (Example.texture 4 4 2 PixelFormat.R16U) true false).1.surfaces 2).is_modified = false ∧
    (TryReconstructSurface Example.backend Example.targetGuarded [0]
      (Example.texture 4 4 2 PixelFormat.R16U) 0x100000).2 = some (1, some (View.main 1)) ∧
    ((TryReconstructSurface Example.backend Example.targetGuarded [0]
      (Example.texture 4 4 2 PixelFormat.R16U) 0x100000).1.surfaces 0).is_registered = true ∧
    (Example.tailFragment.surfaces 0).is_registered = true ∧
    Example.holedBackend.GetPointer 0x100000 = 0 ∧
    (TryReconstructSurface Example.holedBackend Example.tailFragment [0]
      (Example.texture 4 4 2 PixelFormat.R16U) 0x100000).2 = some (1, some (View.main 1)) ∧
    ((TryReconstructSurface Example.holedBackend Example.tailFragment [0]
      (Example.texture 4 4 2 PixelFormat.R16U) 0x100000).1.surfaces 1).is_registered = false := by
  decide!

/-- C38 counterexample: with colour slots 0 and 1 configured with the same render target, after
`GetColorBufferSurface(0)` and `GetColorBufferSurface(1)` both slots hold surface 0,
which is marked with index 1: the occupant of slot 0 does not carry index 0. Emptying
slot 1 afterwards clears the mark of surface 0 while slot 0 still holds it. -/
theorem slot_marks_broken_by_shared_surface :
    (Example.aliasedSlots.render_targets 0).target = some 0 ∧
    (Example.aliasedSlots.render_targets 1).target = some 0 ∧
    (Example.aliasedSlots.surfaces 0).is_target = true ∧
    (Example.aliasedSlots.surfaces 0).index = 1 ∧
    SlotAliased Example.aliasedSlots ∧
    ((Example.aliasedSlots.SetEmptyColorBuffer 1).render_targets 0).target = some 0 ∧
    ((Example.aliasedSlots.SetEmptyColorBuffer 1).surfaces 0).is_target = false := by
  decide!

end TextureCache
end VideoCommon

namespace VideoCommon
namespace TextureCache

/-- C31 at the cache holding two one-level fragments, reconstructed into a two-level surface. -/
theorem TryReconstructSurface_succeeds_iff_witness :
    ([0, 1] : List Nat).length < 2 ^ 32 ∧
    (TryReconstructSurface Example.backend Example.fragments [0, 1]
      (Example.texture 4 4 2 PixelFormat.R16U) 0x100000).2.isSome = true ∧
    ((TryReconstructSurface Example.backend Example.fragments [0, 1]
        (Example.texture 4 4 2 PixelFormat.R16U) 0x100000).2.isSome = true ↔
      ((Example.texture 4 4 2 PixelFormat.R16U).target ≠ SurfaceTarget.Texture3D ∧
       (∀ s ∈ [0, 1],
          ((GetUncachedSurface Example.backend Example.fragments 0x100000
            (Example.texture 4 4 2 PixelFormat.R16U)).1.surfaces s).params.is_layered = false ∧
          ((GetUncachedSurface Example.backend Example.fragments 0x100000
            (Example.texture 4 4 2 PixelFormat.R16U)).1.surfaces s).params.num_levels ≤ 1) ∧
       (∃ s ∈ [0, 1],
          overlapMatches Example.backend
            (GetUncachedSurface Example.backend Example.fragments 0x100000
              (Example.texture 4 4 2 PixelFormat.R16U)).1
            (GetUncachedSurface Example.backend Example.fragments 0x100000
              (Example.texture 4 4 2 PixelFormat.R16U)).2 s = true) ∧
       (Example.backend.use_accurate_gpu_emulation = true →
          ∀ s ∈ [0, 1],
            overlapMatches Example.backend
              (GetUncachedSurface Example.backend Example.fragments 0x100000
                (Example.texture 4 4 2 PixelFormat.R16U)).1
              (GetUncachedSurface Example.backend Example.fragments 0x100000
                (Example.texture 4 4 2 PixelFormat.R16U)).2 s = true))) :=
  ⟨by decide, by decide!,
    (TryReconstructSurface_succeeds_iff Example.backend Example.fragments [0, 1]
      (Example.texture 4 4 2 PixelFormat.R16U) 0x100000 (by decide)).1⟩

/-- C32 (amended) at the cache holding two one-level fragments, the first one modified. -/
theorem TryReconstructSurface_post_witness :
    (TryReconstructSurface Example.backend Example.fragments [0, 1]
      (Example.texture 4 4 2 PixelFormat.R16U) 0x100000).2.isSome = true ∧
    (∀ s ∈ [0, 1], s < Example.fragments.num_surfaces ∧
      (Example.fragments.surfaces s).is_registered = true) ∧
    (∀ s ∈ [0, 1], Example.fragments.Shielded s = false) ∧
    Example.backend.GetPointer 0x100000 ≠ 0 ∧
    Example.backend.GpuToCpuAddress 0x100000 = some 0x100000 ∧
    (∀ s ∈ [0, 1],
      ((TryReconstructSurface Example.backend Example.fragments [0, 1]
        (Example.texture 4 4 2 PixelFormat.R16U) 0x100000).1.surfaces s).is_registered =
        false) ∧
    ((TryReconstructSurface Example.backend Example.fragments [0, 1]
      (Example.texture 4 4 2 PixelFormat.R16U) 0x100000).1.surfaces
      (GetUncachedSurface Example.backend Example.fragments 0x100000
        (Example.texture 4 4 2 PixelFormat.R16U)).2).is_modified =
      [0, 1].any (fun s =>
        overlapMatches Example.backend
          (GetUncachedSurface Example.backend Example.fragments 0x100000
            (Example.texture 4 4 2 PixelFormat.R16U)).1
          (GetUncachedSurface Example.backend Example.fragments 0x100000
            (Example.texture 4 4 2 PixelFormat.R16U)).2 s &&
          (Example.fragments.surfaces s).is_modified) :=
  ⟨by decide!, by decide!, by decide!, by decide!, by decide!,
    (TryReconstructSurface_post Example.backend Example.fragments [0, 1]
      (Example.texture 4 4 2 PixelFormat.R16U) 0x100000 0x100000 (by decide!) (by decide!)
      (by decide!) (by decide!) (by decide!)).2.2.1,
    (TryReconstructSurface_post Example.backend Example.fragments [0, 1]
      (Example.texture 4 4 2 PixelFormat.R16U) 0x100000 0x100000 (by decide!) (by decide!)
      (by decide!) (by decide!) (by decide!)).2.2.2.2.2.2⟩

/-- C37 at a reconstruction that fails because the overlap has two mip levels. -/
theorem TryReconstructSurface_failure_atomic_witness :
    (TryReconstructSurface Example.backend Example.oneSurface [0]
      (Example.texture 8 8 3 PixelFormat.Z16) 0x100000).2 = none ∧
    (TryReconstructSurface Example.backend Example.oneSurface [0]
      (Example.texture 8 8 3 PixelFormat.Z16) 0x100000).1.registry =
      Example.oneSurface.registry ∧
    (TryReconstructSurface Example.backend Example.oneSurface [0]
      (Example.texture 8 8 3 PixelFormat.Z16) 0x100000).1.ticks = Example.oneSurface.ticks :=
  ⟨by decide!,
    (TryReconstructSurface_failure_atomic Example.backend Example.oneSurface [0]
      (Example.texture 8 8 3 PixelFormat.Z16) 0x100000 (by decide!)).1,
    (TryReconstructSurface_failure_atomic Example.backend Example.oneSurface [0]
      (Example.texture 8 8 3 PixelFormat.Z16) 0x100000 (by decide!)).2.2.2.1⟩

/-- C38 (amended) at the run that resolves colour slot 0 once. -/
theorem slot_marks_consistent_witness :
    (∀ op ∈ [Op.GetColorBufferSurface 0 true], op.inRange = true) ∧
    (∀ k, k ≤ [Op.GetColorBufferSurface 0 true].length →
      ¬ SlotAliased (run Example.backend (init Example.renderSetup)
        ([Op.GetColorBufferSurface 0 true].take k))) ∧
    ((run Example.backend (init Example.renderSetup)
      [Op.GetColorBufferSurface 0 true]).render_targets 0).target = some 0 ∧
    (∀ i S, ((run Example.backend (init Example.renderSetup)
        [Op.GetColorBufferSurface 0 true]).render_targets i).target = some S →
      i < NumRenderTargets ∧
      S < (run Example.backend (init Example.renderSetup)
        [Op.GetColorBufferSurface 0 true]).num_surfaces ∧
      ((run Example.backend (init Example.renderSetup)
        [Op.GetColorBufferSurface 0 true]).surfaces S).is_target = true ∧
      ((run Example.backend (init Example.renderSetup)
        [Op.GetColorBufferSurface 0 true]).surfaces S).index = i) :=
  ⟨by decide!, by decide!, by decide!,
    (slot_marks_consistent Example.backend Example.renderSetup
      [Op.GetColorBufferSurface 0 true] (by decide!) (by decide!)).1⟩

/-- C40 at the cache holding one modified surface. -/
theorem FlushRegion_idempotent_witness :
    Example.oneModified.BucketsExact ∧ 0x100000 + 0x1000 < 2 ^ 64 ∧
    (Example.oneModified.surfaces 0).is_modified = true ∧
    ((Example.oneModified.FlushRegion 0x100000 0x1000).surfaces 0).is_modified = false ∧
    (Example.oneModified.FlushRegion 0x100000 0x1000).FlushRegion 0x100000 0x1000 =
      Example.oneModified.FlushRegion 0x100000 0x1000 :=
  ⟨oneModified_inv.toBucketsExact, by decide, by decide!, by decide!,
    (FlushRegion_idempotent Example.oneModified oneModified_inv.toBucketsExact 0x100000 0x1000
      (by decide)).2.2.2.2.2.2.1⟩

end TextureCache
end VideoCommon

namespace VideoCommon
namespace TextureCache

theorem RegistryInv.core {c : TextureCache} (h : c.RegistryInv) : c.RegistryCore :=
  { toBucketsExact := h.toBucketsExact
    buckets_nodup := h.buckets_nodup
    index := fun s a hl => (h.index s a).mp hl
    fresh := h.fresh }

theorem CacheInv.toCore {B : Backend} {c : TextureCache} (h : CacheInv B c)
    (hr : ∀ s, (c.surfaces s).is_registered = true →
      (c.surfaces s).cache_addr < (c.surfaces s).cache_addr_end ∧
        (c.surfaces s).cache_addr_end < 2 ^ 64) : c.RegistryCore := by
  refine { buckets := ?_, ranges := hr, picked := h.picked, buckets_nodup := ?_,
           index := fun s a hl => h.index a s hl, fresh := h.fresh }
  · intro s p
    have hc := h.count s p
    constructor
    · intro hm
      have hpos : 0 < (c.registry p).count s := List.count_pos_iff.mpr hm
      by_cases hcond : (c.surfaces s).is_registered = true ∧
          p ∈ pageRange (page (c.surfaces s).cache_addr)
            (page (sub64 (c.surfaces s).cache_addr_end 1))
      · have hrs := hr s hcond.1
        have := hcond.2
        rw [sub64_one (by omega) hrs.2, mem_pageRange] at this
        exact ⟨hcond.1, this.1, this.2⟩
      · rw [if_neg hcond] at hc; omega
    · rintro ⟨hreg, h1, h2⟩
      have hrs := hr s hreg
      have hcond : (c.surfaces s).is_registered = true ∧
          p ∈ pageRange (page (c.surfaces s).cache_addr)
            (page (sub64 (c.surfaces s).cache_addr_end 1)) := by
        refine ⟨hreg, ?_⟩
        rw [sub64_one (by omega) hrs.2, mem_pageRange]
        exact ⟨h1, h2⟩
      rw [if_pos hcond] at hc
      exact List.count_pos_iff.mp (by omega)
  · intro p
    rw [List.nodup_iff_count_le_one]
    intro s
    have hc := h.count s p
    split at hc <;> omega

theorem erasesEnd_of_registered (c : TextureCache) (hb : c.BucketsExact) (s : Nat)
    (hreg : (c.surfaces s).is_registered = true) : c.erasesEnd s = false := by
  have hr := hb.ranges s hreg
  unfold erasesEnd
  rw [sub64_one (by omega) hr.2]
  rw [Bool.eq_false_iff]
  intro h
  rw [List.any_eq_true] at h
  obtain ⟨p, hp, hne⟩ := h
  rw [mem_pageRange] at hp
  have := (hb.buckets s p).mpr ⟨hreg, hp.1, hp.2⟩
  simp [this] at hne

theorem Unregister_core (c : TextureCache) (hc : c.RegistryCore) (s : Nat) :
    (c.Unregister s).RegistryCore := by
  cases hs : c.Shielded s
  swap
  · rw [Unregister_of_shielded c s hs]; exact hc
  rw [Unregister_eq c s hs]
  refine { buckets := ?_, ranges := ?_, picked := ?_, buckets_nodup := ?_, index := ?_,
           fresh := ?_ }
  · intro t p
    simp only [mapBuckets_apply _ _ (pageRange_nodup _ _)]
    by_cases hts : t = s
    · subst hts
      simp only [Function.update_same, Bool.false_eq_true, false_and, iff_false]
      split
      · intro hm
        exact absurd hm (List.Nodup.not_mem_erase (hc.buckets_nodup p))
      · rename_i hnp
        intro hm
        apply hnp
        have hx := (hc.buckets t p).mp hm
        have hr := hc.ranges t hx.1
        rw [sub64_one (by omega) hr.2, mem_pageRange]
        exact hx.2
    · simp only [Function.update_noteq hts]
      split
      · rw [List.mem_erase_of_ne hts]; exact hc.buckets t p
      · exact hc.buckets t p
  · intro t
    by_cases hts : t = s
    · subst hts; simp
    · simp only [Function.update_noteq hts]; exact hc.ranges t
  · intro t
    by_cases hts : t = s
    · subst hts; simp only [Function.update_same]; exact hc.picked t
    · simp only [Function.update_noteq hts]; exact hc.picked t
  · intro p
    simp only [mapBuckets_apply _ _ (pageRange_nodup _ _)]
    split
    · exact List.Nodup.erase _ (hc.buckets_nodup p)
    · exact hc.buckets_nodup p
  · intro t a hl
    by_cases ha : a = (c.surfaces s).cache_addr
    · subst ha
      simp only [Function.update_same] at hl
      cases hl
    · simp only [Function.update_noteq ha] at hl
      have hx := hc.index t a hl
      by_cases hts : t = s
      · subst hts; exact absurd hx.2.symm ha
      · simp only [Function.update_noteq hts]; exact hx
  · intro t ht
    by_cases hts : t = s
    · subst hts; simp
    · simp only [Function.update_noteq hts]; exact hc.fresh t ht

theorem Unregister_erased_end (c : TextureCache) (hb : c.BucketsExact) (s : Nat)
    (hreg : (c.surfaces s).is_registered = true) :
    (c.Unregister s).erased_end = c.erased_end := by
  cases hs : c.Shielded s
  · rw [Unregister_eq c s hs]
    show (c.erased_end || c.erasesEnd s) = c.erased_end
    rw [erasesEnd_of_registered c hb s hreg, Bool.or_false]
  · rw [Unregister_of_shielded c s hs]

theorem foldl_Unregister_surfaces (L : List Nat) (c : TextureCache) (t : Nat) :
    (L.foldl Unregister c).surfaces t =
      if t ∈ L ∧ c.Shielded t = false then { c.surfaces t with is_registered := false }
      else c.surfaces t := by
  induction L generalizing c with
  | nil => simp
  | cons s rest ih =>
    simp only [List.foldl_cons]
    rw [ih (c.Unregister s), Unregister_shielded_other, Unregister_surfaces]
    by_cases hts : t = s
    · subst hts
      cases hsh : c.Shielded t <;> simp [hsh]
    · by_cases hm : t ∈ rest
      · simp [hts, hm]
      · simp [hts, hm]

theorem foldl_Unregister_core (L : List Nat) (c : TextureCache) (hc : c.RegistryCore) :
    (L.foldl Unregister c).RegistryCore := by
  induction L generalizing c with
  | nil => exact hc
  | cons s rest ih =>
    simp only [List.foldl_cons]
    exact ih _ (Unregister_core c hc s)

theorem foldl_Unregister_erased_end (L : List Nat) (c : TextureCache) (hc : c.RegistryCore)
    (hn : L.Nodup) (hreg : ∀ s ∈ L, (c.surfaces s).is_registered = true) :
    (L.foldl Unregister c).erased_end = c.erased_end := by
  induction L generalizing c with
  | nil => rfl
  | cons s rest ih =>
    have hsn : s ∉ rest := (List.nodup_cons.mp hn).1
    simp only [List.foldl_cons]
    rw [ih _ (Unregister_core c hc s) (List.nodup_cons.mp hn).2,
      Unregister_erased_end c hc.toBucketsExact s (hreg s (List.mem_cons_self _ _))]
    intro t ht
    have hts : t ≠ s := fun h => hsn (h ▸ ht)
    rw [Unregister_surfaces]
    simp only [hts, false_and, if_false]
    exact hreg t (List.mem_cons_of_mem _ ht)

end TextureCache
end VideoCommon

namespace VideoCommon
namespace TextureCache

theorem DeduceFromOverlaps_of_query (B : Backend) (c : TextureCache)
    (hp : ∀ s, (c.surfaces s).is_picked = false) (params : SurfaceParams) (cache_addr : Nat) :
    (DeduceFromOverlaps B c params cache_addr).1 = c ∧
    ((c.GetSurfacesInRegion cache_addr (B.GetGuestSizeInBytes params)).2 = [] →
      (DeduceFromOverlaps B c params cache_addr).2 =
        { type := DeductionType.DeductionIncomplete, surface := none }) ∧
    (∀ S, (c.GetSurfacesInRegion cache_addr (B.GetGuestSizeInBytes params)).2 = [S] →
      (DeduceFromOverlaps B c params cache_addr).2 =
        { type := DeductionType.DeductionComplete, surface := some S }) ∧
    (∀ a b rest,
      (c.GetSurfacesInRegion cache_addr (B.GetGuestSizeInBytes params)).2 = a :: b :: rest →
      (DeduceFromOverlaps B c params cache_addr).2 =
        { type := DeductionType.DeductionFailed, surface := none }) := by
  have hst := GetSurfacesInRegion_state c hp cache_addr (B.GetGuestSizeInBytes params)
  obtain ⟨L, hL⟩ : ∃ L, (c.GetSurfacesInRegion cache_addr (B.GetGuestSizeInBytes params)).2 = L :=
    ⟨_, rfl⟩
  have hq : c.GetSurfacesInRegion cache_addr (B.GetGuestSizeInBytes params) = (c, L) :=
    Prod.ext hst hL
  unfold DeduceFromOverlaps
  simp only [hq]
  refine ⟨?_, ?_, ?_, ?_⟩
  · rcases L with _ | ⟨x, _ | ⟨y, rest⟩⟩ <;> rfl
  · intro h; rw [h]
  · intro S h; rw [h]
  · intro a b rest h; rw [h]

/-- C26 (amended): the deduction classification. In every state between two calls (no picked
mark set), `DeduceSurface` leaves the whole state as it was (it creates no surface
and changes neither the registered set nor the page buckets, the exact-address
index or the reserve pool) and returns: Failed for an address that fails
translation; Failed when the exact-address index entry does not fully match the
topology of the request; Complete with the exact-address index entry when that
entry fully matches the topology, matches the structure and matches the target;
and otherwise Incomplete when the overlap query over the candidate range finds
no surface, Complete with the surface it finds when it finds exactly one, and
Failed when it finds two or more. The query never lists a surface twice; and
where the page buckets are exact and the candidate range does not wrap around,
the surfaces it finds are exactly the registered surfaces whose byte range
intersects the candidate range, so that the three cases are: no registered
surface overlaps, a sole registered surface overlaps, two different registered
surfaces overlap. -/
theorem DeduceSurface_classification (B : Backend) (c : TextureCache) (gpu_addr : Nat)
    (params : SurfaceParams) (hp : ∀ s, (c.surfaces s).is_picked = false) :
    (DeduceSurface B c gpu_addr params).1 = c ∧
    (B.GetPointer gpu_addr = 0 →
      (DeduceSurface B c gpu_addr params).2 =
        { type := DeductionType.DeductionFailed, surface := none }) ∧
    (B.GetPointer gpu_addr ≠ 0 →
      (∀ S, c.l1_cache (B.GetPointer gpu_addr) = some S →
        B.MatchesTopology (c.surfaces S).params params ≠ MatchTopologyResult.FullMatch →
        (DeduceSurface B c gpu_addr params).2 =
          { type := DeductionType.DeductionFailed, surface := none }) ∧
      (∀ S, c.l1_cache (B.GetPointer gpu_addr) = some S →
        B.MatchesTopology (c.surfaces S).params params = MatchTopologyResult.FullMatch →
        B.MatchesStructure (c.surfaces S).params params ≠ MatchStructureResult.None →
        (c.surfaces S).MatchTarget params.target = true →
        (DeduceSurface B c gpu_addr params).2 =
          { type := DeductionType.DeductionComplete, surface := some S }) ∧
      ((c.l1_cache (B.GetPointer gpu_addr) = none ∨
          ∃ S, c.l1_cache (B.GetPointer gpu_addr) = some S ∧
            B.MatchesTopology (c.surfaces S).params params = MatchTopologyResult.FullMatch ∧
            (B.MatchesStructure (c.surfaces S).params params = MatchStructureResult.None ∨
              (c.surfaces S).MatchTarget params.target = false)) →
        ((c.GetSurfacesInRegion (B.GetPointer gpu_addr) (B.GetGuestSizeInBytes params)).2 = [] →
          (DeduceSurface B c gpu_addr params).2 =
            { type := DeductionType.DeductionIncomplete, surface := none }) ∧
        (∀ S,
          (c.GetSurfacesInRegion (B.GetPointer gpu_addr) (B.GetGuestSizeInBytes params)).2 =
            [S] →
          (DeduceSurface B c gpu_addr params).2 =
            { type := DeductionType.DeductionComplete, surface := some S }) ∧
        (∀ a b rest,
          (c.GetSurfacesInRegion (B.GetPointer gpu_addr) (B.GetGuestSizeInBytes params)).2 =
            a :: b :: rest →
          (DeduceSurface B c gpu_addr params).2 =
            { type := DeductionType.DeductionFailed, surface := none }) ∧
        (c.BucketsExact →
          B.GetPointer gpu_addr + B.GetGuestSizeInBytes params < 2 ^ 64 →
          ((∀ s, ¬ ((c.surfaces s).is_registered = true ∧
              RangesIntersect (c.surfaces s).cache_addr (c.surfaces s).cache_addr_end
                (B.GetPointer gpu_addr)
                (B.GetPointer gpu_addr + B.GetGuestSizeInBytes params))) →
            (DeduceSurface B c gpu_addr params).2 =
              { type := DeductionType.DeductionIncomplete, surface := none }) ∧
          (∀ S, (∀ s, ((c.surfaces s).is_registered = true ∧
              RangesIntersect (c.surfaces s).cache_addr (c.surfaces s).cache_addr_end
                (B.GetPointer gpu_addr)
                (B.GetPointer gpu_addr + B.GetGuestSizeInBytes params)) ↔ s = S) →
            (DeduceSurface B c gpu_addr params).2 =
              { type := DeductionType.DeductionComplete, surface := some S }) ∧
          (∀ a b, a ≠ b →
            ((c.surfaces a).is_registered = true ∧
              RangesIntersect (c.surfaces a).cache_addr (c.surfaces a).cache_addr_end
                (B.GetPointer gpu_addr)
                (B.GetPointer gpu_addr + B.GetGuestSizeInBytes params)) →
            ((c.surfaces b).is_registered = true ∧
              RangesIntersect (c.surfaces b).cache_addr (c.surfaces b).cache_addr_end
                (B.GetPointer gpu_addr)
                (B.GetPointer gpu_addr + B.GetGuestSizeInBytes params)) →
            (DeduceSurface B c gpu_addr params).2 =
              { type := DeductionType.DeductionFailed, surface := none })))) ∧
    (c.GetSurfacesInRegion (B.GetPointer gpu_addr) (B.GetGuestSizeInBytes params)).2.Nodup ∧
    (c.BucketsExact → B.GetPointer gpu_addr + B.GetGuestSizeInBytes params < 2 ^ 64 →
      ∀ s, s ∈ (c.GetSurfacesInRegion (B.GetPointer gpu_addr)
          (B.GetGuestSizeInBytes params)).2 ↔
        ((c.surfaces s).is_registered = true ∧
          RangesIntersect (c.surfaces s).cache_addr (c.surfaces s).cache_addr_end
            (B.GetPointer gpu_addr) (B.GetPointer gpu_addr + B.GetGuestSizeInBytes params))) := by
  have hov := DeduceFromOverlaps_of_query B c hp params (B.GetPointer gpu_addr)
  refine ⟨?_, ?_, ?_, GetSurfacesInRegion_nodup c hp _ _, ?_⟩
  · unfold DeduceSurface
    dsimp only
    split_ifs
    · rfl
    · split
      · split_ifs
        · rfl
        · rfl
        · exact hov.1
      · exact hov.1
  · intro h0
    unfold DeduceSurface
    simp [h0]
  · intro hptr
    refine ⟨?_, ?_, ?_⟩
    · intro S hl1 htop
      unfold DeduceSurface
      simp [hptr, hl1, htop]
    · intro S hl1 htop hstr htgt
      unfold DeduceSurface
      simp [hptr, hl1, htop, hstr, htgt]
    · intro hcase
      have heq : (DeduceSurface B c gpu_addr params).2 =
          (DeduceFromOverlaps B c params (B.GetPointer gpu_addr)).2 := by
        unfold DeduceSurface
        rcases hcase with hl1 | ⟨S, hl1, htop, hno⟩
        · simp [hptr, hl1]
        · rcases hno with hno | hno
          · simp [hptr, hl1, htop, hno]
          · simp [hptr, hl1, htop, hno]
      rw [heq]
      refine ⟨hov.2.1, hov.2.2.1, hov.2.2.2, ?_⟩
      intro hb hwrap
      exact (DeduceFromOverlaps_classify B c hb params (B.GetPointer gpu_addr) hwrap).2
  · intro hb hwrap
    exact mem_GetSurfacesInRegion_iff c hb _ _ hwrap

/-- C26 (amended) at the cache holding one registered surface, probed for a texture of the
same format that starts at its mip level 1: the overlap query finds that surface
alone and the deduction is Complete with it. -/
theorem DeduceSurface_classification_witness :
    (∀ s, (Example.oneSurface.surfaces s).is_picked = false) ∧
    (DeduceSurface Example.backend Example.oneSurface 0x100000
      (Example.texture 4 4 2 PixelFormat.Z16)).1 = Example.oneSurface ∧
    (DeduceSurface Example.backend Example.oneSurface 0x100000
      (Example.texture 4 4 2 PixelFormat.Z16)).2 =
        { type := DeductionType.DeductionComplete, surface := some 0 } ∧
    Example.oneSurface.l1_cache (Example.backend.GetPointer 0x100020) = none ∧
    (Example.oneSurface.GetSurfacesInRegion (Example.backend.GetPointer 0x100020)
      (Example.backend.GetGuestSizeInBytes (Example.texture 2 2 1 PixelFormat.Z16))).2 = [0] ∧
    (DeduceSurface Example.backend Example.oneSurface 0x100020
      (Example.texture 2 2 1 PixelFormat.Z16)).2 =
        { type := DeductionType.DeductionComplete, surface := some 0 } :=
  ⟨oneSurface_inv.picked,
    (DeduceSurface_classification Example.backend Example.oneSurface 0x100000
      (Example.texture 4 4 2 PixelFormat.Z16) oneSurface_inv.picked).1,
    ((DeduceSurface_classification Example.backend Example.oneSurface 0x100000
      (Example.texture 4 4 2 PixelFormat.Z16) oneSurface_inv.picked).2.2.1
        (by decide!)).2.1 0 (by decide!) (by decide!) (by decide!) (by decide!),
    by decide!, by decide!,
    (((DeduceSurface_classification Example.backend Example.oneSurface 0x100020
      (Example.texture 2 2 1 PixelFormat.Z16) oneSurface_inv.picked).2.2.1
        (by decide!)).2.2 (Or.inl (by decide!))).2.1 0 (by decide!)⟩

end TextureCache
end VideoCommon

namespace VideoCommon
namespace TextureCache

theorem RegistryCore.of_run (B : Backend) (m : Maxwell3D) (ops : List Op) (n : Nat)
    (hnum : (run B (init m) ops).num_surfaces = n)
    (hr : ∀ s, s < n → ((run B (init m) ops).surfaces s).is_registered = true →
      ((run B (init m) ops).surfaces s).cache_addr <
          ((run B (init m) ops).surfaces s).cache_addr_end ∧
        ((run B (init m) ops).surfaces s).cache_addr_end < 2 ^ 64) :
    (run B (init m) ops).RegistryCore := by
  have hinv := run_cacheInv B (init m) (init_cacheInv B m) ops
  exact hinv.toCore (fun s hs => hr s (hnum ▸ hinv.created s hs) hs)

theorem guardCollided_core : Example.guardCollided.RegistryCore :=
  RegistryCore.of_run Example.backend Example.renderSetup _ 2 (by decide!) (by decide!)

theorem Unregister_l1 (c : TextureCache) (s a : Nat) :
    ((c.Unregister s).l1_cache a = c.l1_cache a ∨ (c.Unregister s).l1_cache a = none) ∧
    ((c.surfaces s).cache_addr ≠ a ∨ c.Shielded s = true →
      (c.Unregister s).l1_cache a = c.l1_cache a) := by
  cases hs : c.Shielded s
  · rw [Unregister_eq c s hs]
    by_cases ha : a = (c.surfaces s).cache_addr
    · subst ha
      refine ⟨Or.inr (by simp), ?_⟩
      rintro (h | h)
      · exact absurd rfl h
      · cases h
    · exact ⟨Or.inl (by simp [Function.update_noteq ha]),
        fun _ => by simp [Function.update_noteq ha]⟩
  · rw [Unregister_of_shielded c s hs]
    exact ⟨Or.inl rfl, fun _ => rfl⟩

theorem Unregister_cache_addr (c : TextureCache) (s t : Nat) :
    ((c.Unregister s).surfaces t).cache_addr = (c.surfaces t).cache_addr := by
  rw [Unregister_surfaces]
  split <;> rfl

theorem foldl_Unregister_l1 (L : List Nat) (c : TextureCache) (a : Nat) :
    ((L.foldl Unregister c).l1_cache a = c.l1_cache a ∨
      (L.foldl Unregister c).l1_cache a = none) ∧
    ((∀ s ∈ L, c.Shielded s = false → (c.surfaces s).cache_addr ≠ a) →
      (L.foldl Unregister c).l1_cache a = c.l1_cache a) := by
  induction L generalizing c with
  | nil => exact ⟨Or.inl rfl, fun _ => rfl⟩
  | cons s rest ih =>
    simp only [List.foldl_cons]
    obtain ⟨h1, h2⟩ := ih (c.Unregister s)
    obtain ⟨u1, u2⟩ := Unregister_l1 c s a
    refine ⟨?_, ?_⟩
    · rcases h1 with h1 | h1
      · rcases u1 with u1 | u1
        · exact Or.inl (h1.trans u1)
        · exact Or.inr (h1.trans u1)
      · exact Or.inr h1
    · intro h
      rw [h2, u2]
      · cases hs : c.Shielded s
        · exact Or.inl (h s (List.mem_cons_self _ _) hs)
        · exact Or.inr rfl
      · intro t ht hsh
        rw [Unregister_shielded_other] at hsh
        rw [Unregister_cache_addr]
        exact h t (List.mem_cons_of_mem _ ht) hsh

theorem foldl_Unregister_guard (L : List Nat) (c : TextureCache) :
    (L.foldl Unregister c).guard_render_targets = c.guard_render_targets := by
  induction L generalizing c with
  | nil => rfl
  | cons s rest ih =>
    simp only [List.foldl_cons]
    rw [ih, Unregister_guard]

/-- C12 (amended): `RecycleSurface` unregisters the overlaps first. For a state whose page
buckets are exact and whose exact-address index names registered surfaces at their
own address, and an overlap list of distinct registered surfaces, the strategy is
picked and carried out on the state left by the unregistration loop; in that
state every overlap that is not shielded by the render-target guard has its
registered flag clear, is absent from the page buckets and the exact-address
index and sits in the reserve list of its params, every shielded overlap is
still registered, no surface object has been created yet, the loop has added
nothing but `-1` page-count notifications to the trace (no write-back, no load,
no registration), and every `erase` of the loop found its surface. -/
theorem RecycleSurface_unregisters_first (B : Backend) (c : TextureCache) (overlaps : List Nat)
    (params : SurfaceParams) (gpu_addr : Nat) (preserve_contents : Bool)
    (untopological : MatchTopologyResult) (hc : c.RegistryCore) (hn : overlaps.Nodup)
    (hreg : ∀ s ∈ overlaps, (c.surfaces s).is_registered = true) :
    RecycleSurface B c overlaps params gpu_addr preserve_contents untopological =
      recycleAfterUnregister B (overlaps.foldl Unregister c) overlaps params gpu_addr
        preserve_contents untopological ∧
    (∀ s ∈ overlaps, c.Shielded s = false →
      ((overlaps.foldl Unregister c).surfaces s).is_registered = false ∧
      (∀ p, s ∉ (overlaps.foldl Unregister c).registry p) ∧
      (∀ a, (overlaps.foldl Unregister c).l1_cache a ≠ some s) ∧
      s ∈ (overlaps.foldl Unregister c).surface_reserve (c.surfaces s).params) ∧
    (∀ s ∈ overlaps, c.Shielded s = true →
      ((overlaps.foldl Unregister c).surfaces s).is_registered = true) ∧
    (overlaps.foldl Unregister c).num_surfaces = c.num_surfaces ∧
    (∀ e, e ∈ (overlaps.foldl Unregister c).events →
      e ∈ c.events ∨ ∃ a b, e = Event.UpdatePagesCachedCount a b (-1)) ∧
    (overlaps.foldl Unregister c).erased_end = c.erased_end := by
  have h1 := foldl_Unregister_core overlaps c hc
  have h3 := foldl_Unregister_surfaces overlaps c
  refine ⟨RecycleSurface_eq _ _ _ _ _ _ _, ?_, ?_, (foldl_Unregister_frame overlaps c).1,
    (foldl_Unregister_frame overlaps c).2.2.2, foldl_Unregister_erased_end overlaps c hc hn hreg⟩
  · intro s hs hsh
    have hflag : ((overlaps.foldl Unregister c).surfaces s).is_registered = false := by
      rw [h3 s, if_pos ⟨hs, hsh⟩]
    refine ⟨hflag, ?_, ?_, foldl_Unregister_reserve_self overlaps c s hs hsh⟩
    · intro p
      exact not_mem_bucket_of_unregistered _ h1.toBucketsExact s p hflag
    · intro a ha
      have := (h1.index s a ha).1
      rw [hflag] at this; cases this
  · intro s hs hsh
    rw [h3 s, if_neg (by rw [hsh]; simp)]
    exact hreg s hs

/-- C12 (amended) at the cache in which a protected render target and a texture are registered
at the same address, with the guard enabled: recycling over both leaves the render
target registered and unregisters the texture. -/
theorem RecycleSurface_unregisters_first_witness :
    Example.guardCollided.RegistryCore ∧ [0, 1].Nodup ∧
    (∀ s ∈ [0, 1], (Example.guardCollided.surfaces s).is_registered = true) ∧
    Example.guardCollided.l1_cache 0x100000 = some 1 ∧
    Example.guardCollided.Shielded 0 = true ∧
    Example.guardCollided.Shielded 1 = false ∧
    (([0, 1].foldl Unregister Example.guardCollided).surfaces 0).is_registered = true ∧
    (([0, 1].foldl Unregister Example.guardCollided).surfaces 1).is_registered = false ∧
    (∀ p, 1 ∉ ([0, 1].foldl Unregister Example.guardCollided).registry p) ∧
    ([0, 1].foldl Unregister Example.guardCollided).erased_end =
      Example.guardCollided.erased_end :=
  ⟨guardCollided_core, by decide, by decide!, by decide!, by decide!, by decide!,
    (RecycleSurface_unregisters_first Example.backend Example.guardCollided [0, 1]
      (Example.texture 4 4 1 PixelFormat.Z16) 0x100000 false MatchTopologyResult.None
      guardCollided_core (by decide) (by decide!)).2.2.1 0 (by decide) (by decide!),
    ((RecycleSurface_unregisters_first Example.backend Example.guardCollided [0, 1]
      (Example.texture 4 4 1 PixelFormat.Z16) 0x100000 false MatchTopologyResult.None
      guardCollided_core (by decide) (by decide!)).2.1 1 (by decide) (by decide!)).1,
    ((RecycleSurface_unregisters_first Example.backend Example.guardCollided [0, 1]
      (Example.texture 4 4 1 PixelFormat.Z16) 0x100000 false MatchTopologyResult.None
      guardCollided_core (by decide) (by decide!)).2.1 1 (by decide) (by decide!)).2.1,
    (RecycleSurface_unregisters_first Example.backend Example.guardCollided [0, 1]
      (Example.texture 4 4 1 PixelFormat.Z16) 0x100000 false MatchTopologyResult.None
      guardCollided_core (by decide) (by decide!)).2.2.2.2.2⟩

end TextureCache
end VideoCommon

namespace VideoCommon
namespace TextureCache

theorem InvalidateRegion_core (c : TextureCache) (hc : c.RegistryCore) (addr size : Nat)
    (hwrap : addr + size < 2 ^ 64) :
    (c.InvalidateRegion addr size).RegistryCore ∧
    (c.InvalidateRegion addr size).guard_render_targets = c.guard_render_targets ∧
    (∀ t, ((c.InvalidateRegion addr size).surfaces t) =
      if ((c.surfaces t).is_registered = true ∧
          RangesIntersect (c.surfaces t).cache_addr (c.surfaces t).cache_addr_end
            addr (addr + size)) ∧ c.Shielded t = false
      then { c.surfaces t with is_registered := false } else c.surfaces t) ∧
    (∀ e, e ∈ (c.InvalidateRegion addr size).events →
      e ∈ c.events ∨ ∃ a b, e = Event.UpdatePagesCachedCount a b (-1)) ∧
    (c.InvalidateRegion addr size).erased_end = c.erased_end ∧
    (∀ a, ((c.InvalidateRegion addr size).l1_cache a = c.l1_cache a ∨
        (c.InvalidateRegion addr size).l1_cache a = none) ∧
      ((∀ s, (c.surfaces s).is_registered = true →
          RangesIntersect (c.surfaces s).cache_addr (c.surfaces s).cache_addr_end
            addr (addr + size) →
          c.Shielded s = false → (c.surfaces s).cache_addr ≠ a) →
        (c.InvalidateRegion addr size).l1_cache a = c.l1_cache a)) := by
  rw [InvalidateRegion_eq c hc.picked]
  have hmem := mem_GetSurfacesInRegion_iff c hc.toBucketsExact addr size hwrap
  have h3 := foldl_Unregister_surfaces (c.GetSurfacesInRegion addr size).2 c
  refine ⟨foldl_Unregister_core _ c hc, foldl_Unregister_guard _ c, ?_,
    (foldl_Unregister_frame _ c).2.2.2,
    foldl_Unregister_erased_end _ c hc (GetSurfacesInRegion_nodup c hc.picked addr size)
      (fun s hs => ((hmem s).mp hs).1), ?_⟩
  · intro t
    rw [h3 t]
    by_cases hm : t ∈ (c.GetSurfacesInRegion addr size).2
    · have := (hmem t).mp hm
      simp only [hm, this, true_and, and_self]
    · have : ¬ ((c.surfaces t).is_registered = true ∧
          RangesIntersect (c.surfaces t).cache_addr (c.surfaces t).cache_addr_end
            addr (addr + size)) := fun h => hm ((hmem t).mpr h)
      simp only [hm, this, false_and, if_false]
  · intro a
    obtain ⟨l1, l2⟩ := foldl_Unregister_l1 (c.GetSurfacesInRegion addr size).2 c a
    refine ⟨l1, fun h => l2 (fun s hs hsh => ?_)⟩
    have := (hmem s).mp hs
    exact h s this.1 this.2 hsh

/-- C8 (amended): postcondition of `InvalidateRegion`. From a state whose page buckets are
exact and whose exact-address index names registered surfaces at their own
address, after `InvalidateRegion(addr, size)` every surface that was registered
and intersected `[addr, addr + size)` and is not shielded by the render-target
guard is unregistered: its flag is clear and it is absent from every page bucket
and from the exact-address index; an overlap query on the same region returns
only shielded surfaces, hence the empty list when the guard is off; the call adds
no write-back to the trace; every registered surface that did not intersect the
region is the object it was, still registered and in its buckets; every `erase`
found its surface; and the index gains no entry and keeps every entry whose
address is not the cache address of a surface that was unregistered. -/
theorem InvalidateRegion_post (c : TextureCache) (hc : c.RegistryCore) (addr size : Nat)
    (hwrap : addr + size < 2 ^ 64) :
    (∀ s, (c.surfaces s).is_registered = true →
      RangesIntersect (c.surfaces s).cache_addr (c.surfaces s).cache_addr_end addr (addr + size) →
      c.Shielded s = false →
        ((c.InvalidateRegion addr size).surfaces s).is_registered = false ∧
        (∀ p, s ∉ (c.InvalidateRegion addr size).registry p) ∧
        (∀ a, (c.InvalidateRegion addr size).l1_cache a ≠ some s)) ∧
    (∀ s, s ∈ ((c.InvalidateRegion addr size).GetSurfacesInRegion addr size).2 →
      c.Shielded s = true) ∧
    (c.guard_render_targets = false →
      ((c.InvalidateRegion addr size).GetSurfacesInRegion addr size).2 = []) ∧
    (∀ s, Event.FlushSurface s ∈ (c.InvalidateRegion addr size).events →
      Event.FlushSurface s ∈ c.events) ∧
    (∀ s, (c.surfaces s).is_registered = true →
      ¬ RangesIntersect (c.surfaces s).cache_addr (c.surfaces s).cache_addr_end
        addr (addr + size) →
        (c.InvalidateRegion addr size).surfaces s = c.surfaces s ∧
        (∀ p, page (c.surfaces s).cache_addr ≤ p →
          p ≤ page ((c.surfaces s).cache_addr_end - 1) →
          s ∈ (c.InvalidateRegion addr size).registry p)) ∧
    (c.InvalidateRegion addr size).erased_end = c.erased_end ∧
    (∀ a, ((c.InvalidateRegion addr size).l1_cache a = c.l1_cache a ∨
        (c.InvalidateRegion addr size).l1_cache a = none) ∧
      ((∀ s, (c.surfaces s).is_registered = true →
          RangesIntersect (c.surfaces s).cache_addr (c.surfaces s).cache_addr_end
            addr (addr + size) →
          c.Shielded s = false → (c.surfaces s).cache_addr ≠ a) →
        (c.InvalidateRegion addr size).l1_cache a = c.l1_cache a)) := by
  obtain ⟨h1, _, h3, h4, h5, h6⟩ := InvalidateRegion_core c hc addr size hwrap
  have hquery : ∀ s, s ∈ ((c.InvalidateRegion addr size).GetSurfacesInRegion addr size).2 →
      c.Shielded s = true := by
    intro s hs
    have := (mem_GetSurfacesInRegion_iff _ h1.toBucketsExact addr size hwrap s).mp hs
    rw [h3 s] at this
    by_cases hcase : ((c.surfaces s).is_registered = true ∧
        RangesIntersect (c.surfaces s).cache_addr (c.surfaces s).cache_addr_end
          addr (addr + size)) ∧ c.Shielded s = false
    · rw [if_pos hcase] at this
      exact absurd this.1 (by simp)
    · rw [if_neg hcase] at this
      cases hsh : c.Shielded s
      · exact absurd ⟨⟨this.1, this.2⟩, hsh⟩ hcase
      · rfl
  refine ⟨?_, hquery, ?_, ?_, ?_, h5, h6⟩
  · intro s hreg hint hsh
    have hflag : ((c.InvalidateRegion addr size).surfaces s).is_registered = false := by
      rw [h3 s, if_pos ⟨⟨hreg, hint⟩, hsh⟩]
    refine ⟨hflag, ?_, ?_⟩
    · intro p
      exact not_mem_bucket_of_unregistered _ h1.toBucketsExact s p hflag
    · intro a ha
      have := (h1.index s a ha).1
      rw [hflag] at this; cases this
  · intro hg
    apply List.eq_nil_iff_forall_not_mem.mpr
    intro s hs
    have := hquery s hs
    simp [Shielded, hg] at this
  · intro s hs
    rcases h4 _ hs with h | ⟨a, b, h⟩
    · exact h
    · cases h
  · intro s hreg hint
    have hsame : (c.InvalidateRegion addr size).surfaces s = c.surfaces s := by
      rw [h3 s, if_neg]
      rintro ⟨⟨_, h⟩, _⟩
      exact hint h
    refine ⟨hsame, ?_⟩
    intro p hp1 hp2
    apply (h1.buckets s p).mpr
    rw [hsame]
    exact ⟨hreg, hp1, hp2⟩

/-- C8 (amended) at the cache in which a protected render target and a texture are registered at
the same address, with the guard enabled: the invalidation unregisters the texture
and leaves the render target. -/
theorem InvalidateRegion_post_witness :
    Example.guardCollided.RegistryCore ∧ 0x100000 + 0x1000 < 2 ^ 64 ∧
    (Example.guardCollided.surfaces 1).is_registered = true ∧
    RangesIntersect (Example.guardCollided.surfaces 1).cache_addr
      (Example.guardCollided.surfaces 1).cache_addr_end 0x100000 (0x100000 + 0x1000) ∧
    Example.guardCollided.Shielded 1 = false ∧
    ((Example.guardCollided.InvalidateRegion 0x100000 0x1000).surfaces 1).is_registered =
      false ∧
    (∀ p, 1 ∉ (Example.guardCollided.InvalidateRegion 0x100000 0x1000).registry p) ∧
    (∀ s, s ∈ ((Example.guardCollided.InvalidateRegion 0x100000 0x1000).GetSurfacesInRegion
      0x100000 0x1000).2 → Example.guardCollided.Shielded s = true) ∧
    ((Example.guardCollided.InvalidateRegion 0x100000 0x1000).GetSurfacesInRegion
      0x100000 0x1000).2 = [0] :=
  ⟨guardCollided_core, by decide, by decide!, by decide!, by decide!,
    ((InvalidateRegion_post Example.guardCollided guardCollided_core 0x100000 0x1000
      (by decide)).1 1 (by decide!) (by decide!) (by decide!)).1,
    ((InvalidateRegion_post Example.guardCollided guardCollided_core 0x100000 0x1000
      (by decide)).1 1 (by decide!) (by decide!) (by decide!)).2.1,
    (InvalidateRegion_post Example.guardCollided guardCollided_core 0x100000 0x1000
      (by decide)).2.1,
    by decide!⟩

end TextureCache
end VideoCommon

namespace VideoCommon
namespace TextureCache

/-- C17 (amended): scenario C, the carved view. In a state whose page buckets are exact and
whose exact-address index names registered surfaces at their own address, let `S`
be the only registered surface whose range intersects the candidate range of a
translatable request, with full topology match, the requested guest range inside
`S`, the requested format, and a view `view` that `S` can emplace for the
request. If the exact-address step does not already resolve the request (that is,
when `S` is the exact-address entry, its structure does not match or the request
is a 3D target that `S` is not), then `GetSurface` returns `S` with that carved
view and leaves the whole cache state as it was: no `Register`, no `Unregister`,
registered flags, page buckets, exact-address index and reserve pool unchanged. -/
theorem GetSurface_carved_view (B : Backend) (c : TextureCache) (gpu_addr : Nat)
    (params : SurfaceParams) (preserve_contents is_render : Bool) (S view : Nat)
    (hc : c.RegistryCore) (hptr : B.GetPointer gpu_addr ≠ 0)
    (hsize : 0 < B.GetGuestSizeInBytes params)
    (hwrap : B.GetPointer gpu_addr + B.GetGuestSizeInBytes params < 2 ^ 64)
    (honly : ∀ s, ((c.surfaces s).is_registered = true ∧
      RangesIntersect (c.surfaces s).cache_addr (c.surfaces s).cache_addr_end
        (B.GetPointer gpu_addr) (B.GetPointer gpu_addr + B.GetGuestSizeInBytes params)) ↔
      s = S)
    (htop : B.MatchesTopology (c.surfaces S).params params = MatchTopologyResult.FullMatch)
    (hinside : (c.surfaces S).IsInside gpu_addr
      (add64 gpu_addr (B.GetGuestSizeInBytes params)) = true)
    (hformat : (c.surfaces S).MatchFormat params.pixel_format = true)
    (hview : B.EmplaceView (c.surfaces S) params gpu_addr (B.GetGuestSizeInBytes params) =
      some view)
    (hfast : c.l1_cache (B.GetPointer gpu_addr) = some S →
      (B.MatchesStructure (c.surfaces S).params params = MatchStructureResult.None ∨
        (params.target = SurfaceTarget.Texture3D ∧
          (c.surfaces S).params.target ≠ SurfaceTarget.Texture3D))) :
    (GetSurface B c gpu_addr params preserve_contents is_render).2 =
      (S, some (View.carved S view)) ∧
    (GetSurface B c gpu_addr params preserve_contents is_render).1 = c ∧
    (GetSurface B c gpu_addr params preserve_contents is_render).1.registry = c.registry ∧
    (GetSurface B c gpu_addr params preserve_contents is_render).1.l1_cache = c.l1_cache ∧
    (GetSurface B c gpu_addr params preserve_contents is_render).1.surface_reserve =
      c.surface_reserve ∧
    (∀ s, ((GetSurface B c gpu_addr params preserve_contents is_render).1.surfaces
      s).is_registered = (c.surfaces s).is_registered) := by
  have hq : c.GetSurfacesInRegion (B.GetPointer gpu_addr) (B.GetGuestSizeInBytes params) =
      (c, [S]) := by
    apply Prod.ext
    · exact GetSurfacesInRegion_state c hc.picked _ _
    · apply eq_singleton_of_nodup _ S (GetSurfacesInRegion_nodup c hc.picked _ _)
      intro s
      rw [mem_GetSurfacesInRegion_iff c hc.toBucketsExact _ _ hwrap s]
      exact honly s
  have hcarve := GetSurfaceFromOverlaps_carved B c gpu_addr params preserve_contents is_render
    (B.GetPointer gpu_addr) S view hq htop hinside hformat hview
  have hres : GetSurface B c gpu_addr params preserve_contents is_render =
      (c, (S, some (View.carved S view))) := by
    unfold GetSurface
    simp only [hptr, if_false]
    cases hl : c.l1_cache (B.GetPointer gpu_addr) with
    | none => exact hcarve
    | some t =>
      obtain ⟨htreg, htaddr⟩ := hc.index t _ hl
      have htS : t = S := by
        apply (honly t).mp
        refine ⟨htreg, ?_⟩
        have hr := hc.ranges t htreg
        rw [rangesIntersect_iff hr.1 (by omega)]
        omega
      subst htS
      simp only [htop, ne_eq, not_true_eq_false, if_false]
      have hcond : (decide (B.MatchesStructure (c.surfaces t).params params ≠
          MatchStructureResult.None) &&
          (decide (params.target ≠ SurfaceTarget.Texture3D) ||
            (c.surfaces t).MatchTarget params.target)) = false := by
        rcases hfast hl with h | ⟨h1, h2⟩
        · simp [h]
        · simp [h1, Surface.MatchTarget, h2]
      rw [hcond]
      exact hcarve
  rw [hres]
  exact ⟨rfl, rfl, rfl, rfl, rfl, fun _ => rfl⟩

/-- C17 (amended) at the cache holding a surface with four mip levels, for a request of its
mip level 1. -/
theorem GetSurface_carved_view_witness :
    Example.mipChain.RegistryCore ∧
    Example.backend.GetPointer 0x100020 ≠ 0 ∧
    Example.backend.MatchesTopology (Example.mipChain.surfaces 0).params
      (Example.texture 2 2 1 PixelFormat.R16U) = MatchTopologyResult.FullMatch ∧
    Example.backend.EmplaceView (Example.mipChain.surfaces 0)
      (Example.texture 2 2 1 PixelFormat.R16U) 0x100020
      (Example.backend.GetGuestSizeInBytes (Example.texture 2 2 1 PixelFormat.R16U)) = some 1 ∧
    ((GetSurface Example.backend Example.mipChain 0x100020
        (Example.texture 2 2 1 PixelFormat.R16U) true false).2 = (0, some (View.carved 0 1)) ∧
      (GetSurface Example.backend Example.mipChain 0x100020
        (Example.texture 2 2 1 PixelFormat.R16U) true false).1 = Example.mipChain ∧
      (GetSurface Example.backend Example.mipChain 0x100020
        (Example.texture 2 2 1 PixelFormat.R16U) true false).1.registry =
          Example.mipChain.registry ∧
      (GetSurface Example.backend Example.mipChain 0x100020
        (Example.texture 2 2 1 PixelFormat.R16U) true false).1.l1_cache =
          Example.mipChain.l1_cache ∧
      (GetSurface Example.backend Example.mipChain 0x100020
        (Example.texture 2 2 1 PixelFormat.R16U) true false).1.surface_reserve =
          Example.mipChain.surface_reserve ∧
      (∀ s, ((GetSurface Example.backend Example.mipChain 0x100020
        (Example.texture 2 2 1 PixelFormat.R16U) true false).1.surfaces s).is_registered =
          (Example.mipChain.surfaces s).is_registered)) :=
  ⟨mipChain_inv.core, by decide!, by decide!, by decide!,
    GetSurface_carved_view Example.backend Example.mipChain 0x100020
      (Example.texture 2 2 1 PixelFormat.R16U) true false 0 1 mipChain_inv.core (by decide!)
      (by decide!) (by decide!)
      (fun s => by
        constructor
        · intro h
          exact mipChain_registered s h.1
        · intro h
          subst h
          exact ⟨by decide!, by decide!⟩)
      (by decide!) (by decide!) (by decide!) (by decide!) (by decide!)⟩

end TextureCache
end VideoCommon

namespace VideoCommon
namespace TextureCache

theorem guardReleased_core : Example.guardReleased.RegistryCore :=
  RegistryCore.of_run Example.backend Example.renderSetup _ 2 (by decide!) (by decide!)

theorem guardReleased_reserveKeyed : Example.guardReleased.ReserveKeyed :=
  reserveKeyed_of_empty _ rfl

theorem GetSurface_of_3d_over_entry (B : Backend) (c : TextureCache) (gpu_addr : Nat)
    (params : SurfaceParams) (preserve_contents is_render : Bool) (S : Nat)
    (hc : c.RegistryCore) (hptr : B.GetPointer gpu_addr ≠ 0)
    (hsize : 0 < B.GetGuestSizeInBytes params)
    (hwrap : B.GetPointer gpu_addr + B.GetGuestSizeInBytes params < 2 ^ 64)
    (h3d : params.target = SurfaceTarget.Texture3D)
    (hl1 : c.l1_cache (B.GetPointer gpu_addr) = some S)
    (hS2d : (c.surfaces S).params.target ≠ SurfaceTarget.Texture3D)
    (hview : B.EmplaceView (c.surfaces S) params gpu_addr (B.GetGuestSizeInBytes params) =
      none) :
    ∃ L r, GetSurface B c gpu_addr params preserve_contents is_render =
        RecycleSurface B c L params gpu_addr preserve_contents r ∧
      S ∈ L ∧ L.Nodup ∧ (∀ s ∈ L, (c.surfaces s).is_registered = true) := by
  obtain ⟨hS, hSaddr⟩ := hc.index S _ hl1
  unfold GetSurface
  simp only [hptr, if_false, hl1]
  by_cases htop : B.MatchesTopology (c.surfaces S).params params = MatchTopologyResult.FullMatch
  · rw [if_neg (by simpa using htop)]
    have hcond : (decide (B.MatchesStructure (c.surfaces S).params params ≠
        MatchStructureResult.None) &&
        (decide (params.target ≠ SurfaceTarget.Texture3D) ||
          (c.surfaces S).MatchTarget params.target)) = false := by
      simp [h3d, Surface.MatchTarget, hS2d]
    rw [hcond]
    simp only [Bool.false_eq_true, if_false]
    have hmemS : S ∈ (c.GetSurfacesInRegion (B.GetPointer gpu_addr)
        (B.GetGuestSizeInBytes params)).2 := by
      rw [mem_GetSurfacesInRegion_iff c hc.toBucketsExact _ _ hwrap]
      refine ⟨hS, ?_⟩
      have hr := hc.ranges S hS
      rw [rangesIntersect_iff hr.1 (by omega)]
      omega
    obtain ⟨r, hr⟩ := GetSurfaceFromOverlaps_of_3d B c gpu_addr params preserve_contents
      is_render (B.GetPointer gpu_addr)
      (c.GetSurfacesInRegion (B.GetPointer gpu_addr) (B.GetGuestSizeInBytes params)).2
      (Prod.ext (GetSurfacesInRegion_state c hc.picked _ _) rfl)
      (List.ne_nil_of_mem hmemS) h3d
      (by
        intro x hx
        rw [hx, List.mem_singleton] at hmemS
        rw [← hmemS]; exact hview)
    refine ⟨_, r, hr, hmemS, GetSurfacesInRegion_nodup c hc.picked _ _, ?_⟩
    intro s hs
    exact ((mem_GetSurfacesInRegion_iff c hc.toBucketsExact _ _ hwrap s).mp hs).1
  · rw [if_pos (by simpa using htop)]
    refine ⟨[S], _, rfl, List.mem_singleton_self S, List.nodup_singleton S, ?_⟩
    intro s hs
    rw [List.mem_singleton] at hs
    rw [hs]; exact hS

/-- C16 (amended): scenario B, a 3D request over a 2D surface. In a state whose page buckets are
exact and whose exact-address index names registered surfaces at their own address
(reserve lists keyed by params), let `S` be the exact-address entry at the
request's cache address, a surface that is not a 3D texture and is not shielded
by the render-target guard, and let the request have a `Texture3D` target,
translate on both sides, and admit no carved view out of `S`. Then `GetSurface`
resolves through `RecycleSurface` over a set of distinct registered overlaps that
contains `S`, with strategy Flush; `S` is written back to guest memory if it was
modified, is no longer registered and sits in no page bucket on return, and the
surface returned is another surface, with the requested params and its main view,
registered on return. -/
theorem GetSurface_3d_over_2d (B : Backend) (c : TextureCache) (gpu_addr cpu_addr : Nat)
    (params : SurfaceParams) (preserve_contents is_render : Bool) (S : Nat)
    (hc : c.RegistryCore) (hres : c.ReserveKeyed)
    (hptr : B.GetPointer gpu_addr ≠ 0) (hcpu : B.GpuToCpuAddress gpu_addr = some cpu_addr)
    (hsize : 0 < B.GetGuestSizeInBytes params)
    (hwrap : B.GetPointer gpu_addr + B.GetGuestSizeInBytes params < 2 ^ 64)
    (h3d : params.target = SurfaceTarget.Texture3D)
    (hl1 : c.l1_cache (B.GetPointer gpu_addr) = some S)
    (hS2d : (c.surfaces S).params.target ≠ SurfaceTarget.Texture3D)
    (hguard : c.Shielded S = false)
    (hview : B.EmplaceView (c.surfaces S) params gpu_addr (B.GetGuestSizeInBytes params) =
      none) :
    ∃ L r,
      GetSurface B c gpu_addr params preserve_contents is_render =
        RecycleSurface B c L params gpu_addr preserve_contents r ∧
      S ∈ L ∧ L.Nodup ∧ (∀ s ∈ L, (c.surfaces s).is_registered = true) ∧
      PickStrategy B (L.foldl Unregister c) L params r = RecycleStrategy.Flush ∧
      (GetSurface B c gpu_addr params preserve_contents is_render).2.1 ≠ S ∧
      (GetSurface B c gpu_addr params preserve_contents is_render).2.2 =
        some (View.main (GetSurface B c gpu_addr params preserve_contents is_render).2.1) ∧
      ((GetSurface B c gpu_addr params preserve_contents is_render).1.surfaces
        (GetSurface B c gpu_addr params preserve_contents is_render).2.1).params = params ∧
      ((GetSurface B c gpu_addr params preserve_contents is_render).1.surfaces
        (GetSurface B c gpu_addr params preserve_contents is_render).2.1).is_registered = true ∧
      ((GetSurface B c gpu_addr params preserve_contents is_render).1.surfaces
        S).is_registered = false ∧
      (∀ p, S ∉ (GetSurface B c gpu_addr params preserve_contents is_render).1.registry p) ∧
      ((c.surfaces S).is_modified = true →
        Event.FlushSurface S ∈
          (GetSurface B c gpu_addr params preserve_contents is_render).1.events) := by
  obtain ⟨L, r, heq, hmem, hn, hreg⟩ := GetSurface_of_3d_over_entry B c gpu_addr params
    preserve_contents is_render S hc hptr hsize hwrap h3d hl1 hS2d hview
  have hflush := PickStrategy_of_3d B (L.foldl Unregister c) L params r h3d
  obtain ⟨F, R, hev, _, hF, _, _⟩ := recycle_flush_trace B c L params gpu_addr
    preserve_contents r hn hflush
  have hc1 := foldl_Unregister_core L c hc
  have hsurf1 := foldl_Unregister_surfaces L c
  have hfr := foldl_Unregister_frame L c
  have hlt : ∀ s ∈ L, s < c.num_surfaces := by
    intro s hs
    by_contra hge
    have := hc.fresh s (by omega)
    rw [hreg s hs] at this; cases this
  have hres1 := foldl_Unregister_reserveKeyed L c hres hlt
  have hM := foldl_FlushSurface_modificationOnly (sortByTick (L.foldl Unregister c) L)
    (L.foldl Unregister c)
  have hres2 := hM.reserveKeyed hres1
  have hS1 : ((L.foldl Unregister c).surfaces S).is_registered = false := by
    rw [hsurf1 S, if_pos ⟨hmem, hguard⟩]
  obtain ⟨e1, e2, e3, e4, e5, e6⟩ := InitializeSurface_effect B
    ((sortByTick (L.foldl Unregister c) L).foldl FlushSurface (L.foldl Unregister c)) hres2
    gpu_addr cpu_addr params preserve_contents hptr hcpu
  rw [heq] at *
  rw [RecycleSurface_eq, recycleAfterUnregister_of_flush _ _ _ _ _ _ _ hflush] at hev ⊢
  have hne : (InitializeSurface B
      ((sortByTick (L.foldl Unregister c) L).foldl FlushSurface (L.foldl Unregister c))
      gpu_addr params preserve_contents).2.1 ≠ S := by
    intro hEq
    rw [hEq] at e6
    rcases e6 with h | h
    · rw [hM.num, hfr.1] at h
      have := hlt S hmem
      omega
    · rw [(hM.fields S).1, (hfr.2.1 S).1] at h
      exact hS2d (h ▸ h3d)
  refine ⟨L, r, ?_, hmem, hn, hreg, hflush, hne, e1, e3, e2, ?_, ?_, ?_⟩
  · rw [RecycleSurface_eq, recycleAfterUnregister_of_flush _ _ _ _ _ _ _ hflush]
  · rw [e4 S (Ne.symm hne), (hM.fields S).2.2.2.2.2.2.1]
    exact hS1
  · intro p hp
    rcases e5 p S hp with h | h
    · rw [hM.registry] at h
      exact not_mem_bucket_of_unregistered _ hc1.toBucketsExact S p hS1 h
    · exact hne h.symm
  · intro hmod
    rw [hev]
    simp only [List.mem_append, List.mem_map]
    exact Or.inl (Or.inl (Or.inr ⟨S, (hF S).mpr ⟨hmem, hmod⟩, rfl⟩))

end TextureCache
end VideoCommon

namespace VideoCommon
namespace TextureCache

/-- C16 counterexample: with the render-target guard enabled, a `Texture3D` request at the
address of the bound render target (a registered 2D surface of the same byte
range) is resolved by `RecycleSurface` with strategy Flush, but the 2D surface
is not unregistered: on return it is still registered and still sits in its page
bucket, next to the new surface. And once the guard has been switched off again,
the 2D surface is registered at the address and not shielded, but the
exact-address entry names the 3D surface: the same request is an exact hit on
that surface, and the 2D surface is neither written back nor unregistered. -/
theorem GetSurface_3d_over_guarded_target :
    (Example.targetGuarded.surfaces 0).is_registered = true ∧
    (Example.targetGuarded.surfaces 0).params.target = SurfaceTarget.Texture2D ∧
    (Example.targetGuarded.surfaces 0).cache_addr = Example.backend.GetPointer 0x100000 ∧
    (Example.targetGuarded.surfaces 0).guest_memory_size =
      Example.backend.GetGuestSizeInBytes
        { Example.texture 4 4 1 PixelFormat.R16U with target := SurfaceTarget.Texture3D } ∧
    PickStrategy Example.backend ([0].foldl Unregister Example.targetGuarded) [0]
      { Example.texture 4 4 1 PixelFormat.R16U with target := SurfaceTarget.Texture3D }
      MatchTopologyResult.FullMatch = RecycleStrategy.Flush ∧
    (GetSurface Example.backend Example.targetGuarded 0x100000
      { Example.texture 4 4 1 PixelFormat.R16U with target := SurfaceTarget.Texture3D }
      false false).2 = (1, some (View.main 1)) ∧
    ((GetSurface Example.backend Example.targetGuarded 0x100000
      { Example.texture 4 4 1 PixelFormat.R16U with target := SurfaceTarget.Texture3D }
      false false).1.surfaces 0).is_registered = true ∧
    (GetSurface Example.backend Example.targetGuarded 0x100000
      { Example.texture 4 4 1 PixelFormat.R16U with target := SurfaceTarget.Texture3D }
      false false).1.registry (page 0x100000) = [0, 1] ∧
    (Example.volumeOverTarget.surfaces 0).is_registered = true ∧
    (Example.volumeOverTarget.surfaces 0).params.target = SurfaceTarget.Texture2D ∧
    (Example.volumeOverTarget.surfaces 0).cache_addr = Example.backend.GetPointer 0x100000 ∧
    (Example.volumeOverTarget.surfaces 0).is_modified = true ∧
    Example.volumeOverTarget.Shielded 0 = false ∧
    Example.volumeOverTarget.l1_cache (Example.backend.GetPointer 0x100000) = some 1 ∧
    (GetSurface Example.backend Example.volumeOverTarget 0x100000
      { Example.texture 4 4 1 PixelFormat.R16U with target := SurfaceTarget.Texture3D }
      false false).2 = (1, some (View.main 1)) ∧
    ((GetSurface Example.backend Example.volumeOverTarget 0x100000
      { Example.texture 4 4 1 PixelFormat.R16U with target := SurfaceTarget.Texture3D }
      false false).1.surfaces 0).is_registered = true ∧
    (GetSurface Example.backend Example.volumeOverTarget 0x100000
      { Example.texture 4 4 1 PixelFormat.R16U with target := SurfaceTarget.Texture3D }
      false false).1.events = Example.volumeOverTarget.events := by
  decide!

/-- C16 (amended) at the cache in which a render target and a 2D texture are registered at the
same address, the texture being the exact-address entry, for a `Texture3D`
request at that address. -/
theorem GetSurface_3d_over_2d_witness :
    Example.guardReleased.RegistryCore ∧ Example.guardReleased.ReserveKeyed ∧
    Example.backend.GetPointer 0x100000 ≠ 0 ∧
    Example.backend.GpuToCpuAddress 0x100000 = some 0x100000 ∧
    Example.guardReleased.l1_cache (Example.backend.GetPointer 0x100000) = some 1 ∧
    (Example.guardReleased.surfaces 1).params.target ≠ SurfaceTarget.Texture3D ∧
    Example.guardReleased.Shielded 1 = false ∧
    (GetSurface Example.backend Example.guardReleased 0x100000
      { Example.texture 4 4 1 PixelFormat.R32F with target := SurfaceTarget.Texture3D }
      true false).2 = (2, some (View.main 2)) ∧
    ((GetSurface Example.backend Example.guardReleased 0x100000
      { Example.texture 4 4 1 PixelFormat.R32F with target := SurfaceTarget.Texture3D }
      true false).1.surfaces 1).is_registered = false ∧
    (∃ L r,
      (GetSurface Example.backend Example.guardReleased 0x100000
        { Example.texture 4 4 1 PixelFormat.R32F with target := SurfaceTarget.Texture3D }
        true false) =
        RecycleSurface Example.backend Example.guardReleased L
          { Example.texture 4 4 1 PixelFormat.R32F with target := SurfaceTarget.Texture3D }
          0x100000 true r ∧
      1 ∈ L ∧ L.Nodup ∧ (∀ s ∈ L, (Example.guardReleased.surfaces s).is_registered = true) ∧
      PickStrategy Example.backend (L.foldl Unregister Example.guardReleased) L
        { Example.texture 4 4 1 PixelFormat.R32F with target := SurfaceTarget.Texture3D } r =
          RecycleStrategy.Flush ∧
      (GetSurface Example.backend Example.guardReleased 0x100000
        { Example.texture 4 4 1 PixelFormat.R32F with target := SurfaceTarget.Texture3D }
        true false).2.1 ≠ 1 ∧
      (GetSurface Example.backend Example.guardReleased 0x100000
        { Example.texture 4 4 1 PixelFormat.R32F with target := SurfaceTarget.Texture3D }
        true false).2.2 =
        some (View.main (GetSurface Example.backend Example.guardReleased 0x100000
          { Example.texture 4 4 1 PixelFormat.R32F with target := SurfaceTarget.Texture3D }
          true false).2.1) ∧
      ((GetSurface Example.backend Example.guardReleased 0x100000
        { Example.texture 4 4 1 PixelFormat.R32F with target := SurfaceTarget.Texture3D }
        true false).1.surfaces
        (GetSurface Example.backend Example.guardReleased 0x100000
          { Example.texture 4 4 1 PixelFormat.R32F with target := SurfaceTarget.Texture3D }
          true false).2.1).params =
          { Example.texture 4 4 1 PixelFormat.R32F with target := SurfaceTarget.Texture3D } ∧
      ((GetSurface Example.backend Example.guardReleased 0x100000
        { Example.texture 4 4 1 PixelFormat.R32F with target := SurfaceTarget.Texture3D }
        true false).1.surfaces
        (GetSurface Example.backend Example.guardReleased 0x100000
          { Example.texture 4 4 1 PixelFormat.R32F with target := SurfaceTarget.Texture3D }
          true false).2.1).is_registered = true ∧
      ((GetSurface Example.backend Example.guardReleased 0x100000
        { Example.texture 4 4 1 PixelFormat.R32F with target := SurfaceTarget.Texture3D }
        true false).1.surfaces 1).is_registered = false ∧
      (∀ p, 1 ∉ (GetSurface Example.backend Example.guardReleased 0x100000
        { Example.texture 4 4 1 PixelFormat.R32F with target := SurfaceTarget.Texture3D }
        true false).1.registry p) ∧
      ((Example.guardReleased.surfaces 1).is_modified = true →
        Event.FlushSurface 1 ∈
          (GetSurface Example.backend Example.guardReleased 0x100000
            { Example.texture 4 4 1 PixelFormat.R32F with target := SurfaceTarget.Texture3D }
            true false).1.events)) :=
  ⟨guardReleased_core, guardReleased_reserveKeyed, by decide!, by decide!, by decide!,
    by decide!, by decide!, by decide!, by decide!,
    GetSurface_3d_over_2d Example.backend Example.guardReleased 0x100000 0x100000
      { Example.texture 4 4 1 PixelFormat.R32F with target := SurfaceTarget.Texture3D }
      true false 1 guardReleased_core guardReleased_reserveKeyed (by decide!) (by decide!)
      (by decide!) (by decide!) (by decide!) (by decide!) (by decide!) (by decide!)
      (by decide!)⟩

end TextureCache
end VideoCommon

namespace VideoCommon
namespace TextureCache

end TextureCache
end VideoCommon

namespace VideoCommon
namespace TextureCache

theorem modify_erased_end (c : TextureCache) (t : Nat) (f : Surface → Surface) :
    (c.modify t f).erased_end = c.erased_end := rfl

theorem SetEmptyColorBuffer_erased_end (c : TextureCache) (index : Nat) :
    (c.SetEmptyColorBuffer index).erased_end = c.erased_end := by
  unfold SetEmptyColorBuffer
  split <;> rfl

theorem SetEmptyDepthBuffer_erased_end (c : TextureCache) :
    c.SetEmptyDepthBuffer.erased_end = c.erased_end := by
  unfold SetEmptyDepthBuffer
  split <;> rfl

theorem bindColorSlot_erased_end (c : TextureCache) (index : Nat) (sv : Nat × Option View) :
    (bindColorSlot c index sv).erased_end = c.erased_end := by
  unfold bindColorSlot
  split <;> rfl

theorem bindDepthSlot_erased_end (c : TextureCache) (sv : Nat × Option View) :
    (bindDepthSlot c sv).erased_end = c.erased_end := by
  unfold bindDepthSlot
  split <;> rfl

theorem GetSurface_erased_end_sticky (B : Backend) (c : TextureCache) (gpu_addr : Nat)
    (params : SurfaceParams) (preserve_contents is_render : Bool)
    (h : c.erased_end = true) :
    (GetSurface B c gpu_addr params preserve_contents is_render).1.erased_end = true :=
  ((shieldKept_frame B 0).getSurface c gpu_addr params preserve_contents is_render).1 h

theorem applyOp_erased_end_sticky (B : Backend) (c : TextureCache) (op : Op)
    (h : c.erased_end = true) : (applyOp B c op).erased_end = true := by
  have F := shieldKept_frame B 0
  cases op with
  | InvalidateRegion addr size => exact (F.invalidate c addr size).1 h
  | FlushRegion addr size => exact (F.flushRegion c addr size).1 h
  | GuardRenderTargets g => exact h
  | GuardSamplers g => exact h
  | GetTextureSurface gpu_addr params =>
    have hk := GetSurface_erased_end_sticky B c gpu_addr params true false h
    show (GetTextureSurface B c gpu_addr params).1.erased_end = true
    unfold GetTextureSurface
    split
    · exact h
    · dsimp only
      split
      · exact hk
      · exact hk
  | GetImageSurface gpu_addr params =>
    have hk := GetSurface_erased_end_sticky B c gpu_addr params true false h
    show (GetImageSurface B c gpu_addr params).1.erased_end = true
    unfold GetImageSurface
    split
    · exact h
    · dsimp only
      split
      · exact hk
      · exact hk
  | TextureBarrier => exact h
  | GetDepthBufferSurface pc =>
    show (GetDepthBufferSurface B c pc).1.erased_end = true
    rcases GetDepthBufferSurface_cases B c pc with e | e | e <;> rw [e]
    · exact h
    · rw [SetEmptyDepthBuffer_erased_end]; exact h
    · rw [bindDepthSlot_erased_end]
      exact GetSurface_erased_end_sticky B c.clearDepthDirty _ _ _ _ h
  | GetColorBufferSurface index pc =>
    show (GetColorBufferSurface B c index pc).1.erased_end = true
    rcases GetColorBufferSurface_cases B c index pc with e | e | e <;> rw [e]
    · exact h
    · rw [SetEmptyColorBuffer_erased_end]; exact h
    · rw [bindColorSlot_erased_end]
      exact GetSurface_erased_end_sticky B (c.clearColorDirty index) _ _ _ _ h
  | MarkColorBufferInUse index =>
    show (c.MarkColorBufferInUse index).erased_end = true
    unfold MarkColorBufferInUse
    split
    · exact (F.stamp c _ true).1 h
    · exact h
  | MarkDepthBufferInUse =>
    show c.MarkDepthBufferInUse.erased_end = true
    unfold MarkDepthBufferInUse
    split
    · exact (F.stamp c _ true).1 h
    · exact h
  | SetEmptyDepthBuffer =>
    show c.SetEmptyDepthBuffer.erased_end = true
    rw [SetEmptyDepthBuffer_erased_end]; exact h
  | SetEmptyColorBuffer index =>
    show (c.SetEmptyColorBuffer index).erased_end = true
    rw [SetEmptyColorBuffer_erased_end]; exact h
  | DoFermiCopy sa sp da dp => exact (F.fermiCopy c sa sp da dp).1 h
  | WriteRegisters m => exact h

theorem run_erased_end_sticky (B : Backend) (c : TextureCache) (ops : List Op)
    (h : c.erased_end = true) : (run B c ops).erased_end = true := by
  unfold run
  induction ops generalizing c with
  | nil => exact h
  | cons op rest ih => exact ih (applyOp B c op) (applyOp_erased_end_sticky B c op h)

theorem run_append (B : Backend) (c : TextureCache) (ops more : List Op) :
    run B c (ops ++ more) = run B (run B c ops) more := by
  unfold run
  rw [List.foldl_append]

theorem GetSurface_registered_of_cacheInv (B : Backend) (c : TextureCache) (hinv : CacheInv B c)
    (gpu_addr : Nat) (params : SurfaceParams) (preserve_contents is_render : Bool)
    (hptr : B.GetPointer gpu_addr ≠ 0) (hcpu : B.GpuToCpuAddress gpu_addr ≠ none) :
    ((GetSurface B c gpu_addr params preserve_contents is_render).1.surfaces
      (GetSurface B c gpu_addr params preserve_contents is_render).2.1).is_registered = true ∧
    (∀ p,
      page ((GetSurface B c gpu_addr params preserve_contents is_render).1.surfaces
        (GetSurface B c gpu_addr params preserve_contents is_render).2.1).cache_addr ≤ p →
      p ≤ page (sub64
        ((GetSurface B c gpu_addr params preserve_contents is_render).1.surfaces
          (GetSurface B c gpu_addr params preserve_contents is_render).2.1).cache_addr_end 1) →
      (GetSurface B c gpu_addr params preserve_contents is_render).2.1 ∈
        (GetSurface B c gpu_addr params preserve_contents is_render).1.registry p ∧
      ((GetSurface B c gpu_addr params preserve_contents is_render).1.registry p).count
        (GetSurface B c gpu_addr params preserve_contents is_render).2.1 = 1) := by
  obtain ⟨h1, -, -, h3⟩ := GetSurface_settled B _ hinv gpu_addr params preserve_contents is_render
  have hreg := h3 hptr hcpu
  refine ⟨hreg, ?_⟩
  intro p hp1 hp2
  have hc := h1.count
    (GetSurface B c gpu_addr params preserve_contents is_render).2.1 p
  rw [if_pos ⟨hreg, (mem_pageRange _ _ _).mpr ⟨hp1, hp2⟩⟩] at hc
  exact ⟨List.count_pos_iff.mp (by omega), hc⟩

theorem straddling_mirage_path :
    GetSurface Example.backend Example.straddling 0x1FFFF0
        (Example.texture 4 4 1 (PixelFormat.Other 2)) true false =
      RecycleSurface Example.backend Example.straddlingRebuilt [0]
        (Example.texture 4 4 1 (PixelFormat.Other 2)) 0x1FFFF0 true
        MatchTopologyResult.FullMatch := by
  rw [GetSurface_of_no_entry Example.backend Example.straddling 0x1FFFF0 _ true false
    (by decide!) (by decide!)]
  exact GetSurfaceFromOverlaps_mirage_recycle Example.backend Example.straddling 0x1FFFF0
    _ true false _ 0 1
    (Prod.ext (GetSurfacesInRegion_state _
      (run_cacheInv Example.backend _ (init_cacheInv _ _) _).picked _ _) (by decide!))
    (by decide!) (by decide!) (by decide!) (by decide!) (by decide!)

theorem straddlingAlone_mirage_path :
    GetSurface Example.backend Example.straddlingAlone 0x1FFFF0
        (Example.texture 4 4 1 (PixelFormat.Other 2)) true false =
      RecycleSurface Example.backend Example.straddlingAloneRebuilt [0]
        (Example.texture 4 4 1 (PixelFormat.Other 2)) 0x1FFFF0 true
        MatchTopologyResult.FullMatch := by
  rw [GetSurface_of_no_entry Example.backend Example.straddlingAlone 0x1FFFF0 _ true false
    (by decide!) (by decide!)]
  exact GetSurfaceFromOverlaps_mirage_recycle Example.backend Example.straddlingAlone 0x1FFFF0
    _ true false _ 0 1
    (Prod.ext (GetSurfacesInRegion_state _
      (run_cacheInv Example.backend _ (init_cacheInv _ _) _).picked _ _) (by decide!))
    (by decide!) (by decide!) (by decide!) (by decide!) (by decide!)

/-- C36: the surface returned by `GetSurface` is registered, as long as no `erase(end())` has
been executed. For every state reached from the constructor by calls of the public
interface and every `gpu_addr` whose host-pointer translation and GPU-to-CPU translation
both succeed: when the execution up to the return of `GetSurface` has not erased an
absent surface from a bucket (`erased_end` is still clear on return; the flag, once set,
stays set), the surface returned has its registered flag set and sits, exactly once, in
the bucket of every page from the page of its cache address to the page of its last
byte. The request that recycles the small texture of the cache `straddling` is such an
execution. The claim fails on the mirage path: in `straddling` the request for mip level
1 of the straddling texture under another format is `RecycleSurface` applied to `[0]` in
the state `RebuildSurface` left, where surface 0 is unregistered, not shielded, spans
pages 1 and 2, and is in neither bucket; the bucket of page 2 is `[1]`. The second
`Unregister(surface 0)` therefore reaches line 902 with `std::find` returning `end()`
on a bucket whose last element is surface 1. After the call surface 1 is still flagged
registered and is the exact-address entry at `0x200100`, so the next `GetSurface` there
returns surface 1 by the exact hit, without looking at any bucket. -/
theorem GetSurface_returns_registered :
    (∀ (B : Backend) (m : Maxwell3D) (ops : List Op) (gpu_addr : Nat) (params : SurfaceParams)
        (preserve_contents is_render : Bool),
      B.GetPointer gpu_addr ≠ 0 → B.GpuToCpuAddress gpu_addr ≠ none →
      (GetSurface B (run B (init m) ops) gpu_addr params preserve_contents
        is_render).1.erased_end = false →
      ((GetSurface B (run B (init m) ops) gpu_addr params preserve_contents is_render).1.surfaces
        (GetSurface B (run B (init m) ops) gpu_addr params preserve_contents
          is_render).2.1).is_registered = true ∧
      (∀ p,
        page ((GetSurface B (run B (init m) ops) gpu_addr params preserve_contents
            is_render).1.surfaces
          (GetSurface B (run B (init m) ops) gpu_addr params preserve_contents
            is_render).2.1).cache_addr ≤ p →
        p ≤ page (sub64
          ((GetSurface B (run B (init m) ops) gpu_addr params preserve_contents
              is_render).1.surfaces
            (GetSurface B (run B (init m) ops) gpu_addr params preserve_contents
              is_render).2.1).cache_addr_end 1) →
        (GetSurface B (run B (init m) ops) gpu_addr params preserve_contents is_render).2.1 ∈
          (GetSurface B (run B (init m) ops) gpu_addr params preserve_contents
            is_render).1.registry p ∧
        ((GetSurface B (run B (init m) ops) gpu_addr params preserve_contents
            is_render).1.registry p).count
          (GetSurface B (run B (init m) ops) gpu_addr params preserve_contents
            is_render).2.1 = 1)) ∧
    (∀ (B : Backend) (c : TextureCache) (ops : List Op),
      c.erased_end = true → (run B c ops).erased_end = true) ∧
    (∀ (B : Backend) (c : TextureCache) (gpu_addr : Nat) (params : SurfaceParams)
        (preserve_contents is_render : Bool),
      c.erased_end = true →
      (GetSurface B c gpu_addr params preserve_contents is_render).1.erased_end = true) ∧
    (∀ (c : TextureCache) (s : Nat), c.Shielded s = false →
      (c.Unregister s).erased_end = (c.erased_end || c.erasesEnd s)) ∧
    Example.straddling.erased_end = false ∧
    Example.straddling.registry 1 = [0] ∧
    Example.straddling.registry 2 = [0, 1] ∧
    (GetSurface Example.backend Example.straddling 0x200100
      (Example.texture 8 8 1 PixelFormat.R32F) true false).1.erased_end = false ∧
    (GetSurface Example.backend Example.straddling 0x200100
      (Example.texture 8 8 1 PixelFormat.R32F) true false).2.1 = 2 ∧
    GetSurface Example.backend Example.straddling 0x1FFFF0
        (Example.texture 4 4 1 (PixelFormat.Other 2)) true false =
      RecycleSurface Example.backend Example.straddlingRebuilt [0]
        (Example.texture 4 4 1 (PixelFormat.Other 2)) 0x1FFFF0 true
        MatchTopologyResult.FullMatch ∧
    Example.straddlingRebuilt.erased_end = false ∧
    Example.straddlingRebuilt.Shielded 0 = false ∧
    (Example.straddlingRebuilt.surfaces 0).is_registered = false ∧
    page (Example.straddlingRebuilt.surfaces 0).cache_addr = 1 ∧
    page (sub64 (Example.straddlingRebuilt.surfaces 0).cache_addr_end 1) = 2 ∧
    Example.straddlingRebuilt.registry 1 = [2] ∧
    Example.straddlingRebuilt.registry 2 = [1] ∧
    Example.straddlingRebuilt.erasesEnd 0 = true ∧
    (Example.straddlingRebuilt.Unregister 0).erased_end = true ∧
    Example.straddlingRecycled.erased_end = true ∧
    (Example.straddlingRecycled.surfaces 1).is_registered = true ∧
    page (Example.straddlingRecycled.surfaces 1).cache_addr = 2 ∧
    page (sub64 (Example.straddlingRecycled.surfaces 1).cache_addr_end 1) = 2 ∧
    Example.straddlingRecycled.l1_cache (Example.backend.GetPointer 0x200100) = some 1 ∧
    Example.backend.GetPointer 0x200100 ≠ 0 ∧
    Example.backend.GpuToCpuAddress 0x200100 ≠ none ∧
    (GetSurface Example.backend Example.straddlingRecycled 0x200100
      (Example.texture 4 4 1 PixelFormat.R16U) true false).2 = (1, some (View.main 1)) := by
  refine ⟨fun B m ops gpu_addr params pc ir hptr hcpu _ =>
      GetSurface_registered_of_cacheInv B _ (run_cacheInv B (init m) (init_cacheInv B m) ops)
        gpu_addr params pc ir hptr hcpu,
    run_erased_end_sticky, GetSurface_erased_end_sticky,
    fun c s hs => by rw [Unregister_eq c s hs],
    by decide!, by decide!, by decide!, by decide!, by decide!, straddling_mirage_path,
    by decide!, by decide!, by decide!, by decide!, by decide!, by decide!, by decide!,
    by decide!, by decide!, by decide!, by decide!, by decide!, by decide!, by decide!,
    by decide!, by decide!, by decide!⟩

end TextureCache
end VideoCommon

namespace VideoCommon
namespace TextureCache

/-- C35: no double registration, as long as no `erase(end())` has been executed.
`TryGetReservedSurface` and `GetUncachedSurface` never return a surface whose registered
flag is set; at each of the three call sites of `Register` (`InitializeSurface`,
`RebuildSurface`, `TryReconstructSurface`) the surface passed is the one
`GetUncachedSurface` returned and its registered flag is clear in the state `Register`
is applied to; and in every state reached from the constructor by calls of the public
interface without erasing an absent surface from a bucket (`erased_end` clear), no
surface appears more than once in any page bucket and every bucket member is registered.
The cache `straddlingAlone` is such a state, with surface 0 in the buckets of pages 1 and
2. The claim fails for the states behind the mirage path: in `straddlingAlone` the
request for mip level 1 of the texture under another format is `RecycleSurface` applied
to `[0]` in the state `RebuildSurface` left, where surface 0 is unregistered, not
shielded and spans pages 1 and 2, and the bucket of page 2 is empty; the second
`Unregister(surface 0)` reaches line 902 with `std::find` returning `end()` on that
empty vector, and what the bucket holds afterwards is not defined. -/
theorem Register_only_on_unregistered :
    (∀ (c : TextureCache) (params : SurfaceParams) (s : Nat),
      c.TryGetReservedSurface params = some s → (c.surfaces s).is_registered = false) ∧
    (∀ (B : Backend) (c : TextureCache) (gpu_addr : Nat) (params : SurfaceParams),
      ((GetUncachedSurface B c gpu_addr params).1.surfaces
        (GetUncachedSurface B c gpu_addr params).2).is_registered = false) ∧
    (∀ (B : Backend) (c : TextureCache) (gpu_addr : Nat) (params : SurfaceParams)
        (preserve_contents : Bool),
      (InitializeSurface B c gpu_addr params preserve_contents).1 =
        (if preserve_contents = true then
          (Register B (GetUncachedSurface B c gpu_addr params).1
            (GetUncachedSurface B c gpu_addr params).2).LoadSurface
            (GetUncachedSurface B c gpu_addr params).2
        else
          Register B (GetUncachedSurface B c gpu_addr params).1
            (GetUncachedSurface B c gpu_addr params).2)) ∧
    (∀ (B : Backend) (c : TextureCache) (current : Nat) (params : SurfaceParams)
        (is_render : Bool),
      ∃ (P : SurfaceParams) (ev : List Event) (modified : Bool),
        (RebuildSurface B c current params is_render).1 =
          (Register B
            (Unregister { (GetUncachedSurface B c (c.surfaces current).gpu_addr P).1 with
              events := ev } current)
            (GetUncachedSurface B c (c.surfaces current).gpu_addr P).2).Tick.1.modify
            (GetUncachedSurface B c (c.surfaces current).gpu_addr P).2
            (fun s => s.MarkAsModified modified
              (Register B
                (Unregister { (GetUncachedSurface B c (c.surfaces current).gpu_addr P).1 with
                  events := ev } current)
                (GetUncachedSurface B c (c.surfaces current).gpu_addr P).2).Tick.2) ∧
        ((Unregister { (GetUncachedSurface B c (c.surfaces current).gpu_addr P).1 with
            events := ev } current).surfaces
          (GetUncachedSurface B c (c.surfaces current).gpu_addr P).2).is_registered = false) ∧
    (∀ (B : Backend) (c : TextureCache) (overlaps : List Nat) (params : SurfaceParams)
        (gpu_addr : Nat),
      (TryReconstructSurface B c overlaps params gpu_addr).2 ≠ none →
      ∃ (modified : Bool) (ev : List Event),
        (TryReconstructSurface B c overlaps params gpu_addr).1 =
          Register B
            (((overlaps.foldl Unregister
              { (GetUncachedSurface B c gpu_addr params).1 with events := ev }).Tick.1).modify
              (GetUncachedSurface B c gpu_addr params).2
              (fun s => s.MarkAsModified modified
                (overlaps.foldl Unregister
                  { (GetUncachedSurface B c gpu_addr params).1 with events := ev }).Tick.2))
            (GetUncachedSurface B c gpu_addr params).2 ∧
        ((((overlaps.foldl Unregister
              { (GetUncachedSurface B c gpu_addr params).1 with events := ev }).Tick.1).modify
              (GetUncachedSurface B c gpu_addr params).2
              (fun s => s.MarkAsModified modified
                (overlaps.foldl Unregister
                  { (GetUncachedSurface B c gpu_addr params).1 with
                    events := ev }).Tick.2)).surfaces
            (GetUncachedSurface B c gpu_addr params).2).is_registered = false) ∧
    (∀ (B : Backend) (m : Maxwell3D) (ops : List Op),
      (run B (init m) ops).erased_end = false →
      (∀ p, ((run B (init m) ops).registry p).Nodup) ∧
      (∀ s p, s ∈ (run B (init m) ops).registry p →
        ((run B (init m) ops).surfaces s).is_registered = true)) ∧
    (∀ (B : Backend) (c : TextureCache) (ops : List Op),
      c.erased_end = true → (run B c ops).erased_end = true) ∧
    Example.straddlingAlone.erased_end = false ∧
    Example.straddlingAlone.registry 1 = [0] ∧
    Example.straddlingAlone.registry 2 = [0] ∧
    GetSurface Example.backend Example.straddlingAlone 0x1FFFF0
        (Example.texture 4 4 1 (PixelFormat.Other 2)) true false =
      RecycleSurface Example.backend Example.straddlingAloneRebuilt [0]
        (Example.texture 4 4 1 (PixelFormat.Other 2)) 0x1FFFF0 true
        MatchTopologyResult.FullMatch ∧
    Example.straddlingAloneRebuilt.erased_end = false ∧
    Example.straddlingAloneRebuilt.Shielded 0 = false ∧
    (Example.straddlingAloneRebuilt.surfaces 0).is_registered = false ∧
    page (Example.straddlingAloneRebuilt.surfaces 0).cache_addr = 1 ∧
    page (sub64 (Example.straddlingAloneRebuilt.surfaces 0).cache_addr_end 1) = 2 ∧
    Example.straddlingAloneRebuilt.registry 1 = [1] ∧
    Example.straddlingAloneRebuilt.registry 2 = [] ∧
    Example.straddlingAloneRebuilt.erasesEnd 0 = true ∧
    (Example.straddlingAloneRebuilt.Unregister 0).erased_end = true ∧
    (run Example.backend (init Example.maxwell3d)
      [Op.GetTextureSurface 0x1FFF60 (Example.texture 18 18 2 (PixelFormat.Other 8)),
        Op.GetTextureSurface 0x1FFFF0
          (Example.texture 4 4 1 (PixelFormat.Other 2))]).erased_end = true := by
  refine ⟨fun c params s h => (find_reserved_unregistered c params s h).1,
    fun B c gpu_addr params => (GetUncachedSurface_result B c gpu_addr params).2.1, ?_, ?_,
    fun B c overlaps params gpu_addr h =>
      TryReconstructSurface_register_site B c overlaps params gpu_addr h, ?_,
    run_erased_end_sticky,
    by decide!, by decide!, by decide!, straddlingAlone_mirage_path,
    by decide!, by decide!, by decide!, by decide!, by decide!, by decide!, by decide!,
    by decide!, by decide!, by decide!⟩
  · intro B c gpu_addr params preserve_contents
    unfold InitializeSurface
    cases preserve_contents <;> rfl
  · intro B c current params is_render
    obtain ⟨P, ev, heq⟩ := RebuildSurface_shape B c current params is_render
    refine ⟨P, ev,
      ((Register B
        (Unregister { (GetUncachedSurface B c (c.surfaces current).gpu_addr P).1 with
          events := ev } current)
        (GetUncachedSurface B c (c.surfaces current).gpu_addr P).2).Tick.1.surfaces
          current).is_modified, ?_, ?_⟩
    · rw [heq]
    · exact (Unregister_kept _ current _).2
        (GetUncachedSurface_result B c (c.surfaces current).gpu_addr P).2.1
  · intro B m ops _
    have hinv := run_cacheInv B (init m) (init_cacheInv B m) ops
    refine ⟨fun p => ?_, fun s p h => hinv.registered_of_mem s p h⟩
    rw [List.nodup_iff_count_le_one]
    intro s
    rw [hinv.count s p]
    split <;> omega

end TextureCache
end VideoCommon

namespace VideoCommon
namespace TextureCache

theorem foldl_Unregister_ticks (L : List Nat) (c : TextureCache) :
    (L.foldl Unregister c).ticks = c.ticks ∧
    (L.foldl Unregister c).ticks_drawn = c.ticks_drawn := by
  induction L generalizing c with
  | nil => exact ⟨rfl, rfl⟩
  | cons s rest ih =>
    rw [List.foldl_cons]
    exact ⟨(ih _).1.trans (Unregister_ticks c s), (ih _).2.trans (Unregister_ticks_drawn c s)⟩

theorem stamp_spec (c : TextureCache) (n : Nat) (m : Bool) :
    (c.Tick.1.modify n (fun s => s.MarkAsModified m c.Tick.2)).ticks = (c.ticks + 1) % 2 ^ 64 ∧
    (c.Tick.1.modify n (fun s => s.MarkAsModified m c.Tick.2)).ticks_drawn =
      c.ticks_drawn + 1 ∧
    ((c.Tick.1.modify n (fun s => s.MarkAsModified m c.Tick.2)).surfaces n).modification_tick =
      (c.ticks + 1) % 2 ^ 64 ∧
    ((c.Tick.1.modify n (fun s => s.MarkAsModified m c.Tick.2)).surfaces n).is_modified = m ∧
    (∀ s, s ≠ n →
      (c.Tick.1.modify n (fun s => s.MarkAsModified m c.Tick.2)).surfaces s = c.surfaces s) := by
  refine ⟨rfl, rfl, ?_, ?_, ?_⟩
  · simp [Tick, modify, Surface.MarkAsModified, add64]
  · simp [Tick, modify, Surface.MarkAsModified]
  · intro s hs
    simp [Tick, modify, Function.update_noteq hs]

theorem FlushSurface_stamp (c : TextureCache) (s : Nat) :
    ((c.surfaces s).is_modified = false → c.FlushSurface s = c) ∧
    ((c.surfaces s).is_modified = true →
      (c.FlushSurface s).ticks = (c.ticks + 1) % 2 ^ 64 ∧
      (c.FlushSurface s).ticks_drawn = c.ticks_drawn + 1 ∧
      ((c.FlushSurface s).surfaces s).modification_tick = (c.ticks + 1) % 2 ^ 64 ∧
      ((c.FlushSurface s).surfaces s).is_modified = false ∧
      (∀ t, t ≠ s → (c.FlushSurface s).surfaces t = c.surfaces t)) := by
  constructor
  · intro h
    unfold FlushSurface
    rw [h]; rfl
  · intro h
    unfold FlushSurface
    rw [h]
    exact stamp_spec { c with events := c.events ++ [Event.FlushSurface s] } s false

theorem LoadSurface_stamp (c : TextureCache) (s : Nat) :
    (c.LoadSurface s).ticks = (c.ticks + 1) % 2 ^ 64 ∧
    (c.LoadSurface s).ticks_drawn = c.ticks_drawn + 1 ∧
    ((c.LoadSurface s).surfaces s).modification_tick = (c.ticks + 1) % 2 ^ 64 ∧
    ((c.LoadSurface s).surfaces s).is_modified = false ∧
    (∀ t, t ≠ s → (c.LoadSurface s).surfaces t = c.surfaces t) :=
  stamp_spec { c with events := c.events ++ [Event.LoadSurface s] } s false

theorem RebuildSurface_stamp (B : Backend) (c : TextureCache) (current : Nat)
    (params : SurfaceParams) (is_render : Bool) :
    (RebuildSurface B c current params is_render).1.ticks = (c.ticks + 1) % 2 ^ 64 ∧
    (RebuildSurface B c current params is_render).1.ticks_drawn = c.ticks_drawn + 1 ∧
    ((RebuildSurface B c current params is_render).1.surfaces
      (RebuildSurface B c current params is_render).2.1).modification_tick =
        (c.ticks + 1) % 2 ^ 64 ∧
    (∀ s, s ≠ (RebuildSurface B c current params is_render).2.1 →
      ((RebuildSurface B c current params is_render).1.surfaces s).modification_tick =
        (c.surfaces s).modification_tick) := by
  obtain ⟨P, ev, heq⟩ := RebuildSurface_shape B c current params is_render
  rw [heq]
  dsimp only
  have ht : (Register B
      (Unregister { (GetUncachedSurface B c (c.surfaces current).gpu_addr P).1 with
        events := ev } current)
      (GetUncachedSurface B c (c.surfaces current).gpu_addr P).2).ticks = c.ticks := by
    rw [(Register_ticks B _ _).1, Unregister_ticks]
    exact (GetUncachedSurface_ticks B c _ P).1
  have hd : (Register B
      (Unregister { (GetUncachedSurface B c (c.surfaces current).gpu_addr P).1 with
        events := ev } current)
      (GetUncachedSurface B c (c.surfaces current).gpu_addr P).2).ticks_drawn =
        c.ticks_drawn := by
    rw [Register_ticks_drawn, Unregister_ticks_drawn]
    exact GetUncachedSurface_ticks_drawn B c _ P
  obtain ⟨a1, a2, a3, -, a5⟩ := stamp_spec
    (Register B
      (Unregister { (GetUncachedSurface B c (c.surfaces current).gpu_addr P).1 with
        events := ev } current)
      (GetUncachedSurface B c (c.surfaces current).gpu_addr P).2)
    (GetUncachedSurface B c (c.surfaces current).gpu_addr P).2
    (((Register B
      (Unregister { (GetUncachedSurface B c (c.surfaces current).gpu_addr P).1 with
        events := ev } current)
      (GetUncachedSurface B c (c.surfaces current).gpu_addr P).2).Tick.1.surfaces
        current).is_modified)
  rw [ht] at a1 a3
  rw [hd] at a2
  refine ⟨a1, a2, a3, fun s hs => ?_⟩
  rw [a5 s hs, (Register_ticks B _ _).2 s, (Unregister_params _ current s).2.2.1]
  show ((GetUncachedSurface B c (c.surfaces current).gpu_addr P).1.surfaces s).modification_tick =
    _
  rw [GetUncachedSurface_other B c _ P s hs]

theorem TryReconstructSurface_stamp (B : Backend) (c : TextureCache) (overlaps : List Nat)
    (params : SurfaceParams) (gpu_addr : Nat) :
    ((TryReconstructSurface B c overlaps params gpu_addr).2 = none →
      (TryReconstructSurface B c overlaps params gpu_addr).1.ticks = c.ticks ∧
      (TryReconstructSurface B c overlaps params gpu_addr).1.ticks_drawn = c.ticks_drawn) ∧
    (∀ n v, (TryReconstructSurface B c overlaps params gpu_addr).2 = some (n, v) →
      (TryReconstructSurface B c overlaps params gpu_addr).1.ticks = (c.ticks + 1) % 2 ^ 64 ∧
      (TryReconstructSurface B c overlaps params gpu_addr).1.ticks_drawn = c.ticks_drawn + 1 ∧
      ((TryReconstructSurface B c overlaps params gpu_addr).1.surfaces n).modification_tick =
        (c.ticks + 1) % 2 ^ 64) := by
  by_cases h3d : params.target = SurfaceTarget.Texture3D
  · have he : TryReconstructSurface B c overlaps params gpu_addr = (c, none) := by
      unfold TryReconstructSurface
      rw [if_pos h3d]
    rw [he]
    exact ⟨fun _ => ⟨rfl, rfl⟩, fun n v h => by cases h⟩
  · obtain ⟨ev, hst, -⟩ := reconstructLoop_state B params
      (GetUncachedSurface B c gpu_addr params).2 overlaps
      (GetUncachedSurface B c gpu_addr params).1 false 0
    have hl1 : (reconstructLoop B params (GetUncachedSurface B c gpu_addr params).2 overlaps
        (GetUncachedSurface B c gpu_addr params).1 false 0).1.ticks = c.ticks := by
      rw [hst]; exact (GetUncachedSurface_ticks B c gpu_addr params).1
    have hl2 : (reconstructLoop B params (GetUncachedSurface B c gpu_addr params).2 overlaps
        (GetUncachedSurface B c gpu_addr params).1 false 0).1.ticks_drawn = c.ticks_drawn := by
      rw [hst]; exact GetUncachedSurface_ticks_drawn B c gpu_addr params
    rw [TryReconstructSurface_eq B c overlaps params gpu_addr h3d]
    rcases hr : (reconstructLoop B params (GetUncachedSurface B c gpu_addr params).2 overlaps
        (GetUncachedSurface B c gpu_addr params).1 false 0).2 with _ | ⟨modified, passed⟩
    · exact ⟨fun _ => ⟨hl1, hl2⟩, fun n v h => by cases h⟩
    · dsimp only
      split_ifs with hc
      · exact ⟨fun _ => ⟨hl1, hl2⟩, fun n v h => by cases h⟩
      · refine ⟨fun h => (by cases h), fun n v h => ?_⟩
        simp only [Option.some.injEq, Prod.mk.injEq] at h
        obtain ⟨hn, -⟩ := h
        subst hn
        obtain ⟨a1, a2, a3, -, -⟩ := stamp_spec
          (overlaps.foldl Unregister
            (reconstructLoop B params (GetUncachedSurface B c gpu_addr params).2 overlaps
              (GetUncachedSurface B c gpu_addr params).1 false 0).1)
          (GetUncachedSurface B c gpu_addr params).2 modified
        rw [(foldl_Unregister_ticks _ _).1, hl1] at a1 a3
        rw [(foldl_Unregister_ticks _ _).2, hl2] at a2
        dsimp only
        refine ⟨?_, ?_, ?_⟩
        · rw [(Register_ticks B _ _).1]; exact a1
        · rw [Register_ticks_drawn]; exact a2
        · rw [(Register_ticks B _ _).2]; exact a3

theorem DoFermiCopy_stamp (B : Backend) (c : TextureCache) (src_gpu_addr : Nat)
    (src_params : SurfaceParams) (dst_gpu_addr : Nat) (dst_params : SurfaceParams)
    (d : TextureCache)
    (h : DoFermiCopy B c src_gpu_addr src_params dst_gpu_addr dst_params = some d) :
    ∃ bp, (DeduceBestBlit B c src_params dst_params src_gpu_addr dst_gpu_addr).2 = some bp ∧
      d.ticks =
        ((GetSurface B
          (GetSurface B (DeduceBestBlit B c src_params dst_params src_gpu_addr dst_gpu_addr).1
            dst_gpu_addr bp.2 true false).1 src_gpu_addr bp.1 true false).1.ticks + 1) %
          2 ^ 64 ∧
      d.ticks_drawn =
        (GetSurface B
          (GetSurface B (DeduceBestBlit B c src_params dst_params src_gpu_addr dst_gpu_addr).1
            dst_gpu_addr bp.2 true false).1 src_gpu_addr bp.1 true false).1.ticks_drawn + 1 ∧
      (d.surfaces
        (GetSurface B (DeduceBestBlit B c src_params dst_params src_gpu_addr dst_gpu_addr).1
          dst_gpu_addr bp.2 true false).2.1).modification_tick = d.ticks ∧
      (d.surfaces
        (GetSurface B (DeduceBestBlit B c src_params dst_params src_gpu_addr dst_gpu_addr).1
          dst_gpu_addr bp.2 true false).2.1).is_modified = true ∧
      (∀ s,
        s ≠ (GetSurface B
          (DeduceBestBlit B c src_params dst_params src_gpu_addr dst_gpu_addr).1
          dst_gpu_addr bp.2 true false).2.1 →
        d.surfaces s =
          (GetSurface B
            (GetSurface B
              (DeduceBestBlit B c src_params dst_params src_gpu_addr dst_gpu_addr).1
              dst_gpu_addr bp.2 true false).1 src_gpu_addr bp.1 true false).1.surfaces s) := by
  unfold DoFermiCopy at h
  rcases hq : DeduceBestBlit B c src_params dst_params src_gpu_addr dst_gpu_addr with ⟨c1, dd⟩
  rw [hq] at h
  dsimp only at h ⊢
  cases dd with
  | none => simp at h
  | some bp =>
    refine ⟨bp, rfl, ?_⟩
    simp only [Option.map_some', Option.some.injEq] at h
    subst h
    obtain ⟨a1, a2, a3, a4, a5⟩ := stamp_spec
      { (GetSurface B (GetSurface B c1 dst_gpu_addr bp.2 true false).1 src_gpu_addr bp.1 true
          false).1 with
        events := (GetSurface B (GetSurface B c1 dst_gpu_addr bp.2 true false).1 src_gpu_addr
          bp.1 true false).1.events ++
          [Event.ImageBlit
            (GetSurface B (GetSurface B c1 dst_gpu_addr bp.2 true false).1 src_gpu_addr bp.1
              true false).2.2
            (GetSurface B c1 dst_gpu_addr bp.2 true false).2.2] }
      (GetSurface B c1 dst_gpu_addr bp.2 true false).2.1 true
    exact ⟨a1, a2, a3.trans a1.symm, a4, a5⟩

end TextureCache
end VideoCommon

namespace VideoCommon
namespace TextureCache

/-- C22: modification ticks are monotonically increasing. `Tick()` returns the counter plus one
(modulo `2 ^ 64`), stores it, and is counted in `ticks_drawn`. Every stamp the cache
writes is the value of a `Tick()` call made for it: `MarkColorBufferInUse` and
`MarkDepthBufferInUse` on an occupied slot, `FlushSurface` on a modified surface,
`LoadSurface`, `RebuildSurface` (on the surface it returns), a successful
`TryReconstructSurface` (on the surface it returns) and `DoFermiCopy` (on the
destination surface) each draw exactly one tick, the counter plus one modulo `2 ^ 64`,
leave it in the counter and write it on that surface; `FlushSurface` on an unmodified
surface and the two marks on an empty slot change nothing, and a failed
`TryReconstructSurface` draws no tick. Across every call of the public interface the
counter advances by the number of ticks drawn during the call (modulo `2 ^ 64`), and when
that does not wrap the counter around, every tick found on a surface afterwards is the
one it had before, `0` (a new object) or a tick drawn during the call. In every state
reached from the constructor by calls of the public interface the counter is the number
of ticks drawn so far modulo `2 ^ 64`, and when fewer than `2 ^ 64` ticks have been
drawn (no wrap-around), no surface's tick exceeds the counter and two different surfaces
carry the same tick only if it is `0`, the tick of a surface that was never stamped. -/
theorem ticks_fresh_and_bounded (B : Backend) (m : Maxwell3D) (ops : List Op) :
    (∀ c : TextureCache, c.Tick.2 = (c.ticks + 1) % 2 ^ 64 ∧
      c.Tick.1.ticks = (c.ticks + 1) % 2 ^ 64 ∧
      c.Tick.1.ticks_drawn = c.ticks_drawn + 1 ∧
      c.Tick.1.surfaces = c.surfaces) ∧
    (∀ (c : TextureCache) (index : Nat),
      ((c.render_targets index).target = none → c.MarkColorBufferInUse index = c) ∧
      ∀ rt, (c.render_targets index).target = some rt →
        (c.MarkColorBufferInUse index).ticks = (c.ticks + 1) % 2 ^ 64 ∧
        (c.MarkColorBufferInUse index).ticks_drawn = c.ticks_drawn + 1 ∧
        ((c.MarkColorBufferInUse index).surfaces rt).modification_tick =
          (c.ticks + 1) % 2 ^ 64 ∧
        ((c.MarkColorBufferInUse index).surfaces rt).is_modified = true ∧
        (∀ s, s ≠ rt → (c.MarkColorBufferInUse index).surfaces s = c.surfaces s)) ∧
    (∀ (c : TextureCache),
      (c.depth_buffer.target = none → c.MarkDepthBufferInUse = c) ∧
      ∀ rt, c.depth_buffer.target = some rt →
        c.MarkDepthBufferInUse.ticks = (c.ticks + 1) % 2 ^ 64 ∧
        c.MarkDepthBufferInUse.ticks_drawn = c.ticks_drawn + 1 ∧
        (c.MarkDepthBufferInUse.surfaces rt).modification_tick = (c.ticks + 1) % 2 ^ 64 ∧
        (c.MarkDepthBufferInUse.surfaces rt).is_modified = true ∧
        (∀ s, s ≠ rt → c.MarkDepthBufferInUse.surfaces s = c.surfaces s)) ∧
    (∀ (c : TextureCache) (s : Nat),
      ((c.surfaces s).is_modified = false → c.FlushSurface s = c) ∧
      ((c.surfaces s).is_modified = true →
        (c.FlushSurface s).ticks = (c.ticks + 1) % 2 ^ 64 ∧
        (c.FlushSurface s).ticks_drawn = c.ticks_drawn + 1 ∧
        ((c.FlushSurface s).surfaces s).modification_tick = (c.ticks + 1) % 2 ^ 64 ∧
        ((c.FlushSurface s).surfaces s).is_modified = false ∧
        (∀ t, t ≠ s → (c.FlushSurface s).surfaces t = c.surfaces t))) ∧
    (∀ (c : TextureCache) (s : Nat),
      (c.LoadSurface s).ticks = (c.ticks + 1) % 2 ^ 64 ∧
      (c.LoadSurface s).ticks_drawn = c.ticks_drawn + 1 ∧
      ((c.LoadSurface s).surfaces s).modification_tick = (c.ticks + 1) % 2 ^ 64 ∧
      ((c.LoadSurface s).surfaces s).is_modified = false ∧
      (∀ t, t ≠ s → (c.LoadSurface s).surfaces t = c.surfaces t)) ∧
    (∀ (c : TextureCache) (current : Nat) (params : SurfaceParams) (is_render : Bool),
      (RebuildSurface B c current params is_render).1.ticks = (c.ticks + 1) % 2 ^ 64 ∧
      (RebuildSurface B c current params is_render).1.ticks_drawn = c.ticks_drawn + 1 ∧
      ((RebuildSurface B c current params is_render).1.surfaces
        (RebuildSurface B c current params is_render).2.1).modification_tick =
          (c.ticks + 1) % 2 ^ 64 ∧
      (∀ s, s ≠ (RebuildSurface B c current params is_render).2.1 →
        ((RebuildSurface B c current params is_render).1.surfaces s).modification_tick =
          (c.surfaces s).modification_tick)) ∧
    (∀ (c : TextureCache) (overlaps : List Nat) (params : SurfaceParams) (gpu_addr : Nat),
      ((TryReconstructSurface B c overlaps params gpu_addr).2 = none →
        (TryReconstructSurface B c overlaps params gpu_addr).1.ticks = c.ticks ∧
        (TryReconstructSurface B c overlaps params gpu_addr).1.ticks_drawn = c.ticks_drawn) ∧
      (∀ n v, (TryReconstructSurface B c overlaps params gpu_addr).2 = some (n, v) →
        (TryReconstructSurface B c overlaps params gpu_addr).1.ticks =
          (c.ticks + 1) % 2 ^ 64 ∧
        (TryReconstructSurface B c overlaps params gpu_addr).1.ticks_drawn =
          c.ticks_drawn + 1 ∧
        ((TryReconstructSurface B c overlaps params gpu_addr).1.surfaces n).modification_tick =
          (c.ticks + 1) % 2 ^ 64)) ∧
    (∀ (c : TextureCache) (src_gpu_addr : Nat) (src_params : SurfaceParams) (dst_gpu_addr : Nat)
        (dst_params : SurfaceParams) (d : TextureCache),
      DoFermiCopy B c src_gpu_addr src_params dst_gpu_addr dst_params = some d →
      ∃ bp, (DeduceBestBlit B c src_params dst_params src_gpu_addr dst_gpu_addr).2 = some bp ∧
        d.ticks =
          ((GetSurface B
            (GetSurface B (DeduceBestBlit B c src_params dst_params src_gpu_addr dst_gpu_addr).1
              dst_gpu_addr bp.2 true false).1 src_gpu_addr bp.1 true false).1.ticks + 1) %
            2 ^ 64 ∧
        d.ticks_drawn =
          (GetSurface B
            (GetSurface B (DeduceBestBlit B c src_params dst_params src_gpu_addr dst_gpu_addr).1
              dst_gpu_addr bp.2 true false).1 src_gpu_addr bp.1 true false).1.ticks_drawn + 1 ∧
        (d.surfaces
          (GetSurface B (DeduceBestBlit B c src_params dst_params src_gpu_addr dst_gpu_addr).1
            dst_gpu_addr bp.2 true false).2.1).modification_tick = d.ticks ∧
        (d.surfaces
          (GetSurface B (DeduceBestBlit B c src_params dst_params src_gpu_addr dst_gpu_addr).1
            dst_gpu_addr bp.2 true false).2.1).is_modified = true ∧
        (∀ s,
          s ≠ (GetSurface B
            (DeduceBestBlit B c src_params dst_params src_gpu_addr dst_gpu_addr).1
            dst_gpu_addr bp.2 true false).2.1 →
          d.surfaces s =
            (GetSurface B
              (GetSurface B
                (DeduceBestBlit B c src_params dst_params src_gpu_addr dst_gpu_addr).1
                dst_gpu_addr bp.2 true false).1 src_gpu_addr bp.1 true false).1.surfaces s)) ∧
    (∀ (c : TextureCache) (op : Op),
      c.ticks_drawn ≤ (applyOp B c op).ticks_drawn ∧
      (applyOp B c op).ticks % 2 ^ 64 =
        (c.ticks + ((applyOp B c op).ticks_drawn - c.ticks_drawn)) % 2 ^ 64 ∧
      (c.ticks + ((applyOp B c op).ticks_drawn - c.ticks_drawn) < 2 ^ 64 →
        (applyOp B c op).ticks = c.ticks + ((applyOp B c op).ticks_drawn - c.ticks_drawn) ∧
        ∀ s, ((applyOp B c op).surfaces s).modification_tick =
            (c.surfaces s).modification_tick ∨
          ((applyOp B c op).surfaces s).modification_tick = 0 ∨
          (c.ticks < ((applyOp B c op).surfaces s).modification_tick ∧
            ((applyOp B c op).surfaces s).modification_tick ≤ (applyOp B c op).ticks))) ∧
    (run B (init m) ops).ticks % 2 ^ 64 = (run B (init m) ops).ticks_drawn % 2 ^ 64 ∧
    ((run B (init m) ops).ticks_drawn < 2 ^ 64 →
      (run B (init m) ops).ticks = (run B (init m) ops).ticks_drawn ∧
      (∀ s, ((run B (init m) ops).surfaces s).modification_tick ≤
        (run B (init m) ops).ticks) ∧
      (∀ s t, s ≠ t →
        ((run B (init m) ops).surfaces s).modification_tick =
          ((run B (init m) ops).surfaces t).modification_tick →
        ((run B (init m) ops).surfaces s).modification_tick = 0)) ∧
    (run Example.backend (init Example.renderSetup)
      [Op.GetColorBufferSurface 0 true, Op.MarkColorBufferInUse 0]).ticks_drawn = 2 ∧
    (run Example.backend (init Example.renderSetup)
      [Op.GetColorBufferSurface 0 true, Op.MarkColorBufferInUse 0]).ticks = 2 ∧
    ((run Example.backend (init Example.renderSetup)
      [Op.GetColorBufferSurface 0 true, Op.MarkColorBufferInUse 0]).surfaces
        0).modification_tick = 2 := by
  have hrun := run_advances B (init m) ops
  have h0 : (init m).ticks = 0 := rfl
  have hd0 : (init m).ticks_drawn = 0 := rfl
  obtain ⟨-, r2, r3⟩ := hrun
  rw [h0, hd0, Nat.zero_add, Nat.sub_zero] at r2 r3
  refine ⟨fun c => ⟨rfl, rfl, rfl, rfl⟩, ?_, ?_, FlushSurface_stamp, LoadSurface_stamp,
    RebuildSurface_stamp B, TryReconstructSurface_stamp B, DoFermiCopy_stamp B, ?_, r2, ?_,
    by decide!, by decide!, by decide!⟩
  · intro c index
    constructor
    · intro h
      unfold MarkColorBufferInUse
      rw [h]
    · intro rt h
      unfold MarkColorBufferInUse
      rw [h]
      exact stamp_spec c rt true
  · intro c
    constructor
    · intro h
      unfold MarkDepthBufferInUse
      rw [h]
    · intro rt h
      unfold MarkDepthBufferInUse
      rw [h]
      exact stamp_spec c rt true
  · intro c op
    obtain ⟨a1, a2, a3⟩ := applyOp_advances B c op
    exact ⟨a1, a2, fun hlt => ⟨(a3 hlt).1, (a3 hlt).2.1⟩⟩
  · intro hlt
    obtain ⟨e, -, hinv⟩ := r3 hlt
    exact ⟨e, (hinv (init_ticksInv m)).1, (hinv (init_ticksInv m)).2⟩

end TextureCache
end VideoCommon

namespace VideoCommon
namespace TextureCache

theorem GetUncachedSurface_num_le (B : Backend) (c : TextureCache) (gpu_addr : Nat)
    (params : SurfaceParams) :
    c.num_surfaces ≤ (GetUncachedSurface B c gpu_addr params).1.num_surfaces := by
  cases hr : c.TryGetReservedSurface params with
  | some n => rw [GetUncachedSurface_reserved B c gpu_addr params n hr]; exact Nat.le_refl _
  | none => rw [GetUncachedSurface_created B c gpu_addr params hr]; exact Nat.le_succ _

theorem GetUncachedSurface_origin_nil (B : Backend) (c : TextureCache) (gpu_addr : Nat)
    (params : SurfaceParams) : Origin c [] (GetUncachedSurface B c gpu_addr params).2 := by
  rcases (GetUncachedSurface_result B c gpu_addr params).2.2 with h | h
  · exact Or.inr (Or.inr h)
  · exact Or.inr (Or.inl (Nat.le_of_eq h.symm))

theorem Origin.mono {c : TextureCache} {L : List Nat} {n : Nat} (h : Origin c [] n) :
    Origin c L n := by
  rcases h with h | h | h
  · cases h
  · exact Or.inr (Or.inl h)
  · exact Or.inr (Or.inr h)

/-- An origin relative to a later state `d` is an origin relative to `c`, when `d` has no
fewer objects and every surface of `c` that is unregistered in `d` has an origin in
`c`. -/
theorem Origin.from_later {c d : TextureCache} {L : List Nat} {n : Nat}
    (hnum : c.num_surfaces ≤ d.num_surfaces)
    (hun : ∀ s, s < c.num_surfaces → (d.surfaces s).is_registered = false → Origin c L s)
    (h : Origin d L n) : Origin c L n := by
  by_cases hn : c.num_surfaces ≤ n
  · exact Or.inr (Or.inl hn)
  · rcases h with h | h | h
    · exact Or.inl h
    · omega
    · exact hun n (by omega) h

theorem InitializeSurface_origin (B : Backend) (c : TextureCache) (gpu_addr : Nat)
    (params : SurfaceParams) (preserve_contents : Bool) (L : List Nat) :
    Origin c L (InitializeSurface B c gpu_addr params preserve_contents).2.1 := by
  rw [InitializeSurface_result]
  exact (GetUncachedSurface_origin_nil B c gpu_addr params).mono

theorem RecycleSurface_origin (B : Backend) (c : TextureCache) (overlaps : List Nat)
    (params : SurfaceParams) (gpu_addr : Nat) (preserve_contents : Bool)
    (untopological : MatchTopologyResult) :
    Origin c overlaps
      (RecycleSurface B c overlaps params gpu_addr preserve_contents untopological).2.1 := by
  have hnum := (foldl_Unregister_frame overlaps c).1
  have hun : ∀ s, s < c.num_surfaces →
      ((overlaps.foldl Unregister c).surfaces s).is_registered = false →
      Origin c overlaps s := by
    intro s _ h
    rw [foldl_Unregister_heap] at h
    split at h
    · rename_i hc; exact Or.inl hc.1
    · exact Or.inr (Or.inr h)
  rw [RecycleSurface_eq]
  rcases PickStrategy_cases B (overlaps.foldl Unregister c) overlaps params untopological
    with h | h
  · rw [recycleAfterUnregister_of_ignore _ _ _ _ _ _ _ h]
    exact Origin.from_later (Nat.le_of_eq hnum.symm) hun (InitializeSurface_origin B _ _ _ _ _)
  · rw [recycleAfterUnregister_of_flush _ _ _ _ _ _ _ h]
    have hmo := foldl_FlushSurface_modificationOnly
      (sortByTick (overlaps.foldl Unregister c) overlaps) (overlaps.foldl Unregister c)
    refine Origin.from_later (by rw [hmo.num, hnum]) ?_ (InitializeSurface_origin B _ _ _ _ _)
    intro s hs h
    rw [(hmo.fields s).2.2.2.2.2.2.1] at h
    exact hun s hs h

theorem RebuildSurface_origin (B : Backend) (c : TextureCache) (current : Nat)
    (params : SurfaceParams) (is_render : Bool) :
    Origin c [] (RebuildSurface B c current params is_render).2.1 ∧
    c.num_surfaces ≤ (RebuildSurface B c current params is_render).1.num_surfaces ∧
    (∀ s, s < c.num_surfaces →
      ((RebuildSurface B c current params is_render).1.surfaces s).is_registered = false →
      Origin c [current] s) := by
  obtain ⟨P, ev, heq⟩ := RebuildSurface_shape B c current params is_render
  rw [heq]
  dsimp only
  refine ⟨GetUncachedSurface_origin_nil B c _ P, ?_, ?_⟩
  · show (Register B _ _).num_surfaces ≥ _
    rw [(Register_fields B _ _ 0).1, Unregister_num]
    exact GetUncachedSurface_num_le B c _ P
  · intro s hs h
    have h1 : ((Register B
        (Unregister { (GetUncachedSurface B c (c.surfaces current).gpu_addr P).1 with
          events := ev } current)
        (GetUncachedSurface B c (c.surfaces current).gpu_addr P).2).surfaces s).is_registered =
          false := by
      rw [modify_surfaces] at h
      split at h
      · rename_i hsn
        rw [hsn]
        exact h
      · exact h
    have h2 : ((Unregister { (GetUncachedSurface B c (c.surfaces current).gpu_addr P).1 with
          events := ev } current).surfaces s).is_registered = false := by
      cases hb : ((Unregister { (GetUncachedSurface B c (c.surfaces current).gpu_addr P).1 with
          events := ev } current).surfaces s).is_registered
      · rfl
      · rw [(Register_fields B _ _ s).2.2.2.2 hb] at h1
        cases h1
    rw [Unregister_surfaces] at h2
    split at h2
    · rename_i hc
      exact Or.inl (by rw [hc.1]; exact List.mem_singleton_self _)
    · refine Or.inr (Or.inr ?_)
      rw [← (GetUncachedSurface_fields B c _ P s hs).2.2.2]
      exact h2

theorem TryReconstructSurface_origin (B : Backend) (c : TextureCache) (overlaps : List Nat)
    (params : SurfaceParams) (gpu_addr : Nat) :
    (∀ view, (TryReconstructSurface B c overlaps params gpu_addr).2 = some view →
      Origin c [] view.1) ∧
    ((TryReconstructSurface B c overlaps params gpu_addr).2 = none →
      c.num_surfaces ≤ (TryReconstructSurface B c overlaps params gpu_addr).1.num_surfaces ∧
      ∀ s, s < c.num_surfaces →
        ((TryReconstructSurface B c overlaps params gpu_addr).1.surfaces s).is_registered =
          (c.surfaces s).is_registered) := by
  by_cases h3d : params.target = SurfaceTarget.Texture3D
  · have he : TryReconstructSurface B c overlaps params gpu_addr = (c, none) := by
      unfold TryReconstructSurface
      rw [if_pos h3d]
    rw [he]
    exact ⟨fun v h => (by cases h), fun _ => ⟨Nat.le_refl _, fun _ _ => rfl⟩⟩
  · obtain ⟨ev, hst, -⟩ := reconstructLoop_state B params
      (GetUncachedSurface B c gpu_addr params).2 overlaps
      (GetUncachedSurface B c gpu_addr params).1 false 0
    have hfail : c.num_surfaces ≤
        (reconstructLoop B params (GetUncachedSurface B c gpu_addr params).2 overlaps
          (GetUncachedSurface B c gpu_addr params).1 false 0).1.num_surfaces ∧
        ∀ s, s < c.num_surfaces →
          ((reconstructLoop B params (GetUncachedSurface B c gpu_addr params).2 overlaps
            (GetUncachedSurface B c gpu_addr params).1 false 0).1.surfaces s).is_registered =
            (c.surfaces s).is_registered := by
      rw [hst]
      exact ⟨GetUncachedSurface_num_le B c gpu_addr params,
        fun s hs => (GetUncachedSurface_fields B c gpu_addr params s hs).2.2.2⟩
    rw [TryReconstructSurface_eq B c overlaps params gpu_addr h3d]
    rcases hr : (reconstructLoop B params (GetUncachedSurface B c gpu_addr params).2 overlaps
        (GetUncachedSurface B c gpu_addr params).1 false 0).2 with _ | ⟨modified, passed⟩
    · exact ⟨fun v h => (by cases h), fun _ => hfail⟩
    · dsimp only
      split_ifs with hc
      · exact ⟨fun v h => (by cases h), fun _ => hfail⟩
      · refine ⟨fun v h => ?_, fun h => (by cases h)⟩
        simp only [Option.some.injEq] at h
        rw [← h]
        exact GetUncachedSurface_origin_nil B c gpu_addr params

theorem origin_of_reconstruct (B : Backend) (c1 c2 : TextureCache) (overlaps : List Nat)
    (params : SurfaceParams) (gpu_addr : Nat) (view : Nat × Option View)
    (h : TryReconstructSurface B c1 overlaps params gpu_addr = (c2, some view)) :
    Origin c1 overlaps (c2, view).2.1 :=
  ((TryReconstructSurface_origin B c1 overlaps params gpu_addr).1 view (by rw [h])).mono

theorem origin_of_reconstruct_recycle (B : Backend) (c1 c2 : TextureCache) (overlaps : List Nat)
    (params : SurfaceParams) (gpu_addr : Nat) (preserve_contents : Bool)
    (untopological : MatchTopologyResult)
    (h : TryReconstructSurface B c1 overlaps params gpu_addr = (c2, none)) :
    Origin c1 overlaps
      (RecycleSurface B c2 overlaps params gpu_addr preserve_contents untopological).2.1 := by
  obtain ⟨h1, h2⟩ := (TryReconstructSurface_origin B c1 overlaps params gpu_addr).2 (by rw [h])
  rw [h] at h1 h2
  refine Origin.from_later h1 ?_ (RecycleSurface_origin B c2 overlaps params gpu_addr _ _)
  intro s hs hu
  rw [h2 s hs] at hu
  exact Or.inr (Or.inr hu)

theorem origin_of_rebuild (B : Backend) (c1 : TextureCache) (current : Nat)
    (new_params : SurfaceParams) (is_render : Bool) (view : Option View) :
    Origin c1 [current]
      ((RebuildSurface B c1 current new_params is_render).1,
        ((RebuildSurface B c1 current new_params is_render).2.1, view)).2.1 :=
  (RebuildSurface_origin B c1 current new_params is_render).1.mono

theorem origin_of_rebuild_recycle (B : Backend) (c1 : TextureCache) (current : Nat)
    (new_params : SurfaceParams) (is_render : Bool) (params : SurfaceParams)
    (gpu_addr : Nat) (preserve_contents : Bool) (untopological : MatchTopologyResult) :
    Origin c1 [current]
      (RecycleSurface B (RebuildSurface B c1 current new_params is_render).1 [current] params
        gpu_addr preserve_contents untopological).2.1 := by
  obtain ⟨-, h1, h2⟩ := RebuildSurface_origin B c1 current new_params is_render
  exact Origin.from_later h1 h2 (RecycleSurface_origin B _ [current] params gpu_addr _ _)

theorem origin_of_overlap (c : TextureCache) (current : Nat) (view : Option View) :
    Origin c [current] (c, (current, view)).2.1 :=
  Or.inl (List.mem_singleton_self _)

theorem resolveOverlaps_origin (B : Backend) (c1 : TextureCache) (overlaps : List Nat)
    (gpu_addr : Nat) (params : SurfaceParams) (preserve_contents is_render : Bool) :
    Origin c1 overlaps
      (resolveOverlaps B c1 overlaps gpu_addr params preserve_contents is_render).2.1 := by
  unfold resolveOverlaps
  dsimp only
  repeat' split
  all_goals with_reducible first
    | exact InitializeSurface_origin B c1 _ _ _ _
    | exact RecycleSurface_origin B c1 _ _ _ _ _
    | exact origin_of_reconstruct B c1 _ _ _ _ _ (by assumption)
    | exact origin_of_reconstruct_recycle B c1 _ _ _ _ _ _ (by assumption)
    | exact origin_of_rebuild B c1 _ _ _ _
    | exact origin_of_rebuild_recycle B c1 _ _ _ _ _ _ _
    | exact origin_of_overlap c1 _ _

end TextureCache
end VideoCommon

namespace VideoCommon
namespace TextureCache

theorem twoTextures_core : Example.twoTextures.RegistryCore :=
  RegistryCore.of_run Example.backend Example.maxwell3d _ 2 (by decide!) (by decide!)

theorem InvalidateRegion_clears (c : TextureCache) (hc : c.RegistryCore)
    (hguard : c.guard_render_targets = false) (addr size : Nat) (hwrap : addr + size < 2 ^ 64) :
    (c.InvalidateRegion addr size).num_surfaces = c.num_surfaces ∧
    (∀ s, ((c.InvalidateRegion addr size).surfaces s).is_registered = true →
      (c.surfaces s).is_registered = true ∧
      ¬ RangesIntersect ((c.InvalidateRegion addr size).surfaces s).cache_addr
        ((c.InvalidateRegion addr size).surfaces s).cache_addr_end addr (addr + size)) ∧
    (∀ a, addr ≤ a → a < addr + size → (c.InvalidateRegion addr size).l1_cache a = none) := by
  obtain ⟨h1, -, h3, -, -, -⟩ := InvalidateRegion_core c hc addr size hwrap
  have hsh : ∀ t, c.Shielded t = false := by intro t; simp [Shielded, hguard]
  have hreg : ∀ s, ((c.InvalidateRegion addr size).surfaces s).is_registered = true →
      (c.surfaces s).is_registered = true ∧
      ¬ RangesIntersect ((c.InvalidateRegion addr size).surfaces s).cache_addr
        ((c.InvalidateRegion addr size).surfaces s).cache_addr_end addr (addr + size) := by
    intro s hs
    rw [h3 s] at hs ⊢
    by_cases hcnd : ((c.surfaces s).is_registered = true ∧
        RangesIntersect (c.surfaces s).cache_addr (c.surfaces s).cache_addr_end
          addr (addr + size)) ∧ c.Shielded s = false
    · rw [if_pos hcnd] at hs
      cases hs
    · rw [if_neg hcnd] at hs ⊢
      exact ⟨hs, fun hint => hcnd ⟨⟨hs, hint⟩, hsh s⟩⟩
  refine ⟨?_, hreg, ?_⟩
  · have hst := GetSurfacesInRegion_state c hc.picked addr size
    have hf := (foldl_Unregister_frame (c.GetSurfacesInRegion addr size).2
      (c.GetSurfacesInRegion addr size).1).1
    rw [hst] at hf
    have he : c.InvalidateRegion addr size =
        (c.GetSurfacesInRegion addr size).2.foldl Unregister
          (c.GetSurfacesInRegion addr size).1 := rfl
    rw [he, hst]
    exact hf
  · intro a hlo hhi
    cases hl : (c.InvalidateRegion addr size).l1_cache a with
    | none => rfl
    | some S =>
      exfalso
      obtain ⟨hr, ha⟩ := h1.index S a hl
      have hrange := h1.ranges S hr
      refine (hreg S hr).2 ?_
      rw [rangesIntersect_iff hrange.1 (by omega)]
      omega

/-- C7 (amended): invalidate, then resolve. From a state with exact page buckets and a sound
exact-address index, with the render-target guard off, after
`InvalidateRegion(addr, size)` and for any `gpu_addr` whose cache address lies inside
`[addr, addr + size)`: no object was created by the invalidation, no surface that is
still registered intersects the region, and the exact-address index has no entry at
the address, so `GetSurface` is never an exact hit; every overlap it finds is a
registered surface (outside the region); and the surface it returns is one of these
overlaps, or an object created by the call, or a surface that was unregistered when the
call started (a reserve-pool entry, possibly one parked by this invalidation). When the
requested byte range lies inside the region there is no overlap: the surface returned is
newly created or was unregistered, and for a translatable address the call is
`InitializeSurface`. -/
theorem GetSurface_after_InvalidateRegion (B : Backend) (c : TextureCache) (addr size : Nat)
    (gpu_addr : Nat) (params : SurfaceParams) (preserve_contents is_render : Bool)
    (hc : c.RegistryCore) (hguard : c.guard_render_targets = false)
    (hwrap : addr + size < 2 ^ 64)
    (hlo : addr ≤ B.GetPointer gpu_addr) (hhi : B.GetPointer gpu_addr < addr + size) :
    (c.InvalidateRegion addr size).num_surfaces = c.num_surfaces ∧
    (∀ s, ((c.InvalidateRegion addr size).surfaces s).is_registered = true →
      (c.surfaces s).is_registered = true ∧
      ¬ RangesIntersect ((c.InvalidateRegion addr size).surfaces s).cache_addr
        ((c.InvalidateRegion addr size).surfaces s).cache_addr_end addr (addr + size)) ∧
    (c.InvalidateRegion addr size).l1_cache (B.GetPointer gpu_addr) = none ∧
    (∀ s, s ∈ ((c.InvalidateRegion addr size).GetSurfacesInRegion (B.GetPointer gpu_addr)
        (B.GetGuestSizeInBytes params)).2 →
      ((c.InvalidateRegion addr size).surfaces s).is_registered = true) ∧
    ((GetSurface B (c.InvalidateRegion addr size) gpu_addr params preserve_contents
        is_render).2.1 ∈
        ((c.InvalidateRegion addr size).GetSurfacesInRegion (B.GetPointer gpu_addr)
          (B.GetGuestSizeInBytes params)).2 ∨
      (c.InvalidateRegion addr size).num_surfaces ≤
        (GetSurface B (c.InvalidateRegion addr size) gpu_addr params preserve_contents
          is_render).2.1 ∨
      ((c.InvalidateRegion addr size).surfaces
        (GetSurface B (c.InvalidateRegion addr size) gpu_addr params preserve_contents
          is_render).2.1).is_registered = false) ∧
    (B.GetPointer gpu_addr + B.GetGuestSizeInBytes params ≤ addr + size →
      ((c.InvalidateRegion addr size).GetSurfacesInRegion (B.GetPointer gpu_addr)
        (B.GetGuestSizeInBytes params)).2 = [] ∧
      ((c.InvalidateRegion addr size).num_surfaces ≤
          (GetSurface B (c.InvalidateRegion addr size) gpu_addr params preserve_contents
            is_render).2.1 ∨
        ((c.InvalidateRegion addr size).surfaces
          (GetSurface B (c.InvalidateRegion addr size) gpu_addr params preserve_contents
            is_render).2.1).is_registered = false) ∧
      (B.GetPointer gpu_addr ≠ 0 →
        GetSurface B (c.InvalidateRegion addr size) gpu_addr params preserve_contents
            is_render =
          InitializeSurface B (c.InvalidateRegion addr size) gpu_addr params
            preserve_contents)) := by
  obtain ⟨hnum, hreg, hl1⟩ := InvalidateRegion_clears c hc hguard addr size hwrap
  have hc1 := (InvalidateRegion_core c hc addr size hwrap).1
  have hst := GetSurfacesInRegion_state (c.InvalidateRegion addr size) hc1.picked
    (B.GetPointer gpu_addr) (B.GetGuestSizeInBytes params)
  have hl := hl1 _ hlo hhi
  have hmem : ∀ s, s ∈ ((c.InvalidateRegion addr size).GetSurfacesInRegion
      (B.GetPointer gpu_addr) (B.GetGuestSizeInBytes params)).2 →
      ((c.InvalidateRegion addr size).surfaces s).is_registered = true := by
    intro s hs
    obtain ⟨p, hp⟩ := mem_GetSurfacesInRegion_bucket _ hc1.picked _ _ s hs
    exact ((hc1.buckets s p).mp hp).1
  have horigin : Origin (c.InvalidateRegion addr size)
      ((c.InvalidateRegion addr size).GetSurfacesInRegion (B.GetPointer gpu_addr)
        (B.GetGuestSizeInBytes params)).2
      (GetSurface B (c.InvalidateRegion addr size) gpu_addr params preserve_contents
        is_render).2.1 := by
    by_cases hptr : B.GetPointer gpu_addr = 0
    · have he : GetSurface B (c.InvalidateRegion addr size) gpu_addr params preserve_contents
          is_render =
          InitializeSurface B (c.InvalidateRegion addr size) gpu_addr
            { params with width := 1, height := 1, depth := 1, block_height := 0,
                          block_depth := 0 } false := by
        unfold GetSurface
        dsimp only
        rw [if_pos hptr]
      rw [he]
      exact InitializeSurface_origin B _ _ _ _ _
    · rw [GetSurface_of_no_entry B _ gpu_addr params preserve_contents is_render hptr hl,
        GetSurfaceFromOverlaps_eq]
      have h := resolveOverlaps_origin B
        ((c.InvalidateRegion addr size).GetSurfacesInRegion (B.GetPointer gpu_addr)
          (B.GetGuestSizeInBytes params)).1
        ((c.InvalidateRegion addr size).GetSurfacesInRegion (B.GetPointer gpu_addr)
          (B.GetGuestSizeInBytes params)).2 gpu_addr params preserve_contents is_render
      rw [hst] at h ⊢
      exact h
  refine ⟨hnum, hreg, hl, hmem, horigin, ?_⟩
  intro hin
  have hq := GetSurfacesInRegion_of_none (c.InvalidateRegion addr size) hc1.toBucketsExact
    (B.GetPointer gpu_addr) (B.GetGuestSizeInBytes params) (by omega)
    (fun s hs hint => by
      have hrange := hc1.ranges s hs
      by_cases hsz : B.GetGuestSizeInBytes params = 0
      · unfold RangesIntersect at hint
        rw [max_lt_iff, lt_min_iff, lt_min_iff] at hint
        omega
      · refine (hreg s hs).2 ?_
        rw [rangesIntersect_iff hrange.1 (by omega)] at hint ⊢
        omega)
  have hnil : ((c.InvalidateRegion addr size).GetSurfacesInRegion (B.GetPointer gpu_addr)
      (B.GetGuestSizeInBytes params)).2 = [] := by rw [hq]
  refine ⟨hnil, ?_, ?_⟩
  · rw [hnil] at horigin
    rcases horigin with h | h | h
    · cases h
    · exact Or.inl h
    · exact Or.inr h
  · intro hptr
    rw [GetSurface_of_no_entry B _ gpu_addr params preserve_contents is_render hptr hl]
    unfold GetSurfaceFromOverlaps
    simp only [hq, List.isEmpty_nil, if_true]

/-- C7 (amended) at the cache holding two textures: after the first one has been invalidated,
a request for it at an address inside the invalidated region whose bytes reach into the
second texture finds that texture as the only overlap, recycles it, and returns the
first texture's object, which the invalidation had parked in the reserve pool. -/
theorem GetSurface_after_InvalidateRegion_witness :
    Example.twoTextures.RegistryCore ∧
    Example.twoTextures.guard_render_targets = false ∧
    0x100000 + 0x40 < 2 ^ 64 ∧
    0x100000 ≤ Example.backend.GetPointer 0x100020 ∧
    Example.backend.GetPointer 0x100020 < 0x100000 + 0x40 ∧
    ((Example.twoTextures.InvalidateRegion 0x100000 0x40).GetSurfacesInRegion
      (Example.backend.GetPointer 0x100020)
      (Example.backend.GetGuestSizeInBytes (Example.texture 4 4 2 PixelFormat.Z16))).2 = [1] ∧
    (GetSurface Example.backend (Example.twoTextures.InvalidateRegion 0x100000 0x40) 0x100020
      (Example.texture 4 4 2 PixelFormat.Z16) true false).2.1 = 0 ∧
    (Example.twoTextures.InvalidateRegion 0x100000 0x40).l1_cache
      (Example.backend.GetPointer 0x100020) = none ∧
    ((GetSurface Example.backend (Example.twoTextures.InvalidateRegion 0x100000 0x40) 0x100020
        (Example.texture 4 4 2 PixelFormat.Z16) true false).2.1 ∈
        ((Example.twoTextures.InvalidateRegion 0x100000 0x40).GetSurfacesInRegion
          (Example.backend.GetPointer 0x100020)
          (Example.backend.GetGuestSizeInBytes (Example.texture 4 4 2 PixelFormat.Z16))).2 ∨
      (Example.twoTextures.InvalidateRegion 0x100000 0x40).num_surfaces ≤
        (GetSurface Example.backend (Example.twoTextures.InvalidateRegion 0x100000 0x40)
          0x100020 (Example.texture 4 4 2 PixelFormat.Z16) true false).2.1 ∨
      ((Example.twoTextures.InvalidateRegion 0x100000 0x40).surfaces
        (GetSurface Example.backend (Example.twoTextures.InvalidateRegion 0x100000 0x40)
          0x100020 (Example.texture 4 4 2 PixelFormat.Z16) true false).2.1).is_registered =
        false) :=
  ⟨twoTextures_core, by decide!, by decide!, by decide!, by decide!, by decide!, by decide!,
    (GetSurface_after_InvalidateRegion Example.backend Example.twoTextures 0x100000 0x40
      0x100020 (Example.texture 4 4 2 PixelFormat.Z16) true false twoTextures_core
      (by decide!) (by decide!) (by decide!) (by decide!)).2.2.1,
    (GetSurface_after_InvalidateRegion Example.backend Example.twoTextures 0x100000 0x40
      0x100020 (Example.texture 4 4 2 PixelFormat.Z16) true false twoTextures_core
      (by decide!) (by decide!) (by decide!) (by decide!)).2.2.2.2.1⟩

/-- C7 (counterexample): a surface resolved at `0x100000`, invalidated, and resolved again with
the same params is the very same surface object (number 0, created before the
invalidation): it comes back from the reserve pool. With the render-target guard
enabled, the bound render target stays registered across the invalidation of its pages
and the request at its address is an exact hit on it. And a request at an invalidated
address whose bytes reach into a texture registered outside the region, with that
texture's params, recycles that texture and returns its object, which existed before the
invalidation and was still registered after it. -/
theorem GetSurface_returns_parked_surface :
    0 < Example.depthResolved.num_surfaces ∧
    (Example.depthResolved.surfaces 0).is_registered = true ∧
    (Example.depthInvalidated.surfaces 0).is_registered = false ∧
    (GetSurface Example.backend Example.depthInvalidated 0x100000
      (Example.texture 4 4 2 PixelFormat.Z16) true false).2.1 = 0 ∧
    Example.targetGuarded.guard_render_targets = true ∧
    0 < Example.targetGuarded.num_surfaces ∧
    ((Example.targetGuarded.InvalidateRegion 0x100000 0x1000).surfaces 0).is_registered = true ∧
    (GetSurface Example.backend (Example.targetGuarded.InvalidateRegion 0x100000 0x1000)
      0x100000 (Example.targetGuarded.surfaces 0).params true true).2.1 = 0 ∧
    Example.shiftedTexture.guard_render_targets = false ∧
    0 < Example.shiftedTexture.num_surfaces ∧
    (Example.shiftedTexture.surfaces 0).cache_addr = 0x100010 ∧
    ((Example.shiftedTexture.InvalidateRegion 0x100000 0x10).surfaces 0).is_registered = true ∧
    (GetSurface Example.backend (Example.shiftedTexture.InvalidateRegion 0x100000 0x10)
      0x100000 (Example.texture 4 4 2 PixelFormat.Z16) true false).2.1 = 0 := by
  decide!

end TextureCache
end VideoCommon

namespace VideoCommon
namespace TextureCache

theorem Outcome.of_resolved {B : Backend} {gpu_addr : Nat} {params : SurfaceParams}
    {is_render : Bool} {c : TextureCache} {x : TextureCache × (Nat × Option View)}
    (h : Resolved B gpu_addr params x) : Outcome B gpu_addr params is_render c x :=
  Or.inr (Or.inl ⟨h.1, h.2.1, Or.inl h.2.2⟩)

theorem InitializeSurface_resolved (B : Backend) (c : TextureCache) (hres : c.ReserveKeyed)
    (gpu_addr cpu_addr : Nat) (params : SurfaceParams) (preserve_contents : Bool)
    (hptr : B.GetPointer gpu_addr ≠ 0) (hcpu : B.GpuToCpuAddress gpu_addr = some cpu_addr) :
    Resolved B gpu_addr params (InitializeSurface B c gpu_addr params preserve_contents) := by
  obtain ⟨h1, h2⟩ := InitializeSurface_post B c hres gpu_addr cpu_addr params preserve_contents
    hptr hcpu
  refine ⟨?_, h1, h2⟩
  rw [InitializeSurface_result]

theorem RecycleSurface_resolved (B : Backend) (c : TextureCache) (hres : c.ReserveKeyed)
    (overlaps : List Nat) (hlt : ∀ s ∈ overlaps, s < c.num_surfaces)
    (gpu_addr cpu_addr : Nat) (params : SurfaceParams) (preserve_contents : Bool)
    (untopological : MatchTopologyResult)
    (hptr : B.GetPointer gpu_addr ≠ 0) (hcpu : B.GpuToCpuAddress gpu_addr = some cpu_addr) :
    Resolved B gpu_addr params
      (RecycleSurface B c overlaps params gpu_addr preserve_contents untopological) := by
  have h1 := foldl_Unregister_reserveKeyed overlaps c hres hlt
  rw [RecycleSurface_eq]
  rcases PickStrategy_cases B (overlaps.foldl Unregister c) overlaps params untopological
    with h | h
  · rw [recycleAfterUnregister_of_ignore _ _ _ _ _ _ _ h]
    exact InitializeSurface_resolved B _ h1 gpu_addr cpu_addr params _ hptr hcpu
  · rw [recycleAfterUnregister_of_flush _ _ _ _ _ _ _ h]
    have hmo := foldl_FlushSurface_modificationOnly
      (sortByTick (overlaps.foldl Unregister c) overlaps) (overlaps.foldl Unregister c)
    exact InitializeSurface_resolved B _ (hmo.reserveKeyed h1) gpu_addr cpu_addr params _
      hptr hcpu

theorem GetUncachedSurface_reserveKeyed (B : Backend) (c : TextureCache) (hres : c.ReserveKeyed)
    (gpu_addr : Nat) (params : SurfaceParams) :
    (GetUncachedSurface B c gpu_addr params).1.ReserveKeyed := by
  intro p s hs
  rw [(GetUncachedSurface_frame B c gpu_addr params).2.2.2.1] at hs
  obtain ⟨h1, h2⟩ := hres p s hs
  refine ⟨Nat.lt_of_lt_of_le h1 (GetUncachedSurface_num_le B c gpu_addr params), ?_⟩
  rw [(GetUncachedSurface_fields B c gpu_addr params s h1).2.1]
  exact h2

theorem ReserveKeyed.held {c d : TextureCache} (hres : c.ReserveKeyed)
    (hr : d.surface_reserve = c.surface_reserve) (hn : c.num_surfaces ≤ d.num_surfaces)
    (hp : ∀ s, s < c.num_surfaces → (d.surfaces s).params = (c.surfaces s).params) :
    d.ReserveKeyed := by
  intro p s hs
  rw [hr] at hs
  obtain ⟨h1, h2⟩ := hres p s hs
  exact ⟨Nat.lt_of_lt_of_le h1 hn, by rw [hp s h1]; exact h2⟩

theorem Register_reserveKeyed (B : Backend) (c : TextureCache) (hres : c.ReserveKeyed)
    (n : Nat) : (Register B c n).ReserveKeyed :=
  hres.held (Register_reserve B c n) (Nat.le_of_eq (Register_fields B c n 0).1.symm)
    (fun s _ => (Register_fields B c n s).2.2.1)

theorem RebuildSurface_eq (B : Backend) (c : TextureCache) (current : Nat)
    (params : SurfaceParams) (is_render : Bool) :
    ∃ ev : List Event,
      RebuildSurface B c current params is_render =
        ((Register B
            (Unregister
              { (GetUncachedSurface B c (c.surfaces current).gpu_addr
                  (rebuildParams c current params is_render)).1 with events := ev } current)
            (GetUncachedSurface B c (c.surfaces current).gpu_addr
              (rebuildParams c current params is_render)).2).Tick.1.modify
          (GetUncachedSurface B c (c.surfaces current).gpu_addr
            (rebuildParams c current params is_render)).2
          (fun s => s.MarkAsModified
            (((Register B
              (Unregister
                { (GetUncachedSurface B c (c.surfaces current).gpu_addr
                    (rebuildParams c current params is_render)).1 with events := ev } current)
              (GetUncachedSurface B c (c.surfaces current).gpu_addr
                (rebuildParams c current params is_render)).2).Tick.1.surfaces
                current).is_modified)
            (Register B
              (Unregister
                { (GetUncachedSurface B c (c.surfaces current).gpu_addr
                    (rebuildParams c current params is_render)).1 with events := ev } current)
              (GetUncachedSurface B c (c.surfaces current).gpu_addr
                (rebuildParams c current params is_render)).2).Tick.2),
         ((GetUncachedSurface B c (c.surfaces current).gpu_addr
            (rebuildParams c current params is_render)).2,
          some (View.main (GetUncachedSurface B c (c.surfaces current).gpu_addr
            (rebuildParams c current params is_render)).2))) := by
  unfold RebuildSurface rebuildParams
  dsimp only
  split_ifs
  all_goals exact ⟨_, rfl⟩

end TextureCache
end VideoCommon

namespace VideoCommon
namespace TextureCache

theorem rebuildParams_cases (c : TextureCache) (current : Nat) (params : SurfaceParams)
    (is_render : Bool) :
    rebuildParams c current params is_render = params ∨
      (rebuildParams c current params is_render).pixel_format ≠ params.pixel_format := by
  unfold rebuildParams
  split
  · rename_i h
    simp only [Bool.and_eq_true, decide_eq_true_eq] at h
    exact Or.inr h.1.1
  · exact Or.inl rfl

theorem stamp_l1 (c : TextureCache) (n : Nat) (m : Bool) :
    (c.Tick.1.modify n (fun s => s.MarkAsModified m c.Tick.2)).l1_cache = c.l1_cache := rfl

theorem stamp_params (c : TextureCache) (n : Nat) (m : Bool) (s : Nat) :
    ((c.Tick.1.modify n (fun s => s.MarkAsModified m c.Tick.2)).surfaces s).params =
      (c.surfaces s).params ∧
    ((c.Tick.1.modify n (fun s => s.MarkAsModified m c.Tick.2)).surfaces s).gpu_addr =
      (c.surfaces s).gpu_addr := by
  by_cases hs : s = n
  · subst hs; simp [Tick, modify, Surface.MarkAsModified]
  · simp [Tick, modify, Function.update_noteq hs]

theorem stamp_reserveKeyed (c : TextureCache) (hres : c.ReserveKeyed) (n : Nat) (m : Bool) :
    (c.Tick.1.modify n (fun s => s.MarkAsModified m c.Tick.2)).ReserveKeyed :=
  hres.held rfl (Nat.le_refl _) (fun s _ => (stamp_params c n m s).1)

theorem Register_l1_self (B : Backend) (c : TextureCache) (n cpu_addr : Nat)
    (hptr : B.GetPointer (c.surfaces n).gpu_addr ≠ 0)
    (hcpu : B.GpuToCpuAddress (c.surfaces n).gpu_addr = some cpu_addr) :
    (Register B c n).l1_cache (B.GetPointer (c.surfaces n).gpu_addr) = some n := by
  rw [Register_eq B c n cpu_addr hptr hcpu]
  simp

theorem Unregister_reserveKeyed (c : TextureCache) (hres : c.ReserveKeyed) (s : Nat)
    (hlt : s < c.num_surfaces) : (c.Unregister s).ReserveKeyed := by
  have h := foldl_Unregister_reserveKeyed [s] c hres (fun t ht => by
    rw [List.mem_singleton] at ht; rw [ht]; exact hlt)
  exact h

/-- `RebuildSurface` on a surface whose GPU address translates: the surface returned has the
params `rebuildParams`, carries its main view and is the exact-address entry at the
cache address of the current surface's GPU address. -/
theorem RebuildSurface_indexed (B : Backend) (c : TextureCache) (hres : c.ReserveKeyed)
    (current cpu_addr : Nat) (params : SurfaceParams) (is_render : Bool)
    (hlt : current < c.num_surfaces)
    (hptr : B.GetPointer (c.surfaces current).gpu_addr ≠ 0)
    (hcpu : B.GpuToCpuAddress (c.surfaces current).gpu_addr = some cpu_addr) :
    (RebuildSurface B c current params is_render).2.2 =
      some (View.main (RebuildSurface B c current params is_render).2.1) ∧
    (RebuildSurface B c current params is_render).1.l1_cache
      (B.GetPointer (c.surfaces current).gpu_addr) =
        some (RebuildSurface B c current params is_render).2.1 ∧
    ((RebuildSurface B c current params is_render).1.surfaces
      (RebuildSurface B c current params is_render).2.1).params =
        rebuildParams c current params is_render ∧
    (RebuildSurface B c current params is_render).1.ReserveKeyed ∧
    c.num_surfaces ≤ (RebuildSurface B c current params is_render).1.num_surfaces := by
  obtain ⟨ev, heq⟩ := RebuildSurface_eq B c current params is_render
  rw [heq]
  dsimp only
  have hg := (GetUncachedSurface_result B c (c.surfaces current).gpu_addr
    (rebuildParams c current params is_render)).1
  have hp := GetUncachedSurface_params B c hres (c.surfaces current).gpu_addr
    (rebuildParams c current params is_render)
  have hnum := GetUncachedSurface_num_le B c (c.surfaces current).gpu_addr
    (rebuildParams c current params is_render)
  have hres1 := GetUncachedSurface_reserveKeyed B c hres (c.surfaces current).gpu_addr
    (rebuildParams c current params is_render)
  have hres2 : ReserveKeyed { (GetUncachedSurface B c (c.surfaces current).gpu_addr
      (rebuildParams c current params is_render)).1 with events := ev } :=
    hres1.held rfl (Nat.le_refl _) (fun _ _ => rfl)
  have hres3 := Unregister_reserveKeyed _ hres2 current (Nat.lt_of_lt_of_le hlt hnum)
  have hu : ((Unregister { (GetUncachedSurface B c (c.surfaces current).gpu_addr
      (rebuildParams c current params is_render)).1 with events := ev } current).surfaces
      (GetUncachedSurface B c (c.surfaces current).gpu_addr
        (rebuildParams c current params is_render)).2).gpu_addr =
        (c.surfaces current).gpu_addr ∧
      ((Unregister { (GetUncachedSurface B c (c.surfaces current).gpu_addr
      (rebuildParams c current params is_render)).1 with events := ev } current).surfaces
      (GetUncachedSurface B c (c.surfaces current).gpu_addr
        (rebuildParams c current params is_render)).2).params =
        rebuildParams c current params is_render := by
    rw [Unregister_surfaces]
    split
    · exact ⟨hg, hp⟩
    · exact ⟨hg, hp⟩
  refine ⟨rfl, ?_, ?_, ?_, ?_⟩
  · rw [stamp_l1]
    have := Register_l1_self B _ _ cpu_addr (by rw [hu.1]; exact hptr) (by rw [hu.1]; exact hcpu)
    rw [hu.1] at this
    exact this
  · rw [(stamp_params _ _ _ _).1, (Register_fields B _ _ _).2.2.1]
    exact hu.2
  · exact stamp_reserveKeyed _ (Register_reserveKeyed B _ hres3 _) _ _
  · show c.num_surfaces ≤ (Register B _ _).num_surfaces
    rw [(Register_fields B _ _ 0).1, Unregister_num]
    exact hnum

theorem TryReconstructSurface_resolved (B : Backend) (c : TextureCache) (hres : c.ReserveKeyed)
    (overlaps : List Nat) (params : SurfaceParams) (gpu_addr cpu_addr : Nat)
    (hptr : B.GetPointer gpu_addr ≠ 0) (hcpu : B.GpuToCpuAddress gpu_addr = some cpu_addr) :
    (∀ view, (TryReconstructSurface B c overlaps params gpu_addr).2 = some view →
      Resolved B gpu_addr params ((TryReconstructSurface B c overlaps params gpu_addr).1, view)) ∧
    ((TryReconstructSurface B c overlaps params gpu_addr).2 = none →
      (TryReconstructSurface B c overlaps params gpu_addr).1.ReserveKeyed ∧
      c.num_surfaces ≤ (TryReconstructSurface B c overlaps params gpu_addr).1.num_surfaces) := by
  by_cases h3d : params.target = SurfaceTarget.Texture3D
  · have he : TryReconstructSurface B c overlaps params gpu_addr = (c, none) := by
      unfold TryReconstructSurface
      rw [if_pos h3d]
    rw [he]
    exact ⟨fun v h => (by cases h), fun _ => ⟨hres, Nat.le_refl _⟩⟩
  · obtain ⟨ev, hst, -⟩ := reconstructLoop_state B params
      (GetUncachedSurface B c gpu_addr params).2 overlaps
      (GetUncachedSurface B c gpu_addr params).1 false 0
    have hg := (GetUncachedSurface_result B c gpu_addr params).1
    have hp := GetUncachedSurface_params B c hres gpu_addr params
    have hres1 := GetUncachedSurface_reserveKeyed B c hres gpu_addr params
    have hfail : (reconstructLoop B params (GetUncachedSurface B c gpu_addr params).2 overlaps
          (GetUncachedSurface B c gpu_addr params).1 false 0).1.ReserveKeyed ∧
        c.num_surfaces ≤
        (reconstructLoop B params (GetUncachedSurface B c gpu_addr params).2 overlaps
          (GetUncachedSurface B c gpu_addr params).1 false 0).1.num_surfaces := by
      rw [hst]
      exact ⟨hres1.held rfl (Nat.le_refl _) (fun _ _ => rfl),
        GetUncachedSurface_num_le B c gpu_addr params⟩
    rw [TryReconstructSurface_eq B c overlaps params gpu_addr h3d]
    rcases hr : (reconstructLoop B params (GetUncachedSurface B c gpu_addr params).2 overlaps
        (GetUncachedSurface B c gpu_addr params).1 false 0).2 with _ | ⟨modified, passed⟩
    · exact ⟨fun v h => (by cases h), fun _ => hfail⟩
    · dsimp only
      split_ifs with hc
      · exact ⟨fun v h => (by cases h), fun _ => hfail⟩
      · refine ⟨fun v h => ?_, fun h => (by cases h)⟩
        simp only [Option.some.injEq] at h
        rw [← h]
        have hx : ((((overlaps.foldl Unregister
            (reconstructLoop B params (GetUncachedSurface B c gpu_addr params).2 overlaps
              (GetUncachedSurface B c gpu_addr params).1 false 0).1).Tick.1).modify
            (GetUncachedSurface B c gpu_addr params).2
            (fun s => s.MarkAsModified modified
              (overlaps.foldl Unregister
                (reconstructLoop B params (GetUncachedSurface B c gpu_addr params).2 overlaps
                  (GetUncachedSurface B c gpu_addr params).1 false 0).1).Tick.2)).surfaces
              (GetUncachedSurface B c gpu_addr params).2).gpu_addr = gpu_addr ∧
            ((((overlaps.foldl Unregister
              (reconstructLoop B params (GetUncachedSurface B c gpu_addr params).2 overlaps
                (GetUncachedSurface B c gpu_addr params).1 false 0).1).Tick.1).modify
              (GetUncachedSurface B c gpu_addr params).2
              (fun s => s.MarkAsModified modified
                (overlaps.foldl Unregister
                  (reconstructLoop B params (GetUncachedSurface B c gpu_addr params).2 overlaps
                    (GetUncachedSurface B c gpu_addr params).1 false 0).1).Tick.2)).surfaces
                (GetUncachedSurface B c gpu_addr params).2).params = params := by
          rw [(stamp_params _ _ _ _).1, (stamp_params _ _ _ _).2, foldl_Unregister_heap, hst]
          split
          · exact ⟨hg, hp⟩
          · exact ⟨hg, hp⟩
        refine ⟨rfl, ?_, ?_⟩
        · have := Register_l1_self B _ _ cpu_addr (by rw [hx.1]; exact hptr)
            (by rw [hx.1]; exact hcpu)
          rw [hx.1] at this
          exact this
        · show ((Register B _ _).surfaces _).params = params
          rw [(Register_fields B _ _ _).2.2.1]
          exact hx.2

end TextureCache
end VideoCommon

namespace VideoCommon
namespace TextureCache

theorem outcome_of_initialize (B : Backend) (c : TextureCache) (hres : c.ReserveKeyed)
    (gpu_addr cpu_addr : Nat) (params : SurfaceParams) (preserve_contents is_render : Bool)
    (hptr : B.GetPointer gpu_addr ≠ 0) (hcpu : B.GpuToCpuAddress gpu_addr = some cpu_addr) :
    Outcome B gpu_addr params is_render c (InitializeSurface B c gpu_addr params preserve_contents) :=
  Outcome.of_resolved
    (InitializeSurface_resolved B c hres gpu_addr cpu_addr params preserve_contents hptr hcpu)

theorem outcome_of_recycle (B : Backend) (c0 c : TextureCache) (hres : c.ReserveKeyed)
    (overlaps : List Nat) (hlt : ∀ s ∈ overlaps, s < c.num_surfaces)
    (gpu_addr cpu_addr : Nat) (params : SurfaceParams) (preserve_contents is_render : Bool)
    (untopological : MatchTopologyResult)
    (hptr : B.GetPointer gpu_addr ≠ 0) (hcpu : B.GpuToCpuAddress gpu_addr = some cpu_addr) :
    Outcome B gpu_addr params is_render c0
      (RecycleSurface B c overlaps params gpu_addr preserve_contents untopological) :=
  Outcome.of_resolved
    (RecycleSurface_resolved B c hres overlaps hlt gpu_addr cpu_addr params preserve_contents
      untopological hptr hcpu)

theorem outcome_of_reconstruct (B : Backend) (c1 c2 : TextureCache) (hres : c1.ReserveKeyed)
    (overlaps : List Nat) (params : SurfaceParams) (gpu_addr cpu_addr : Nat)
    (view : Nat × Option View) (is_render : Bool)
    (hptr : B.GetPointer gpu_addr ≠ 0) (hcpu : B.GpuToCpuAddress gpu_addr = some cpu_addr)
    (h : TryReconstructSurface B c1 overlaps params gpu_addr = (c2, some view)) :
    Outcome B gpu_addr params is_render c1 (c2, view) := by
  have h1 := (TryReconstructSurface_resolved B c1 hres overlaps params gpu_addr cpu_addr hptr
    hcpu).1 view (by rw [h])
  rw [h] at h1
  exact Outcome.of_resolved h1

theorem outcome_of_reconstruct_recycle (B : Backend) (c1 c2 : TextureCache)
    (hres : c1.ReserveKeyed) (overlaps : List Nat) (hlt : ∀ s ∈ overlaps, s < c1.num_surfaces)
    (params : SurfaceParams) (gpu_addr cpu_addr : Nat) (preserve_contents is_render : Bool)
    (untopological : MatchTopologyResult)
    (hptr : B.GetPointer gpu_addr ≠ 0) (hcpu : B.GpuToCpuAddress gpu_addr = some cpu_addr)
    (h : TryReconstructSurface B c1 overlaps params gpu_addr = (c2, none)) :
    Outcome B gpu_addr params is_render c1
      (RecycleSurface B c2 overlaps params gpu_addr preserve_contents untopological) := by
  obtain ⟨h1, h2⟩ := (TryReconstructSurface_resolved B c1 hres overlaps params gpu_addr cpu_addr
    hptr hcpu).2 (by rw [h])
  rw [h] at h1 h2
  exact outcome_of_recycle B c1 c2 h1 overlaps
    (fun s hs => Nat.lt_of_lt_of_le (hlt s hs) h2) gpu_addr cpu_addr params _ _ _ hptr hcpu

theorem outcome_of_carved (B : Backend) (gpu_addr : Nat) (params : SurfaceParams)
    (is_render : Bool) (c0 c : TextureCache) (n view : Nat)
    (h : B.EmplaceView (c.surfaces n) params gpu_addr (B.GetGuestSizeInBytes params) =
      some view) :
    Outcome B gpu_addr params is_render c0 (c, (n, some (View.carved n view))) :=
  Or.inr (Or.inr ⟨view, rfl, h⟩)

theorem outcome_of_rebuild_recycle (B : Backend) (c1 : TextureCache) (hres : c1.ReserveKeyed)
    (current : Nat) (hlt : current < c1.num_surfaces)
    (new_params : SurfaceParams) (is_render : Bool) (params : SurfaceParams)
    (gpu_addr cpu_addr : Nat) (preserve_contents : Bool) (untopological : MatchTopologyResult)
    (hptr : B.GetPointer gpu_addr ≠ 0) (hcpu : B.GpuToCpuAddress gpu_addr = some cpu_addr)
    (hcur : B.GetPointer (c1.surfaces current).gpu_addr ≠ 0 ∧
      B.GpuToCpuAddress (c1.surfaces current).gpu_addr ≠ none) :
    Outcome B gpu_addr params is_render c1
      (RecycleSurface B (RebuildSurface B c1 current new_params is_render).1 [current] params
        gpu_addr preserve_contents untopological) := by
  obtain ⟨cpu, hc⟩ := Option.ne_none_iff_exists'.mp hcur.2
  obtain ⟨-, -, -, h1, h2⟩ := RebuildSurface_indexed B c1 hres current cpu new_params is_render
    hlt hcur.1 hc
  exact outcome_of_recycle B c1 _ h1 [current]
    (fun s hs => by
      rw [List.mem_singleton] at hs
      rw [hs]
      exact Nat.lt_of_lt_of_le hlt h2) gpu_addr cpu_addr params _ _ _ hptr hcpu

theorem resolveOverlaps_outcome (B : Backend) (c1 : TextureCache) (hres : c1.ReserveKeyed)
    (overlaps : List Nat) (hlt : ∀ s ∈ overlaps, s < c1.num_surfaces)
    (htr : ∀ s ∈ overlaps, B.GetPointer (c1.surfaces s).gpu_addr ≠ 0 ∧
      B.GpuToCpuAddress (c1.surfaces s).gpu_addr ≠ none)
    (gpu_addr cpu_addr : Nat) (params : SurfaceParams) (preserve_contents is_render : Bool)
    (hptr : B.GetPointer gpu_addr ≠ 0) (hcpu : B.GpuToCpuAddress gpu_addr = some cpu_addr) :
    Outcome B gpu_addr params is_render c1
      (resolveOverlaps B c1 overlaps gpu_addr params preserve_contents is_render) := by
  unfold resolveOverlaps
  dsimp only
  repeat' split
  all_goals with_reducible first
    | exact outcome_of_initialize B c1 hres _ cpu_addr _ _ _ hptr hcpu
    | exact outcome_of_recycle B c1 c1 hres _ hlt _ cpu_addr _ _ _ _ hptr hcpu
    | exact outcome_of_reconstruct B c1 _ hres _ _ _ cpu_addr _ _ hptr hcpu (by assumption)
    | exact outcome_of_reconstruct_recycle B c1 _ hres _ hlt _ _ cpu_addr _ _ _ hptr hcpu
        (by assumption)
    | exact outcome_of_carved B _ _ _ c1 _ _ _ (by assumption)
    | exact outcome_of_rebuild_recycle B c1 hres _ (hlt _ (List.mem_singleton_self _)) _ _ _ _
        cpu_addr _ _ hptr hcpu (htr _ (List.mem_singleton_self _))

theorem GetSurfaceFromOverlaps_outcome (B : Backend) (c : TextureCache) (hinv : CacheInv B c)
    (hres : c.ReserveKeyed) (gpu_addr cpu_addr : Nat) (params : SurfaceParams)
    (preserve_contents is_render : Bool) (cache_addr : Nat)
    (hptr : B.GetPointer gpu_addr ≠ 0) (hcpu : B.GpuToCpuAddress gpu_addr = some cpu_addr) :
    Outcome B gpu_addr params is_render c
      (GetSurfaceFromOverlaps B c gpu_addr params preserve_contents is_render cache_addr) := by
  rw [GetSurfaceFromOverlaps_eq]
  have hst := GetSurfacesInRegion_state c hinv.picked cache_addr (B.GetGuestSizeInBytes params)
  have hmem := mem_GetSurfacesInRegion_bucket c hinv.picked cache_addr
    (B.GetGuestSizeInBytes params)
  rw [hst]
  have hreg : ∀ s ∈ (c.GetSurfacesInRegion cache_addr (B.GetGuestSizeInBytes params)).2,
      (c.surfaces s).is_registered = true := by
    intro s hs
    obtain ⟨p, hp⟩ := hmem s hs
    exact hinv.registered_of_mem s p hp
  exact resolveOverlaps_outcome B c hres _ (fun s hs => hinv.created s (hreg s hs))
    (fun s hs => hinv.mapped s (hreg s hs)) gpu_addr cpu_addr params preserve_contents
    is_render hptr hcpu

theorem RebuildSurface_outcome (B : Backend) (c : TextureCache) (hinv : CacheInv B c)
    (hres : c.ReserveKeyed) (gpu_addr : Nat) (params : SurfaceParams) (is_render : Bool)
    (current : Nat) (hl1 : c.l1_cache (B.GetPointer gpu_addr) = some current)
    (hmap : B.GetPointer (c.surfaces current).gpu_addr = B.GetPointer gpu_addr) :
    Outcome B gpu_addr params is_render c (RebuildSurface B c current params is_render) := by
  have hreg := (hinv.index _ current hl1).1
  obtain ⟨hp, hcq⟩ := hinv.mapped current hreg
  obtain ⟨cpu, hc⟩ := Option.ne_none_iff_exists'.mp hcq
  obtain ⟨h1, h2, h3, -, -⟩ := RebuildSurface_indexed B c hres current cpu params is_render
    (hinv.created current hreg) hp hc
  rw [hmap] at h2
  exact Or.inr (Or.inl ⟨h1, h2, Or.inr ⟨current, hl1, h3⟩⟩)

theorem GetSurface_outcome (B : Backend) (c : TextureCache) (hinv : CacheInv B c)
    (hres : c.ReserveKeyed) (gpu_addr cpu_addr : Nat) (params : SurfaceParams)
    (preserve_contents is_render : Bool)
    (hptr : B.GetPointer gpu_addr ≠ 0) (hcpu : B.GpuToCpuAddress gpu_addr = some cpu_addr)
    (hmap : ∀ S, c.l1_cache (B.GetPointer gpu_addr) = some S →
      B.GetPointer (c.surfaces S).gpu_addr = B.GetPointer gpu_addr) :
    Outcome B gpu_addr params is_render c
      (GetSurface B c gpu_addr params preserve_contents is_render) := by
  unfold GetSurface
  dsimp only
  rw [if_neg hptr]
  split
  · rename_i current hl
    have hreg := (hinv.index _ current hl).1
    split_ifs
    · exact outcome_of_recycle B c c hres _
        (fun s hs => by
          rw [List.mem_singleton] at hs
          rw [hs]; exact hinv.created current hreg) gpu_addr cpu_addr params _ _ _ hptr hcpu
    · unfold ManageStructuralMatch
      dsimp only
      split_ifs
      all_goals first
        | exact Or.inl rfl
        | exact RebuildSurface_outcome B c hinv hres gpu_addr params is_render current hl
            (hmap current hl)
    · exact RebuildSurface_outcome B c hinv hres gpu_addr params is_render current hl
        (hmap current hl)
    · exact GetSurfaceFromOverlaps_outcome B c hinv hres gpu_addr cpu_addr params _ _ _ hptr hcpu
  · exact GetSurfaceFromOverlaps_outcome B c hinv hres gpu_addr cpu_addr params _ _ _ hptr hcpu

end TextureCache
end VideoCommon

namespace VideoCommon
namespace TextureCache

theorem rebuildParams_target (c : TextureCache) (current : Nat) (params : SurfaceParams)
    (is_render : Bool) :
    (rebuildParams c current params is_render).target = params.target := by
  unfold rebuildParams
  split <;> rfl

theorem rebuildParams_format (c : TextureCache) (current : Nat) (params : SurfaceParams)
    (is_render : Bool) :
    (rebuildParams c current params is_render).pixel_format = params.pixel_format ∨
      (is_render = false ∧
        c.GetSiblingFormat (rebuildParams c current params is_render).pixel_format =
          params.pixel_format) := by
  unfold rebuildParams
  split
  · rename_i h
    simp only [Bool.and_eq_true, decide_eq_true_eq, Bool.not_eq_true'] at h
    exact Or.inr ⟨h.1.2, h.2⟩
  · exact Or.inl rfl

/-- The second of two identical requests after a rebuild at the exact address: the rebuilt
surface is the index entry, and its params are the requested ones up to a sibling
format, so for a backend that fully matches them the request is an exact hit. -/
theorem GetSurface_hit_on_rebuilt (B : Backend) (c c1 : TextureCache) (gpu_addr : Nat)
    (params : SurfaceParams) (preserve_contents is_render : Bool) (S n : Nat)
    (hptr : B.GetPointer gpu_addr ≠ 0)
    (hl1 : c1.l1_cache (B.GetPointer gpu_addr) = some n)
    (hparams : (c1.surfaces n).params = rebuildParams c S params is_render)
    (htab : c1.siblings_table = c.siblings_table)
    (htop : B.MatchesTopology (rebuildParams c S params is_render) params =
      MatchTopologyResult.FullMatch)
    (hstr : B.MatchesStructure (rebuildParams c S params is_render) params =
      MatchStructureResult.FullMatch) :
    GetSurface B c1 gpu_addr params preserve_contents is_render =
      (c1, (n, some (View.main n))) := by
  unfold GetSurface
  simp only [hptr, if_false, hl1, hparams, htop, hstr]
  have ht : (c1.surfaces n).MatchTarget params.target = true := by
    simp [Surface.MatchTarget, hparams, rebuildParams_target]
  rcases rebuildParams_format c S params is_render with hf | ⟨hr, hf⟩
  · simp [ManageStructuralMatch, Surface.MatchFormat, ht, hparams, hf]
  · have hf1 : c1.GetSiblingFormat (rebuildParams c S params is_render).pixel_format =
        params.pixel_format := by
      unfold GetSiblingFormat at hf ⊢
      rw [htab]; exact hf
    subst hr
    simp [ManageStructuralMatch, ht, hparams, hf1]

/-- When the request's cache address has no exact-address entry, or its entry fully matches
the topology of the request but has no structural match with it (or the request is
for a `Texture3D` and the entry has another target), `GetSurface` passes the request on
to the overlap steps. -/
theorem GetSurface_passed_on (B : Backend) (c : TextureCache) (gpu_addr : Nat)
    (params : SurfaceParams) (preserve_contents is_render : Bool)
    (hptr : B.GetPointer gpu_addr ≠ 0)
    (h : c.l1_cache (B.GetPointer gpu_addr) = none ∨
      ∃ S, c.l1_cache (B.GetPointer gpu_addr) = some S ∧
        B.MatchesTopology (c.surfaces S).params params = MatchTopologyResult.FullMatch ∧
        (B.MatchesStructure (c.surfaces S).params params = MatchStructureResult.None ∨
          (params.target = SurfaceTarget.Texture3D ∧
            (c.surfaces S).MatchTarget params.target = false))) :
    GetSurface B c gpu_addr params preserve_contents is_render =
      GetSurfaceFromOverlaps B c gpu_addr params preserve_contents is_render
        (B.GetPointer gpu_addr) := by
  rcases h with h | ⟨S, hS, htop, hstr⟩
  · exact GetSurface_of_no_entry B c gpu_addr params preserve_contents is_render hptr h
  · unfold GetSurface
    dsimp only
    rw [if_neg hptr, hS]
    dsimp only
    rw [if_neg (fun hn => hn htop)]
    rcases hstr with hstr | ⟨h3, ht⟩
    · rw [hstr]
      simp
    · rw [ht]
      simp [h3]

/-- Two identical requests in a row, over any state that satisfies the standing
invariants. -/
theorem GetSurface_twice (B : Backend) (c : TextureCache) (hinv : CacheInv B c)
    (hres : c.ReserveKeyed) (gpu_addr cpu_addr : Nat) (params : SurfaceParams)
    (preserve_contents is_render : Bool)
    (hptr : B.GetPointer gpu_addr ≠ 0) (hcpu : B.GpuToCpuAddress gpu_addr = some cpu_addr)
    (hmap : ∀ S, c.l1_cache (B.GetPointer gpu_addr) = some S →
      B.GetPointer (c.surfaces S).gpu_addr = B.GetPointer gpu_addr)
    (htop : B.MatchesTopology params params = MatchTopologyResult.FullMatch)
    (hstr : B.MatchesStructure params params = MatchStructureResult.FullMatch)
    (hsib : ∀ S, c.l1_cache (B.GetPointer gpu_addr) = some S →
      B.MatchesTopology (rebuildParams c S params is_render) params =
        MatchTopologyResult.FullMatch ∧
      B.MatchesStructure (rebuildParams c S params is_render) params =
        MatchStructureResult.FullMatch) :
    ((GetSurface B c gpu_addr params preserve_contents is_render).1 = c →
      GetSurface B (GetSurface B c gpu_addr params preserve_contents is_render).1 gpu_addr
        params preserve_contents is_render =
        GetSurface B c gpu_addr params preserve_contents is_render) ∧
    ((GetSurface B c gpu_addr params preserve_contents is_render).2.2 =
        some (View.main (GetSurface B c gpu_addr params preserve_contents is_render).2.1) →
      GetSurface B (GetSurface B c gpu_addr params preserve_contents is_render).1 gpu_addr
        params preserve_contents is_render =
        ((GetSurface B c gpu_addr params preserve_contents is_render).1,
          (GetSurface B c gpu_addr params preserve_contents is_render).2)) ∧
    (GetSurface B (GetSurface B c gpu_addr params preserve_contents is_render).1 gpu_addr
        params preserve_contents is_render =
        GetSurface B c gpu_addr params preserve_contents is_render ∨
      ((GetSurface B c gpu_addr params preserve_contents is_render).1 ≠ c ∧
        ∃ view, (GetSurface B c gpu_addr params preserve_contents is_render).2.2 =
          some (View.carved (GetSurface B c gpu_addr params preserve_contents is_render).2.1
            view) ∧
          B.EmplaceView
            ((GetSurface B c gpu_addr params preserve_contents is_render).1.surfaces
              (GetSurface B c gpu_addr params preserve_contents is_render).2.1)
            params gpu_addr (B.GetGuestSizeInBytes params) = some view)) := by
  have hout := GetSurface_outcome B c hinv hres gpu_addr cpu_addr params preserve_contents
    is_render hptr hcpu hmap
  have htab : (GetSurface B c gpu_addr params preserve_contents is_render).1.siblings_table =
      c.siblings_table := (tableKept_frame B).getSurface c gpu_addr params preserve_contents
        is_render
  generalize hr : GetSurface B c gpu_addr params preserve_contents is_render = r at hout htab ⊢
  obtain ⟨c1, n, v⟩ := r
  have hmain : v = some (View.main n) → c1 ≠ c →
      GetSurface B c1 gpu_addr params preserve_contents is_render = (c1, (n, v)) := by
    intro hv hne
    rcases hout with h | ⟨h1, h2, h3⟩ | ⟨view, h1, -⟩
    · exact absurd h hne
    · rcases h3 with h3 | ⟨S, hS, h3⟩
      · rw [show v = some (View.main n) from h1]
        exact GetSurface_exact_hit B c1 gpu_addr params preserve_contents is_render n hptr h2
          h3 htop hstr
      · rw [show v = some (View.main n) from h1]
        exact GetSurface_hit_on_rebuilt B c c1 gpu_addr params preserve_contents is_render S n
          hptr h2 h3 htab (hsib S hS).1 (hsib S hS).2
    · rw [show v = some (View.main n) from hv] at h1
      cases h1
  have hsame : c1 = c →
      GetSurface B c1 gpu_addr params preserve_contents is_render = (c1, (n, v)) := by
    intro h
    subst h
    exact hr
  refine ⟨hsame, fun hv => ?_, ?_⟩
  · by_cases hc : c1 = c
    · exact hsame hc
    · exact hmain hv hc
  · by_cases hc : c1 = c
    · exact Or.inl (hsame hc)
    · rcases hout with h | ⟨h1, -, -⟩ | ⟨view, h1, h2⟩
      · exact absurd h hc
      · exact Or.inl (hmain h1 hc)
      · exact Or.inr ⟨hc, view, h1, h2⟩

end TextureCache
end VideoCommon

namespace VideoCommon
namespace TextureCache

/-- C6: two consecutive identical `GetSurface` calls. For a backend whose comparisons of
topology and of structure fully match equal params, and params that differ from the
request only by the sibling format `RebuildSurface` keeps, in every reachable cache
state `c` and for every request whose address translates, the second call returns
the same surface and view as the first and leaves the state the first call left,
unless the first call changed the state and returned a view carved out of the
surface it returned (the mirage path, on which the overlap is rebuilt). On that path
the two calls still agree when, in the state the first call leaves, the exact-address
step passes the request on to the overlap steps, the surface returned is the only
overlap of the request, and it fully matches the topology of the request, contains
its bytes and has its pixel format. -/
theorem GetSurface_idempotent (B : Backend) (m : Maxwell3D) (ops : List Op)
    (gpu_addr cpu_addr : Nat) (params : SurfaceParams) (preserve_contents is_render : Bool)
    (c : TextureCache) (hc : c = run B (init m) ops)
    (r : TextureCache × (Nat × Option View))
    (hr : r = GetSurface B c gpu_addr params preserve_contents is_render)
    (hptr : B.GetPointer gpu_addr ≠ 0) (hcpu : B.GpuToCpuAddress gpu_addr = some cpu_addr)
    (htop : B.MatchesTopology params params = MatchTopologyResult.FullMatch)
    (hstr : B.MatchesStructure params params = MatchStructureResult.FullMatch)
    (hsib : ∀ S, c.l1_cache (B.GetPointer gpu_addr) = some S →
      B.MatchesTopology (rebuildParams c S params is_render) params =
        MatchTopologyResult.FullMatch ∧
      B.MatchesStructure (rebuildParams c S params is_render) params =
        MatchStructureResult.FullMatch) :
    (GetSurface B r.1 gpu_addr params preserve_contents is_render = r ∨
      (r.1 ≠ c ∧ ∃ view, r.2.2 = some (View.carved r.2.1 view))) ∧
    (∀ view, r.2.2 = some (View.carved r.2.1 view) →
      (r.1.l1_cache (B.GetPointer gpu_addr) = none ∨
        ∃ S, r.1.l1_cache (B.GetPointer gpu_addr) = some S ∧
          B.MatchesTopology (r.1.surfaces S).params params = MatchTopologyResult.FullMatch ∧
          (B.MatchesStructure (r.1.surfaces S).params params = MatchStructureResult.None ∨
            (params.target = SurfaceTarget.Texture3D ∧
              (r.1.surfaces S).MatchTarget params.target = false))) →
      (r.1.GetSurfacesInRegion (B.GetPointer gpu_addr) (B.GetGuestSizeInBytes params)).2 =
        [r.2.1] →
      B.MatchesTopology (r.1.surfaces r.2.1).params params = MatchTopologyResult.FullMatch →
      (r.1.surfaces r.2.1).IsInside gpu_addr
        (add64 gpu_addr (B.GetGuestSizeInBytes params)) = true →
      (r.1.surfaces r.2.1).MatchFormat params.pixel_format = true →
      GetSurface B r.1 gpu_addr params preserve_contents is_render = r) := by
  have hinv : CacheInv B c := by
    rw [hc]; exact run_cacheInv B _ (init_cacheInv B m) ops
  have hres : c.ReserveKeyed := fun p s hs => ⟨hinv.reserve p s hs, hinv.keyed p s hs⟩
  have hmap : ∀ S, c.l1_cache (B.GetPointer gpu_addr) = some S →
      B.GetPointer (c.surfaces S).gpu_addr = B.GetPointer gpu_addr := by
    intro S hS
    obtain ⟨h1, h2⟩ := hinv.index _ S hS
    rw [← hinv.pointed S h1, h2]
  obtain ⟨h1, -, h3⟩ := GetSurface_twice B c hinv hres gpu_addr cpu_addr params
    preserve_contents is_render hptr hcpu hmap htop hstr hsib
  have hset := GetSurface_settled B c hinv gpu_addr params preserve_contents is_render
  rw [← hr] at h1 h3 hset
  refine ⟨?_, ?_⟩
  · rcases h3 with h | ⟨h, view, hv, -⟩
    · exact Or.inl h
    · exact Or.inr ⟨h, view, hv⟩
  · intro view hv hl1 hq htp hin hfm
    by_cases hsame : r.1 = c
    · exact h1 hsame
    · rcases h3 with h | ⟨-, view2, hv2, hem⟩
      · exact h
      · rw [hv] at hv2
        cases hv2
        rw [GetSurface_passed_on B r.1 gpu_addr params preserve_contents is_render hptr hl1]
        rw [GetSurfaceFromOverlaps_carved B r.1 gpu_addr params preserve_contents is_render
          (B.GetPointer gpu_addr) r.2.1 view ?_ htp hin hfm hem]
        · rw [← hv]
        · exact Prod.ext (GetSurfacesInRegion_state r.1 hset.1.picked _ _) hq

/-- C6 (witness): in the cache that holds a `Z16` texture at `0x100000` and a 4×4 `R16U`
texture at `0x100040`, a request for an 8×8 `R16U` texture at `0x100040` recycles the
4×4 texture into a new surface, and the same request made again returns that surface
with its main view and leaves the state as it is; and a render request for mip level 1
of the `Z16` texture as `R16U` rebuilds the texture and returns a view carved out of
the rebuilt surface, and made again returns the same surface and view. -/
theorem GetSurface_idempotent_witness :
    (GetSurface Example.backend Example.twoTextures 0x100040
      (Example.texture 8 8 1 PixelFormat.R16U) true false).1.num_surfaces ≠
      Example.twoTextures.num_surfaces ∧
    GetSurface Example.backend
      (GetSurface Example.backend Example.twoTextures 0x100040
        (Example.texture 8 8 1 PixelFormat.R16U) true false).1 0x100040
      (Example.texture 8 8 1 PixelFormat.R16U) true false =
      GetSurface Example.backend Example.twoTextures 0x100040
        (Example.texture 8 8 1 PixelFormat.R16U) true false ∧
    (GetSurface Example.backend Example.twoTextures 0x100020
      (Example.texture 2 2 1 PixelFormat.R16U) true true).2 = (2, some (View.carved 2 1)) ∧
    GetSurface Example.backend
      (GetSurface Example.backend Example.twoTextures 0x100020
        (Example.texture 2 2 1 PixelFormat.R16U) true true).1 0x100020
      (Example.texture 2 2 1 PixelFormat.R16U) true true =
      GetSurface Example.backend Example.twoTextures 0x100020
        (Example.texture 2 2 1 PixelFormat.R16U) true true := by
  have hl : Example.twoTextures.l1_cache (Example.backend.GetPointer 0x100040) = some 1 := by
    decide!
  have hA := GetSurface_idempotent Example.backend Example.maxwell3d
    [Op.GetTextureSurface 0x100000 (Example.texture 4 4 2 PixelFormat.Z16),
      Op.GetTextureSurface 0x100040 (Example.texture 4 4 1 PixelFormat.R16U)]
    0x100040 0x100040 (Example.texture 8 8 1 PixelFormat.R16U) true false
    Example.twoTextures rfl _ rfl (by decide!) (by decide!) (by decide!) (by decide!)
    (fun S hS => by
      rw [hl] at hS
      cases hS
      decide!)
  have hB := GetSurface_idempotent Example.backend Example.maxwell3d
    [Op.GetTextureSurface 0x100000 (Example.texture 4 4 2 PixelFormat.Z16),
      Op.GetTextureSurface 0x100040 (Example.texture 4 4 1 PixelFormat.R16U)]
    0x100020 0x100020 (Example.texture 2 2 1 PixelFormat.R16U) true true
    Example.twoTextures rfl _ rfl (by decide!) (by decide!) (by decide!) (by decide!)
    (fun S hS => by
      have hn : Example.twoTextures.l1_cache (Example.backend.GetPointer 0x100020) = none := by
        decide!
      rw [hn] at hS
      cases hS)
  refine ⟨by decide!, ?_, by decide!, ?_⟩
  · rcases hA.1 with h | ⟨-, view, hv⟩
    · exact h
    · have hm : (GetSurface Example.backend Example.twoTextures 0x100040
          (Example.texture 8 8 1 PixelFormat.R16U) true false).2.2 = some (View.main 3) := by
        decide!
      rw [hm] at hv
      cases hv
  · exact hB.2 1 (by decide!) (Or.inl (by decide!)) (by decide!) (by decide!) (by decide!)
      (by decide!)

/-- C6 (counterexample): in the reachable cache that holds a two-level `Z16` texture at
`0x100000` and an `R16U` texture at `0x100040`, two consecutive requests for mip level 1
of the `Z16` texture as an `R16U` texture (sibling format, not a render target) return
different surfaces. Both translations of the address succeed, the backend fully
matches the request with itself, and the address has no exact-address entry. The
first call creates surface 2, rebuilds surface 0 into it and returns a view carved
out of it; `RebuildSurface` has kept the `Z16` format, so in the state the first call
leaves surface 2 is the only overlap, fully matches the topology and contains the
bytes of the request, but has not its pixel format, and the second call rebuilds it
into surface 0. -/
theorem GetSurface_not_idempotent_on_sibling_mirage :
    Example.backend.GetPointer 0x100020 ≠ 0 ∧
    Example.backend.GpuToCpuAddress 0x100020 = some 0x100020 ∧
    Example.backend.MatchesTopology (Example.texture 2 2 1 PixelFormat.R16U)
      (Example.texture 2 2 1 PixelFormat.R16U) = MatchTopologyResult.FullMatch ∧
    Example.backend.MatchesStructure (Example.texture 2 2 1 PixelFormat.R16U)
      (Example.texture 2 2 1 PixelFormat.R16U) = MatchStructureResult.FullMatch ∧
    Example.twoTextures.l1_cache (Example.backend.GetPointer 0x100020) = none ∧
    Example.twoTextures.num_surfaces = 2 ∧
    (GetSurface Example.backend Example.twoTextures 0x100020
      (Example.texture 2 2 1 PixelFormat.R16U) true false).1.num_surfaces = 3 ∧
    (GetSurface Example.backend Example.twoTextures 0x100020
      (Example.texture 2 2 1 PixelFormat.R16U) true false).2 = (2, some (View.carved 2 1)) ∧
    (GetSurface Example.backend Example.twoTextures 0x100020
      (Example.texture 2 2 1 PixelFormat.R16U) true false).1.l1_cache
        (Example.backend.GetPointer 0x100020) = none ∧
    ((GetSurface Example.backend Example.twoTextures 0x100020
      (Example.texture 2 2 1 PixelFormat.R16U) true false).1.GetSurfacesInRegion
        (Example.backend.GetPointer 0x100020)
        (Example.backend.GetGuestSizeInBytes (Example.texture 2 2 1 PixelFormat.R16U))).2 =
      [2] ∧
    Example.backend.MatchesTopology
      ((GetSurface Example.backend Example.twoTextures 0x100020
        (Example.texture 2 2 1 PixelFormat.R16U) true false).1.surfaces 2).params
      (Example.texture 2 2 1 PixelFormat.R16U) = MatchTopologyResult.FullMatch ∧
    ((GetSurface Example.backend Example.twoTextures 0x100020
      (Example.texture 2 2 1 PixelFormat.R16U) true false).1.surfaces 2).IsInside 0x100020
        (add64 0x100020
          (Example.backend.GetGuestSizeInBytes (Example.texture 2 2 1 PixelFormat.R16U))) =
      true ∧
    ((GetSurface Example.backend Example.twoTextures 0x100020
      (Example.texture 2 2 1 PixelFormat.R16U) true false).1.surfaces 2).params.pixel_format =
      PixelFormat.Z16 ∧
    (GetSurface Example.backend
      (GetSurface Example.backend Example.twoTextures 0x100020
        (Example.texture 2 2 1 PixelFormat.R16U) true false).1 0x100020
      (Example.texture 2 2 1 PixelFormat.R16U) true false).2 = (0, some (View.carved 0 1)) := by
  decide!

end TextureCache
end VideoCommon

